import Mathlib

/-!
# hipSOLVER client wrappers: the API-variant dispatch protocol

A verification development for `clients/include/hipsolver.hpp`.

The header consists of `api2marshal` and 240 wrapper overloads.  Every wrapper body has
the same statement forms: optional stores `*p = 0;` in front of a `switch`, a `switch`
over `API` or over `api2marshal(API, FLAG)`, and case blocks that end in
`return f(args...);` or `return HIPSOLVER_STATUS_NOT_SUPPORTED;`.  The wrappers are
transcribed overload by overload into values of `Wrapper`; `Wrapper.run` executes such a
body against an arbitrary behaviour of the external solver library, threading the heap
and recording the external calls that are made.
-/

/-! ## Selector enumerations and `api2marshal` (hipsolver.hpp 42-82) -/

/-- The enumeration `testAPI_t` (hipsolver.hpp 42-47).  An object of a C enumeration
type can hold integers that are no enumerator, so the selector is modelled by its
integer value. -/
abbrev testAPI_t := Int

/-- Enumerator `API_NORMAL` of `testAPI_t`. -/
abbrev API_NORMAL : testAPI_t := 0

/-- Enumerator `API_FORTRAN` of `testAPI_t`. -/
abbrev API_FORTRAN : testAPI_t := 1

/-- Enumerator `API_COMPAT` of `testAPI_t`. -/
abbrev API_COMPAT : testAPI_t := 2

/-- The enumeration `testMarshal_t` (hipsolver.hpp 49-58). -/
inductive testMarshal_t
  | C_NORMAL
  | C_NORMAL_ALT
  | FORTRAN_NORMAL
  | FORTRAN_NORMAL_ALT
  | COMPAT_NORMAL
  | COMPAT_NORMAL_ALT
  | INVALID_API_SPEC
  deriving DecidableEq, Repr

open testMarshal_t

/-- The function `api2marshal` (hipsolver.hpp 60-82): a `switch` over `API` whose three
cases branch on `!ALT`, with `default: return INVALID_API_SPEC;`. -/
def api2marshal (API : testAPI_t) (ALT : Bool) : testMarshal_t :=
  if API = API_NORMAL then
    if !ALT then C_NORMAL else C_NORMAL_ALT
  else if API = API_FORTRAN then
    if !ALT then FORTRAN_NORMAL else FORTRAN_NORMAL_ALT
  else if API = API_COMPAT then
    if !ALT then COMPAT_NORMAL else COMPAT_NORMAL_ALT
  else
    INVALID_API_SPEC

/-! ## External types -/

/-- Modelled from the spec: `hipsolverStatus_t` is declared in `hipsolver.h`, which is
not among the sources.  The spec describes it as "a single flat status enumeration
returned by every call" with "a fixed not supported status"; the wrappers name only the
member `HIPSOLVER_STATUS_NOT_SUPPORTED`, every other member is carried by its code. -/
inductive hipsolverStatus_t
  | HIPSOLVER_STATUS_NOT_SUPPORTED
  | other (code : Int)
  deriving DecidableEq, Repr

open hipsolverStatus_t

/-- The four `hipDataType` tags that hipsolver.hpp passes to the 64-bit generic entry
points; the enumeration itself is declared in the HIP headers. -/
inductive hipDataType
  | HIP_R_32F
  | HIP_R_64F
  | HIP_C_32F
  | HIP_C_64F
  deriving DecidableEq, Repr

/-- The C types that occur in the parameter lists and casts of hipsolver.hpp. -/
inductive CType
  | testAPI_t
  | bool
  | int
  | int64_t
  | size_t
  | signed_char
  | long_long_int
  | float
  | double
  | hipsolverComplex
  | hipsolverDoubleComplex
  | hipFloatComplex
  | hipDoubleComplex
  | hipsolverHandle_t
  | hipsolverSideMode_t
  | hipsolverOperation_t
  | hipsolverFillMode_t
  | hipsolverEigMode_t
  | hipsolverEigType_t
  | hipsolverEigRange_t
  | hipsolverDnParams_t
  | hipsolverSyevjInfo_t
  | hipsolverGesvdjInfo_t
  | ptr (t : CType)
  | arr (t : CType)
  deriving DecidableEq, Repr

/-! ## Syntax of a wrapper body -/

/-- The parameter names that occur in the wrapper signatures of hipsolver.hpp, in order of
first appearance. -/
inductive Param
  | API
  | handle
  | side
  | m
  | n
  | k
  | A
  | lda
  | tau
  | lwork
  | work
  | info
  | uplo
  | trans
  | C
  | ldc
  | stA
  | D
  | stD
  | E
  | stE
  | tauq
  | stQ
  | taup
  | stP
  | bc
  | nrhs
  | B
  | ldb
  | X
  | ldx
  | INPLACE
  | stB
  | stX
  | niters
  | params
  | lworkOnDevice
  | lworkOnHost
  | stT
  | workOnDevice
  | workOnHost
  | ipiv
  | jobu
  | jobv
  | NRWK
  | S
  | stS
  | U
  | ldu
  | stU
  | V
  | ldv
  | stV
  | rwork
  | stRW
  | STRIDED
  | jobz
  | econ
  | rank
  | hRnrmF
  | NPVT
  | W
  | stW
  | range
  | vl
  | vu
  | il
  | iu
  | nev
  | itype
  deriving DecidableEq, Repr

/-- An actual argument of a forwarded call. -/
inductive Arg
  /-- The wrapper parameter `p`, passed as it is. -/
  | param (p : Param)
  /-- The cast expression `(t)p` over the wrapper parameter `p`. -/
  | cast (t : CType) (p : Param)
  /-- The literal `nullptr`. -/
  | nullptr
  /-- One of the constants `HIP_R_32F`, `HIP_R_64F`, `HIP_C_32F`, `HIP_C_64F`. -/
  | tag (t : hipDataType)
  deriving DecidableEq, Repr

/-- A statement that precedes a `return`. -/
inductive Stmt
  /-- The assignment `*p = 0;` through the pointer parameter `p`. -/
  | storeZero (p : Param)
  /-- The expression statement `*p;`, which reads through `p` and discards the value. -/
  | deref (p : Param)
  deriving DecidableEq, Repr

/-- The operand of a `return` statement. -/
inductive Ret
  /-- The statement `return f(args...);` with `f` an entry point of the solver library. -/
  | call (f : String) (args : List Arg)
  /-- The statement `return s;` for a status constant `s`. -/
  | status (s : hipsolverStatus_t)
  deriving DecidableEq, Repr

/-- A case block: statements followed by the `return` that ends the block. -/
structure Block where
  stmts : List Stmt
  ret : Ret
  deriving DecidableEq, Repr

/-- The controlling expression of the `switch`. -/
inductive Scrutinee
  /-- The form `switch(API)`. -/
  | API
  /-- The form `switch(api2marshal(API, flag))` with `flag` a `bool` parameter. -/
  | marshal (flag : Param)
  deriving DecidableEq, Repr

/-- A `case` label: an enumerator of `testAPI_t` or of `testMarshal_t`. -/
inductive CaseLabel
  | api (a : testAPI_t)
  | code (m : testMarshal_t)
  deriving DecidableEq, Repr

/-- One wrapper overload of hipsolver.hpp: its name, its parameter list in source order,
the statements in front of the `switch`, the controlling expression, the `case` blocks in
source order and the `default` block. -/
structure Wrapper where
  name : String
  params : List (CType × Param)
  pre : List Stmt
  scrutinee : Scrutinee
  cases : List (CaseLabel × Block)
  dflt : Block
  deriving DecidableEq, Repr

/-! ## Execution of a wrapper body -/

/-- A run-time value of a wrapper argument. -/
inductive Val
  /-- An argument passed by value: integer, enumerator, handle or floating-point datum. -/
  | scalar (v : Int)
  /-- A pointer, given by the address it holds; address `0` is the null pointer. -/
  | ptr (addr : Nat)
  /-- A `hipDataType` constant. -/
  | dataType (t : hipDataType)
  deriving DecidableEq, Repr

/-- The address held by a value; a value that is no pointer holds none and is read as null. -/
def Val.addr : Val → Nat
  | .ptr a => a
  | _ => 0

/-- The values of the wrapper's arguments, by parameter name. -/
abbrev Env := Param → Val

/-- The integer objects that the output parameters point to, by address. -/
abbrev Heap := Nat → Int

/-- The heap after the assignment `*a = v`. -/
def Heap.store (h : Heap) (a : Nat) (v : Int) : Heap :=
  fun x => if x = a then v else h x

/-- A call of an external entry point: its name and the values of its actual arguments. -/
structure ExtCall where
  name : String
  args : List Val
  deriving DecidableEq, Repr

/-- The behaviour of the external solver library, left arbitrary: for an entry point,
argument values and a heap, the status it returns and the heap it leaves. -/
abbrev ExtLib := String → List Val → Heap → hipsolverStatus_t × Heap

/-- What a call of a wrapper produces: the returned status, the final heap and the
external calls made, in order. -/
structure Outcome where
  status : hipsolverStatus_t
  heap : Heap
  calls : List ExtCall

/-- The value of an actual argument.  A pointer cast keeps the address. -/
def Arg.eval (env : Env) : Arg → Val
  | .param p => env p
  | .cast _ p => env p
  | .nullptr => Val.ptr 0
  | .tag t => Val.dataType t

/-- The effect of one statement on the heap. -/
def Stmt.exec (env : Env) (h : Heap) : Stmt → Heap
  | .storeZero p => h.store (env p).addr 0
  | .deref _ => h

/-- The effect of a statement sequence on the heap, left to right. -/
def execStmts (env : Env) : List Stmt → Heap → Heap
  | [], h => h
  | s :: rest, h => execStmts env rest (s.exec env h)

/-- Executes a block: its statements, then its `return`. -/
def Block.exec (E : ExtLib) (env : Env) (h : Heap) (b : Block) : Outcome :=
  let h1 := execStmts env b.stmts h
  match b.ret with
  | .status s => ⟨s, h1, []⟩
  | .call f args =>
    let vs := args.map (Arg.eval env)
    let r := E f vs h1
    ⟨r.1, r.2, [⟨f, vs⟩]⟩

/-- The block of the first `case` whose label equals the value switched on, if any. -/
def findCase (v : CaseLabel) : List (CaseLabel × Block) → Option Block
  | [] => none
  | (l, b) :: rest => if l = v then some b else findCase v rest

/-- The value of the controlling expression. -/
def Scrutinee.value (API : testAPI_t) (ALT : Bool) : Scrutinee → CaseLabel
  | .API => .api API
  | .marshal _ => .code (api2marshal API ALT)

/-- The block the `switch` transfers control to: the matching `case`, else `default`. -/
def Wrapper.selected (w : Wrapper) (API : testAPI_t) (ALT : Bool) : Block :=
  (findCase (w.scrutinee.value API ALT) w.cases).getD w.dflt

/-- Runs the wrapper `w` for selector `API`, flag value `ALT` (read only by a wrapper whose
`switch` is over `api2marshal`), argument values `env` and initial heap `h`, against the
external library `E`. -/
def Wrapper.run (w : Wrapper) (E : ExtLib) (API : testAPI_t) (ALT : Bool) (env : Env)
    (h : Heap) : Outcome :=
  (w.selected API ALT).exec E env (execStmts env w.pre h)

/-- The forwarding target for `(API, ALT)`: entry point and actual arguments of the call
in the selected block, or `none` when that block returns a status constant. -/
def Wrapper.target (w : Wrapper) (API : testAPI_t) (ALT : Bool) : Option (String × List Arg) :=
  match (w.selected API ALT).ret with
  | .call f args => some (f, args)
  | .status _ => none

/-! ## The wrapper overloads of hipsolver.hpp, in source order -/

/-- The overload of `hipsolver_orgbr_ungbr_bufferSize` at hipsolver.hpp 86-106 (`float* A`). -/
def hipsolver_orgbr_ungbr_bufferSize_float : Wrapper where
  name := "hipsolver_orgbr_ungbr_bufferSize"
  params := [(.testAPI_t, .API), (.hipsolverHandle_t, .handle), (.hipsolverSideMode_t, .side),
    (.int, .m), (.int, .n), (.int, .k), (.ptr .float, .A), (.int, .lda), (.ptr .float, .tau),
    (.ptr .int, .lwork)]
  pre := []
  scrutinee := .API
  cases := [
    (.api API_NORMAL, ⟨[], .call "hipsolverSorgbr_bufferSize"
      [.param .handle, .param .side, .param .m, .param .n, .param .k, .param .A, .param .lda,
       .param .tau, .param .lwork]⟩),
    (.api API_FORTRAN, ⟨[], .call "hipsolverSorgbr_bufferSizeFortran"
      [.param .handle, .param .side, .param .m, .param .n, .param .k, .param .A, .param .lda,
       .param .tau, .param .lwork]⟩)]
  dflt := ⟨[], .status HIPSOLVER_STATUS_NOT_SUPPORTED⟩

/-- The overload of `hipsolver_orgbr_ungbr_bufferSize` at hipsolver.hpp 108-128 (`double* A`). -/
def hipsolver_orgbr_ungbr_bufferSize_double : Wrapper where
  name := "hipsolver_orgbr_ungbr_bufferSize"
  params := [(.testAPI_t, .API), (.hipsolverHandle_t, .handle), (.hipsolverSideMode_t, .side),
    (.int, .m), (.int, .n), (.int, .k), (.ptr .double, .A), (.int, .lda), (.ptr .double, .tau),
    (.ptr .int, .lwork)]
  pre := []
  scrutinee := .API
  cases := [
    (.api API_NORMAL, ⟨[], .call "hipsolverDorgbr_bufferSize"
      [.param .handle, .param .side, .param .m, .param .n, .param .k, .param .A, .param .lda,
       .param .tau, .param .lwork]⟩),
    (.api API_FORTRAN, ⟨[], .call "hipsolverDorgbr_bufferSizeFortran"
      [.param .handle, .param .side, .param .m, .param .n, .param .k, .param .A, .param .lda,
       .param .tau, .param .lwork]⟩)]
  dflt := ⟨[], .status HIPSOLVER_STATUS_NOT_SUPPORTED⟩

/-- The overload of `hipsolver_orgbr_ungbr_bufferSize` at hipsolver.hpp 130-152 (`hipsolverComplex* A`). -/
def hipsolver_orgbr_ungbr_bufferSize_hipsolverComplex : Wrapper where
  name := "hipsolver_orgbr_ungbr_bufferSize"
  params := [(.testAPI_t, .API), (.hipsolverHandle_t, .handle), (.hipsolverSideMode_t, .side),
    (.int, .m), (.int, .n), (.int, .k), (.ptr .hipsolverComplex, .A), (.int, .lda),
    (.ptr .hipsolverComplex, .tau), (.ptr .int, .lwork)]
  pre := []
  scrutinee := .API
  cases := [
    (.api API_NORMAL, ⟨[], .call "hipsolverCungbr_bufferSize"
      [.param .handle, .param .side, .param .m, .param .n, .param .k,
       .cast (.ptr .hipFloatComplex) .A, .param .lda, .cast (.ptr .hipFloatComplex) .tau,
       .param .lwork]⟩),
    (.api API_FORTRAN, ⟨[], .call "hipsolverCungbr_bufferSizeFortran"
      [.param .handle, .param .side, .param .m, .param .n, .param .k,
       .cast (.ptr .hipFloatComplex) .A, .param .lda, .cast (.ptr .hipFloatComplex) .tau,
       .param .lwork]⟩)]
  dflt := ⟨[], .status HIPSOLVER_STATUS_NOT_SUPPORTED⟩

/-- The overload of `hipsolver_orgbr_ungbr_bufferSize` at hipsolver.hpp 154-176 (`hipsolverDoubleComplex* A`). -/
def hipsolver_orgbr_ungbr_bufferSize_hipsolverDoubleComplex : Wrapper where
  name := "hipsolver_orgbr_ungbr_bufferSize"
  params := [(.testAPI_t, .API), (.hipsolverHandle_t, .handle), (.hipsolverSideMode_t, .side),
    (.int, .m), (.int, .n), (.int, .k), (.ptr .hipsolverDoubleComplex, .A), (.int, .lda),
    (.ptr .hipsolverDoubleComplex, .tau), (.ptr .int, .lwork)]
  pre := []
  scrutinee := .API
  cases := [
    (.api API_NORMAL, ⟨[], .call "hipsolverZungbr_bufferSize"
      [.param .handle, .param .side, .param .m, .param .n, .param .k,
       .cast (.ptr .hipDoubleComplex) .A, .param .lda, .cast (.ptr .hipDoubleComplex) .tau,
       .param .lwork]⟩),
    (.api API_FORTRAN, ⟨[], .call "hipsolverZungbr_bufferSizeFortran"
      [.param .handle, .param .side, .param .m, .param .n, .param .k,
       .cast (.ptr .hipDoubleComplex) .A, .param .lda, .cast (.ptr .hipDoubleComplex) .tau,
       .param .lwork]⟩)]
  dflt := ⟨[], .status HIPSOLVER_STATUS_NOT_SUPPORTED⟩

/-- The overload of `hipsolver_orgbr_ungbr` at hipsolver.hpp 178-200 (`float* A`). -/
def hipsolver_orgbr_ungbr_float : Wrapper where
  name := "hipsolver_orgbr_ungbr"
  params := [(.testAPI_t, .API), (.hipsolverHandle_t, .handle), (.hipsolverSideMode_t, .side),
    (.int, .m), (.int, .n), (.int, .k), (.ptr .float, .A), (.int, .lda), (.ptr .float, .tau),
    (.ptr .float, .work), (.int, .lwork), (.ptr .int, .info)]
  pre := []
  scrutinee := .API
  cases := [
    (.api API_NORMAL, ⟨[], .call "hipsolverSorgbr"
      [.param .handle, .param .side, .param .m, .param .n, .param .k, .param .A, .param .lda,
       .param .tau, .param .work, .param .lwork, .param .info]⟩),
    (.api API_FORTRAN, ⟨[], .call "hipsolverSorgbrFortran"
      [.param .handle, .param .side, .param .m, .param .n, .param .k, .param .A, .param .lda,
       .param .tau, .param .work, .param .lwork, .param .info]⟩)]
  dflt := ⟨[], .status HIPSOLVER_STATUS_NOT_SUPPORTED⟩

/-- The overload of `hipsolver_orgbr_ungbr` at hipsolver.hpp 202-224 (`double* A`). -/
def hipsolver_orgbr_ungbr_double : Wrapper where
  name := "hipsolver_orgbr_ungbr"
  params := [(.testAPI_t, .API), (.hipsolverHandle_t, .handle), (.hipsolverSideMode_t, .side),
    (.int, .m), (.int, .n), (.int, .k), (.ptr .double, .A), (.int, .lda), (.ptr .double, .tau),
    (.ptr .double, .work), (.int, .lwork), (.ptr .int, .info)]
  pre := []
  scrutinee := .API
  cases := [
    (.api API_NORMAL, ⟨[], .call "hipsolverDorgbr"
      [.param .handle, .param .side, .param .m, .param .n, .param .k, .param .A, .param .lda,
       .param .tau, .param .work, .param .lwork, .param .info]⟩),
    (.api API_FORTRAN, ⟨[], .call "hipsolverDorgbrFortran"
      [.param .handle, .param .side, .param .m, .param .n, .param .k, .param .A, .param .lda,
       .param .tau, .param .work, .param .lwork, .param .info]⟩)]
  dflt := ⟨[], .status HIPSOLVER_STATUS_NOT_SUPPORTED⟩

/-- The overload of `hipsolver_orgbr_ungbr` at hipsolver.hpp 226-268 (`hipsolverComplex* A`). -/
def hipsolver_orgbr_ungbr_hipsolverComplex : Wrapper where
  name := "hipsolver_orgbr_ungbr"
  params := [(.testAPI_t, .API), (.hipsolverHandle_t, .handle), (.hipsolverSideMode_t, .side),
    (.int, .m), (.int, .n), (.int, .k), (.ptr .hipsolverComplex, .A), (.int, .lda),
    (.ptr .hipsolverComplex, .tau), (.ptr .hipsolverComplex, .work), (.int, .lwork),
    (.ptr .int, .info)]
  pre := []
  scrutinee := .API
  cases := [
    (.api API_NORMAL, ⟨[], .call "hipsolverCungbr"
      [.param .handle, .param .side, .param .m, .param .n, .param .k,
       .cast (.ptr .hipFloatComplex) .A, .param .lda, .cast (.ptr .hipFloatComplex) .tau,
       .cast (.ptr .hipFloatComplex) .work, .param .lwork, .param .info]⟩),
    (.api API_FORTRAN, ⟨[], .call "hipsolverCungbrFortran"
      [.param .handle, .param .side, .param .m, .param .n, .param .k,
       .cast (.ptr .hipFloatComplex) .A, .param .lda, .cast (.ptr .hipFloatComplex) .tau,
       .cast (.ptr .hipFloatComplex) .work, .param .lwork, .param .info]⟩)]
  dflt := ⟨[], .status HIPSOLVER_STATUS_NOT_SUPPORTED⟩

/-- The overload of `hipsolver_orgbr_ungbr` at hipsolver.hpp 270-312 (`hipsolverDoubleComplex* A`). -/
def hipsolver_orgbr_ungbr_hipsolverDoubleComplex : Wrapper where
  name := "hipsolver_orgbr_ungbr"
  params := [(.testAPI_t, .API), (.hipsolverHandle_t, .handle), (.hipsolverSideMode_t, .side),
    (.int, .m), (.int, .n), (.int, .k), (.ptr .hipsolverDoubleComplex, .A), (.int, .lda),
    (.ptr .hipsolverDoubleComplex, .tau), (.ptr .hipsolverDoubleComplex, .work), (.int, .lwork),
    (.ptr .int, .info)]
  pre := []
  scrutinee := .API
  cases := [
    (.api API_NORMAL, ⟨[], .call "hipsolverZungbr"
      [.param .handle, .param .side, .param .m, .param .n, .param .k,
       .cast (.ptr .hipDoubleComplex) .A, .param .lda, .cast (.ptr .hipDoubleComplex) .tau,
       .cast (.ptr .hipDoubleComplex) .work, .param .lwork, .param .info]⟩),
    (.api API_FORTRAN, ⟨[], .call "hipsolverZungbrFortran"
      [.param .handle, .param .side, .param .m, .param .n, .param .k,
       .cast (.ptr .hipDoubleComplex) .A, .param .lda, .cast (.ptr .hipDoubleComplex) .tau,
       .cast (.ptr .hipDoubleComplex) .work, .param .lwork, .param .info]⟩)]
  dflt := ⟨[], .status HIPSOLVER_STATUS_NOT_SUPPORTED⟩

/-- The overload of `hipsolver_orgqr_ungqr_bufferSize` at hipsolver.hpp 317-336 (`float* A`). -/
def hipsolver_orgqr_ungqr_bufferSize_float : Wrapper where
  name := "hipsolver_orgqr_ungqr_bufferSize"
  params := [(.testAPI_t, .API), (.hipsolverHandle_t, .handle), (.int, .m), (.int, .n), (.int, .k),
    (.ptr .float, .A), (.int, .lda), (.ptr .float, .tau), (.ptr .int, .lwork)]
  pre := []
  scrutinee := .API
  cases := [
    (.api API_NORMAL, ⟨[], .call "hipsolverSorgqr_bufferSize"
      [.param .handle, .param .m, .param .n, .param .k, .param .A, .param .lda, .param .tau,
       .param .lwork]⟩),
    (.api API_FORTRAN, ⟨[], .call "hipsolverSorgqr_bufferSizeFortran"
      [.param .handle, .param .m, .param .n, .param .k, .param .A, .param .lda, .param .tau,
       .param .lwork]⟩)]
  dflt := ⟨[], .status HIPSOLVER_STATUS_NOT_SUPPORTED⟩

/-- The overload of `hipsolver_orgqr_ungqr_bufferSize` at hipsolver.hpp 338-357 (`double* A`). -/
def hipsolver_orgqr_ungqr_bufferSize_double : Wrapper where
  name := "hipsolver_orgqr_ungqr_bufferSize"
  params := [(.testAPI_t, .API), (.hipsolverHandle_t, .handle), (.int, .m), (.int, .n), (.int, .k),
    (.ptr .double, .A), (.int, .lda), (.ptr .double, .tau), (.ptr .int, .lwork)]
  pre := []
  scrutinee := .API
  cases := [
    (.api API_NORMAL, ⟨[], .call "hipsolverDorgqr_bufferSize"
      [.param .handle, .param .m, .param .n, .param .k, .param .A, .param .lda, .param .tau,
       .param .lwork]⟩),
    (.api API_FORTRAN, ⟨[], .call "hipsolverDorgqr_bufferSizeFortran"
      [.param .handle, .param .m, .param .n, .param .k, .param .A, .param .lda, .param .tau,
       .param .lwork]⟩)]
  dflt := ⟨[], .status HIPSOLVER_STATUS_NOT_SUPPORTED⟩

/-- The overload of `hipsolver_orgqr_ungqr_bufferSize` at hipsolver.hpp 359-380 (`hipsolverComplex* A`). -/
def hipsolver_orgqr_ungqr_bufferSize_hipsolverComplex : Wrapper where
  name := "hipsolver_orgqr_ungqr_bufferSize"
  params := [(.testAPI_t, .API), (.hipsolverHandle_t, .handle), (.int, .m), (.int, .n), (.int, .k),
    (.ptr .hipsolverComplex, .A), (.int, .lda), (.ptr .hipsolverComplex, .tau), (.ptr .int, .lwork)]
  pre := []
  scrutinee := .API
  cases := [
    (.api API_NORMAL, ⟨[], .call "hipsolverCungqr_bufferSize"
      [.param .handle, .param .m, .param .n, .param .k, .cast (.ptr .hipFloatComplex) .A,
       .param .lda, .cast (.ptr .hipFloatComplex) .tau, .param .lwork]⟩),
    (.api API_FORTRAN, ⟨[], .call "hipsolverCungqr_bufferSizeFortran"
      [.param .handle, .param .m, .param .n, .param .k, .cast (.ptr .hipFloatComplex) .A,
       .param .lda, .cast (.ptr .hipFloatComplex) .tau, .param .lwork]⟩)]
  dflt := ⟨[], .status HIPSOLVER_STATUS_NOT_SUPPORTED⟩

/-- The overload of `hipsolver_orgqr_ungqr_bufferSize` at hipsolver.hpp 382-403 (`hipsolverDoubleComplex* A`). -/
def hipsolver_orgqr_ungqr_bufferSize_hipsolverDoubleComplex : Wrapper where
  name := "hipsolver_orgqr_ungqr_bufferSize"
  params := [(.testAPI_t, .API), (.hipsolverHandle_t, .handle), (.int, .m), (.int, .n), (.int, .k),
    (.ptr .hipsolverDoubleComplex, .A), (.int, .lda), (.ptr .hipsolverDoubleComplex, .tau),
    (.ptr .int, .lwork)]
  pre := []
  scrutinee := .API
  cases := [
    (.api API_NORMAL, ⟨[], .call "hipsolverZungqr_bufferSize"
      [.param .handle, .param .m, .param .n, .param .k, .cast (.ptr .hipDoubleComplex) .A,
       .param .lda, .cast (.ptr .hipDoubleComplex) .tau, .param .lwork]⟩),
    (.api API_FORTRAN, ⟨[], .call "hipsolverZungqr_bufferSizeFortran"
      [.param .handle, .param .m, .param .n, .param .k, .cast (.ptr .hipDoubleComplex) .A,
       .param .lda, .cast (.ptr .hipDoubleComplex) .tau, .param .lwork]⟩)]
  dflt := ⟨[], .status HIPSOLVER_STATUS_NOT_SUPPORTED⟩

/-- The overload of `hipsolver_orgqr_ungqr` at hipsolver.hpp 405-426 (`float* A`). -/
def hipsolver_orgqr_ungqr_float : Wrapper where
  name := "hipsolver_orgqr_ungqr"
  params := [(.testAPI_t, .API), (.hipsolverHandle_t, .handle), (.int, .m), (.int, .n), (.int, .k),
    (.ptr .float, .A), (.int, .lda), (.ptr .float, .tau), (.ptr .float, .work), (.int, .lwork),
    (.ptr .int, .info)]
  pre := []
  scrutinee := .API
  cases := [
    (.api API_NORMAL, ⟨[], .call "hipsolverSorgqr"
      [.param .handle, .param .m, .param .n, .param .k, .param .A, .param .lda, .param .tau,
       .param .work, .param .lwork, .param .info]⟩),
    (.api API_FORTRAN, ⟨[], .call "hipsolverSorgqrFortran"
      [.param .handle, .param .m, .param .n, .param .k, .param .A, .param .lda, .param .tau,
       .param .work, .param .lwork, .param .info]⟩)]
  dflt := ⟨[], .status HIPSOLVER_STATUS_NOT_SUPPORTED⟩

/-- The overload of `hipsolver_orgqr_ungqr` at hipsolver.hpp 428-449 (`double* A`). -/
def hipsolver_orgqr_ungqr_double : Wrapper where
  name := "hipsolver_orgqr_ungqr"
  params := [(.testAPI_t, .API), (.hipsolverHandle_t, .handle), (.int, .m), (.int, .n), (.int, .k),
    (.ptr .double, .A), (.int, .lda), (.ptr .double, .tau), (.ptr .double, .work), (.int, .lwork),
    (.ptr .int, .info)]
  pre := []
  scrutinee := .API
  cases := [
    (.api API_NORMAL, ⟨[], .call "hipsolverDorgqr"
      [.param .handle, .param .m, .param .n, .param .k, .param .A, .param .lda, .param .tau,
       .param .work, .param .lwork, .param .info]⟩),
    (.api API_FORTRAN, ⟨[], .call "hipsolverDorgqrFortran"
      [.param .handle, .param .m, .param .n, .param .k, .param .A, .param .lda, .param .tau,
       .param .work, .param .lwork, .param .info]⟩)]
  dflt := ⟨[], .status HIPSOLVER_STATUS_NOT_SUPPORTED⟩

/-- The overload of `hipsolver_orgqr_ungqr` at hipsolver.hpp 451-490 (`hipsolverComplex* A`). -/
def hipsolver_orgqr_ungqr_hipsolverComplex : Wrapper where
  name := "hipsolver_orgqr_ungqr"
  params := [(.testAPI_t, .API), (.hipsolverHandle_t, .handle), (.int, .m), (.int, .n), (.int, .k),
    (.ptr .hipsolverComplex, .A), (.int, .lda), (.ptr .hipsolverComplex, .tau),
    (.ptr .hipsolverComplex, .work), (.int, .lwork), (.ptr .int, .info)]
  pre := []
  scrutinee := .API
  cases := [
    (.api API_NORMAL, ⟨[], .call "hipsolverCungqr"
      [.param .handle, .param .m, .param .n, .param .k, .cast (.ptr .hipFloatComplex) .A,
       .param .lda, .cast (.ptr .hipFloatComplex) .tau, .cast (.ptr .hipFloatComplex) .work,
       .param .lwork, .param .info]⟩),
    (.api API_FORTRAN, ⟨[], .call "hipsolverCungqrFortran"
      [.param .handle, .param .m, .param .n, .param .k, .cast (.ptr .hipFloatComplex) .A,
       .param .lda, .cast (.ptr .hipFloatComplex) .tau, .cast (.ptr .hipFloatComplex) .work,
       .param .lwork, .param .info]⟩)]
  dflt := ⟨[], .status HIPSOLVER_STATUS_NOT_SUPPORTED⟩

/-- The overload of `hipsolver_orgqr_ungqr` at hipsolver.hpp 492-531 (`hipsolverDoubleComplex* A`). -/
def hipsolver_orgqr_ungqr_hipsolverDoubleComplex : Wrapper where
  name := "hipsolver_orgqr_ungqr"
  params := [(.testAPI_t, .API), (.hipsolverHandle_t, .handle), (.int, .m), (.int, .n), (.int, .k),
    (.ptr .hipsolverDoubleComplex, .A), (.int, .lda), (.ptr .hipsolverDoubleComplex, .tau),
    (.ptr .hipsolverDoubleComplex, .work), (.int, .lwork), (.ptr .int, .info)]
  pre := []
  scrutinee := .API
  cases := [
    (.api API_NORMAL, ⟨[], .call "hipsolverZungqr"
      [.param .handle, .param .m, .param .n, .param .k, .cast (.ptr .hipDoubleComplex) .A,
       .param .lda, .cast (.ptr .hipDoubleComplex) .tau, .cast (.ptr .hipDoubleComplex) .work,
       .param .lwork, .param .info]⟩),
    (.api API_FORTRAN, ⟨[], .call "hipsolverZungqrFortran"
      [.param .handle, .param .m, .param .n, .param .k, .cast (.ptr .hipDoubleComplex) .A,
       .param .lda, .cast (.ptr .hipDoubleComplex) .tau, .cast (.ptr .hipDoubleComplex) .work,
       .param .lwork, .param .info]⟩)]
  dflt := ⟨[], .status HIPSOLVER_STATUS_NOT_SUPPORTED⟩

/-- The overload of `hipsolver_orgtr_ungtr_bufferSize` at hipsolver.hpp 536-554 (`float* A`). -/
def hipsolver_orgtr_ungtr_bufferSize_float : Wrapper where
  name := "hipsolver_orgtr_ungtr_bufferSize"
  params := [(.testAPI_t, .API), (.hipsolverHandle_t, .handle), (.hipsolverFillMode_t, .uplo),
    (.int, .n), (.ptr .float, .A), (.int, .lda), (.ptr .float, .tau), (.ptr .int, .lwork)]
  pre := []
  scrutinee := .API
  cases := [
    (.api API_NORMAL, ⟨[], .call "hipsolverSorgtr_bufferSize"
      [.param .handle, .param .uplo, .param .n, .param .A, .param .lda, .param .tau, .param .lwork]⟩),
    (.api API_FORTRAN, ⟨[], .call "hipsolverSorgtr_bufferSizeFortran"
      [.param .handle, .param .uplo, .param .n, .param .A, .param .lda, .param .tau, .param .lwork]⟩)]
  dflt := ⟨[], .status HIPSOLVER_STATUS_NOT_SUPPORTED⟩

/-- The overload of `hipsolver_orgtr_ungtr_bufferSize` at hipsolver.hpp 556-574 (`double* A`). -/
def hipsolver_orgtr_ungtr_bufferSize_double : Wrapper where
  name := "hipsolver_orgtr_ungtr_bufferSize"
  params := [(.testAPI_t, .API), (.hipsolverHandle_t, .handle), (.hipsolverFillMode_t, .uplo),
    (.int, .n), (.ptr .double, .A), (.int, .lda), (.ptr .double, .tau), (.ptr .int, .lwork)]
  pre := []
  scrutinee := .API
  cases := [
    (.api API_NORMAL, ⟨[], .call "hipsolverDorgtr_bufferSize"
      [.param .handle, .param .uplo, .param .n, .param .A, .param .lda, .param .tau, .param .lwork]⟩),
    (.api API_FORTRAN, ⟨[], .call "hipsolverDorgtr_bufferSizeFortran"
      [.param .handle, .param .uplo, .param .n, .param .A, .param .lda, .param .tau, .param .lwork]⟩)]
  dflt := ⟨[], .status HIPSOLVER_STATUS_NOT_SUPPORTED⟩

/-- The overload of `hipsolver_orgtr_ungtr_bufferSize` at hipsolver.hpp 576-596 (`hipsolverComplex* A`). -/
def hipsolver_orgtr_ungtr_bufferSize_hipsolverComplex : Wrapper where
  name := "hipsolver_orgtr_ungtr_bufferSize"
  params := [(.testAPI_t, .API), (.hipsolverHandle_t, .handle), (.hipsolverFillMode_t, .uplo),
    (.int, .n), (.ptr .hipsolverComplex, .A), (.int, .lda), (.ptr .hipsolverComplex, .tau),
    (.ptr .int, .lwork)]
  pre := []
  scrutinee := .API
  cases := [
    (.api API_NORMAL, ⟨[], .call "hipsolverCungtr_bufferSize"
      [.param .handle, .param .uplo, .param .n, .cast (.ptr .hipFloatComplex) .A, .param .lda,
       .cast (.ptr .hipFloatComplex) .tau, .param .lwork]⟩),
    (.api API_FORTRAN, ⟨[], .call "hipsolverCungtr_bufferSizeFortran"
      [.param .handle, .param .uplo, .param .n, .cast (.ptr .hipFloatComplex) .A, .param .lda,
       .cast (.ptr .hipFloatComplex) .tau, .param .lwork]⟩)]
  dflt := ⟨[], .status HIPSOLVER_STATUS_NOT_SUPPORTED⟩

/-- The overload of `hipsolver_orgtr_ungtr_bufferSize` at hipsolver.hpp 598-618 (`hipsolverDoubleComplex* A`). -/
def hipsolver_orgtr_ungtr_bufferSize_hipsolverDoubleComplex : Wrapper where
  name := "hipsolver_orgtr_ungtr_bufferSize"
  params := [(.testAPI_t, .API), (.hipsolverHandle_t, .handle), (.hipsolverFillMode_t, .uplo),
    (.int, .n), (.ptr .hipsolverDoubleComplex, .A), (.int, .lda),
    (.ptr .hipsolverDoubleComplex, .tau), (.ptr .int, .lwork)]
  pre := []
  scrutinee := .API
  cases := [
    (.api API_NORMAL, ⟨[], .call "hipsolverZungtr_bufferSize"
      [.param .handle, .param .uplo, .param .n, .cast (.ptr .hipDoubleComplex) .A, .param .lda,
       .cast (.ptr .hipDoubleComplex) .tau, .param .lwork]⟩),
    (.api API_FORTRAN, ⟨[], .call "hipsolverZungtr_bufferSizeFortran"
      [.param .handle, .param .uplo, .param .n, .cast (.ptr .hipDoubleComplex) .A, .param .lda,
       .cast (.ptr .hipDoubleComplex) .tau, .param .lwork]⟩)]
  dflt := ⟨[], .status HIPSOLVER_STATUS_NOT_SUPPORTED⟩

/-- The overload of `hipsolver_orgtr_ungtr` at hipsolver.hpp 620-640 (`float* A`). -/
def hipsolver_orgtr_ungtr_float : Wrapper where
  name := "hipsolver_orgtr_ungtr"
  params := [(.testAPI_t, .API), (.hipsolverHandle_t, .handle), (.hipsolverFillMode_t, .uplo),
    (.int, .n), (.ptr .float, .A), (.int, .lda), (.ptr .float, .tau), (.ptr .float, .work),
    (.int, .lwork), (.ptr .int, .info)]
  pre := []
  scrutinee := .API
  cases := [
    (.api API_NORMAL, ⟨[], .call "hipsolverSorgtr"
      [.param .handle, .param .uplo, .param .n, .param .A, .param .lda, .param .tau, .param .work,
       .param .lwork, .param .info]⟩),
    (.api API_FORTRAN, ⟨[], .call "hipsolverSorgtrFortran"
      [.param .handle, .param .uplo, .param .n, .param .A, .param .lda, .param .tau, .param .work,
       .param .lwork, .param .info]⟩)]
  dflt := ⟨[], .status HIPSOLVER_STATUS_NOT_SUPPORTED⟩

/-- The overload of `hipsolver_orgtr_ungtr` at hipsolver.hpp 642-662 (`double* A`). -/
def hipsolver_orgtr_ungtr_double : Wrapper where
  name := "hipsolver_orgtr_ungtr"
  params := [(.testAPI_t, .API), (.hipsolverHandle_t, .handle), (.hipsolverFillMode_t, .uplo),
    (.int, .n), (.ptr .double, .A), (.int, .lda), (.ptr .double, .tau), (.ptr .double, .work),
    (.int, .lwork), (.ptr .int, .info)]
  pre := []
  scrutinee := .API
  cases := [
    (.api API_NORMAL, ⟨[], .call "hipsolverDorgtr"
      [.param .handle, .param .uplo, .param .n, .param .A, .param .lda, .param .tau, .param .work,
       .param .lwork, .param .info]⟩),
    (.api API_FORTRAN, ⟨[], .call "hipsolverDorgtrFortran"
      [.param .handle, .param .uplo, .param .n, .param .A, .param .lda, .param .tau, .param .work,
       .param .lwork, .param .info]⟩)]
  dflt := ⟨[], .status HIPSOLVER_STATUS_NOT_SUPPORTED⟩

/-- The overload of `hipsolver_orgtr_ungtr` at hipsolver.hpp 664-700 (`hipsolverComplex* A`). -/
def hipsolver_orgtr_ungtr_hipsolverComplex : Wrapper where
  name := "hipsolver_orgtr_ungtr"
  params := [(.testAPI_t, .API), (.hipsolverHandle_t, .handle), (.hipsolverFillMode_t, .uplo),
    (.int, .n), (.ptr .hipsolverComplex, .A), (.int, .lda), (.ptr .hipsolverComplex, .tau),
    (.ptr .hipsolverComplex, .work), (.int, .lwork), (.ptr .int, .info)]
  pre := []
  scrutinee := .API
  cases := [
    (.api API_NORMAL, ⟨[], .call "hipsolverCungtr"
      [.param .handle, .param .uplo, .param .n, .cast (.ptr .hipFloatComplex) .A, .param .lda,
       .cast (.ptr .hipFloatComplex) .tau, .cast (.ptr .hipFloatComplex) .work, .param .lwork,
       .param .info]⟩),
    (.api API_FORTRAN, ⟨[], .call "hipsolverCungtrFortran"
      [.param .handle, .param .uplo, .param .n, .cast (.ptr .hipFloatComplex) .A, .param .lda,
       .cast (.ptr .hipFloatComplex) .tau, .cast (.ptr .hipFloatComplex) .work, .param .lwork,
       .param .info]⟩)]
  dflt := ⟨[], .status HIPSOLVER_STATUS_NOT_SUPPORTED⟩

/-- The overload of `hipsolver_orgtr_ungtr` at hipsolver.hpp 702-738 (`hipsolverDoubleComplex* A`). -/
def hipsolver_orgtr_ungtr_hipsolverDoubleComplex : Wrapper where
  name := "hipsolver_orgtr_ungtr"
  params := [(.testAPI_t, .API), (.hipsolverHandle_t, .handle), (.hipsolverFillMode_t, .uplo),
    (.int, .n), (.ptr .hipsolverDoubleComplex, .A), (.int, .lda),
    (.ptr .hipsolverDoubleComplex, .tau), (.ptr .hipsolverDoubleComplex, .work), (.int, .lwork),
    (.ptr .int, .info)]
  pre := []
  scrutinee := .API
  cases := [
    (.api API_NORMAL, ⟨[], .call "hipsolverZungtr"
      [.param .handle, .param .uplo, .param .n, .cast (.ptr .hipDoubleComplex) .A, .param .lda,
       .cast (.ptr .hipDoubleComplex) .tau, .cast (.ptr .hipDoubleComplex) .work, .param .lwork,
       .param .info]⟩),
    (.api API_FORTRAN, ⟨[], .call "hipsolverZungtrFortran"
      [.param .handle, .param .uplo, .param .n, .cast (.ptr .hipDoubleComplex) .A, .param .lda,
       .cast (.ptr .hipDoubleComplex) .tau, .cast (.ptr .hipDoubleComplex) .work, .param .lwork,
       .param .info]⟩)]
  dflt := ⟨[], .status HIPSOLVER_STATUS_NOT_SUPPORTED⟩

/-- The overload of `hipsolver_ormqr_unmqr_bufferSize` at hipsolver.hpp 743-767 (`float* A`). -/
def hipsolver_ormqr_unmqr_bufferSize_float : Wrapper where
  name := "hipsolver_ormqr_unmqr_bufferSize"
  params := [(.testAPI_t, .API), (.hipsolverHandle_t, .handle), (.hipsolverSideMode_t, .side),
    (.hipsolverOperation_t, .trans), (.int, .m), (.int, .n), (.int, .k), (.ptr .float, .A),
    (.int, .lda), (.ptr .float, .tau), (.ptr .float, .C), (.int, .ldc), (.ptr .int, .lwork)]
  pre := []
  scrutinee := .API
  cases := [
    (.api API_NORMAL, ⟨[], .call "hipsolverSormqr_bufferSize"
      [.param .handle, .param .side, .param .trans, .param .m, .param .n, .param .k, .param .A,
       .param .lda, .param .tau, .param .C, .param .ldc, .param .lwork]⟩),
    (.api API_FORTRAN, ⟨[], .call "hipsolverSormqr_bufferSizeFortran"
      [.param .handle, .param .side, .param .trans, .param .m, .param .n, .param .k, .param .A,
       .param .lda, .param .tau, .param .C, .param .ldc, .param .lwork]⟩)]
  dflt := ⟨[], .status HIPSOLVER_STATUS_NOT_SUPPORTED⟩

/-- The overload of `hipsolver_ormqr_unmqr_bufferSize` at hipsolver.hpp 769-793 (`double* A`). -/
def hipsolver_ormqr_unmqr_bufferSize_double : Wrapper where
  name := "hipsolver_ormqr_unmqr_bufferSize"
  params := [(.testAPI_t, .API), (.hipsolverHandle_t, .handle), (.hipsolverSideMode_t, .side),
    (.hipsolverOperation_t, .trans), (.int, .m), (.int, .n), (.int, .k), (.ptr .double, .A),
    (.int, .lda), (.ptr .double, .tau), (.ptr .double, .C), (.int, .ldc), (.ptr .int, .lwork)]
  pre := []
  scrutinee := .API
  cases := [
    (.api API_NORMAL, ⟨[], .call "hipsolverDormqr_bufferSize"
      [.param .handle, .param .side, .param .trans, .param .m, .param .n, .param .k, .param .A,
       .param .lda, .param .tau, .param .C, .param .ldc, .param .lwork]⟩),
    (.api API_FORTRAN, ⟨[], .call "hipsolverDormqr_bufferSizeFortran"
      [.param .handle, .param .side, .param .trans, .param .m, .param .n, .param .k, .param .A,
       .param .lda, .param .tau, .param .C, .param .ldc, .param .lwork]⟩)]
  dflt := ⟨[], .status HIPSOLVER_STATUS_NOT_SUPPORTED⟩

/-- The overload of `hipsolver_ormqr_unmqr_bufferSize` at hipsolver.hpp 795-840 (`hipsolverComplex* A`). -/
def hipsolver_ormqr_unmqr_bufferSize_hipsolverComplex : Wrapper where
  name := "hipsolver_ormqr_unmqr_bufferSize"
  params := [(.testAPI_t, .API), (.hipsolverHandle_t, .handle), (.hipsolverSideMode_t, .side),
    (.hipsolverOperation_t, .trans), (.int, .m), (.int, .n), (.int, .k),
    (.ptr .hipsolverComplex, .A), (.int, .lda), (.ptr .hipsolverComplex, .tau),
    (.ptr .hipsolverComplex, .C), (.int, .ldc), (.ptr .int, .lwork)]
  pre := []
  scrutinee := .API
  cases := [
    (.api API_NORMAL, ⟨[], .call "hipsolverCunmqr_bufferSize"
      [.param .handle, .param .side, .param .trans, .param .m, .param .n, .param .k,
       .cast (.ptr .hipFloatComplex) .A, .param .lda, .cast (.ptr .hipFloatComplex) .tau,
       .cast (.ptr .hipFloatComplex) .C, .param .ldc, .param .lwork]⟩),
    (.api API_FORTRAN, ⟨[], .call "hipsolverCunmqr_bufferSizeFortran"
      [.param .handle, .param .side, .param .trans, .param .m, .param .n, .param .k,
       .cast (.ptr .hipFloatComplex) .A, .param .lda, .cast (.ptr .hipFloatComplex) .tau,
       .cast (.ptr .hipFloatComplex) .C, .param .ldc, .param .lwork]⟩)]
  dflt := ⟨[], .status HIPSOLVER_STATUS_NOT_SUPPORTED⟩

/-- The overload of `hipsolver_ormqr_unmqr_bufferSize` at hipsolver.hpp 842-887 (`hipsolverDoubleComplex* A`). -/
def hipsolver_ormqr_unmqr_bufferSize_hipsolverDoubleComplex : Wrapper where
  name := "hipsolver_ormqr_unmqr_bufferSize"
  params := [(.testAPI_t, .API), (.hipsolverHandle_t, .handle), (.hipsolverSideMode_t, .side),
    (.hipsolverOperation_t, .trans), (.int, .m), (.int, .n), (.int, .k),
    (.ptr .hipsolverDoubleComplex, .A), (.int, .lda), (.ptr .hipsolverDoubleComplex, .tau),
    (.ptr .hipsolverDoubleComplex, .C), (.int, .ldc), (.ptr .int, .lwork)]
  pre := []
  scrutinee := .API
  cases := [
    (.api API_NORMAL, ⟨[], .call "hipsolverZunmqr_bufferSize"
      [.param .handle, .param .side, .param .trans, .param .m, .param .n, .param .k,
       .cast (.ptr .hipDoubleComplex) .A, .param .lda, .cast (.ptr .hipDoubleComplex) .tau,
       .cast (.ptr .hipDoubleComplex) .C, .param .ldc, .param .lwork]⟩),
    (.api API_FORTRAN, ⟨[], .call "hipsolverZunmqr_bufferSizeFortran"
      [.param .handle, .param .side, .param .trans, .param .m, .param .n, .param .k,
       .cast (.ptr .hipDoubleComplex) .A, .param .lda, .cast (.ptr .hipDoubleComplex) .tau,
       .cast (.ptr .hipDoubleComplex) .C, .param .ldc, .param .lwork]⟩)]
  dflt := ⟨[], .status HIPSOLVER_STATUS_NOT_SUPPORTED⟩

/-- The overload of `hipsolver_ormqr_unmqr` at hipsolver.hpp 889-916 (`float* A`). -/
def hipsolver_ormqr_unmqr_float : Wrapper where
  name := "hipsolver_ormqr_unmqr"
  params := [(.testAPI_t, .API), (.hipsolverHandle_t, .handle), (.hipsolverSideMode_t, .side),
    (.hipsolverOperation_t, .trans), (.int, .m), (.int, .n), (.int, .k), (.ptr .float, .A),
    (.int, .lda), (.ptr .float, .tau), (.ptr .float, .C), (.int, .ldc), (.ptr .float, .work),
    (.int, .lwork), (.ptr .int, .info)]
  pre := []
  scrutinee := .API
  cases := [
    (.api API_NORMAL, ⟨[], .call "hipsolverSormqr"
      [.param .handle, .param .side, .param .trans, .param .m, .param .n, .param .k, .param .A,
       .param .lda, .param .tau, .param .C, .param .ldc, .param .work, .param .lwork, .param .info]⟩),
    (.api API_FORTRAN, ⟨[], .call "hipsolverSormqrFortran"
      [.param .handle, .param .side, .param .trans, .param .m, .param .n, .param .k, .param .A,
       .param .lda, .param .tau, .param .C, .param .ldc, .param .work, .param .lwork, .param .info]⟩)]
  dflt := ⟨[], .status HIPSOLVER_STATUS_NOT_SUPPORTED⟩

/-- The overload of `hipsolver_ormqr_unmqr` at hipsolver.hpp 918-945 (`double* A`). -/
def hipsolver_ormqr_unmqr_double : Wrapper where
  name := "hipsolver_ormqr_unmqr"
  params := [(.testAPI_t, .API), (.hipsolverHandle_t, .handle), (.hipsolverSideMode_t, .side),
    (.hipsolverOperation_t, .trans), (.int, .m), (.int, .n), (.int, .k), (.ptr .double, .A),
    (.int, .lda), (.ptr .double, .tau), (.ptr .double, .C), (.int, .ldc), (.ptr .double, .work),
    (.int, .lwork), (.ptr .int, .info)]
  pre := []
  scrutinee := .API
  cases := [
    (.api API_NORMAL, ⟨[], .call "hipsolverDormqr"
      [.param .handle, .param .side, .param .trans, .param .m, .param .n, .param .k, .param .A,
       .param .lda, .param .tau, .param .C, .param .ldc, .param .work, .param .lwork, .param .info]⟩),
    (.api API_FORTRAN, ⟨[], .call "hipsolverDormqrFortran"
      [.param .handle, .param .side, .param .trans, .param .m, .param .n, .param .k, .param .A,
       .param .lda, .param .tau, .param .C, .param .ldc, .param .work, .param .lwork, .param .info]⟩)]
  dflt := ⟨[], .status HIPSOLVER_STATUS_NOT_SUPPORTED⟩

/-- The overload of `hipsolver_ormqr_unmqr` at hipsolver.hpp 947-998 (`hipsolverComplex* A`). -/
def hipsolver_ormqr_unmqr_hipsolverComplex : Wrapper where
  name := "hipsolver_ormqr_unmqr"
  params := [(.testAPI_t, .API), (.hipsolverHandle_t, .handle), (.hipsolverSideMode_t, .side),
    (.hipsolverOperation_t, .trans), (.int, .m), (.int, .n), (.int, .k),
    (.ptr .hipsolverComplex, .A), (.int, .lda), (.ptr .hipsolverComplex, .tau),
    (.ptr .hipsolverComplex, .C), (.int, .ldc), (.ptr .hipsolverComplex, .work), (.int, .lwork),
    (.ptr .int, .info)]
  pre := []
  scrutinee := .API
  cases := [
    (.api API_NORMAL, ⟨[], .call "hipsolverCunmqr"
      [.param .handle, .param .side, .param .trans, .param .m, .param .n, .param .k,
       .cast (.ptr .hipFloatComplex) .A, .param .lda, .cast (.ptr .hipFloatComplex) .tau,
       .cast (.ptr .hipFloatComplex) .C, .param .ldc, .cast (.ptr .hipFloatComplex) .work,
       .param .lwork, .param .info]⟩),
    (.api API_FORTRAN, ⟨[], .call "hipsolverCunmqrFortran"
      [.param .handle, .param .side, .param .trans, .param .m, .param .n, .param .k,
       .cast (.ptr .hipFloatComplex) .A, .param .lda, .cast (.ptr .hipFloatComplex) .tau,
       .cast (.ptr .hipFloatComplex) .C, .param .ldc, .cast (.ptr .hipFloatComplex) .work,
       .param .lwork, .param .info]⟩)]
  dflt := ⟨[], .status HIPSOLVER_STATUS_NOT_SUPPORTED⟩

/-- The overload of `hipsolver_ormqr_unmqr` at hipsolver.hpp 1000-1051 (`hipsolverDoubleComplex* A`). -/
def hipsolver_ormqr_unmqr_hipsolverDoubleComplex : Wrapper where
  name := "hipsolver_ormqr_unmqr"
  params := [(.testAPI_t, .API), (.hipsolverHandle_t, .handle), (.hipsolverSideMode_t, .side),
    (.hipsolverOperation_t, .trans), (.int, .m), (.int, .n), (.int, .k),
    (.ptr .hipsolverDoubleComplex, .A), (.int, .lda), (.ptr .hipsolverDoubleComplex, .tau),
    (.ptr .hipsolverDoubleComplex, .C), (.int, .ldc), (.ptr .hipsolverDoubleComplex, .work),
    (.int, .lwork), (.ptr .int, .info)]
  pre := []
  scrutinee := .API
  cases := [
    (.api API_NORMAL, ⟨[], .call "hipsolverZunmqr"
      [.param .handle, .param .side, .param .trans, .param .m, .param .n, .param .k,
       .cast (.ptr .hipDoubleComplex) .A, .param .lda, .cast (.ptr .hipDoubleComplex) .tau,
       .cast (.ptr .hipDoubleComplex) .C, .param .ldc, .cast (.ptr .hipDoubleComplex) .work,
       .param .lwork, .param .info]⟩),
    (.api API_FORTRAN, ⟨[], .call "hipsolverZunmqrFortran"
      [.param .handle, .param .side, .param .trans, .param .m, .param .n, .param .k,
       .cast (.ptr .hipDoubleComplex) .A, .param .lda, .cast (.ptr .hipDoubleComplex) .tau,
       .cast (.ptr .hipDoubleComplex) .C, .param .ldc, .cast (.ptr .hipDoubleComplex) .work,
       .param .lwork, .param .info]⟩)]
  dflt := ⟨[], .status HIPSOLVER_STATUS_NOT_SUPPORTED⟩

/-- The overload of `hipsolver_ormtr_unmtr_bufferSize` at hipsolver.hpp 1056-1081 (`float* A`). -/
def hipsolver_ormtr_unmtr_bufferSize_float : Wrapper where
  name := "hipsolver_ormtr_unmtr_bufferSize"
  params := [(.testAPI_t, .API), (.hipsolverHandle_t, .handle), (.hipsolverSideMode_t, .side),
    (.hipsolverFillMode_t, .uplo), (.hipsolverOperation_t, .trans), (.int, .m), (.int, .n),
    (.ptr .float, .A), (.int, .lda), (.ptr .float, .tau), (.ptr .float, .C), (.int, .ldc),
    (.ptr .int, .lwork)]
  pre := []
  scrutinee := .API
  cases := [
    (.api API_NORMAL, ⟨[], .call "hipsolverSormtr_bufferSize"
      [.param .handle, .param .side, .param .uplo, .param .trans, .param .m, .param .n, .param .A,
       .param .lda, .param .tau, .param .C, .param .ldc, .param .lwork]⟩),
    (.api API_FORTRAN, ⟨[], .call "hipsolverSormtr_bufferSizeFortran"
      [.param .handle, .param .side, .param .uplo, .param .trans, .param .m, .param .n, .param .A,
       .param .lda, .param .tau, .param .C, .param .ldc, .param .lwork]⟩)]
  dflt := ⟨[], .status HIPSOLVER_STATUS_NOT_SUPPORTED⟩

/-- The overload of `hipsolver_ormtr_unmtr_bufferSize` at hipsolver.hpp 1083-1108 (`double* A`). -/
def hipsolver_ormtr_unmtr_bufferSize_double : Wrapper where
  name := "hipsolver_ormtr_unmtr_bufferSize"
  params := [(.testAPI_t, .API), (.hipsolverHandle_t, .handle), (.hipsolverSideMode_t, .side),
    (.hipsolverFillMode_t, .uplo), (.hipsolverOperation_t, .trans), (.int, .m), (.int, .n),
    (.ptr .double, .A), (.int, .lda), (.ptr .double, .tau), (.ptr .double, .C), (.int, .ldc),
    (.ptr .int, .lwork)]
  pre := []
  scrutinee := .API
  cases := [
    (.api API_NORMAL, ⟨[], .call "hipsolverDormtr_bufferSize"
      [.param .handle, .param .side, .param .uplo, .param .trans, .param .m, .param .n, .param .A,
       .param .lda, .param .tau, .param .C, .param .ldc, .param .lwork]⟩),
    (.api API_FORTRAN, ⟨[], .call "hipsolverDormtr_bufferSizeFortran"
      [.param .handle, .param .side, .param .uplo, .param .trans, .param .m, .param .n, .param .A,
       .param .lda, .param .tau, .param .C, .param .ldc, .param .lwork]⟩)]
  dflt := ⟨[], .status HIPSOLVER_STATUS_NOT_SUPPORTED⟩

/-- The overload of `hipsolver_ormtr_unmtr_bufferSize` at hipsolver.hpp 1110-1155 (`hipsolverComplex* A`). -/
def hipsolver_ormtr_unmtr_bufferSize_hipsolverComplex : Wrapper where
  name := "hipsolver_ormtr_unmtr_bufferSize"
  params := [(.testAPI_t, .API), (.hipsolverHandle_t, .handle), (.hipsolverSideMode_t, .side),
    (.hipsolverFillMode_t, .uplo), (.hipsolverOperation_t, .trans), (.int, .m), (.int, .n),
    (.ptr .hipsolverComplex, .A), (.int, .lda), (.ptr .hipsolverComplex, .tau),
    (.ptr .hipsolverComplex, .C), (.int, .ldc), (.ptr .int, .lwork)]
  pre := []
  scrutinee := .API
  cases := [
    (.api API_NORMAL, ⟨[], .call "hipsolverCunmtr_bufferSize"
      [.param .handle, .param .side, .param .uplo, .param .trans, .param .m, .param .n,
       .cast (.ptr .hipFloatComplex) .A, .param .lda, .cast (.ptr .hipFloatComplex) .tau,
       .cast (.ptr .hipFloatComplex) .C, .param .ldc, .param .lwork]⟩),
    (.api API_FORTRAN, ⟨[], .call "hipsolverCunmtr_bufferSizeFortran"
      [.param .handle, .param .side, .param .uplo, .param .trans, .param .m, .param .n,
       .cast (.ptr .hipFloatComplex) .A, .param .lda, .cast (.ptr .hipFloatComplex) .tau,
       .cast (.ptr .hipFloatComplex) .C, .param .ldc, .param .lwork]⟩)]
  dflt := ⟨[], .status HIPSOLVER_STATUS_NOT_SUPPORTED⟩

/-- The overload of `hipsolver_ormtr_unmtr_bufferSize` at hipsolver.hpp 1157-1202 (`hipsolverDoubleComplex* A`). -/
def hipsolver_ormtr_unmtr_bufferSize_hipsolverDoubleComplex : Wrapper where
  name := "hipsolver_ormtr_unmtr_bufferSize"
  params := [(.testAPI_t, .API), (.hipsolverHandle_t, .handle), (.hipsolverSideMode_t, .side),
    (.hipsolverFillMode_t, .uplo), (.hipsolverOperation_t, .trans), (.int, .m), (.int, .n),
    (.ptr .hipsolverDoubleComplex, .A), (.int, .lda), (.ptr .hipsolverDoubleComplex, .tau),
    (.ptr .hipsolverDoubleComplex, .C), (.int, .ldc), (.ptr .int, .lwork)]
  pre := []
  scrutinee := .API
  cases := [
    (.api API_NORMAL, ⟨[], .call "hipsolverZunmtr_bufferSize"
      [.param .handle, .param .side, .param .uplo, .param .trans, .param .m, .param .n,
       .cast (.ptr .hipDoubleComplex) .A, .param .lda, .cast (.ptr .hipDoubleComplex) .tau,
       .cast (.ptr .hipDoubleComplex) .C, .param .ldc, .param .lwork]⟩),
    (.api API_FORTRAN, ⟨[], .call "hipsolverZunmtr_bufferSizeFortran"
      [.param .handle, .param .side, .param .uplo, .param .trans, .param .m, .param .n,
       .cast (.ptr .hipDoubleComplex) .A, .param .lda, .cast (.ptr .hipDoubleComplex) .tau,
       .cast (.ptr .hipDoubleComplex) .C, .param .ldc, .param .lwork]⟩)]
  dflt := ⟨[], .status HIPSOLVER_STATUS_NOT_SUPPORTED⟩

/-- The overload of `hipsolver_ormtr_unmtr` at hipsolver.hpp 1204-1231 (`float* A`). -/
def hipsolver_ormtr_unmtr_float : Wrapper where
  name := "hipsolver_ormtr_unmtr"
  params := [(.testAPI_t, .API), (.hipsolverHandle_t, .handle), (.hipsolverSideMode_t, .side),
    (.hipsolverFillMode_t, .uplo), (.hipsolverOperation_t, .trans), (.int, .m), (.int, .n),
    (.ptr .float, .A), (.int, .lda), (.ptr .float, .tau), (.ptr .float, .C), (.int, .ldc),
    (.ptr .float, .work), (.int, .lwork), (.ptr .int, .info)]
  pre := []
  scrutinee := .API
  cases := [
    (.api API_NORMAL, ⟨[], .call "hipsolverSormtr"
      [.param .handle, .param .side, .param .uplo, .param .trans, .param .m, .param .n, .param .A,
       .param .lda, .param .tau, .param .C, .param .ldc, .param .work, .param .lwork, .param .info]⟩),
    (.api API_FORTRAN, ⟨[], .call "hipsolverSormtrFortran"
      [.param .handle, .param .side, .param .uplo, .param .trans, .param .m, .param .n, .param .A,
       .param .lda, .param .tau, .param .C, .param .ldc, .param .work, .param .lwork, .param .info]⟩)]
  dflt := ⟨[], .status HIPSOLVER_STATUS_NOT_SUPPORTED⟩

/-- The overload of `hipsolver_ormtr_unmtr` at hipsolver.hpp 1233-1260 (`double* A`). -/
def hipsolver_ormtr_unmtr_double : Wrapper where
  name := "hipsolver_ormtr_unmtr"
  params := [(.testAPI_t, .API), (.hipsolverHandle_t, .handle), (.hipsolverSideMode_t, .side),
    (.hipsolverFillMode_t, .uplo), (.hipsolverOperation_t, .trans), (.int, .m), (.int, .n),
    (.ptr .double, .A), (.int, .lda), (.ptr .double, .tau), (.ptr .double, .C), (.int, .ldc),
    (.ptr .double, .work), (.int, .lwork), (.ptr .int, .info)]
  pre := []
  scrutinee := .API
  cases := [
    (.api API_NORMAL, ⟨[], .call "hipsolverDormtr"
      [.param .handle, .param .side, .param .uplo, .param .trans, .param .m, .param .n, .param .A,
       .param .lda, .param .tau, .param .C, .param .ldc, .param .work, .param .lwork, .param .info]⟩),
    (.api API_FORTRAN, ⟨[], .call "hipsolverDormtrFortran"
      [.param .handle, .param .side, .param .uplo, .param .trans, .param .m, .param .n, .param .A,
       .param .lda, .param .tau, .param .C, .param .ldc, .param .work, .param .lwork, .param .info]⟩)]
  dflt := ⟨[], .status HIPSOLVER_STATUS_NOT_SUPPORTED⟩

/-- The overload of `hipsolver_ormtr_unmtr` at hipsolver.hpp 1262-1313 (`hipsolverComplex* A`). -/
def hipsolver_ormtr_unmtr_hipsolverComplex : Wrapper where
  name := "hipsolver_ormtr_unmtr"
  params := [(.testAPI_t, .API), (.hipsolverHandle_t, .handle), (.hipsolverSideMode_t, .side),
    (.hipsolverFillMode_t, .uplo), (.hipsolverOperation_t, .trans), (.int, .m), (.int, .n),
    (.ptr .hipsolverComplex, .A), (.int, .lda), (.ptr .hipsolverComplex, .tau),
    (.ptr .hipsolverComplex, .C), (.int, .ldc), (.ptr .hipsolverComplex, .work), (.int, .lwork),
    (.ptr .int, .info)]
  pre := []
  scrutinee := .API
  cases := [
    (.api API_NORMAL, ⟨[], .call "hipsolverCunmtr"
      [.param .handle, .param .side, .param .uplo, .param .trans, .param .m, .param .n,
       .cast (.ptr .hipFloatComplex) .A, .param .lda, .cast (.ptr .hipFloatComplex) .tau,
       .cast (.ptr .hipFloatComplex) .C, .param .ldc, .cast (.ptr .hipFloatComplex) .work,
       .param .lwork, .param .info]⟩),
    (.api API_FORTRAN, ⟨[], .call "hipsolverCunmtrFortran"
      [.param .handle, .param .side, .param .uplo, .param .trans, .param .m, .param .n,
       .cast (.ptr .hipFloatComplex) .A, .param .lda, .cast (.ptr .hipFloatComplex) .tau,
       .cast (.ptr .hipFloatComplex) .C, .param .ldc, .cast (.ptr .hipFloatComplex) .work,
       .param .lwork, .param .info]⟩)]
  dflt := ⟨[], .status HIPSOLVER_STATUS_NOT_SUPPORTED⟩

/-- The overload of `hipsolver_ormtr_unmtr` at hipsolver.hpp 1315-1366 (`hipsolverDoubleComplex* A`). -/
def hipsolver_ormtr_unmtr_hipsolverDoubleComplex : Wrapper where
  name := "hipsolver_ormtr_unmtr"
  params := [(.testAPI_t, .API), (.hipsolverHandle_t, .handle), (.hipsolverSideMode_t, .side),
    (.hipsolverFillMode_t, .uplo), (.hipsolverOperation_t, .trans), (.int, .m), (.int, .n),
    (.ptr .hipsolverDoubleComplex, .A), (.int, .lda), (.ptr .hipsolverDoubleComplex, .tau),
    (.ptr .hipsolverDoubleComplex, .C), (.int, .ldc), (.ptr .hipsolverDoubleComplex, .work),
    (.int, .lwork), (.ptr .int, .info)]
  pre := []
  scrutinee := .API
  cases := [
    (.api API_NORMAL, ⟨[], .call "hipsolverZunmtr"
      [.param .handle, .param .side, .param .uplo, .param .trans, .param .m, .param .n,
       .cast (.ptr .hipDoubleComplex) .A, .param .lda, .cast (.ptr .hipDoubleComplex) .tau,
       .cast (.ptr .hipDoubleComplex) .C, .param .ldc, .cast (.ptr .hipDoubleComplex) .work,
       .param .lwork, .param .info]⟩),
    (.api API_FORTRAN, ⟨[], .call "hipsolverZunmtrFortran"
      [.param .handle, .param .side, .param .uplo, .param .trans, .param .m, .param .n,
       .cast (.ptr .hipDoubleComplex) .A, .param .lda, .cast (.ptr .hipDoubleComplex) .tau,
       .cast (.ptr .hipDoubleComplex) .C, .param .ldc, .cast (.ptr .hipDoubleComplex) .work,
       .param .lwork, .param .info]⟩)]
  dflt := ⟨[], .status HIPSOLVER_STATUS_NOT_SUPPORTED⟩

/-- The overload of `hipsolver_gebrd_bufferSize` at hipsolver.hpp 1371-1383 (`float* A`). -/
def hipsolver_gebrd_bufferSize_float : Wrapper where
  name := "hipsolver_gebrd_bufferSize"
  params := [(.testAPI_t, .API), (.hipsolverHandle_t, .handle), (.int, .m), (.int, .n),
    (.ptr .float, .A), (.int, .lda), (.ptr .int, .lwork)]
  pre := []
  scrutinee := .API
  cases := [
    (.api API_NORMAL, ⟨[], .call "hipsolverSgebrd_bufferSize"
      [.param .handle, .param .m, .param .n, .param .lwork]⟩),
    (.api API_FORTRAN, ⟨[], .call "hipsolverSgebrd_bufferSizeFortran"
      [.param .handle, .param .m, .param .n, .param .lwork]⟩)]
  dflt := ⟨[], .status HIPSOLVER_STATUS_NOT_SUPPORTED⟩

/-- The overload of `hipsolver_gebrd_bufferSize` at hipsolver.hpp 1385-1397 (`double* A`). -/
def hipsolver_gebrd_bufferSize_double : Wrapper where
  name := "hipsolver_gebrd_bufferSize"
  params := [(.testAPI_t, .API), (.hipsolverHandle_t, .handle), (.int, .m), (.int, .n),
    (.ptr .double, .A), (.int, .lda), (.ptr .int, .lwork)]
  pre := []
  scrutinee := .API
  cases := [
    (.api API_NORMAL, ⟨[], .call "hipsolverDgebrd_bufferSize"
      [.param .handle, .param .m, .param .n, .param .lwork]⟩),
    (.api API_FORTRAN, ⟨[], .call "hipsolverDgebrd_bufferSizeFortran"
      [.param .handle, .param .m, .param .n, .param .lwork]⟩)]
  dflt := ⟨[], .status HIPSOLVER_STATUS_NOT_SUPPORTED⟩

/-- The overload of `hipsolver_gebrd_bufferSize` at hipsolver.hpp 1399-1411 (`hipsolverComplex* A`). -/
def hipsolver_gebrd_bufferSize_hipsolverComplex : Wrapper where
  name := "hipsolver_gebrd_bufferSize"
  params := [(.testAPI_t, .API), (.hipsolverHandle_t, .handle), (.int, .m), (.int, .n),
    (.ptr .hipsolverComplex, .A), (.int, .lda), (.ptr .int, .lwork)]
  pre := []
  scrutinee := .API
  cases := [
    (.api API_NORMAL, ⟨[], .call "hipsolverCgebrd_bufferSize"
      [.param .handle, .param .m, .param .n, .param .lwork]⟩),
    (.api API_FORTRAN, ⟨[], .call "hipsolverCgebrd_bufferSizeFortran"
      [.param .handle, .param .m, .param .n, .param .lwork]⟩)]
  dflt := ⟨[], .status HIPSOLVER_STATUS_NOT_SUPPORTED⟩

/-- The overload of `hipsolver_gebrd_bufferSize` at hipsolver.hpp 1413-1430 (`hipsolverDoubleComplex* A`). -/
def hipsolver_gebrd_bufferSize_hipsolverDoubleComplex : Wrapper where
  name := "hipsolver_gebrd_bufferSize"
  params := [(.testAPI_t, .API), (.hipsolverHandle_t, .handle), (.int, .m), (.int, .n),
    (.ptr .hipsolverDoubleComplex, .A), (.int, .lda), (.ptr .int, .lwork)]
  pre := []
  scrutinee := .API
  cases := [
    (.api API_NORMAL, ⟨[], .call "hipsolverZgebrd_bufferSize"
      [.param .handle, .param .m, .param .n, .param .lwork]⟩),
    (.api API_FORTRAN, ⟨[], .call "hipsolverZgebrd_bufferSizeFortran"
      [.param .handle, .param .m, .param .n, .param .lwork]⟩)]
  dflt := ⟨[], .status HIPSOLVER_STATUS_NOT_SUPPORTED⟩

/-- The overload of `hipsolver_gebrd` at hipsolver.hpp 1432-1461 (`float* A`). -/
def hipsolver_gebrd_float : Wrapper where
  name := "hipsolver_gebrd"
  params := [(.testAPI_t, .API), (.hipsolverHandle_t, .handle), (.int, .m), (.int, .n),
    (.ptr .float, .A), (.int, .lda), (.int, .stA), (.ptr .float, .D), (.int, .stD),
    (.ptr .float, .E), (.int, .stE), (.ptr .float, .tauq), (.int, .stQ), (.ptr .float, .taup),
    (.int, .stP), (.ptr .float, .work), (.int, .lwork), (.ptr .int, .info), (.int, .bc)]
  pre := []
  scrutinee := .API
  cases := [
    (.api API_NORMAL, ⟨[], .call "hipsolverSgebrd"
      [.param .handle, .param .m, .param .n, .param .A, .param .lda, .param .D, .param .E,
       .param .tauq, .param .taup, .param .work, .param .lwork, .param .info]⟩),
    (.api API_FORTRAN, ⟨[], .call "hipsolverSgebrdFortran"
      [.param .handle, .param .m, .param .n, .param .A, .param .lda, .param .D, .param .E,
       .param .tauq, .param .taup, .param .work, .param .lwork, .param .info]⟩)]
  dflt := ⟨[], .status HIPSOLVER_STATUS_NOT_SUPPORTED⟩

/-- The overload of `hipsolver_gebrd` at hipsolver.hpp 1463-1492 (`double* A`). -/
def hipsolver_gebrd_double : Wrapper where
  name := "hipsolver_gebrd"
  params := [(.testAPI_t, .API), (.hipsolverHandle_t, .handle), (.int, .m), (.int, .n),
    (.ptr .double, .A), (.int, .lda), (.int, .stA), (.ptr .double, .D), (.int, .stD),
    (.ptr .double, .E), (.int, .stE), (.ptr .double, .tauq), (.int, .stQ), (.ptr .double, .taup),
    (.int, .stP), (.ptr .double, .work), (.int, .lwork), (.ptr .int, .info), (.int, .bc)]
  pre := []
  scrutinee := .API
  cases := [
    (.api API_NORMAL, ⟨[], .call "hipsolverDgebrd"
      [.param .handle, .param .m, .param .n, .param .A, .param .lda, .param .D, .param .E,
       .param .tauq, .param .taup, .param .work, .param .lwork, .param .info]⟩),
    (.api API_FORTRAN, ⟨[], .call "hipsolverDgebrdFortran"
      [.param .handle, .param .m, .param .n, .param .A, .param .lda, .param .D, .param .E,
       .param .tauq, .param .taup, .param .work, .param .lwork, .param .info]⟩)]
  dflt := ⟨[], .status HIPSOLVER_STATUS_NOT_SUPPORTED⟩

/-- The overload of `hipsolver_gebrd` at hipsolver.hpp 1494-1545 (`hipsolverComplex* A`). -/
def hipsolver_gebrd_hipsolverComplex : Wrapper where
  name := "hipsolver_gebrd"
  params := [(.testAPI_t, .API), (.hipsolverHandle_t, .handle), (.int, .m), (.int, .n),
    (.ptr .hipsolverComplex, .A), (.int, .lda), (.int, .stA), (.ptr .float, .D), (.int, .stD),
    (.ptr .float, .E), (.int, .stE), (.ptr .hipsolverComplex, .tauq), (.int, .stQ),
    (.ptr .hipsolverComplex, .taup), (.int, .stP), (.ptr .hipsolverComplex, .work), (.int, .lwork),
    (.ptr .int, .info), (.int, .bc)]
  pre := []
  scrutinee := .API
  cases := [
    (.api API_NORMAL, ⟨[], .call "hipsolverCgebrd"
      [.param .handle, .param .m, .param .n, .cast (.ptr .hipFloatComplex) .A, .param .lda,
       .param .D, .param .E, .cast (.ptr .hipFloatComplex) .tauq,
       .cast (.ptr .hipFloatComplex) .taup, .cast (.ptr .hipFloatComplex) .work, .param .lwork,
       .param .info]⟩),
    (.api API_FORTRAN, ⟨[], .call "hipsolverCgebrdFortran"
      [.param .handle, .param .m, .param .n, .cast (.ptr .hipFloatComplex) .A, .param .lda,
       .param .D, .param .E, .cast (.ptr .hipFloatComplex) .tauq,
       .cast (.ptr .hipFloatComplex) .taup, .cast (.ptr .hipFloatComplex) .work, .param .lwork,
       .param .info]⟩)]
  dflt := ⟨[], .status HIPSOLVER_STATUS_NOT_SUPPORTED⟩

/-- The overload of `hipsolver_gebrd` at hipsolver.hpp 1547-1598 (`hipsolverDoubleComplex* A`). -/
def hipsolver_gebrd_hipsolverDoubleComplex : Wrapper where
  name := "hipsolver_gebrd"
  params := [(.testAPI_t, .API), (.hipsolverHandle_t, .handle), (.int, .m), (.int, .n),
    (.ptr .hipsolverDoubleComplex, .A), (.int, .lda), (.int, .stA), (.ptr .double, .D),
    (.int, .stD), (.ptr .double, .E), (.int, .stE), (.ptr .hipsolverDoubleComplex, .tauq),
    (.int, .stQ), (.ptr .hipsolverDoubleComplex, .taup), (.int, .stP),
    (.ptr .hipsolverDoubleComplex, .work), (.int, .lwork), (.ptr .int, .info), (.int, .bc)]
  pre := []
  scrutinee := .API
  cases := [
    (.api API_NORMAL, ⟨[], .call "hipsolverZgebrd"
      [.param .handle, .param .m, .param .n, .cast (.ptr .hipDoubleComplex) .A, .param .lda,
       .param .D, .param .E, .cast (.ptr .hipDoubleComplex) .tauq,
       .cast (.ptr .hipDoubleComplex) .taup, .cast (.ptr .hipDoubleComplex) .work, .param .lwork,
       .param .info]⟩),
    (.api API_FORTRAN, ⟨[], .call "hipsolverZgebrdFortran"
      [.param .handle, .param .m, .param .n, .cast (.ptr .hipDoubleComplex) .A, .param .lda,
       .param .D, .param .E, .cast (.ptr .hipDoubleComplex) .tauq,
       .cast (.ptr .hipDoubleComplex) .taup, .cast (.ptr .hipDoubleComplex) .work, .param .lwork,
       .param .info]⟩)]
  dflt := ⟨[], .status HIPSOLVER_STATUS_NOT_SUPPORTED⟩

/-- The overload of `hipsolver_gels_bufferSize` at hipsolver.hpp 1603-1629 (`float* A`). -/
def hipsolver_gels_bufferSize_float : Wrapper where
  name := "hipsolver_gels_bufferSize"
  params := [(.testAPI_t, .API), (.hipsolverHandle_t, .handle), (.int, .m), (.int, .n),
    (.int, .nrhs), (.ptr .float, .A), (.int, .lda), (.ptr .float, .B), (.int, .ldb),
    (.ptr .float, .X), (.int, .ldx), (.ptr .size_t, .lwork)]
  pre := []
  scrutinee := .API
  cases := [
    (.api API_NORMAL, ⟨[], .call "hipsolverSSgels_bufferSize"
      [.param .handle, .param .m, .param .n, .param .nrhs, .param .A, .param .lda, .param .B,
       .param .ldb, .param .X, .param .ldx, .param .lwork]⟩),
    (.api API_FORTRAN, ⟨[], .call "hipsolverSSgels_bufferSizeFortran"
      [.param .handle, .param .m, .param .n, .param .nrhs, .param .A, .param .lda, .param .B,
       .param .ldb, .param .X, .param .ldx, .param .lwork]⟩),
    (.api API_COMPAT, ⟨[], .call "hipsolverDnSSgels_bufferSize"
      [.param .handle, .param .m, .param .n, .param .nrhs, .param .A, .param .lda, .param .B,
       .param .ldb, .param .X, .param .ldx, .nullptr, .param .lwork]⟩)]
  dflt := ⟨[.storeZero .lwork], .status HIPSOLVER_STATUS_NOT_SUPPORTED⟩

/-- The overload of `hipsolver_gels_bufferSize` at hipsolver.hpp 1631-1657 (`double* A`). -/
def hipsolver_gels_bufferSize_double : Wrapper where
  name := "hipsolver_gels_bufferSize"
  params := [(.testAPI_t, .API), (.hipsolverHandle_t, .handle), (.int, .m), (.int, .n),
    (.int, .nrhs), (.ptr .double, .A), (.int, .lda), (.ptr .double, .B), (.int, .ldb),
    (.ptr .double, .X), (.int, .ldx), (.ptr .size_t, .lwork)]
  pre := []
  scrutinee := .API
  cases := [
    (.api API_NORMAL, ⟨[], .call "hipsolverDDgels_bufferSize"
      [.param .handle, .param .m, .param .n, .param .nrhs, .param .A, .param .lda, .param .B,
       .param .ldb, .param .X, .param .ldx, .param .lwork]⟩),
    (.api API_FORTRAN, ⟨[], .call "hipsolverDDgels_bufferSizeFortran"
      [.param .handle, .param .m, .param .n, .param .nrhs, .param .A, .param .lda, .param .B,
       .param .ldb, .param .X, .param .ldx, .param .lwork]⟩),
    (.api API_COMPAT, ⟨[], .call "hipsolverDnDDgels_bufferSize"
      [.param .handle, .param .m, .param .n, .param .nrhs, .param .A, .param .lda, .param .B,
       .param .ldb, .param .X, .param .ldx, .nullptr, .param .lwork]⟩)]
  dflt := ⟨[.storeZero .lwork], .status HIPSOLVER_STATUS_NOT_SUPPORTED⟩

/-- The overload of `hipsolver_gels_bufferSize` at hipsolver.hpp 1659-1715 (`hipsolverComplex* A`). -/
def hipsolver_gels_bufferSize_hipsolverComplex : Wrapper where
  name := "hipsolver_gels_bufferSize"
  params := [(.testAPI_t, .API), (.hipsolverHandle_t, .handle), (.int, .m), (.int, .n),
    (.int, .nrhs), (.ptr .hipsolverComplex, .A), (.int, .lda), (.ptr .hipsolverComplex, .B),
    (.int, .ldb), (.ptr .hipsolverComplex, .X), (.int, .ldx), (.ptr .size_t, .lwork)]
  pre := []
  scrutinee := .API
  cases := [
    (.api API_NORMAL, ⟨[], .call "hipsolverCCgels_bufferSize"
      [.param .handle, .param .m, .param .n, .param .nrhs, .cast (.ptr .hipFloatComplex) .A,
       .param .lda, .cast (.ptr .hipFloatComplex) .B, .param .ldb, .cast (.ptr .hipFloatComplex) .X,
       .param .ldx, .param .lwork]⟩),
    (.api API_FORTRAN, ⟨[], .call "hipsolverCCgels_bufferSizeFortran"
      [.param .handle, .param .m, .param .n, .param .nrhs, .cast (.ptr .hipFloatComplex) .A,
       .param .lda, .cast (.ptr .hipFloatComplex) .B, .param .ldb, .cast (.ptr .hipFloatComplex) .X,
       .param .ldx, .param .lwork]⟩),
    (.api API_COMPAT, ⟨[], .call "hipsolverDnCCgels_bufferSize"
      [.param .handle, .param .m, .param .n, .param .nrhs, .cast (.ptr .hipFloatComplex) .A,
       .param .lda, .cast (.ptr .hipFloatComplex) .B, .param .ldb, .cast (.ptr .hipFloatComplex) .X,
       .param .ldx, .nullptr, .param .lwork]⟩)]
  dflt := ⟨[.storeZero .lwork], .status HIPSOLVER_STATUS_NOT_SUPPORTED⟩

/-- The overload of `hipsolver_gels_bufferSize` at hipsolver.hpp 1717-1773 (`hipsolverDoubleComplex* A`). -/
def hipsolver_gels_bufferSize_hipsolverDoubleComplex : Wrapper where
  name := "hipsolver_gels_bufferSize"
  params := [(.testAPI_t, .API), (.hipsolverHandle_t, .handle), (.int, .m), (.int, .n),
    (.int, .nrhs), (.ptr .hipsolverDoubleComplex, .A), (.int, .lda),
    (.ptr .hipsolverDoubleComplex, .B), (.int, .ldb), (.ptr .hipsolverDoubleComplex, .X),
    (.int, .ldx), (.ptr .size_t, .lwork)]
  pre := []
  scrutinee := .API
  cases := [
    (.api API_NORMAL, ⟨[], .call "hipsolverZZgels_bufferSize"
      [.param .handle, .param .m, .param .n, .param .nrhs, .cast (.ptr .hipDoubleComplex) .A,
       .param .lda, .cast (.ptr .hipDoubleComplex) .B, .param .ldb,
       .cast (.ptr .hipDoubleComplex) .X, .param .ldx, .param .lwork]⟩),
    (.api API_FORTRAN, ⟨[], .call "hipsolverZZgels_bufferSizeFortran"
      [.param .handle, .param .m, .param .n, .param .nrhs, .cast (.ptr .hipDoubleComplex) .A,
       .param .lda, .cast (.ptr .hipDoubleComplex) .B, .param .ldb,
       .cast (.ptr .hipDoubleComplex) .X, .param .ldx, .param .lwork]⟩),
    (.api API_COMPAT, ⟨[], .call "hipsolverDnZZgels_bufferSize"
      [.param .handle, .param .m, .param .n, .param .nrhs, .cast (.ptr .hipDoubleComplex) .A,
       .param .lda, .cast (.ptr .hipDoubleComplex) .B, .param .ldb,
       .cast (.ptr .hipDoubleComplex) .X, .param .ldx, .nullptr, .param .lwork]⟩)]
  dflt := ⟨[.storeZero .lwork], .status HIPSOLVER_STATUS_NOT_SUPPORTED⟩

/-- The overload of `hipsolver_gels` at hipsolver.hpp 1775-1813 (`float* A`). -/
def hipsolver_gels_float : Wrapper where
  name := "hipsolver_gels"
  params := [(.testAPI_t, .API), (.bool, .INPLACE), (.hipsolverHandle_t, .handle), (.int, .m),
    (.int, .n), (.int, .nrhs), (.ptr .float, .A), (.int, .lda), (.int, .stA), (.ptr .float, .B),
    (.int, .ldb), (.int, .stB), (.ptr .float, .X), (.int, .ldx), (.int, .stX), (.ptr .float, .work),
    (.size_t, .lwork), (.ptr .int, .niters), (.ptr .int, .info), (.int, .bc)]
  pre := []
  scrutinee := .marshal .INPLACE
  cases := [
    (.code C_NORMAL, ⟨[], .call "hipsolverSSgels"
      [.param .handle, .param .m, .param .n, .param .nrhs, .param .A, .param .lda, .param .B,
       .param .ldb, .param .X, .param .ldx, .param .work, .param .lwork, .param .niters,
       .param .info]⟩),
    (.code C_NORMAL_ALT, ⟨[], .call "hipsolverSSgels"
      [.param .handle, .param .m, .param .n, .param .nrhs, .param .A, .param .lda, .param .B,
       .param .ldb, .param .B, .param .ldb, .param .work, .param .lwork, .param .niters,
       .param .info]⟩),
    (.code FORTRAN_NORMAL, ⟨[], .call "hipsolverSSgelsFortran"
      [.param .handle, .param .m, .param .n, .param .nrhs, .param .A, .param .lda, .param .B,
       .param .ldb, .param .X, .param .ldx, .param .work, .param .lwork, .param .niters,
       .param .info]⟩),
    (.code COMPAT_NORMAL, ⟨[], .call "hipsolverDnSSgels"
      [.param .handle, .param .m, .param .n, .param .nrhs, .param .A, .param .lda, .param .B,
       .param .ldb, .param .X, .param .ldx, .param .work, .param .lwork, .param .niters,
       .param .info]⟩)]
  dflt := ⟨[], .status HIPSOLVER_STATUS_NOT_SUPPORTED⟩

/-- The overload of `hipsolver_gels` at hipsolver.hpp 1815-1853 (`double* A`). -/
def hipsolver_gels_double : Wrapper where
  name := "hipsolver_gels"
  params := [(.testAPI_t, .API), (.bool, .INPLACE), (.hipsolverHandle_t, .handle), (.int, .m),
    (.int, .n), (.int, .nrhs), (.ptr .double, .A), (.int, .lda), (.int, .stA), (.ptr .double, .B),
    (.int, .ldb), (.int, .stB), (.ptr .double, .X), (.int, .ldx), (.int, .stX),
    (.ptr .double, .work), (.size_t, .lwork), (.ptr .int, .niters), (.ptr .int, .info), (.int, .bc)]
  pre := []
  scrutinee := .marshal .INPLACE
  cases := [
    (.code C_NORMAL, ⟨[], .call "hipsolverDDgels"
      [.param .handle, .param .m, .param .n, .param .nrhs, .param .A, .param .lda, .param .B,
       .param .ldb, .param .X, .param .ldx, .param .work, .param .lwork, .param .niters,
       .param .info]⟩),
    (.code C_NORMAL_ALT, ⟨[], .call "hipsolverDDgels"
      [.param .handle, .param .m, .param .n, .param .nrhs, .param .A, .param .lda, .param .B,
       .param .ldb, .param .B, .param .ldb, .param .work, .param .lwork, .param .niters,
       .param .info]⟩),
    (.code FORTRAN_NORMAL, ⟨[], .call "hipsolverDDgelsFortran"
      [.param .handle, .param .m, .param .n, .param .nrhs, .param .A, .param .lda, .param .B,
       .param .ldb, .param .X, .param .ldx, .param .work, .param .lwork, .param .niters,
       .param .info]⟩),
    (.code COMPAT_NORMAL, ⟨[], .call "hipsolverDnDDgels"
      [.param .handle, .param .m, .param .n, .param .nrhs, .param .A, .param .lda, .param .B,
       .param .ldb, .param .X, .param .ldx, .param .work, .param .lwork, .param .niters,
       .param .info]⟩)]
  dflt := ⟨[], .status HIPSOLVER_STATUS_NOT_SUPPORTED⟩

/-- The overload of `hipsolver_gels` at hipsolver.hpp 1855-1941 (`hipsolverComplex* A`). -/
def hipsolver_gels_hipsolverComplex : Wrapper where
  name := "hipsolver_gels"
  params := [(.testAPI_t, .API), (.bool, .INPLACE), (.hipsolverHandle_t, .handle), (.int, .m),
    (.int, .n), (.int, .nrhs), (.ptr .hipsolverComplex, .A), (.int, .lda), (.int, .stA),
    (.ptr .hipsolverComplex, .B), (.int, .ldb), (.int, .stB), (.ptr .hipsolverComplex, .X),
    (.int, .ldx), (.int, .stX), (.ptr .hipsolverComplex, .work), (.size_t, .lwork),
    (.ptr .int, .niters), (.ptr .int, .info), (.int, .bc)]
  pre := []
  scrutinee := .marshal .INPLACE
  cases := [
    (.code C_NORMAL, ⟨[], .call "hipsolverCCgels"
      [.param .handle, .param .m, .param .n, .param .nrhs, .cast (.ptr .hipFloatComplex) .A,
       .param .lda, .cast (.ptr .hipFloatComplex) .B, .param .ldb, .cast (.ptr .hipFloatComplex) .X,
       .param .ldx, .param .work, .param .lwork, .param .niters, .param .info]⟩),
    (.code C_NORMAL_ALT, ⟨[], .call "hipsolverCCgels"
      [.param .handle, .param .m, .param .n, .param .nrhs, .cast (.ptr .hipFloatComplex) .A,
       .param .lda, .cast (.ptr .hipFloatComplex) .B, .param .ldb, .cast (.ptr .hipFloatComplex) .B,
       .param .ldb, .param .work, .param .lwork, .param .niters, .param .info]⟩),
    (.code FORTRAN_NORMAL, ⟨[], .call "hipsolverCCgelsFortran"
      [.param .handle, .param .m, .param .n, .param .nrhs, .cast (.ptr .hipFloatComplex) .A,
       .param .lda, .cast (.ptr .hipFloatComplex) .B, .param .ldb, .cast (.ptr .hipFloatComplex) .X,
       .param .ldx, .param .work, .param .lwork, .param .niters, .param .info]⟩),
    (.code COMPAT_NORMAL, ⟨[], .call "hipsolverDnCCgels"
      [.param .handle, .param .m, .param .n, .param .nrhs, .cast (.ptr .hipFloatComplex) .A,
       .param .lda, .cast (.ptr .hipFloatComplex) .B, .param .ldb, .cast (.ptr .hipFloatComplex) .X,
       .param .ldx, .param .work, .param .lwork, .param .niters, .param .info]⟩)]
  dflt := ⟨[], .status HIPSOLVER_STATUS_NOT_SUPPORTED⟩

/-- The overload of `hipsolver_gels` at hipsolver.hpp 1943-2029 (`hipsolverDoubleComplex* A`). -/
def hipsolver_gels_hipsolverDoubleComplex : Wrapper where
  name := "hipsolver_gels"
  params := [(.testAPI_t, .API), (.bool, .INPLACE), (.hipsolverHandle_t, .handle), (.int, .m),
    (.int, .n), (.int, .nrhs), (.ptr .hipsolverDoubleComplex, .A), (.int, .lda), (.int, .stA),
    (.ptr .hipsolverDoubleComplex, .B), (.int, .ldb), (.int, .stB),
    (.ptr .hipsolverDoubleComplex, .X), (.int, .ldx), (.int, .stX),
    (.ptr .hipsolverDoubleComplex, .work), (.size_t, .lwork), (.ptr .int, .niters),
    (.ptr .int, .info), (.int, .bc)]
  pre := []
  scrutinee := .marshal .INPLACE
  cases := [
    (.code C_NORMAL, ⟨[], .call "hipsolverZZgels"
      [.param .handle, .param .m, .param .n, .param .nrhs, .cast (.ptr .hipDoubleComplex) .A,
       .param .lda, .cast (.ptr .hipDoubleComplex) .B, .param .ldb,
       .cast (.ptr .hipDoubleComplex) .X, .param .ldx, .param .work, .param .lwork, .param .niters,
       .param .info]⟩),
    (.code C_NORMAL_ALT, ⟨[], .call "hipsolverZZgels"
      [.param .handle, .param .m, .param .n, .param .nrhs, .cast (.ptr .hipDoubleComplex) .A,
       .param .lda, .cast (.ptr .hipDoubleComplex) .B, .param .ldb,
       .cast (.ptr .hipDoubleComplex) .B, .param .ldb, .param .work, .param .lwork, .param .niters,
       .param .info]⟩),
    (.code FORTRAN_NORMAL, ⟨[], .call "hipsolverZZgelsFortran"
      [.param .handle, .param .m, .param .n, .param .nrhs, .cast (.ptr .hipDoubleComplex) .A,
       .param .lda, .cast (.ptr .hipDoubleComplex) .B, .param .ldb,
       .cast (.ptr .hipDoubleComplex) .X, .param .ldx, .param .work, .param .lwork, .param .niters,
       .param .info]⟩),
    (.code COMPAT_NORMAL, ⟨[], .call "hipsolverDnZZgels"
      [.param .handle, .param .m, .param .n, .param .nrhs, .cast (.ptr .hipDoubleComplex) .A,
       .param .lda, .cast (.ptr .hipDoubleComplex) .B, .param .ldb,
       .cast (.ptr .hipDoubleComplex) .X, .param .ldx, .param .work, .param .lwork, .param .niters,
       .param .info]⟩)]
  dflt := ⟨[], .status HIPSOLVER_STATUS_NOT_SUPPORTED⟩

/-- The overload of `hipsolver_geqrf_bufferSize` at hipsolver.hpp 2034-2058 (`float* A`). -/
def hipsolver_geqrf_bufferSize_float : Wrapper where
  name := "hipsolver_geqrf_bufferSize"
  params := [(.testAPI_t, .API), (.hipsolverHandle_t, .handle), (.hipsolverDnParams_t, .params),
    (.int, .m), (.int, .n), (.ptr .float, .A), (.int, .lda), (.ptr .float, .tau),
    (.ptr .int, .lworkOnDevice), (.ptr .int, .lworkOnHost)]
  pre := [.storeZero .lworkOnHost]
  scrutinee := .API
  cases := [
    (.api API_NORMAL, ⟨[], .call "hipsolverSgeqrf_bufferSize"
      [.param .handle, .param .m, .param .n, .param .A, .param .lda, .param .lworkOnDevice]⟩),
    (.api API_FORTRAN, ⟨[], .call "hipsolverSgeqrf_bufferSizeFortran"
      [.param .handle, .param .m, .param .n, .param .A, .param .lda, .param .lworkOnDevice]⟩),
    (.api API_COMPAT, ⟨[], .call "hipsolverDnSgeqrf_bufferSize"
      [.param .handle, .param .m, .param .n, .param .A, .param .lda, .param .lworkOnDevice]⟩)]
  dflt := ⟨[.storeZero .lworkOnDevice], .status HIPSOLVER_STATUS_NOT_SUPPORTED⟩

/-- The overload of `hipsolver_geqrf_bufferSize` at hipsolver.hpp 2060-2084 (`double* A`). -/
def hipsolver_geqrf_bufferSize_double : Wrapper where
  name := "hipsolver_geqrf_bufferSize"
  params := [(.testAPI_t, .API), (.hipsolverHandle_t, .handle), (.hipsolverDnParams_t, .params),
    (.int, .m), (.int, .n), (.ptr .double, .A), (.int, .lda), (.ptr .double, .tau),
    (.ptr .int, .lworkOnDevice), (.ptr .int, .lworkOnHost)]
  pre := [.storeZero .lworkOnHost]
  scrutinee := .API
  cases := [
    (.api API_NORMAL, ⟨[], .call "hipsolverDgeqrf_bufferSize"
      [.param .handle, .param .m, .param .n, .param .A, .param .lda, .param .lworkOnDevice]⟩),
    (.api API_FORTRAN, ⟨[], .call "hipsolverDgeqrf_bufferSizeFortran"
      [.param .handle, .param .m, .param .n, .param .A, .param .lda, .param .lworkOnDevice]⟩),
    (.api API_COMPAT, ⟨[], .call "hipsolverDnDgeqrf_bufferSize"
      [.param .handle, .param .m, .param .n, .param .A, .param .lda, .param .lworkOnDevice]⟩)]
  dflt := ⟨[.storeZero .lworkOnDevice], .status HIPSOLVER_STATUS_NOT_SUPPORTED⟩

/-- The overload of `hipsolver_geqrf_bufferSize` at hipsolver.hpp 2086-2111 (`hipsolverComplex* A`). -/
def hipsolver_geqrf_bufferSize_hipsolverComplex : Wrapper where
  name := "hipsolver_geqrf_bufferSize"
  params := [(.testAPI_t, .API), (.hipsolverHandle_t, .handle), (.hipsolverDnParams_t, .params),
    (.int, .m), (.int, .n), (.ptr .hipsolverComplex, .A), (.int, .lda),
    (.ptr .hipsolverComplex, .tau), (.ptr .int, .lworkOnDevice), (.ptr .int, .lworkOnHost)]
  pre := [.storeZero .lworkOnHost]
  scrutinee := .API
  cases := [
    (.api API_NORMAL, ⟨[], .call "hipsolverCgeqrf_bufferSize"
      [.param .handle, .param .m, .param .n, .cast (.ptr .hipFloatComplex) .A, .param .lda,
       .param .lworkOnDevice]⟩),
    (.api API_FORTRAN, ⟨[], .call "hipsolverCgeqrf_bufferSizeFortran"
      [.param .handle, .param .m, .param .n, .cast (.ptr .hipFloatComplex) .A, .param .lda,
       .param .lworkOnDevice]⟩),
    (.api API_COMPAT, ⟨[], .call "hipsolverDnCgeqrf_bufferSize"
      [.param .handle, .param .m, .param .n, .cast (.ptr .hipFloatComplex) .A, .param .lda,
       .param .lworkOnDevice]⟩)]
  dflt := ⟨[.storeZero .lworkOnDevice], .status HIPSOLVER_STATUS_NOT_SUPPORTED⟩

/-- The overload of `hipsolver_geqrf_bufferSize` at hipsolver.hpp 2113-2138 (`hipsolverDoubleComplex* A`). -/
def hipsolver_geqrf_bufferSize_hipsolverDoubleComplex : Wrapper where
  name := "hipsolver_geqrf_bufferSize"
  params := [(.testAPI_t, .API), (.hipsolverHandle_t, .handle), (.hipsolverDnParams_t, .params),
    (.int, .m), (.int, .n), (.ptr .hipsolverDoubleComplex, .A), (.int, .lda),
    (.ptr .hipsolverDoubleComplex, .tau), (.ptr .int, .lworkOnDevice), (.ptr .int, .lworkOnHost)]
  pre := [.storeZero .lworkOnHost]
  scrutinee := .API
  cases := [
    (.api API_NORMAL, ⟨[], .call "hipsolverZgeqrf_bufferSize"
      [.param .handle, .param .m, .param .n, .cast (.ptr .hipDoubleComplex) .A, .param .lda,
       .param .lworkOnDevice]⟩),
    (.api API_FORTRAN, ⟨[], .call "hipsolverZgeqrf_bufferSizeFortran"
      [.param .handle, .param .m, .param .n, .cast (.ptr .hipDoubleComplex) .A, .param .lda,
       .param .lworkOnDevice]⟩),
    (.api API_COMPAT, ⟨[], .call "hipsolverDnZgeqrf_bufferSize"
      [.param .handle, .param .m, .param .n, .cast (.ptr .hipDoubleComplex) .A, .param .lda,
       .param .lworkOnDevice]⟩)]
  dflt := ⟨[.storeZero .lworkOnDevice], .status HIPSOLVER_STATUS_NOT_SUPPORTED⟩

/-- The overload of `hipsolver_geqrf_bufferSize` at hipsolver.hpp 2140-2171 (`float* A`). -/
def hipsolver_geqrf_bufferSize_float_int64_t : Wrapper where
  name := "hipsolver_geqrf_bufferSize"
  params := [(.testAPI_t, .API), (.hipsolverHandle_t, .handle), (.hipsolverDnParams_t, .params),
    (.int64_t, .m), (.int64_t, .n), (.ptr .float, .A), (.int64_t, .lda), (.ptr .float, .tau),
    (.ptr .size_t, .lworkOnDevice), (.ptr .size_t, .lworkOnHost)]
  pre := []
  scrutinee := .API
  cases := [
    (.api API_COMPAT, ⟨[], .call "hipsolverDnXgeqrf_bufferSize"
      [.param .handle, .param .params, .param .m, .param .n, .tag .HIP_R_32F, .param .A,
       .param .lda, .tag .HIP_R_32F, .param .tau, .tag .HIP_R_32F, .param .lworkOnDevice,
       .param .lworkOnHost]⟩)]
  dflt := ⟨[.storeZero .lworkOnDevice, .storeZero .lworkOnHost], .status HIPSOLVER_STATUS_NOT_SUPPORTED⟩

/-- The overload of `hipsolver_geqrf_bufferSize` at hipsolver.hpp 2173-2204 (`double* A`). -/
def hipsolver_geqrf_bufferSize_double_int64_t : Wrapper where
  name := "hipsolver_geqrf_bufferSize"
  params := [(.testAPI_t, .API), (.hipsolverHandle_t, .handle), (.hipsolverDnParams_t, .params),
    (.int64_t, .m), (.int64_t, .n), (.ptr .double, .A), (.int64_t, .lda), (.ptr .double, .tau),
    (.ptr .size_t, .lworkOnDevice), (.ptr .size_t, .lworkOnHost)]
  pre := []
  scrutinee := .API
  cases := [
    (.api API_COMPAT, ⟨[], .call "hipsolverDnXgeqrf_bufferSize"
      [.param .handle, .param .params, .param .m, .param .n, .tag .HIP_R_64F, .param .A,
       .param .lda, .tag .HIP_R_64F, .param .tau, .tag .HIP_R_64F, .param .lworkOnDevice,
       .param .lworkOnHost]⟩)]
  dflt := ⟨[.storeZero .lworkOnDevice, .storeZero .lworkOnHost], .status HIPSOLVER_STATUS_NOT_SUPPORTED⟩

/-- The overload of `hipsolver_geqrf_bufferSize` at hipsolver.hpp 2206-2237 (`hipsolverComplex* A`). -/
def hipsolver_geqrf_bufferSize_hipsolverComplex_int64_t : Wrapper where
  name := "hipsolver_geqrf_bufferSize"
  params := [(.testAPI_t, .API), (.hipsolverHandle_t, .handle), (.hipsolverDnParams_t, .params),
    (.int64_t, .m), (.int64_t, .n), (.ptr .hipsolverComplex, .A), (.int64_t, .lda),
    (.ptr .hipsolverComplex, .tau), (.ptr .size_t, .lworkOnDevice), (.ptr .size_t, .lworkOnHost)]
  pre := []
  scrutinee := .API
  cases := [
    (.api API_COMPAT, ⟨[], .call "hipsolverDnXgeqrf_bufferSize"
      [.param .handle, .param .params, .param .m, .param .n, .tag .HIP_C_32F, .param .A,
       .param .lda, .tag .HIP_C_32F, .param .tau, .tag .HIP_C_32F, .param .lworkOnDevice,
       .param .lworkOnHost]⟩)]
  dflt := ⟨[.storeZero .lworkOnDevice, .storeZero .lworkOnHost], .status HIPSOLVER_STATUS_NOT_SUPPORTED⟩

/-- The overload of `hipsolver_geqrf_bufferSize` at hipsolver.hpp 2239-2270 (`hipsolverDoubleComplex* A`). -/
def hipsolver_geqrf_bufferSize_hipsolverDoubleComplex_int64_t : Wrapper where
  name := "hipsolver_geqrf_bufferSize"
  params := [(.testAPI_t, .API), (.hipsolverHandle_t, .handle), (.hipsolverDnParams_t, .params),
    (.int64_t, .m), (.int64_t, .n), (.ptr .hipsolverDoubleComplex, .A), (.int64_t, .lda),
    (.ptr .hipsolverDoubleComplex, .tau), (.ptr .size_t, .lworkOnDevice),
    (.ptr .size_t, .lworkOnHost)]
  pre := []
  scrutinee := .API
  cases := [
    (.api API_COMPAT, ⟨[], .call "hipsolverDnXgeqrf_bufferSize"
      [.param .handle, .param .params, .param .m, .param .n, .tag .HIP_C_64F, .param .A,
       .param .lda, .tag .HIP_C_64F, .param .tau, .tag .HIP_C_64F, .param .lworkOnDevice,
       .param .lworkOnHost]⟩)]
  dflt := ⟨[.storeZero .lworkOnDevice, .storeZero .lworkOnHost], .status HIPSOLVER_STATUS_NOT_SUPPORTED⟩

/-- The overload of `hipsolver_geqrf` at hipsolver.hpp 2272-2300 (`float* A`). -/
def hipsolver_geqrf_float : Wrapper where
  name := "hipsolver_geqrf"
  params := [(.testAPI_t, .API), (.hipsolverHandle_t, .handle), (.hipsolverDnParams_t, .params),
    (.int, .m), (.int, .n), (.ptr .float, .A), (.int, .lda), (.int, .stA), (.ptr .float, .tau),
    (.int, .stT), (.ptr .float, .workOnDevice), (.int, .lworkOnDevice), (.ptr .float, .workOnHost),
    (.int, .lworkOnHost), (.ptr .int, .info), (.int, .bc)]
  pre := []
  scrutinee := .API
  cases := [
    (.api API_NORMAL, ⟨[], .call "hipsolverSgeqrf"
      [.param .handle, .param .m, .param .n, .param .A, .param .lda, .param .tau,
       .param .workOnDevice, .param .lworkOnDevice, .param .info]⟩),
    (.api API_FORTRAN, ⟨[], .call "hipsolverSgeqrfFortran"
      [.param .handle, .param .m, .param .n, .param .A, .param .lda, .param .tau,
       .param .workOnDevice, .param .lworkOnDevice, .param .info]⟩),
    (.api API_COMPAT, ⟨[], .call "hipsolverDnSgeqrf"
      [.param .handle, .param .m, .param .n, .param .A, .param .lda, .param .tau,
       .param .workOnDevice, .param .lworkOnDevice, .param .info]⟩)]
  dflt := ⟨[], .status HIPSOLVER_STATUS_NOT_SUPPORTED⟩

/-- The overload of `hipsolver_geqrf` at hipsolver.hpp 2302-2330 (`double* A`). -/
def hipsolver_geqrf_double : Wrapper where
  name := "hipsolver_geqrf"
  params := [(.testAPI_t, .API), (.hipsolverHandle_t, .handle), (.hipsolverDnParams_t, .params),
    (.int, .m), (.int, .n), (.ptr .double, .A), (.int, .lda), (.int, .stA), (.ptr .double, .tau),
    (.int, .stT), (.ptr .double, .workOnDevice), (.int, .lworkOnDevice),
    (.ptr .double, .workOnHost), (.int, .lworkOnHost), (.ptr .int, .info), (.int, .bc)]
  pre := []
  scrutinee := .API
  cases := [
    (.api API_NORMAL, ⟨[], .call "hipsolverDgeqrf"
      [.param .handle, .param .m, .param .n, .param .A, .param .lda, .param .tau,
       .param .workOnDevice, .param .lworkOnDevice, .param .info]⟩),
    (.api API_FORTRAN, ⟨[], .call "hipsolverDgeqrfFortran"
      [.param .handle, .param .m, .param .n, .param .A, .param .lda, .param .tau,
       .param .workOnDevice, .param .lworkOnDevice, .param .info]⟩),
    (.api API_COMPAT, ⟨[], .call "hipsolverDnDgeqrf"
      [.param .handle, .param .m, .param .n, .param .A, .param .lda, .param .tau,
       .param .workOnDevice, .param .lworkOnDevice, .param .info]⟩)]
  dflt := ⟨[], .status HIPSOLVER_STATUS_NOT_SUPPORTED⟩

/-- The overload of `hipsolver_geqrf` at hipsolver.hpp 2332-2384 (`hipsolverComplex* A`). -/
def hipsolver_geqrf_hipsolverComplex : Wrapper where
  name := "hipsolver_geqrf"
  params := [(.testAPI_t, .API), (.hipsolverHandle_t, .handle), (.hipsolverDnParams_t, .params),
    (.int, .m), (.int, .n), (.ptr .hipsolverComplex, .A), (.int, .lda), (.int, .stA),
    (.ptr .hipsolverComplex, .tau), (.int, .stT), (.ptr .hipsolverComplex, .workOnDevice),
    (.int, .lworkOnDevice), (.ptr .hipsolverComplex, .workOnHost), (.int, .lworkOnHost),
    (.ptr .int, .info), (.int, .bc)]
  pre := []
  scrutinee := .API
  cases := [
    (.api API_NORMAL, ⟨[], .call "hipsolverCgeqrf"
      [.param .handle, .param .m, .param .n, .cast (.ptr .hipFloatComplex) .A, .param .lda,
       .cast (.ptr .hipFloatComplex) .tau, .cast (.ptr .hipFloatComplex) .workOnDevice,
       .param .lworkOnDevice, .param .info]⟩),
    (.api API_FORTRAN, ⟨[], .call "hipsolverCgeqrfFortran"
      [.param .handle, .param .m, .param .n, .cast (.ptr .hipFloatComplex) .A, .param .lda,
       .cast (.ptr .hipFloatComplex) .tau, .cast (.ptr .hipFloatComplex) .workOnDevice,
       .param .lworkOnDevice, .param .info]⟩),
    (.api API_COMPAT, ⟨[], .call "hipsolverDnCgeqrf"
      [.param .handle, .param .m, .param .n, .cast (.ptr .hipFloatComplex) .A, .param .lda,
       .cast (.ptr .hipFloatComplex) .tau, .cast (.ptr .hipFloatComplex) .workOnDevice,
       .param .lworkOnDevice, .param .info]⟩)]
  dflt := ⟨[], .status HIPSOLVER_STATUS_NOT_SUPPORTED⟩

/-- The overload of `hipsolver_geqrf` at hipsolver.hpp 2386-2438 (`hipsolverDoubleComplex* A`). -/
def hipsolver_geqrf_hipsolverDoubleComplex : Wrapper where
  name := "hipsolver_geqrf"
  params := [(.testAPI_t, .API), (.hipsolverHandle_t, .handle), (.hipsolverDnParams_t, .params),
    (.int, .m), (.int, .n), (.ptr .hipsolverDoubleComplex, .A), (.int, .lda), (.int, .stA),
    (.ptr .hipsolverDoubleComplex, .tau), (.int, .stT),
    (.ptr .hipsolverDoubleComplex, .workOnDevice), (.int, .lworkOnDevice),
    (.ptr .hipsolverDoubleComplex, .workOnHost), (.int, .lworkOnHost), (.ptr .int, .info),
    (.int, .bc)]
  pre := []
  scrutinee := .API
  cases := [
    (.api API_NORMAL, ⟨[], .call "hipsolverZgeqrf"
      [.param .handle, .param .m, .param .n, .cast (.ptr .hipDoubleComplex) .A, .param .lda,
       .cast (.ptr .hipDoubleComplex) .tau, .cast (.ptr .hipDoubleComplex) .workOnDevice,
       .param .lworkOnDevice, .param .info]⟩),
    (.api API_FORTRAN, ⟨[], .call "hipsolverZgeqrfFortran"
      [.param .handle, .param .m, .param .n, .cast (.ptr .hipDoubleComplex) .A, .param .lda,
       .cast (.ptr .hipDoubleComplex) .tau, .cast (.ptr .hipDoubleComplex) .workOnDevice,
       .param .lworkOnDevice, .param .info]⟩),
    (.api API_COMPAT, ⟨[], .call "hipsolverDnZgeqrf"
      [.param .handle, .param .m, .param .n, .cast (.ptr .hipDoubleComplex) .A, .param .lda,
       .cast (.ptr .hipDoubleComplex) .tau, .cast (.ptr .hipDoubleComplex) .workOnDevice,
       .param .lworkOnDevice, .param .info]⟩)]
  dflt := ⟨[], .status HIPSOLVER_STATUS_NOT_SUPPORTED⟩

/-- The overload of `hipsolver_geqrf` at hipsolver.hpp 2440-2478 (`float* A`). -/
def hipsolver_geqrf_float_int64_t : Wrapper where
  name := "hipsolver_geqrf"
  params := [(.testAPI_t, .API), (.hipsolverHandle_t, .handle), (.hipsolverDnParams_t, .params),
    (.int64_t, .m), (.int64_t, .n), (.ptr .float, .A), (.int64_t, .lda), (.int64_t, .stA),
    (.ptr .float, .tau), (.int64_t, .stT), (.ptr .float, .workOnDevice), (.size_t, .lworkOnDevice),
    (.ptr .float, .workOnHost), (.size_t, .lworkOnHost), (.ptr .int, .info), (.int, .bc)]
  pre := []
  scrutinee := .API
  cases := [
    (.api API_COMPAT, ⟨[], .call "hipsolverDnXgeqrf"
      [.param .handle, .param .params, .param .m, .param .n, .tag .HIP_R_32F, .param .A,
       .param .lda, .tag .HIP_R_32F, .param .tau, .tag .HIP_R_32F, .param .workOnDevice,
       .param .lworkOnDevice, .param .workOnHost, .param .lworkOnHost, .param .info]⟩)]
  dflt := ⟨[], .status HIPSOLVER_STATUS_NOT_SUPPORTED⟩

/-- The overload of `hipsolver_geqrf` at hipsolver.hpp 2480-2518 (`double* A`). -/
def hipsolver_geqrf_double_int64_t : Wrapper where
  name := "hipsolver_geqrf"
  params := [(.testAPI_t, .API), (.hipsolverHandle_t, .handle), (.hipsolverDnParams_t, .params),
    (.int64_t, .m), (.int64_t, .n), (.ptr .double, .A), (.int64_t, .lda), (.int64_t, .stA),
    (.ptr .double, .tau), (.int64_t, .stT), (.ptr .double, .workOnDevice),
    (.size_t, .lworkOnDevice), (.ptr .double, .workOnHost), (.size_t, .lworkOnHost),
    (.ptr .int, .info), (.int, .bc)]
  pre := []
  scrutinee := .API
  cases := [
    (.api API_COMPAT, ⟨[], .call "hipsolverDnXgeqrf"
      [.param .handle, .param .params, .param .m, .param .n, .tag .HIP_R_64F, .param .A,
       .param .lda, .tag .HIP_R_64F, .param .tau, .tag .HIP_R_64F, .param .workOnDevice,
       .param .lworkOnDevice, .param .workOnHost, .param .lworkOnHost, .param .info]⟩)]
  dflt := ⟨[], .status HIPSOLVER_STATUS_NOT_SUPPORTED⟩

/-- The overload of `hipsolver_geqrf` at hipsolver.hpp 2520-2558 (`hipsolverComplex* A`). -/
def hipsolver_geqrf_hipsolverComplex_int64_t : Wrapper where
  name := "hipsolver_geqrf"
  params := [(.testAPI_t, .API), (.hipsolverHandle_t, .handle), (.hipsolverDnParams_t, .params),
    (.int64_t, .m), (.int64_t, .n), (.ptr .hipsolverComplex, .A), (.int64_t, .lda),
    (.int64_t, .stA), (.ptr .hipsolverComplex, .tau), (.int64_t, .stT),
    (.ptr .hipsolverComplex, .workOnDevice), (.size_t, .lworkOnDevice),
    (.ptr .hipsolverComplex, .workOnHost), (.size_t, .lworkOnHost), (.ptr .int, .info), (.int, .bc)]
  pre := []
  scrutinee := .API
  cases := [
    (.api API_COMPAT, ⟨[], .call "hipsolverDnXgeqrf"
      [.param .handle, .param .params, .param .m, .param .n, .tag .HIP_C_32F, .param .A,
       .param .lda, .tag .HIP_C_32F, .param .tau, .tag .HIP_C_32F, .param .workOnDevice,
       .param .lworkOnDevice, .param .workOnHost, .param .lworkOnHost, .param .info]⟩)]
  dflt := ⟨[], .status HIPSOLVER_STATUS_NOT_SUPPORTED⟩

/-- The overload of `hipsolver_geqrf` at hipsolver.hpp 2560-2598 (`hipsolverDoubleComplex* A`). -/
def hipsolver_geqrf_hipsolverDoubleComplex_int64_t : Wrapper where
  name := "hipsolver_geqrf"
  params := [(.testAPI_t, .API), (.hipsolverHandle_t, .handle), (.hipsolverDnParams_t, .params),
    (.int64_t, .m), (.int64_t, .n), (.ptr .hipsolverDoubleComplex, .A), (.int64_t, .lda),
    (.int64_t, .stA), (.ptr .hipsolverDoubleComplex, .tau), (.int64_t, .stT),
    (.ptr .hipsolverDoubleComplex, .workOnDevice), (.size_t, .lworkOnDevice),
    (.ptr .hipsolverDoubleComplex, .workOnHost), (.size_t, .lworkOnHost), (.ptr .int, .info),
    (.int, .bc)]
  pre := []
  scrutinee := .API
  cases := [
    (.api API_COMPAT, ⟨[], .call "hipsolverDnXgeqrf"
      [.param .handle, .param .params, .param .m, .param .n, .tag .HIP_C_64F, .param .A,
       .param .lda, .tag .HIP_C_64F, .param .tau, .tag .HIP_C_64F, .param .workOnDevice,
       .param .lworkOnDevice, .param .workOnHost, .param .lworkOnHost, .param .info]⟩)]
  dflt := ⟨[], .status HIPSOLVER_STATUS_NOT_SUPPORTED⟩

/-- The overload of `hipsolver_gesv_bufferSize` at hipsolver.hpp 2603-2630 (`float* A`). -/
def hipsolver_gesv_bufferSize_float : Wrapper where
  name := "hipsolver_gesv_bufferSize"
  params := [(.testAPI_t, .API), (.hipsolverHandle_t, .handle), (.int, .n), (.int, .nrhs),
    (.ptr .float, .A), (.int, .lda), (.ptr .int, .ipiv), (.ptr .float, .B), (.int, .ldb),
    (.ptr .float, .X), (.int, .ldx), (.ptr .size_t, .lwork)]
  pre := []
  scrutinee := .API
  cases := [
    (.api API_NORMAL, ⟨[], .call "hipsolverSSgesv_bufferSize"
      [.param .handle, .param .n, .param .nrhs, .param .A, .param .lda, .param .ipiv, .param .B,
       .param .ldb, .param .X, .param .ldx, .param .lwork]⟩),
    (.api API_FORTRAN, ⟨[], .call "hipsolverSSgesv_bufferSizeFortran"
      [.param .handle, .param .n, .param .nrhs, .param .A, .param .lda, .param .ipiv, .param .B,
       .param .ldb, .param .X, .param .ldx, .param .lwork]⟩),
    (.api API_COMPAT, ⟨[], .call "hipsolverDnSSgesv_bufferSize"
      [.param .handle, .param .n, .param .nrhs, .param .A, .param .lda, .param .ipiv, .param .B,
       .param .ldb, .param .X, .param .ldx, .nullptr, .param .lwork]⟩)]
  dflt := ⟨[.deref .lwork], .status HIPSOLVER_STATUS_NOT_SUPPORTED⟩

/-- The overload of `hipsolver_gesv_bufferSize` at hipsolver.hpp 2632-2659 (`double* A`). -/
def hipsolver_gesv_bufferSize_double : Wrapper where
  name := "hipsolver_gesv_bufferSize"
  params := [(.testAPI_t, .API), (.hipsolverHandle_t, .handle), (.int, .n), (.int, .nrhs),
    (.ptr .double, .A), (.int, .lda), (.ptr .int, .ipiv), (.ptr .double, .B), (.int, .ldb),
    (.ptr .double, .X), (.int, .ldx), (.ptr .size_t, .lwork)]
  pre := []
  scrutinee := .API
  cases := [
    (.api API_NORMAL, ⟨[], .call "hipsolverDDgesv_bufferSize"
      [.param .handle, .param .n, .param .nrhs, .param .A, .param .lda, .param .ipiv, .param .B,
       .param .ldb, .param .X, .param .ldx, .param .lwork]⟩),
    (.api API_FORTRAN, ⟨[], .call "hipsolverDDgesv_bufferSizeFortran"
      [.param .handle, .param .n, .param .nrhs, .param .A, .param .lda, .param .ipiv, .param .B,
       .param .ldb, .param .X, .param .ldx, .param .lwork]⟩),
    (.api API_COMPAT, ⟨[], .call "hipsolverDnDDgesv_bufferSize"
      [.param .handle, .param .n, .param .nrhs, .param .A, .param .lda, .param .ipiv, .param .B,
       .param .ldb, .param .X, .param .ldx, .nullptr, .param .lwork]⟩)]
  dflt := ⟨[.deref .lwork], .status HIPSOLVER_STATUS_NOT_SUPPORTED⟩

/-- The overload of `hipsolver_gesv_bufferSize` at hipsolver.hpp 2661-2717 (`hipsolverComplex* A`). -/
def hipsolver_gesv_bufferSize_hipsolverComplex : Wrapper where
  name := "hipsolver_gesv_bufferSize"
  params := [(.testAPI_t, .API), (.hipsolverHandle_t, .handle), (.int, .n), (.int, .nrhs),
    (.ptr .hipsolverComplex, .A), (.int, .lda), (.ptr .int, .ipiv), (.ptr .hipsolverComplex, .B),
    (.int, .ldb), (.ptr .hipsolverComplex, .X), (.int, .ldx), (.ptr .size_t, .lwork)]
  pre := []
  scrutinee := .API
  cases := [
    (.api API_NORMAL, ⟨[], .call "hipsolverCCgesv_bufferSize"
      [.param .handle, .param .n, .param .nrhs, .cast (.ptr .hipFloatComplex) .A, .param .lda,
       .param .ipiv, .cast (.ptr .hipFloatComplex) .B, .param .ldb,
       .cast (.ptr .hipFloatComplex) .X, .param .ldx, .param .lwork]⟩),
    (.api API_FORTRAN, ⟨[], .call "hipsolverCCgesv_bufferSizeFortran"
      [.param .handle, .param .n, .param .nrhs, .cast (.ptr .hipFloatComplex) .A, .param .lda,
       .param .ipiv, .cast (.ptr .hipFloatComplex) .B, .param .ldb,
       .cast (.ptr .hipFloatComplex) .X, .param .ldx, .param .lwork]⟩),
    (.api API_COMPAT, ⟨[], .call "hipsolverDnCCgesv_bufferSize"
      [.param .handle, .param .n, .param .nrhs, .cast (.ptr .hipFloatComplex) .A, .param .lda,
       .param .ipiv, .cast (.ptr .hipFloatComplex) .B, .param .ldb,
       .cast (.ptr .hipFloatComplex) .X, .param .ldx, .nullptr, .param .lwork]⟩)]
  dflt := ⟨[.deref .lwork], .status HIPSOLVER_STATUS_NOT_SUPPORTED⟩

/-- The overload of `hipsolver_gesv_bufferSize` at hipsolver.hpp 2719-2775 (`hipsolverDoubleComplex* A`). -/
def hipsolver_gesv_bufferSize_hipsolverDoubleComplex : Wrapper where
  name := "hipsolver_gesv_bufferSize"
  params := [(.testAPI_t, .API), (.hipsolverHandle_t, .handle), (.int, .n), (.int, .nrhs),
    (.ptr .hipsolverDoubleComplex, .A), (.int, .lda), (.ptr .int, .ipiv),
    (.ptr .hipsolverDoubleComplex, .B), (.int, .ldb), (.ptr .hipsolverDoubleComplex, .X),
    (.int, .ldx), (.ptr .size_t, .lwork)]
  pre := []
  scrutinee := .API
  cases := [
    (.api API_NORMAL, ⟨[], .call "hipsolverZZgesv_bufferSize"
      [.param .handle, .param .n, .param .nrhs, .cast (.ptr .hipDoubleComplex) .A, .param .lda,
       .param .ipiv, .cast (.ptr .hipDoubleComplex) .B, .param .ldb,
       .cast (.ptr .hipDoubleComplex) .X, .param .ldx, .param .lwork]⟩),
    (.api API_FORTRAN, ⟨[], .call "hipsolverZZgesv_bufferSizeFortran"
      [.param .handle, .param .n, .param .nrhs, .cast (.ptr .hipDoubleComplex) .A, .param .lda,
       .param .ipiv, .cast (.ptr .hipDoubleComplex) .B, .param .ldb,
       .cast (.ptr .hipDoubleComplex) .X, .param .ldx, .param .lwork]⟩),
    (.api API_COMPAT, ⟨[], .call "hipsolverDnZZgesv_bufferSize"
      [.param .handle, .param .n, .param .nrhs, .cast (.ptr .hipDoubleComplex) .A, .param .lda,
       .param .ipiv, .cast (.ptr .hipDoubleComplex) .B, .param .ldb,
       .cast (.ptr .hipDoubleComplex) .X, .param .ldx, .nullptr, .param .lwork]⟩)]
  dflt := ⟨[.deref .lwork], .status HIPSOLVER_STATUS_NOT_SUPPORTED⟩

/-- The overload of `hipsolver_gesv` at hipsolver.hpp 2777-2816 (`float* A`). -/
def hipsolver_gesv_float : Wrapper where
  name := "hipsolver_gesv"
  params := [(.testAPI_t, .API), (.bool, .INPLACE), (.hipsolverHandle_t, .handle), (.int, .n),
    (.int, .nrhs), (.ptr .float, .A), (.int, .lda), (.int, .stA), (.ptr .int, .ipiv), (.int, .stP),
    (.ptr .float, .B), (.int, .ldb), (.int, .stB), (.ptr .float, .X), (.int, .ldx), (.int, .stX),
    (.ptr .float, .work), (.size_t, .lwork), (.ptr .int, .niters), (.ptr .int, .info), (.int, .bc)]
  pre := []
  scrutinee := .marshal .INPLACE
  cases := [
    (.code C_NORMAL, ⟨[], .call "hipsolverSSgesv"
      [.param .handle, .param .n, .param .nrhs, .param .A, .param .lda, .param .ipiv, .param .B,
       .param .ldb, .param .X, .param .ldx, .param .work, .param .lwork, .param .niters,
       .param .info]⟩),
    (.code C_NORMAL_ALT, ⟨[], .call "hipsolverSSgesv"
      [.param .handle, .param .n, .param .nrhs, .param .A, .param .lda, .param .ipiv, .param .B,
       .param .ldb, .param .B, .param .ldb, .param .work, .param .lwork, .param .niters,
       .param .info]⟩),
    (.code FORTRAN_NORMAL, ⟨[], .call "hipsolverSSgesvFortran"
      [.param .handle, .param .n, .param .nrhs, .param .A, .param .lda, .param .ipiv, .param .B,
       .param .ldb, .param .X, .param .ldx, .param .work, .param .lwork, .param .niters,
       .param .info]⟩),
    (.code COMPAT_NORMAL, ⟨[], .call "hipsolverDnSSgesv"
      [.param .handle, .param .n, .param .nrhs, .param .A, .param .lda, .param .ipiv, .param .B,
       .param .ldb, .param .X, .param .ldx, .param .work, .param .lwork, .param .niters,
       .param .info]⟩)]
  dflt := ⟨[], .status HIPSOLVER_STATUS_NOT_SUPPORTED⟩

/-- The overload of `hipsolver_gesv` at hipsolver.hpp 2818-2857 (`double* A`). -/
def hipsolver_gesv_double : Wrapper where
  name := "hipsolver_gesv"
  params := [(.testAPI_t, .API), (.bool, .INPLACE), (.hipsolverHandle_t, .handle), (.int, .n),
    (.int, .nrhs), (.ptr .double, .A), (.int, .lda), (.int, .stA), (.ptr .int, .ipiv), (.int, .stP),
    (.ptr .double, .B), (.int, .ldb), (.int, .stB), (.ptr .double, .X), (.int, .ldx), (.int, .stX),
    (.ptr .double, .work), (.size_t, .lwork), (.ptr .int, .niters), (.ptr .int, .info), (.int, .bc)]
  pre := []
  scrutinee := .marshal .INPLACE
  cases := [
    (.code C_NORMAL, ⟨[], .call "hipsolverDDgesv"
      [.param .handle, .param .n, .param .nrhs, .param .A, .param .lda, .param .ipiv, .param .B,
       .param .ldb, .param .X, .param .ldx, .param .work, .param .lwork, .param .niters,
       .param .info]⟩),
    (.code C_NORMAL_ALT, ⟨[], .call "hipsolverDDgesv"
      [.param .handle, .param .n, .param .nrhs, .param .A, .param .lda, .param .ipiv, .param .B,
       .param .ldb, .param .B, .param .ldb, .param .work, .param .lwork, .param .niters,
       .param .info]⟩),
    (.code FORTRAN_NORMAL, ⟨[], .call "hipsolverDDgesvFortran"
      [.param .handle, .param .n, .param .nrhs, .param .A, .param .lda, .param .ipiv, .param .B,
       .param .ldb, .param .X, .param .ldx, .param .work, .param .lwork, .param .niters,
       .param .info]⟩),
    (.code COMPAT_NORMAL, ⟨[], .call "hipsolverDnDDgesv"
      [.param .handle, .param .n, .param .nrhs, .param .A, .param .lda, .param .ipiv, .param .B,
       .param .ldb, .param .X, .param .ldx, .param .work, .param .lwork, .param .niters,
       .param .info]⟩)]
  dflt := ⟨[], .status HIPSOLVER_STATUS_NOT_SUPPORTED⟩

/-- The overload of `hipsolver_gesv` at hipsolver.hpp 2859-2946 (`hipsolverComplex* A`). -/
def hipsolver_gesv_hipsolverComplex : Wrapper where
  name := "hipsolver_gesv"
  params := [(.testAPI_t, .API), (.bool, .INPLACE), (.hipsolverHandle_t, .handle), (.int, .n),
    (.int, .nrhs), (.ptr .hipsolverComplex, .A), (.int, .lda), (.int, .stA), (.ptr .int, .ipiv),
    (.int, .stP), (.ptr .hipsolverComplex, .B), (.int, .ldb), (.int, .stB),
    (.ptr .hipsolverComplex, .X), (.int, .ldx), (.int, .stX), (.ptr .hipsolverComplex, .work),
    (.size_t, .lwork), (.ptr .int, .niters), (.ptr .int, .info), (.int, .bc)]
  pre := []
  scrutinee := .marshal .INPLACE
  cases := [
    (.code C_NORMAL, ⟨[], .call "hipsolverCCgesv"
      [.param .handle, .param .n, .param .nrhs, .cast (.ptr .hipFloatComplex) .A, .param .lda,
       .param .ipiv, .cast (.ptr .hipFloatComplex) .B, .param .ldb,
       .cast (.ptr .hipFloatComplex) .X, .param .ldx, .param .work, .param .lwork, .param .niters,
       .param .info]⟩),
    (.code C_NORMAL_ALT, ⟨[], .call "hipsolverCCgesv"
      [.param .handle, .param .n, .param .nrhs, .cast (.ptr .hipFloatComplex) .A, .param .lda,
       .param .ipiv, .cast (.ptr .hipFloatComplex) .B, .param .ldb,
       .cast (.ptr .hipFloatComplex) .B, .param .ldb, .param .work, .param .lwork, .param .niters,
       .param .info]⟩),
    (.code FORTRAN_NORMAL, ⟨[], .call "hipsolverCCgesvFortran"
      [.param .handle, .param .n, .param .nrhs, .cast (.ptr .hipFloatComplex) .A, .param .lda,
       .param .ipiv, .cast (.ptr .hipFloatComplex) .B, .param .ldb,
       .cast (.ptr .hipFloatComplex) .X, .param .ldx, .param .work, .param .lwork, .param .niters,
       .param .info]⟩),
    (.code COMPAT_NORMAL, ⟨[], .call "hipsolverDnCCgesv"
      [.param .handle, .param .n, .param .nrhs, .cast (.ptr .hipFloatComplex) .A, .param .lda,
       .param .ipiv, .cast (.ptr .hipFloatComplex) .B, .param .ldb,
       .cast (.ptr .hipFloatComplex) .X, .param .ldx, .param .work, .param .lwork, .param .niters,
       .param .info]⟩)]
  dflt := ⟨[], .status HIPSOLVER_STATUS_NOT_SUPPORTED⟩

/-- The overload of `hipsolver_gesv` at hipsolver.hpp 2948-3035 (`hipsolverDoubleComplex* A`). -/
def hipsolver_gesv_hipsolverDoubleComplex : Wrapper where
  name := "hipsolver_gesv"
  params := [(.testAPI_t, .API), (.bool, .INPLACE), (.hipsolverHandle_t, .handle), (.int, .n),
    (.int, .nrhs), (.ptr .hipsolverDoubleComplex, .A), (.int, .lda), (.int, .stA),
    (.ptr .int, .ipiv), (.int, .stP), (.ptr .hipsolverDoubleComplex, .B), (.int, .ldb),
    (.int, .stB), (.ptr .hipsolverDoubleComplex, .X), (.int, .ldx), (.int, .stX),
    (.ptr .hipsolverDoubleComplex, .work), (.size_t, .lwork), (.ptr .int, .niters),
    (.ptr .int, .info), (.int, .bc)]
  pre := []
  scrutinee := .marshal .INPLACE
  cases := [
    (.code C_NORMAL, ⟨[], .call "hipsolverZZgesv"
      [.param .handle, .param .n, .param .nrhs, .cast (.ptr .hipDoubleComplex) .A, .param .lda,
       .param .ipiv, .cast (.ptr .hipDoubleComplex) .B, .param .ldb,
       .cast (.ptr .hipDoubleComplex) .X, .param .ldx, .param .work, .param .lwork, .param .niters,
       .param .info]⟩),
    (.code C_NORMAL_ALT, ⟨[], .call "hipsolverZZgesv"
      [.param .handle, .param .n, .param .nrhs, .cast (.ptr .hipDoubleComplex) .A, .param .lda,
       .param .ipiv, .cast (.ptr .hipDoubleComplex) .B, .param .ldb,
       .cast (.ptr .hipDoubleComplex) .B, .param .ldb, .param .work, .param .lwork, .param .niters,
       .param .info]⟩),
    (.code FORTRAN_NORMAL, ⟨[], .call "hipsolverZZgesvFortran"
      [.param .handle, .param .n, .param .nrhs, .cast (.ptr .hipDoubleComplex) .A, .param .lda,
       .param .ipiv, .cast (.ptr .hipDoubleComplex) .B, .param .ldb,
       .cast (.ptr .hipDoubleComplex) .X, .param .ldx, .param .work, .param .lwork, .param .niters,
       .param .info]⟩),
    (.code COMPAT_NORMAL, ⟨[], .call "hipsolverDnZZgesv"
      [.param .handle, .param .n, .param .nrhs, .cast (.ptr .hipDoubleComplex) .A, .param .lda,
       .param .ipiv, .cast (.ptr .hipDoubleComplex) .B, .param .ldb,
       .cast (.ptr .hipDoubleComplex) .X, .param .ldx, .param .work, .param .lwork, .param .niters,
       .param .info]⟩)]
  dflt := ⟨[], .status HIPSOLVER_STATUS_NOT_SUPPORTED⟩

/-- The overload of `hipsolver_gesvd_bufferSize` at hipsolver.hpp 3040-3062 (`float* A`). -/
def hipsolver_gesvd_bufferSize_float : Wrapper where
  name := "hipsolver_gesvd_bufferSize"
  params := [(.testAPI_t, .API), (.hipsolverHandle_t, .handle), (.signed_char, .jobu),
    (.signed_char, .jobv), (.int, .m), (.int, .n), (.ptr .float, .A), (.int, .lda),
    (.ptr .int, .lwork)]
  pre := []
  scrutinee := .API
  cases := [
    (.api API_NORMAL, ⟨[], .call "hipsolverSgesvd_bufferSize"
      [.param .handle, .param .jobu, .param .jobv, .param .m, .param .n, .param .lwork]⟩),
    (.api API_FORTRAN, ⟨[], .call "hipsolverSgesvd_bufferSizeFortran"
      [.param .handle, .param .jobu, .param .jobv, .param .m, .param .n, .param .lwork]⟩),
    (.api API_COMPAT, ⟨[], .call "hipsolverDnSgesvd_bufferSize"
      [.param .handle, .param .m, .param .n, .param .lwork]⟩)]
  dflt := ⟨[.storeZero .lwork], .status HIPSOLVER_STATUS_NOT_SUPPORTED⟩

/-- The overload of `hipsolver_gesvd_bufferSize` at hipsolver.hpp 3064-3086 (`double* A`). -/
def hipsolver_gesvd_bufferSize_double : Wrapper where
  name := "hipsolver_gesvd_bufferSize"
  params := [(.testAPI_t, .API), (.hipsolverHandle_t, .handle), (.signed_char, .jobu),
    (.signed_char, .jobv), (.int, .m), (.int, .n), (.ptr .double, .A), (.int, .lda),
    (.ptr .int, .lwork)]
  pre := []
  scrutinee := .API
  cases := [
    (.api API_NORMAL, ⟨[], .call "hipsolverDgesvd_bufferSize"
      [.param .handle, .param .jobu, .param .jobv, .param .m, .param .n, .param .lwork]⟩),
    (.api API_FORTRAN, ⟨[], .call "hipsolverDgesvd_bufferSizeFortran"
      [.param .handle, .param .jobu, .param .jobv, .param .m, .param .n, .param .lwork]⟩),
    (.api API_COMPAT, ⟨[], .call "hipsolverDnDgesvd_bufferSize"
      [.param .handle, .param .m, .param .n, .param .lwork]⟩)]
  dflt := ⟨[.storeZero .lwork], .status HIPSOLVER_STATUS_NOT_SUPPORTED⟩

/-- The overload of `hipsolver_gesvd_bufferSize` at hipsolver.hpp 3088-3110 (`hipsolverComplex* A`). -/
def hipsolver_gesvd_bufferSize_hipsolverComplex : Wrapper where
  name := "hipsolver_gesvd_bufferSize"
  params := [(.testAPI_t, .API), (.hipsolverHandle_t, .handle), (.signed_char, .jobu),
    (.signed_char, .jobv), (.int, .m), (.int, .n), (.ptr .hipsolverComplex, .A), (.int, .lda),
    (.ptr .int, .lwork)]
  pre := []
  scrutinee := .API
  cases := [
    (.api API_NORMAL, ⟨[], .call "hipsolverCgesvd_bufferSize"
      [.param .handle, .param .jobu, .param .jobv, .param .m, .param .n, .param .lwork]⟩),
    (.api API_FORTRAN, ⟨[], .call "hipsolverCgesvd_bufferSizeFortran"
      [.param .handle, .param .jobu, .param .jobv, .param .m, .param .n, .param .lwork]⟩),
    (.api API_COMPAT, ⟨[], .call "hipsolverDnCgesvd_bufferSize"
      [.param .handle, .param .m, .param .n, .param .lwork]⟩)]
  dflt := ⟨[.storeZero .lwork], .status HIPSOLVER_STATUS_NOT_SUPPORTED⟩

/-- The overload of `hipsolver_gesvd_bufferSize` at hipsolver.hpp 3112-3134 (`hipsolverDoubleComplex* A`). -/
def hipsolver_gesvd_bufferSize_hipsolverDoubleComplex : Wrapper where
  name := "hipsolver_gesvd_bufferSize"
  params := [(.testAPI_t, .API), (.hipsolverHandle_t, .handle), (.signed_char, .jobu),
    (.signed_char, .jobv), (.int, .m), (.int, .n), (.ptr .hipsolverDoubleComplex, .A), (.int, .lda),
    (.ptr .int, .lwork)]
  pre := []
  scrutinee := .API
  cases := [
    (.api API_NORMAL, ⟨[], .call "hipsolverZgesvd_bufferSize"
      [.param .handle, .param .jobu, .param .jobv, .param .m, .param .n, .param .lwork]⟩),
    (.api API_FORTRAN, ⟨[], .call "hipsolverZgesvd_bufferSizeFortran"
      [.param .handle, .param .jobu, .param .jobv, .param .m, .param .n, .param .lwork]⟩),
    (.api API_COMPAT, ⟨[], .call "hipsolverDnZgesvd_bufferSize"
      [.param .handle, .param .m, .param .n, .param .lwork]⟩)]
  dflt := ⟨[.storeZero .lwork], .status HIPSOLVER_STATUS_NOT_SUPPORTED⟩

/-- The overload of `hipsolver_gesvd` at hipsolver.hpp 3136-3178 (`float* A`). -/
def hipsolver_gesvd_float : Wrapper where
  name := "hipsolver_gesvd"
  params := [(.testAPI_t, .API), (.bool, .NRWK), (.hipsolverHandle_t, .handle),
    (.signed_char, .jobu), (.signed_char, .jobv), (.int, .m), (.int, .n), (.ptr .float, .A),
    (.int, .lda), (.int, .stA), (.ptr .float, .S), (.int, .stS), (.ptr .float, .U), (.int, .ldu),
    (.int, .stU), (.ptr .float, .V), (.int, .ldv), (.int, .stV), (.ptr .float, .work),
    (.int, .lwork), (.ptr .float, .rwork), (.int, .stRW), (.ptr .int, .info), (.int, .bc)]
  pre := []
  scrutinee := .marshal .NRWK
  cases := [
    (.code C_NORMAL, ⟨[], .call "hipsolverSgesvd"
      [.param .handle, .param .jobu, .param .jobv, .param .m, .param .n, .param .A, .param .lda,
       .param .S, .param .U, .param .ldu, .param .V, .param .ldv, .param .work, .param .lwork,
       .param .rwork, .param .info]⟩),
    (.code C_NORMAL_ALT, ⟨[], .call "hipsolverSgesvd"
      [.param .handle, .param .jobu, .param .jobv, .param .m, .param .n, .param .A, .param .lda,
       .param .S, .param .U, .param .ldu, .param .V, .param .ldv, .param .work, .param .lwork,
       .nullptr, .param .info]⟩),
    (.code FORTRAN_NORMAL, ⟨[], .call "hipsolverSgesvdFortran"
      [.param .handle, .param .jobu, .param .jobv, .param .m, .param .n, .param .A, .param .lda,
       .param .S, .param .U, .param .ldu, .param .V, .param .ldv, .param .work, .param .lwork,
       .param .rwork, .param .info]⟩),
    (.code COMPAT_NORMAL, ⟨[], .call "hipsolverDnSgesvd"
      [.param .handle, .param .jobu, .param .jobv, .param .m, .param .n, .param .A, .param .lda,
       .param .S, .param .U, .param .ldu, .param .V, .param .ldv, .param .work, .param .lwork,
       .param .rwork, .param .info]⟩)]
  dflt := ⟨[], .status HIPSOLVER_STATUS_NOT_SUPPORTED⟩

/-- The overload of `hipsolver_gesvd` at hipsolver.hpp 3180-3222 (`double* A`). -/
def hipsolver_gesvd_double : Wrapper where
  name := "hipsolver_gesvd"
  params := [(.testAPI_t, .API), (.bool, .NRWK), (.hipsolverHandle_t, .handle),
    (.signed_char, .jobu), (.signed_char, .jobv), (.int, .m), (.int, .n), (.ptr .double, .A),
    (.int, .lda), (.int, .stA), (.ptr .double, .S), (.int, .stS), (.ptr .double, .U), (.int, .ldu),
    (.int, .stU), (.ptr .double, .V), (.int, .ldv), (.int, .stV), (.ptr .double, .work),
    (.int, .lwork), (.ptr .double, .rwork), (.int, .stRW), (.ptr .int, .info), (.int, .bc)]
  pre := []
  scrutinee := .marshal .NRWK
  cases := [
    (.code C_NORMAL, ⟨[], .call "hipsolverDgesvd"
      [.param .handle, .param .jobu, .param .jobv, .param .m, .param .n, .param .A, .param .lda,
       .param .S, .param .U, .param .ldu, .param .V, .param .ldv, .param .work, .param .lwork,
       .param .rwork, .param .info]⟩),
    (.code C_NORMAL_ALT, ⟨[], .call "hipsolverDgesvd"
      [.param .handle, .param .jobu, .param .jobv, .param .m, .param .n, .param .A, .param .lda,
       .param .S, .param .U, .param .ldu, .param .V, .param .ldv, .param .work, .param .lwork,
       .nullptr, .param .info]⟩),
    (.code FORTRAN_NORMAL, ⟨[], .call "hipsolverDgesvdFortran"
      [.param .handle, .param .jobu, .param .jobv, .param .m, .param .n, .param .A, .param .lda,
       .param .S, .param .U, .param .ldu, .param .V, .param .ldv, .param .work, .param .lwork,
       .param .rwork, .param .info]⟩),
    (.code COMPAT_NORMAL, ⟨[], .call "hipsolverDnDgesvd"
      [.param .handle, .param .jobu, .param .jobv, .param .m, .param .n, .param .A, .param .lda,
       .param .S, .param .U, .param .ldu, .param .V, .param .ldv, .param .work, .param .lwork,
       .param .rwork, .param .info]⟩)]
  dflt := ⟨[], .status HIPSOLVER_STATUS_NOT_SUPPORTED⟩

/-- The overload of `hipsolver_gesvd` at hipsolver.hpp 3224-3322 (`hipsolverComplex* A`). -/
def hipsolver_gesvd_hipsolverComplex : Wrapper where
  name := "hipsolver_gesvd"
  params := [(.testAPI_t, .API), (.bool, .NRWK), (.hipsolverHandle_t, .handle),
    (.signed_char, .jobu), (.signed_char, .jobv), (.int, .m), (.int, .n),
    (.ptr .hipsolverComplex, .A), (.int, .lda), (.int, .stA), (.ptr .float, .S), (.int, .stS),
    (.ptr .hipsolverComplex, .U), (.int, .ldu), (.int, .stU), (.ptr .hipsolverComplex, .V),
    (.int, .ldv), (.int, .stV), (.ptr .hipsolverComplex, .work), (.int, .lwork),
    (.ptr .float, .rwork), (.int, .stRW), (.ptr .int, .info), (.int, .bc)]
  pre := []
  scrutinee := .marshal .NRWK
  cases := [
    (.code C_NORMAL, ⟨[], .call "hipsolverCgesvd"
      [.param .handle, .param .jobu, .param .jobv, .param .m, .param .n,
       .cast (.ptr .hipFloatComplex) .A, .param .lda, .param .S, .cast (.ptr .hipFloatComplex) .U,
       .param .ldu, .cast (.ptr .hipFloatComplex) .V, .param .ldv,
       .cast (.ptr .hipFloatComplex) .work, .param .lwork, .param .rwork, .param .info]⟩),
    (.code C_NORMAL_ALT, ⟨[], .call "hipsolverCgesvd"
      [.param .handle, .param .jobu, .param .jobv, .param .m, .param .n,
       .cast (.ptr .hipFloatComplex) .A, .param .lda, .param .S, .cast (.ptr .hipFloatComplex) .U,
       .param .ldu, .cast (.ptr .hipFloatComplex) .V, .param .ldv,
       .cast (.ptr .hipFloatComplex) .work, .param .lwork, .nullptr, .param .info]⟩),
    (.code FORTRAN_NORMAL, ⟨[], .call "hipsolverCgesvdFortran"
      [.param .handle, .param .jobu, .param .jobv, .param .m, .param .n,
       .cast (.ptr .hipFloatComplex) .A, .param .lda, .param .S, .cast (.ptr .hipFloatComplex) .U,
       .param .ldu, .cast (.ptr .hipFloatComplex) .V, .param .ldv,
       .cast (.ptr .hipFloatComplex) .work, .param .lwork, .param .rwork, .param .info]⟩),
    (.code COMPAT_NORMAL, ⟨[], .call "hipsolverDnCgesvd"
      [.param .handle, .param .jobu, .param .jobv, .param .m, .param .n,
       .cast (.ptr .hipFloatComplex) .A, .param .lda, .param .S, .cast (.ptr .hipFloatComplex) .U,
       .param .ldu, .cast (.ptr .hipFloatComplex) .V, .param .ldv,
       .cast (.ptr .hipFloatComplex) .work, .param .lwork, .param .rwork, .param .info]⟩)]
  dflt := ⟨[], .status HIPSOLVER_STATUS_NOT_SUPPORTED⟩

/-- The overload of `hipsolver_gesvd` at hipsolver.hpp 3324-3422 (`hipsolverDoubleComplex* A`). -/
def hipsolver_gesvd_hipsolverDoubleComplex : Wrapper where
  name := "hipsolver_gesvd"
  params := [(.testAPI_t, .API), (.bool, .NRWK), (.hipsolverHandle_t, .handle),
    (.signed_char, .jobu), (.signed_char, .jobv), (.int, .m), (.int, .n),
    (.ptr .hipsolverDoubleComplex, .A), (.int, .lda), (.int, .stA), (.ptr .double, .S),
    (.int, .stS), (.ptr .hipsolverDoubleComplex, .U), (.int, .ldu), (.int, .stU),
    (.ptr .hipsolverDoubleComplex, .V), (.int, .ldv), (.int, .stV),
    (.ptr .hipsolverDoubleComplex, .work), (.int, .lwork), (.ptr .double, .rwork), (.int, .stRW),
    (.ptr .int, .info), (.int, .bc)]
  pre := []
  scrutinee := .marshal .NRWK
  cases := [
    (.code C_NORMAL, ⟨[], .call "hipsolverZgesvd"
      [.param .handle, .param .jobu, .param .jobv, .param .m, .param .n,
       .cast (.ptr .hipDoubleComplex) .A, .param .lda, .param .S, .cast (.ptr .hipDoubleComplex) .U,
       .param .ldu, .cast (.ptr .hipDoubleComplex) .V, .param .ldv,
       .cast (.ptr .hipDoubleComplex) .work, .param .lwork, .param .rwork, .param .info]⟩),
    (.code C_NORMAL_ALT, ⟨[], .call "hipsolverZgesvd"
      [.param .handle, .param .jobu, .param .jobv, .param .m, .param .n,
       .cast (.ptr .hipDoubleComplex) .A, .param .lda, .param .S, .cast (.ptr .hipDoubleComplex) .U,
       .param .ldu, .cast (.ptr .hipDoubleComplex) .V, .param .ldv,
       .cast (.ptr .hipDoubleComplex) .work, .param .lwork, .nullptr, .param .info]⟩),
    (.code FORTRAN_NORMAL, ⟨[], .call "hipsolverZgesvdFortran"
      [.param .handle, .param .jobu, .param .jobv, .param .m, .param .n,
       .cast (.ptr .hipDoubleComplex) .A, .param .lda, .param .S, .cast (.ptr .hipDoubleComplex) .U,
       .param .ldu, .cast (.ptr .hipDoubleComplex) .V, .param .ldv,
       .cast (.ptr .hipDoubleComplex) .work, .param .lwork, .param .rwork, .param .info]⟩),
    (.code COMPAT_NORMAL, ⟨[], .call "hipsolverDnZgesvd"
      [.param .handle, .param .jobu, .param .jobv, .param .m, .param .n,
       .cast (.ptr .hipDoubleComplex) .A, .param .lda, .param .S, .cast (.ptr .hipDoubleComplex) .U,
       .param .ldu, .cast (.ptr .hipDoubleComplex) .V, .param .ldv,
       .cast (.ptr .hipDoubleComplex) .work, .param .lwork, .param .rwork, .param .info]⟩)]
  dflt := ⟨[], .status HIPSOLVER_STATUS_NOT_SUPPORTED⟩

/-- The overload of `hipsolver_gesvdj_bufferSize` at hipsolver.hpp 3426-3467 (`float* A`). -/
def hipsolver_gesvdj_bufferSize_float : Wrapper where
  name := "hipsolver_gesvdj_bufferSize"
  params := [(.testAPI_t, .API), (.bool, .STRIDED), (.hipsolverHandle_t, .handle),
    (.hipsolverEigMode_t, .jobz), (.int, .econ), (.int, .m), (.int, .n), (.ptr .float, .A),
    (.int, .lda), (.ptr .float, .S), (.ptr .float, .U), (.int, .ldu), (.ptr .float, .V),
    (.int, .ldv), (.ptr .int, .lwork), (.hipsolverGesvdjInfo_t, .params), (.int, .bc)]
  pre := []
  scrutinee := .marshal .STRIDED
  cases := [
    (.code C_NORMAL, ⟨[], .call "hipsolverSgesvdj_bufferSize"
      [.param .handle, .param .jobz, .param .econ, .param .m, .param .n, .param .A, .param .lda,
       .param .S, .param .U, .param .ldu, .param .V, .param .ldv, .param .lwork, .param .params]⟩),
    (.code C_NORMAL_ALT, ⟨[], .call "hipsolverSgesvdjBatched_bufferSize"
      [.param .handle, .param .jobz, .param .m, .param .n, .param .A, .param .lda, .param .S,
       .param .U, .param .ldu, .param .V, .param .ldv, .param .lwork, .param .params, .param .bc]⟩),
    (.code FORTRAN_NORMAL, ⟨[], .call "hipsolverSgesvdj_bufferSizeFortran"
      [.param .handle, .param .jobz, .param .econ, .param .m, .param .n, .param .A, .param .lda,
       .param .S, .param .U, .param .ldu, .param .V, .param .ldv, .param .lwork, .param .params]⟩),
    (.code FORTRAN_NORMAL_ALT, ⟨[], .call "hipsolverSgesvdjBatched_bufferSizeFortran"
      [.param .handle, .param .jobz, .param .m, .param .n, .param .A, .param .lda, .param .S,
       .param .U, .param .ldu, .param .V, .param .ldv, .param .lwork, .param .params, .param .bc]⟩),
    (.code COMPAT_NORMAL, ⟨[], .call "hipsolverDnSgesvdj_bufferSize"
      [.param .handle, .param .jobz, .param .econ, .param .m, .param .n, .param .A, .param .lda,
       .param .S, .param .U, .param .ldu, .param .V, .param .ldv, .param .lwork, .param .params]⟩),
    (.code COMPAT_NORMAL_ALT, ⟨[], .call "hipsolverDnSgesvdjBatched_bufferSize"
      [.param .handle, .param .jobz, .param .m, .param .n, .param .A, .param .lda, .param .S,
       .param .U, .param .ldu, .param .V, .param .ldv, .param .lwork, .param .params, .param .bc]⟩)]
  dflt := ⟨[], .status HIPSOLVER_STATUS_NOT_SUPPORTED⟩

/-- The overload of `hipsolver_gesvdj_bufferSize` at hipsolver.hpp 3469-3510 (`double* A`). -/
def hipsolver_gesvdj_bufferSize_double : Wrapper where
  name := "hipsolver_gesvdj_bufferSize"
  params := [(.testAPI_t, .API), (.bool, .STRIDED), (.hipsolverHandle_t, .handle),
    (.hipsolverEigMode_t, .jobz), (.int, .econ), (.int, .m), (.int, .n), (.ptr .double, .A),
    (.int, .lda), (.ptr .double, .S), (.ptr .double, .U), (.int, .ldu), (.ptr .double, .V),
    (.int, .ldv), (.ptr .int, .lwork), (.hipsolverGesvdjInfo_t, .params), (.int, .bc)]
  pre := []
  scrutinee := .marshal .STRIDED
  cases := [
    (.code C_NORMAL, ⟨[], .call "hipsolverDgesvdj_bufferSize"
      [.param .handle, .param .jobz, .param .econ, .param .m, .param .n, .param .A, .param .lda,
       .param .S, .param .U, .param .ldu, .param .V, .param .ldv, .param .lwork, .param .params]⟩),
    (.code C_NORMAL_ALT, ⟨[], .call "hipsolverDgesvdjBatched_bufferSize"
      [.param .handle, .param .jobz, .param .m, .param .n, .param .A, .param .lda, .param .S,
       .param .U, .param .ldu, .param .V, .param .ldv, .param .lwork, .param .params, .param .bc]⟩),
    (.code FORTRAN_NORMAL, ⟨[], .call "hipsolverDgesvdj_bufferSizeFortran"
      [.param .handle, .param .jobz, .param .econ, .param .m, .param .n, .param .A, .param .lda,
       .param .S, .param .U, .param .ldu, .param .V, .param .ldv, .param .lwork, .param .params]⟩),
    (.code FORTRAN_NORMAL_ALT, ⟨[], .call "hipsolverDgesvdjBatched_bufferSizeFortran"
      [.param .handle, .param .jobz, .param .m, .param .n, .param .A, .param .lda, .param .S,
       .param .U, .param .ldu, .param .V, .param .ldv, .param .lwork, .param .params, .param .bc]⟩),
    (.code COMPAT_NORMAL, ⟨[], .call "hipsolverDnDgesvdj_bufferSize"
      [.param .handle, .param .jobz, .param .econ, .param .m, .param .n, .param .A, .param .lda,
       .param .S, .param .U, .param .ldu, .param .V, .param .ldv, .param .lwork, .param .params]⟩),
    (.code COMPAT_NORMAL_ALT, ⟨[], .call "hipsolverDnDgesvdjBatched_bufferSize"
      [.param .handle, .param .jobz, .param .m, .param .n, .param .A, .param .lda, .param .S,
       .param .U, .param .ldu, .param .V, .param .ldv, .param .lwork, .param .params, .param .bc]⟩)]
  dflt := ⟨[], .status HIPSOLVER_STATUS_NOT_SUPPORTED⟩

/-- The overload of `hipsolver_gesvdj_bufferSize` at hipsolver.hpp 3512-3625 (`hipsolverComplex* A`). -/
def hipsolver_gesvdj_bufferSize_hipsolverComplex : Wrapper where
  name := "hipsolver_gesvdj_bufferSize"
  params := [(.testAPI_t, .API), (.bool, .STRIDED), (.hipsolverHandle_t, .handle),
    (.hipsolverEigMode_t, .jobz), (.int, .econ), (.int, .m), (.int, .n),
    (.ptr .hipsolverComplex, .A), (.int, .lda), (.ptr .float, .S), (.ptr .hipsolverComplex, .U),
    (.int, .ldu), (.ptr .hipsolverComplex, .V), (.int, .ldv), (.ptr .int, .lwork),
    (.hipsolverGesvdjInfo_t, .params), (.int, .bc)]
  pre := []
  scrutinee := .marshal .STRIDED
  cases := [
    (.code C_NORMAL, ⟨[], .call "hipsolverCgesvdj_bufferSize"
      [.param .handle, .param .jobz, .param .econ, .param .m, .param .n,
       .cast (.ptr .hipFloatComplex) .A, .param .lda, .param .S, .cast (.ptr .hipFloatComplex) .U,
       .param .ldu, .cast (.ptr .hipFloatComplex) .V, .param .ldv, .param .lwork, .param .params]⟩),
    (.code C_NORMAL_ALT, ⟨[], .call "hipsolverCgesvdjBatched_bufferSize"
      [.param .handle, .param .jobz, .param .m, .param .n, .cast (.ptr .hipFloatComplex) .A,
       .param .lda, .param .S, .cast (.ptr .hipFloatComplex) .U, .param .ldu,
       .cast (.ptr .hipFloatComplex) .V, .param .ldv, .param .lwork, .param .params, .param .bc]⟩),
    (.code FORTRAN_NORMAL, ⟨[], .call "hipsolverCgesvdj_bufferSizeFortran"
      [.param .handle, .param .jobz, .param .econ, .param .m, .param .n,
       .cast (.ptr .hipFloatComplex) .A, .param .lda, .param .S, .cast (.ptr .hipFloatComplex) .U,
       .param .ldu, .cast (.ptr .hipFloatComplex) .V, .param .ldv, .param .lwork, .param .params]⟩),
    (.code FORTRAN_NORMAL_ALT, ⟨[], .call "hipsolverCgesvdjBatched_bufferSizeFortran"
      [.param .handle, .param .jobz, .param .m, .param .n, .cast (.ptr .hipFloatComplex) .A,
       .param .lda, .param .S, .cast (.ptr .hipFloatComplex) .U, .param .ldu,
       .cast (.ptr .hipFloatComplex) .V, .param .ldv, .param .lwork, .param .params, .param .bc]⟩),
    (.code COMPAT_NORMAL, ⟨[], .call "hipsolverDnCgesvdj_bufferSize"
      [.param .handle, .param .jobz, .param .econ, .param .m, .param .n,
       .cast (.ptr .hipFloatComplex) .A, .param .lda, .param .S, .cast (.ptr .hipFloatComplex) .U,
       .param .ldu, .cast (.ptr .hipFloatComplex) .V, .param .ldv, .param .lwork, .param .params]⟩),
    (.code COMPAT_NORMAL_ALT, ⟨[], .call "hipsolverDnCgesvdjBatched_bufferSize"
      [.param .handle, .param .jobz, .param .m, .param .n, .cast (.ptr .hipFloatComplex) .A,
       .param .lda, .param .S, .cast (.ptr .hipFloatComplex) .U, .param .ldu,
       .cast (.ptr .hipFloatComplex) .V, .param .ldv, .param .lwork, .param .params, .param .bc]⟩)]
  dflt := ⟨[], .status HIPSOLVER_STATUS_NOT_SUPPORTED⟩

/-- The overload of `hipsolver_gesvdj_bufferSize` at hipsolver.hpp 3627-3740 (`hipsolverDoubleComplex* A`). -/
def hipsolver_gesvdj_bufferSize_hipsolverDoubleComplex : Wrapper where
  name := "hipsolver_gesvdj_bufferSize"
  params := [(.testAPI_t, .API), (.bool, .STRIDED), (.hipsolverHandle_t, .handle),
    (.hipsolverEigMode_t, .jobz), (.int, .econ), (.int, .m), (.int, .n),
    (.ptr .hipsolverDoubleComplex, .A), (.int, .lda), (.ptr .double, .S),
    (.ptr .hipsolverDoubleComplex, .U), (.int, .ldu), (.ptr .hipsolverDoubleComplex, .V),
    (.int, .ldv), (.ptr .int, .lwork), (.hipsolverGesvdjInfo_t, .params), (.int, .bc)]
  pre := []
  scrutinee := .marshal .STRIDED
  cases := [
    (.code C_NORMAL, ⟨[], .call "hipsolverZgesvdj_bufferSize"
      [.param .handle, .param .jobz, .param .econ, .param .m, .param .n,
       .cast (.ptr .hipDoubleComplex) .A, .param .lda, .param .S, .cast (.ptr .hipDoubleComplex) .U,
       .param .ldu, .cast (.ptr .hipDoubleComplex) .V, .param .ldv, .param .lwork, .param .params]⟩),
    (.code C_NORMAL_ALT, ⟨[], .call "hipsolverZgesvdjBatched_bufferSize"
      [.param .handle, .param .jobz, .param .m, .param .n, .cast (.ptr .hipDoubleComplex) .A,
       .param .lda, .param .S, .cast (.ptr .hipDoubleComplex) .U, .param .ldu,
       .cast (.ptr .hipDoubleComplex) .V, .param .ldv, .param .lwork, .param .params, .param .bc]⟩),
    (.code FORTRAN_NORMAL, ⟨[], .call "hipsolverZgesvdj_bufferSizeFortran"
      [.param .handle, .param .jobz, .param .econ, .param .m, .param .n,
       .cast (.ptr .hipDoubleComplex) .A, .param .lda, .param .S, .cast (.ptr .hipDoubleComplex) .U,
       .param .ldu, .cast (.ptr .hipDoubleComplex) .V, .param .ldv, .param .lwork, .param .params]⟩),
    (.code FORTRAN_NORMAL_ALT, ⟨[], .call "hipsolverZgesvdjBatched_bufferSizeFortran"
      [.param .handle, .param .jobz, .param .m, .param .n, .cast (.ptr .hipDoubleComplex) .A,
       .param .lda, .param .S, .cast (.ptr .hipDoubleComplex) .U, .param .ldu,
       .cast (.ptr .hipDoubleComplex) .V, .param .ldv, .param .lwork, .param .params, .param .bc]⟩),
    (.code COMPAT_NORMAL, ⟨[], .call "hipsolverDnZgesvdj_bufferSize"
      [.param .handle, .param .jobz, .param .econ, .param .m, .param .n,
       .cast (.ptr .hipDoubleComplex) .A, .param .lda, .param .S, .cast (.ptr .hipDoubleComplex) .U,
       .param .ldu, .cast (.ptr .hipDoubleComplex) .V, .param .ldv, .param .lwork, .param .params]⟩),
    (.code COMPAT_NORMAL_ALT, ⟨[], .call "hipsolverDnZgesvdjBatched_bufferSize"
      [.param .handle, .param .jobz, .param .m, .param .n, .cast (.ptr .hipDoubleComplex) .A,
       .param .lda, .param .S, .cast (.ptr .hipDoubleComplex) .U, .param .ldu,
       .cast (.ptr .hipDoubleComplex) .V, .param .ldv, .param .lwork, .param .params, .param .bc]⟩)]
  dflt := ⟨[], .status HIPSOLVER_STATUS_NOT_SUPPORTED⟩

/-- The overload of `hipsolver_gesvdj` at hipsolver.hpp 3742-3789 (`float* A`). -/
def hipsolver_gesvdj_float : Wrapper where
  name := "hipsolver_gesvdj"
  params := [(.testAPI_t, .API), (.bool, .STRIDED), (.hipsolverHandle_t, .handle),
    (.hipsolverEigMode_t, .jobz), (.int, .econ), (.int, .m), (.int, .n), (.ptr .float, .A),
    (.int, .lda), (.int, .stA), (.ptr .float, .S), (.int, .stS), (.ptr .float, .U), (.int, .ldu),
    (.int, .stU), (.ptr .float, .V), (.int, .ldv), (.int, .stV), (.ptr .float, .work),
    (.int, .lwork), (.ptr .int, .info), (.hipsolverGesvdjInfo_t, .params), (.int, .bc)]
  pre := []
  scrutinee := .marshal .STRIDED
  cases := [
    (.code C_NORMAL, ⟨[], .call "hipsolverSgesvdj"
      [.param .handle, .param .jobz, .param .econ, .param .m, .param .n, .param .A, .param .lda,
       .param .S, .param .U, .param .ldu, .param .V, .param .ldv, .param .work, .param .lwork,
       .param .info, .param .params]⟩),
    (.code C_NORMAL_ALT, ⟨[], .call "hipsolverSgesvdjBatched"
      [.param .handle, .param .jobz, .param .m, .param .n, .param .A, .param .lda, .param .S,
       .param .U, .param .ldu, .param .V, .param .ldv, .param .work, .param .lwork, .param .info,
       .param .params, .param .bc]⟩),
    (.code FORTRAN_NORMAL, ⟨[], .call "hipsolverSgesvdjFortran"
      [.param .handle, .param .jobz, .param .econ, .param .m, .param .n, .param .A, .param .lda,
       .param .S, .param .U, .param .ldu, .param .V, .param .ldv, .param .work, .param .lwork,
       .param .info, .param .params]⟩),
    (.code FORTRAN_NORMAL_ALT, ⟨[], .call "hipsolverSgesvdjBatchedFortran"
      [.param .handle, .param .jobz, .param .m, .param .n, .param .A, .param .lda, .param .S,
       .param .U, .param .ldu, .param .V, .param .ldv, .param .work, .param .lwork, .param .info,
       .param .params, .param .bc]⟩),
    (.code COMPAT_NORMAL, ⟨[], .call "hipsolverDnSgesvdj"
      [.param .handle, .param .jobz, .param .econ, .param .m, .param .n, .param .A, .param .lda,
       .param .S, .param .U, .param .ldu, .param .V, .param .ldv, .param .work, .param .lwork,
       .param .info, .param .params]⟩),
    (.code COMPAT_NORMAL_ALT, ⟨[], .call "hipsolverDnSgesvdjBatched"
      [.param .handle, .param .jobz, .param .m, .param .n, .param .A, .param .lda, .param .S,
       .param .U, .param .ldu, .param .V, .param .ldv, .param .work, .param .lwork, .param .info,
       .param .params, .param .bc]⟩)]
  dflt := ⟨[], .status HIPSOLVER_STATUS_NOT_SUPPORTED⟩

/-- The overload of `hipsolver_gesvdj` at hipsolver.hpp 3791-3838 (`double* A`). -/
def hipsolver_gesvdj_double : Wrapper where
  name := "hipsolver_gesvdj"
  params := [(.testAPI_t, .API), (.bool, .STRIDED), (.hipsolverHandle_t, .handle),
    (.hipsolverEigMode_t, .jobz), (.int, .econ), (.int, .m), (.int, .n), (.ptr .double, .A),
    (.int, .lda), (.int, .stA), (.ptr .double, .S), (.int, .stS), (.ptr .double, .U), (.int, .ldu),
    (.int, .stU), (.ptr .double, .V), (.int, .ldv), (.int, .stV), (.ptr .double, .work),
    (.int, .lwork), (.ptr .int, .info), (.hipsolverGesvdjInfo_t, .params), (.int, .bc)]
  pre := []
  scrutinee := .marshal .STRIDED
  cases := [
    (.code C_NORMAL, ⟨[], .call "hipsolverDgesvdj"
      [.param .handle, .param .jobz, .param .econ, .param .m, .param .n, .param .A, .param .lda,
       .param .S, .param .U, .param .ldu, .param .V, .param .ldv, .param .work, .param .lwork,
       .param .info, .param .params]⟩),
    (.code C_NORMAL_ALT, ⟨[], .call "hipsolverDgesvdjBatched"
      [.param .handle, .param .jobz, .param .m, .param .n, .param .A, .param .lda, .param .S,
       .param .U, .param .ldu, .param .V, .param .ldv, .param .work, .param .lwork, .param .info,
       .param .params, .param .bc]⟩),
    (.code FORTRAN_NORMAL, ⟨[], .call "hipsolverDgesvdjFortran"
      [.param .handle, .param .jobz, .param .econ, .param .m, .param .n, .param .A, .param .lda,
       .param .S, .param .U, .param .ldu, .param .V, .param .ldv, .param .work, .param .lwork,
       .param .info, .param .params]⟩),
    (.code FORTRAN_NORMAL_ALT, ⟨[], .call "hipsolverDgesvdjBatchedFortran"
      [.param .handle, .param .jobz, .param .m, .param .n, .param .A, .param .lda, .param .S,
       .param .U, .param .ldu, .param .V, .param .ldv, .param .work, .param .lwork, .param .info,
       .param .params, .param .bc]⟩),
    (.code COMPAT_NORMAL, ⟨[], .call "hipsolverDnDgesvdj"
      [.param .handle, .param .jobz, .param .econ, .param .m, .param .n, .param .A, .param .lda,
       .param .S, .param .U, .param .ldu, .param .V, .param .ldv, .param .work, .param .lwork,
       .param .info, .param .params]⟩),
    (.code COMPAT_NORMAL_ALT, ⟨[], .call "hipsolverDnDgesvdjBatched"
      [.param .handle, .param .jobz, .param .m, .param .n, .param .A, .param .lda, .param .S,
       .param .U, .param .ldu, .param .V, .param .ldv, .param .work, .param .lwork, .param .info,
       .param .params, .param .bc]⟩)]
  dflt := ⟨[], .status HIPSOLVER_STATUS_NOT_SUPPORTED⟩

/-- The overload of `hipsolver_gesvdj` at hipsolver.hpp 3840-3971 (`hipsolverComplex* A`). -/
def hipsolver_gesvdj_hipsolverComplex : Wrapper where
  name := "hipsolver_gesvdj"
  params := [(.testAPI_t, .API), (.bool, .STRIDED), (.hipsolverHandle_t, .handle),
    (.hipsolverEigMode_t, .jobz), (.int, .econ), (.int, .m), (.int, .n),
    (.ptr .hipsolverComplex, .A), (.int, .lda), (.int, .stA), (.ptr .float, .S), (.int, .stS),
    (.ptr .hipsolverComplex, .U), (.int, .ldu), (.int, .stU), (.ptr .hipsolverComplex, .V),
    (.int, .ldv), (.int, .stV), (.ptr .hipsolverComplex, .work), (.int, .lwork), (.ptr .int, .info),
    (.hipsolverGesvdjInfo_t, .params), (.int, .bc)]
  pre := []
  scrutinee := .marshal .STRIDED
  cases := [
    (.code C_NORMAL, ⟨[], .call "hipsolverCgesvdj"
      [.param .handle, .param .jobz, .param .econ, .param .m, .param .n,
       .cast (.ptr .hipFloatComplex) .A, .param .lda, .param .S, .cast (.ptr .hipFloatComplex) .U,
       .param .ldu, .cast (.ptr .hipFloatComplex) .V, .param .ldv,
       .cast (.ptr .hipFloatComplex) .work, .param .lwork, .param .info, .param .params]⟩),
    (.code C_NORMAL_ALT, ⟨[], .call "hipsolverCgesvdjBatched"
      [.param .handle, .param .jobz, .param .m, .param .n, .cast (.ptr .hipFloatComplex) .A,
       .param .lda, .param .S, .cast (.ptr .hipFloatComplex) .U, .param .ldu,
       .cast (.ptr .hipFloatComplex) .V, .param .ldv, .cast (.ptr .hipFloatComplex) .work,
       .param .lwork, .param .info, .param .params, .param .bc]⟩),
    (.code FORTRAN_NORMAL, ⟨[], .call "hipsolverCgesvdjFortran"
      [.param .handle, .param .jobz, .param .econ, .param .m, .param .n,
       .cast (.ptr .hipFloatComplex) .A, .param .lda, .param .S, .cast (.ptr .hipFloatComplex) .U,
       .param .ldu, .cast (.ptr .hipFloatComplex) .V, .param .ldv,
       .cast (.ptr .hipFloatComplex) .work, .param .lwork, .param .info, .param .params]⟩),
    (.code FORTRAN_NORMAL_ALT, ⟨[], .call "hipsolverCgesvdjBatchedFortran"
      [.param .handle, .param .jobz, .param .m, .param .n, .cast (.ptr .hipFloatComplex) .A,
       .param .lda, .param .S, .cast (.ptr .hipFloatComplex) .U, .param .ldu,
       .cast (.ptr .hipFloatComplex) .V, .param .ldv, .cast (.ptr .hipFloatComplex) .work,
       .param .lwork, .param .info, .param .params, .param .bc]⟩),
    (.code COMPAT_NORMAL, ⟨[], .call "hipsolverDnCgesvdj"
      [.param .handle, .param .jobz, .param .econ, .param .m, .param .n,
       .cast (.ptr .hipFloatComplex) .A, .param .lda, .param .S, .cast (.ptr .hipFloatComplex) .U,
       .param .ldu, .cast (.ptr .hipFloatComplex) .V, .param .ldv,
       .cast (.ptr .hipFloatComplex) .work, .param .lwork, .param .info, .param .params]⟩),
    (.code COMPAT_NORMAL_ALT, ⟨[], .call "hipsolverDnCgesvdjBatched"
      [.param .handle, .param .jobz, .param .m, .param .n, .cast (.ptr .hipFloatComplex) .A,
       .param .lda, .param .S, .cast (.ptr .hipFloatComplex) .U, .param .ldu,
       .cast (.ptr .hipFloatComplex) .V, .param .ldv, .cast (.ptr .hipFloatComplex) .work,
       .param .lwork, .param .info, .param .params, .param .bc]⟩)]
  dflt := ⟨[], .status HIPSOLVER_STATUS_NOT_SUPPORTED⟩

/-- The overload of `hipsolver_gesvdj` at hipsolver.hpp 3973-4104 (`hipsolverDoubleComplex* A`). -/
def hipsolver_gesvdj_hipsolverDoubleComplex : Wrapper where
  name := "hipsolver_gesvdj"
  params := [(.testAPI_t, .API), (.bool, .STRIDED), (.hipsolverHandle_t, .handle),
    (.hipsolverEigMode_t, .jobz), (.int, .econ), (.int, .m), (.int, .n),
    (.ptr .hipsolverDoubleComplex, .A), (.int, .lda), (.int, .stA), (.ptr .double, .S),
    (.int, .stS), (.ptr .hipsolverDoubleComplex, .U), (.int, .ldu), (.int, .stU),
    (.ptr .hipsolverDoubleComplex, .V), (.int, .ldv), (.int, .stV),
    (.ptr .hipsolverDoubleComplex, .work), (.int, .lwork), (.ptr .int, .info),
    (.hipsolverGesvdjInfo_t, .params), (.int, .bc)]
  pre := []
  scrutinee := .marshal .STRIDED
  cases := [
    (.code C_NORMAL, ⟨[], .call "hipsolverZgesvdj"
      [.param .handle, .param .jobz, .param .econ, .param .m, .param .n,
       .cast (.ptr .hipDoubleComplex) .A, .param .lda, .param .S, .cast (.ptr .hipDoubleComplex) .U,
       .param .ldu, .cast (.ptr .hipDoubleComplex) .V, .param .ldv,
       .cast (.ptr .hipDoubleComplex) .work, .param .lwork, .param .info, .param .params]⟩),
    (.code C_NORMAL_ALT, ⟨[], .call "hipsolverZgesvdjBatched"
      [.param .handle, .param .jobz, .param .m, .param .n, .cast (.ptr .hipDoubleComplex) .A,
       .param .lda, .param .S, .cast (.ptr .hipDoubleComplex) .U, .param .ldu,
       .cast (.ptr .hipDoubleComplex) .V, .param .ldv, .cast (.ptr .hipDoubleComplex) .work,
       .param .lwork, .param .info, .param .params, .param .bc]⟩),
    (.code FORTRAN_NORMAL, ⟨[], .call "hipsolverZgesvdjFortran"
      [.param .handle, .param .jobz, .param .econ, .param .m, .param .n,
       .cast (.ptr .hipDoubleComplex) .A, .param .lda, .param .S, .cast (.ptr .hipDoubleComplex) .U,
       .param .ldu, .cast (.ptr .hipDoubleComplex) .V, .param .ldv,
       .cast (.ptr .hipDoubleComplex) .work, .param .lwork, .param .info, .param .params]⟩),
    (.code FORTRAN_NORMAL_ALT, ⟨[], .call "hipsolverZgesvdjBatchedFortran"
      [.param .handle, .param .jobz, .param .m, .param .n, .cast (.ptr .hipDoubleComplex) .A,
       .param .lda, .param .S, .cast (.ptr .hipDoubleComplex) .U, .param .ldu,
       .cast (.ptr .hipDoubleComplex) .V, .param .ldv, .cast (.ptr .hipDoubleComplex) .work,
       .param .lwork, .param .info, .param .params, .param .bc]⟩),
    (.code COMPAT_NORMAL, ⟨[], .call "hipsolverDnZgesvdj"
      [.param .handle, .param .jobz, .param .econ, .param .m, .param .n,
       .cast (.ptr .hipDoubleComplex) .A, .param .lda, .param .S, .cast (.ptr .hipDoubleComplex) .U,
       .param .ldu, .cast (.ptr .hipDoubleComplex) .V, .param .ldv,
       .cast (.ptr .hipDoubleComplex) .work, .param .lwork, .param .info, .param .params]⟩),
    (.code COMPAT_NORMAL_ALT, ⟨[], .call "hipsolverDnZgesvdjBatched"
      [.param .handle, .param .jobz, .param .m, .param .n, .cast (.ptr .hipDoubleComplex) .A,
       .param .lda, .param .S, .cast (.ptr .hipDoubleComplex) .U, .param .ldu,
       .cast (.ptr .hipDoubleComplex) .V, .param .ldv, .cast (.ptr .hipDoubleComplex) .work,
       .param .lwork, .param .info, .param .params, .param .bc]⟩)]
  dflt := ⟨[], .status HIPSOLVER_STATUS_NOT_SUPPORTED⟩

/-- The overload of `hipsolver_gesvda_bufferSize` at hipsolver.hpp 4108-4137 (`float* A`). -/
def hipsolver_gesvda_bufferSize_float : Wrapper where
  name := "hipsolver_gesvda_bufferSize"
  params := [(.testAPI_t, .API), (.bool, .STRIDED), (.hipsolverHandle_t, .handle),
    (.hipsolverEigMode_t, .jobz), (.int, .rank), (.int, .m), (.int, .n), (.ptr .float, .A),
    (.int, .lda), (.long_long_int, .stA), (.ptr .float, .S), (.long_long_int, .stS),
    (.ptr .float, .U), (.int, .ldu), (.long_long_int, .stU), (.ptr .float, .V), (.int, .ldv),
    (.long_long_int, .stV), (.ptr .int, .lwork), (.int, .bc)]
  pre := []
  scrutinee := .marshal .STRIDED
  cases := [
    (.code COMPAT_NORMAL_ALT, ⟨[], .call "hipsolverDnSgesvdaStridedBatched_bufferSize"
      [.param .handle, .param .jobz, .param .rank, .param .m, .param .n, .param .A, .param .lda,
       .param .stA, .param .S, .param .stS, .param .U, .param .ldu, .param .stU, .param .V,
       .param .ldv, .param .stV, .param .lwork, .param .bc]⟩)]
  dflt := ⟨[], .status HIPSOLVER_STATUS_NOT_SUPPORTED⟩

/-- The overload of `hipsolver_gesvda_bufferSize` at hipsolver.hpp 4139-4168 (`double* A`). -/
def hipsolver_gesvda_bufferSize_double : Wrapper where
  name := "hipsolver_gesvda_bufferSize"
  params := [(.testAPI_t, .API), (.bool, .STRIDED), (.hipsolverHandle_t, .handle),
    (.hipsolverEigMode_t, .jobz), (.int, .rank), (.int, .m), (.int, .n), (.ptr .double, .A),
    (.int, .lda), (.long_long_int, .stA), (.ptr .double, .S), (.long_long_int, .stS),
    (.ptr .double, .U), (.int, .ldu), (.long_long_int, .stU), (.ptr .double, .V), (.int, .ldv),
    (.long_long_int, .stV), (.ptr .int, .lwork), (.int, .bc)]
  pre := []
  scrutinee := .marshal .STRIDED
  cases := [
    (.code COMPAT_NORMAL_ALT, ⟨[], .call "hipsolverDnDgesvdaStridedBatched_bufferSize"
      [.param .handle, .param .jobz, .param .rank, .param .m, .param .n, .param .A, .param .lda,
       .param .stA, .param .S, .param .stS, .param .U, .param .ldu, .param .stU, .param .V,
       .param .ldv, .param .stV, .param .lwork, .param .bc]⟩)]
  dflt := ⟨[], .status HIPSOLVER_STATUS_NOT_SUPPORTED⟩

/-- The overload of `hipsolver_gesvda_bufferSize` at hipsolver.hpp 4170-4215 (`hipsolverComplex* A`). -/
def hipsolver_gesvda_bufferSize_hipsolverComplex : Wrapper where
  name := "hipsolver_gesvda_bufferSize"
  params := [(.testAPI_t, .API), (.bool, .STRIDED), (.hipsolverHandle_t, .handle),
    (.hipsolverEigMode_t, .jobz), (.int, .rank), (.int, .m), (.int, .n),
    (.ptr .hipsolverComplex, .A), (.int, .lda), (.long_long_int, .stA), (.ptr .float, .S),
    (.long_long_int, .stS), (.ptr .hipsolverComplex, .U), (.int, .ldu), (.long_long_int, .stU),
    (.ptr .hipsolverComplex, .V), (.int, .ldv), (.long_long_int, .stV), (.ptr .int, .lwork),
    (.int, .bc)]
  pre := []
  scrutinee := .marshal .STRIDED
  cases := [
    (.code COMPAT_NORMAL_ALT, ⟨[], .call "hipsolverDnCgesvdaStridedBatched_bufferSize"
      [.param .handle, .param .jobz, .param .rank, .param .m, .param .n,
       .cast (.ptr .hipFloatComplex) .A, .param .lda, .param .stA, .param .S, .param .stS,
       .cast (.ptr .hipFloatComplex) .U, .param .ldu, .param .stU, .cast (.ptr .hipFloatComplex) .V,
       .param .ldv, .param .stV, .param .lwork, .param .bc]⟩)]
  dflt := ⟨[], .status HIPSOLVER_STATUS_NOT_SUPPORTED⟩

/-- The overload of `hipsolver_gesvda_bufferSize` at hipsolver.hpp 4217-4262 (`hipsolverDoubleComplex* A`). -/
def hipsolver_gesvda_bufferSize_hipsolverDoubleComplex : Wrapper where
  name := "hipsolver_gesvda_bufferSize"
  params := [(.testAPI_t, .API), (.bool, .STRIDED), (.hipsolverHandle_t, .handle),
    (.hipsolverEigMode_t, .jobz), (.int, .rank), (.int, .m), (.int, .n),
    (.ptr .hipsolverDoubleComplex, .A), (.int, .lda), (.long_long_int, .stA), (.ptr .double, .S),
    (.long_long_int, .stS), (.ptr .hipsolverDoubleComplex, .U), (.int, .ldu),
    (.long_long_int, .stU), (.ptr .hipsolverDoubleComplex, .V), (.int, .ldv),
    (.long_long_int, .stV), (.ptr .int, .lwork), (.int, .bc)]
  pre := []
  scrutinee := .marshal .STRIDED
  cases := [
    (.code COMPAT_NORMAL_ALT, ⟨[], .call "hipsolverDnZgesvdaStridedBatched_bufferSize"
      [.param .handle, .param .jobz, .param .rank, .param .m, .param .n,
       .cast (.ptr .hipDoubleComplex) .A, .param .lda, .param .stA, .param .S, .param .stS,
       .cast (.ptr .hipDoubleComplex) .U, .param .ldu, .param .stU,
       .cast (.ptr .hipDoubleComplex) .V, .param .ldv, .param .stV, .param .lwork, .param .bc]⟩)]
  dflt := ⟨[], .status HIPSOLVER_STATUS_NOT_SUPPORTED⟩

/-- The overload of `hipsolver_gesvda` at hipsolver.hpp 4264-4315 (`float* A`). -/
def hipsolver_gesvda_float : Wrapper where
  name := "hipsolver_gesvda"
  params := [(.testAPI_t, .API), (.bool, .STRIDED), (.hipsolverHandle_t, .handle),
    (.hipsolverEigMode_t, .jobz), (.int, .rank), (.int, .m), (.int, .n), (.ptr .float, .A),
    (.int, .lda), (.int, .stA), (.ptr .float, .S), (.int, .stS), (.ptr .float, .U), (.int, .ldu),
    (.int, .stU), (.ptr .float, .V), (.int, .ldv), (.int, .stV), (.ptr .float, .work),
    (.int, .lwork), (.ptr .int, .info), (.ptr .double, .hRnrmF), (.int, .bc)]
  pre := []
  scrutinee := .marshal .STRIDED
  cases := [
    (.code COMPAT_NORMAL_ALT, ⟨[], .call "hipsolverDnSgesvdaStridedBatched"
      [.param .handle, .param .jobz, .param .rank, .param .m, .param .n, .param .A, .param .lda,
       .param .stA, .param .S, .param .stS, .param .U, .param .ldu, .param .stU, .param .V,
       .param .ldv, .param .stV, .param .work, .param .lwork, .param .info, .param .hRnrmF,
       .param .bc]⟩)]
  dflt := ⟨[], .status HIPSOLVER_STATUS_NOT_SUPPORTED⟩

/-- The overload of `hipsolver_gesvda` at hipsolver.hpp 4317-4368 (`double* A`). -/
def hipsolver_gesvda_double : Wrapper where
  name := "hipsolver_gesvda"
  params := [(.testAPI_t, .API), (.bool, .STRIDED), (.hipsolverHandle_t, .handle),
    (.hipsolverEigMode_t, .jobz), (.int, .rank), (.int, .m), (.int, .n), (.ptr .double, .A),
    (.int, .lda), (.int, .stA), (.ptr .double, .S), (.int, .stS), (.ptr .double, .U), (.int, .ldu),
    (.int, .stU), (.ptr .double, .V), (.int, .ldv), (.int, .stV), (.ptr .double, .work),
    (.int, .lwork), (.ptr .int, .info), (.ptr .double, .hRnrmF), (.int, .bc)]
  pre := []
  scrutinee := .marshal .STRIDED
  cases := [
    (.code COMPAT_NORMAL_ALT, ⟨[], .call "hipsolverDnDgesvdaStridedBatched"
      [.param .handle, .param .jobz, .param .rank, .param .m, .param .n, .param .A, .param .lda,
       .param .stA, .param .S, .param .stS, .param .U, .param .ldu, .param .stU, .param .V,
       .param .ldv, .param .stV, .param .work, .param .lwork, .param .info, .param .hRnrmF,
       .param .bc]⟩)]
  dflt := ⟨[], .status HIPSOLVER_STATUS_NOT_SUPPORTED⟩

/-- The overload of `hipsolver_gesvda` at hipsolver.hpp 4370-4421 (`hipsolverComplex* A`). -/
def hipsolver_gesvda_hipsolverComplex : Wrapper where
  name := "hipsolver_gesvda"
  params := [(.testAPI_t, .API), (.bool, .STRIDED), (.hipsolverHandle_t, .handle),
    (.hipsolverEigMode_t, .jobz), (.int, .rank), (.int, .m), (.int, .n),
    (.ptr .hipsolverComplex, .A), (.int, .lda), (.int, .stA), (.ptr .float, .S), (.int, .stS),
    (.ptr .hipsolverComplex, .U), (.int, .ldu), (.int, .stU), (.ptr .hipsolverComplex, .V),
    (.int, .ldv), (.int, .stV), (.ptr .hipsolverComplex, .work), (.int, .lwork), (.ptr .int, .info),
    (.ptr .double, .hRnrmF), (.int, .bc)]
  pre := []
  scrutinee := .marshal .STRIDED
  cases := [
    (.code COMPAT_NORMAL_ALT, ⟨[], .call "hipsolverDnCgesvdaStridedBatched"
      [.param .handle, .param .jobz, .param .rank, .param .m, .param .n,
       .cast (.ptr .hipFloatComplex) .A, .param .lda, .param .stA, .param .S, .param .stS,
       .cast (.ptr .hipFloatComplex) .U, .param .ldu, .param .stU, .cast (.ptr .hipFloatComplex) .V,
       .param .ldv, .param .stV, .cast (.ptr .hipFloatComplex) .work, .param .lwork, .param .info,
       .param .hRnrmF, .param .bc]⟩)]
  dflt := ⟨[], .status HIPSOLVER_STATUS_NOT_SUPPORTED⟩

/-- The overload of `hipsolver_gesvda` at hipsolver.hpp 4423-4474 (`hipsolverDoubleComplex* A`). -/
def hipsolver_gesvda_hipsolverDoubleComplex : Wrapper where
  name := "hipsolver_gesvda"
  params := [(.testAPI_t, .API), (.bool, .STRIDED), (.hipsolverHandle_t, .handle),
    (.hipsolverEigMode_t, .jobz), (.int, .rank), (.int, .m), (.int, .n),
    (.ptr .hipsolverDoubleComplex, .A), (.int, .lda), (.int, .stA), (.ptr .double, .S),
    (.int, .stS), (.ptr .hipsolverDoubleComplex, .U), (.int, .ldu), (.int, .stU),
    (.ptr .hipsolverDoubleComplex, .V), (.int, .ldv), (.int, .stV),
    (.ptr .hipsolverDoubleComplex, .work), (.int, .lwork), (.ptr .int, .info),
    (.ptr .double, .hRnrmF), (.int, .bc)]
  pre := []
  scrutinee := .marshal .STRIDED
  cases := [
    (.code COMPAT_NORMAL_ALT, ⟨[], .call "hipsolverDnZgesvdaStridedBatched"
      [.param .handle, .param .jobz, .param .rank, .param .m, .param .n,
       .cast (.ptr .hipDoubleComplex) .A, .param .lda, .param .stA, .param .S, .param .stS,
       .cast (.ptr .hipDoubleComplex) .U, .param .ldu, .param .stU,
       .cast (.ptr .hipDoubleComplex) .V, .param .ldv, .param .stV,
       .cast (.ptr .hipDoubleComplex) .work, .param .lwork, .param .info, .param .hRnrmF, .param .bc]⟩)]
  dflt := ⟨[], .status HIPSOLVER_STATUS_NOT_SUPPORTED⟩

/-- The overload of `hipsolver_getrf_bufferSize` at hipsolver.hpp 4479-4502 (`float* A`). -/
def hipsolver_getrf_bufferSize_float : Wrapper where
  name := "hipsolver_getrf_bufferSize"
  params := [(.testAPI_t, .API), (.hipsolverHandle_t, .handle), (.hipsolverDnParams_t, .params),
    (.int, .m), (.int, .n), (.ptr .float, .A), (.int, .lda), (.ptr .int, .lworkOnDevice),
    (.ptr .int, .lworkOnHost)]
  pre := [.storeZero .lworkOnHost]
  scrutinee := .API
  cases := [
    (.api API_NORMAL, ⟨[], .call "hipsolverSgetrf_bufferSize"
      [.param .handle, .param .m, .param .n, .param .A, .param .lda, .param .lworkOnDevice]⟩),
    (.api API_FORTRAN, ⟨[], .call "hipsolverSgetrf_bufferSizeFortran"
      [.param .handle, .param .m, .param .n, .param .A, .param .lda, .param .lworkOnDevice]⟩),
    (.api API_COMPAT, ⟨[], .call "hipsolverDnSgetrf_bufferSize"
      [.param .handle, .param .m, .param .n, .param .A, .param .lda, .param .lworkOnDevice]⟩)]
  dflt := ⟨[.storeZero .lworkOnDevice], .status HIPSOLVER_STATUS_NOT_SUPPORTED⟩

/-- The overload of `hipsolver_getrf_bufferSize` at hipsolver.hpp 4504-4527 (`double* A`). -/
def hipsolver_getrf_bufferSize_double : Wrapper where
  name := "hipsolver_getrf_bufferSize"
  params := [(.testAPI_t, .API), (.hipsolverHandle_t, .handle), (.hipsolverDnParams_t, .params),
    (.int, .m), (.int, .n), (.ptr .double, .A), (.int, .lda), (.ptr .int, .lworkOnDevice),
    (.ptr .int, .lworkOnHost)]
  pre := [.storeZero .lworkOnHost]
  scrutinee := .API
  cases := [
    (.api API_NORMAL, ⟨[], .call "hipsolverDgetrf_bufferSize"
      [.param .handle, .param .m, .param .n, .param .A, .param .lda, .param .lworkOnDevice]⟩),
    (.api API_FORTRAN, ⟨[], .call "hipsolverDgetrf_bufferSizeFortran"
      [.param .handle, .param .m, .param .n, .param .A, .param .lda, .param .lworkOnDevice]⟩),
    (.api API_COMPAT, ⟨[], .call "hipsolverDnDgetrf_bufferSize"
      [.param .handle, .param .m, .param .n, .param .A, .param .lda, .param .lworkOnDevice]⟩)]
  dflt := ⟨[.storeZero .lworkOnDevice], .status HIPSOLVER_STATUS_NOT_SUPPORTED⟩

/-- The overload of `hipsolver_getrf_bufferSize` at hipsolver.hpp 4529-4553 (`hipsolverComplex* A`). -/
def hipsolver_getrf_bufferSize_hipsolverComplex : Wrapper where
  name := "hipsolver_getrf_bufferSize"
  params := [(.testAPI_t, .API), (.hipsolverHandle_t, .handle), (.hipsolverDnParams_t, .params),
    (.int, .m), (.int, .n), (.ptr .hipsolverComplex, .A), (.int, .lda), (.ptr .int, .lworkOnDevice),
    (.ptr .int, .lworkOnHost)]
  pre := [.storeZero .lworkOnHost]
  scrutinee := .API
  cases := [
    (.api API_NORMAL, ⟨[], .call "hipsolverCgetrf_bufferSize"
      [.param .handle, .param .m, .param .n, .cast (.ptr .hipFloatComplex) .A, .param .lda,
       .param .lworkOnDevice]⟩),
    (.api API_FORTRAN, ⟨[], .call "hipsolverCgetrf_bufferSizeFortran"
      [.param .handle, .param .m, .param .n, .cast (.ptr .hipFloatComplex) .A, .param .lda,
       .param .lworkOnDevice]⟩),
    (.api API_COMPAT, ⟨[], .call "hipsolverDnCgetrf_bufferSize"
      [.param .handle, .param .m, .param .n, .cast (.ptr .hipFloatComplex) .A, .param .lda,
       .param .lworkOnDevice]⟩)]
  dflt := ⟨[.storeZero .lworkOnDevice], .status HIPSOLVER_STATUS_NOT_SUPPORTED⟩

/-- The overload of `hipsolver_getrf_bufferSize` at hipsolver.hpp 4555-4579 (`hipsolverDoubleComplex* A`). -/
def hipsolver_getrf_bufferSize_hipsolverDoubleComplex : Wrapper where
  name := "hipsolver_getrf_bufferSize"
  params := [(.testAPI_t, .API), (.hipsolverHandle_t, .handle), (.hipsolverDnParams_t, .params),
    (.int, .m), (.int, .n), (.ptr .hipsolverDoubleComplex, .A), (.int, .lda),
    (.ptr .int, .lworkOnDevice), (.ptr .int, .lworkOnHost)]
  pre := [.storeZero .lworkOnHost]
  scrutinee := .API
  cases := [
    (.api API_NORMAL, ⟨[], .call "hipsolverZgetrf_bufferSize"
      [.param .handle, .param .m, .param .n, .cast (.ptr .hipDoubleComplex) .A, .param .lda,
       .param .lworkOnDevice]⟩),
    (.api API_FORTRAN, ⟨[], .call "hipsolverZgetrf_bufferSizeFortran"
      [.param .handle, .param .m, .param .n, .cast (.ptr .hipDoubleComplex) .A, .param .lda,
       .param .lworkOnDevice]⟩),
    (.api API_COMPAT, ⟨[], .call "hipsolverDnZgetrf_bufferSize"
      [.param .handle, .param .m, .param .n, .cast (.ptr .hipDoubleComplex) .A, .param .lda,
       .param .lworkOnDevice]⟩)]
  dflt := ⟨[.storeZero .lworkOnDevice], .status HIPSOLVER_STATUS_NOT_SUPPORTED⟩

/-- The overload of `hipsolver_getrf_bufferSize` at hipsolver.hpp 4581-4601 (`float* A`). -/
def hipsolver_getrf_bufferSize_float_int64_t : Wrapper where
  name := "hipsolver_getrf_bufferSize"
  params := [(.testAPI_t, .API), (.hipsolverHandle_t, .handle), (.hipsolverDnParams_t, .params),
    (.int64_t, .m), (.int64_t, .n), (.ptr .float, .A), (.int64_t, .lda),
    (.ptr .size_t, .lworkOnDevice), (.ptr .size_t, .lworkOnHost)]
  pre := []
  scrutinee := .API
  cases := [
    (.api API_COMPAT, ⟨[], .call "hipsolverDnXgetrf_bufferSize"
      [.param .handle, .param .params, .param .m, .param .n, .tag .HIP_R_32F, .param .A,
       .param .lda, .tag .HIP_R_32F, .param .lworkOnDevice, .param .lworkOnHost]⟩)]
  dflt := ⟨[.storeZero .lworkOnDevice, .storeZero .lworkOnHost], .status HIPSOLVER_STATUS_NOT_SUPPORTED⟩

/-- The overload of `hipsolver_getrf_bufferSize` at hipsolver.hpp 4603-4623 (`double* A`). -/
def hipsolver_getrf_bufferSize_double_int64_t : Wrapper where
  name := "hipsolver_getrf_bufferSize"
  params := [(.testAPI_t, .API), (.hipsolverHandle_t, .handle), (.hipsolverDnParams_t, .params),
    (.int64_t, .m), (.int64_t, .n), (.ptr .double, .A), (.int64_t, .lda),
    (.ptr .size_t, .lworkOnDevice), (.ptr .size_t, .lworkOnHost)]
  pre := []
  scrutinee := .API
  cases := [
    (.api API_COMPAT, ⟨[], .call "hipsolverDnXgetrf_bufferSize"
      [.param .handle, .param .params, .param .m, .param .n, .tag .HIP_R_64F, .param .A,
       .param .lda, .tag .HIP_R_64F, .param .lworkOnDevice, .param .lworkOnHost]⟩)]
  dflt := ⟨[.storeZero .lworkOnDevice, .storeZero .lworkOnHost], .status HIPSOLVER_STATUS_NOT_SUPPORTED⟩

/-- The overload of `hipsolver_getrf_bufferSize` at hipsolver.hpp 4625-4645 (`hipsolverComplex* A`). -/
def hipsolver_getrf_bufferSize_hipsolverComplex_int64_t : Wrapper where
  name := "hipsolver_getrf_bufferSize"
  params := [(.testAPI_t, .API), (.hipsolverHandle_t, .handle), (.hipsolverDnParams_t, .params),
    (.int64_t, .m), (.int64_t, .n), (.ptr .hipsolverComplex, .A), (.int64_t, .lda),
    (.ptr .size_t, .lworkOnDevice), (.ptr .size_t, .lworkOnHost)]
  pre := []
  scrutinee := .API
  cases := [
    (.api API_COMPAT, ⟨[], .call "hipsolverDnXgetrf_bufferSize"
      [.param .handle, .param .params, .param .m, .param .n, .tag .HIP_C_32F, .param .A,
       .param .lda, .tag .HIP_C_32F, .param .lworkOnDevice, .param .lworkOnHost]⟩)]
  dflt := ⟨[.storeZero .lworkOnDevice, .storeZero .lworkOnHost], .status HIPSOLVER_STATUS_NOT_SUPPORTED⟩

/-- The overload of `hipsolver_getrf_bufferSize` at hipsolver.hpp 4647-4667 (`hipsolverDoubleComplex* A`). -/
def hipsolver_getrf_bufferSize_hipsolverDoubleComplex_int64_t : Wrapper where
  name := "hipsolver_getrf_bufferSize"
  params := [(.testAPI_t, .API), (.hipsolverHandle_t, .handle), (.hipsolverDnParams_t, .params),
    (.int64_t, .m), (.int64_t, .n), (.ptr .hipsolverDoubleComplex, .A), (.int64_t, .lda),
    (.ptr .size_t, .lworkOnDevice), (.ptr .size_t, .lworkOnHost)]
  pre := []
  scrutinee := .API
  cases := [
    (.api API_COMPAT, ⟨[], .call "hipsolverDnXgetrf_bufferSize"
      [.param .handle, .param .params, .param .m, .param .n, .tag .HIP_C_64F, .param .A,
       .param .lda, .tag .HIP_C_64F, .param .lworkOnDevice, .param .lworkOnHost]⟩)]
  dflt := ⟨[.storeZero .lworkOnDevice, .storeZero .lworkOnHost], .status HIPSOLVER_STATUS_NOT_SUPPORTED⟩

/-- The overload of `hipsolver_getrf` at hipsolver.hpp 4669-4701 (`float* A`). -/
def hipsolver_getrf_float : Wrapper where
  name := "hipsolver_getrf"
  params := [(.testAPI_t, .API), (.bool, .NPVT), (.hipsolverHandle_t, .handle),
    (.hipsolverDnParams_t, .params), (.int, .m), (.int, .n), (.ptr .float, .A), (.int, .lda),
    (.int, .stA), (.ptr .int, .ipiv), (.int, .stP), (.ptr .float, .workOnDevice),
    (.int, .lworkOnDevice), (.ptr .float, .workOnHost), (.int, .lworkOnHost), (.ptr .int, .info),
    (.int, .bc)]
  pre := []
  scrutinee := .marshal .NPVT
  cases := [
    (.code C_NORMAL, ⟨[], .call "hipsolverSgetrf"
      [.param .handle, .param .m, .param .n, .param .A, .param .lda, .param .workOnDevice,
       .param .lworkOnDevice, .param .ipiv, .param .info]⟩),
    (.code C_NORMAL_ALT, ⟨[], .call "hipsolverSgetrf"
      [.param .handle, .param .m, .param .n, .param .A, .param .lda, .param .workOnDevice,
       .param .lworkOnDevice, .nullptr, .param .info]⟩),
    (.code FORTRAN_NORMAL, ⟨[], .call "hipsolverSgetrfFortran"
      [.param .handle, .param .m, .param .n, .param .A, .param .lda, .param .workOnDevice,
       .param .lworkOnDevice, .param .ipiv, .param .info]⟩),
    (.code COMPAT_NORMAL, ⟨[], .call "hipsolverDnSgetrf"
      [.param .handle, .param .m, .param .n, .param .A, .param .lda, .param .workOnDevice,
       .param .ipiv, .param .info]⟩)]
  dflt := ⟨[], .status HIPSOLVER_STATUS_NOT_SUPPORTED⟩

/-- The overload of `hipsolver_getrf` at hipsolver.hpp 4703-4735 (`double* A`). -/
def hipsolver_getrf_double : Wrapper where
  name := "hipsolver_getrf"
  params := [(.testAPI_t, .API), (.bool, .NPVT), (.hipsolverHandle_t, .handle),
    (.hipsolverDnParams_t, .params), (.int, .m), (.int, .n), (.ptr .double, .A), (.int, .lda),
    (.int, .stA), (.ptr .int, .ipiv), (.int, .stP), (.ptr .double, .workOnDevice),
    (.int, .lworkOnDevice), (.ptr .double, .workOnHost), (.int, .lworkOnHost), (.ptr .int, .info),
    (.int, .bc)]
  pre := []
  scrutinee := .marshal .NPVT
  cases := [
    (.code C_NORMAL, ⟨[], .call "hipsolverDgetrf"
      [.param .handle, .param .m, .param .n, .param .A, .param .lda, .param .workOnDevice,
       .param .lworkOnDevice, .param .ipiv, .param .info]⟩),
    (.code C_NORMAL_ALT, ⟨[], .call "hipsolverDgetrf"
      [.param .handle, .param .m, .param .n, .param .A, .param .lda, .param .workOnDevice,
       .param .lworkOnDevice, .nullptr, .param .info]⟩),
    (.code FORTRAN_NORMAL, ⟨[], .call "hipsolverDgetrfFortran"
      [.param .handle, .param .m, .param .n, .param .A, .param .lda, .param .workOnDevice,
       .param .lworkOnDevice, .param .ipiv, .param .info]⟩),
    (.code COMPAT_NORMAL, ⟨[], .call "hipsolverDnDgetrf"
      [.param .handle, .param .m, .param .n, .param .A, .param .lda, .param .workOnDevice,
       .param .ipiv, .param .info]⟩)]
  dflt := ⟨[], .status HIPSOLVER_STATUS_NOT_SUPPORTED⟩

/-- The overload of `hipsolver_getrf` at hipsolver.hpp 4737-4793 (`hipsolverComplex* A`). -/
def hipsolver_getrf_hipsolverComplex : Wrapper where
  name := "hipsolver_getrf"
  params := [(.testAPI_t, .API), (.bool, .NPVT), (.hipsolverHandle_t, .handle),
    (.hipsolverDnParams_t, .params), (.int, .m), (.int, .n), (.ptr .hipsolverComplex, .A),
    (.int, .lda), (.int, .stA), (.ptr .int, .ipiv), (.int, .stP),
    (.ptr .hipsolverComplex, .workOnDevice), (.int, .lworkOnDevice),
    (.ptr .hipsolverComplex, .workOnHost), (.int, .lworkOnHost), (.ptr .int, .info), (.int, .bc)]
  pre := []
  scrutinee := .marshal .NPVT
  cases := [
    (.code C_NORMAL, ⟨[], .call "hipsolverCgetrf"
      [.param .handle, .param .m, .param .n, .cast (.ptr .hipFloatComplex) .A, .param .lda,
       .cast (.ptr .hipFloatComplex) .workOnDevice, .param .lworkOnDevice, .param .ipiv,
       .param .info]⟩),
    (.code C_NORMAL_ALT, ⟨[], .call "hipsolverCgetrf"
      [.param .handle, .param .m, .param .n, .cast (.ptr .hipFloatComplex) .A, .param .lda,
       .cast (.ptr .hipFloatComplex) .workOnDevice, .param .lworkOnDevice, .nullptr, .param .info]⟩),
    (.code FORTRAN_NORMAL, ⟨[], .call "hipsolverCgetrfFortran"
      [.param .handle, .param .m, .param .n, .cast (.ptr .hipFloatComplex) .A, .param .lda,
       .cast (.ptr .hipFloatComplex) .workOnDevice, .param .lworkOnDevice, .param .ipiv,
       .param .info]⟩),
    (.code COMPAT_NORMAL, ⟨[], .call "hipsolverDnCgetrf"
      [.param .handle, .param .m, .param .n, .cast (.ptr .hipFloatComplex) .A, .param .lda,
       .cast (.ptr .hipFloatComplex) .workOnDevice, .param .ipiv, .param .info]⟩)]
  dflt := ⟨[], .status HIPSOLVER_STATUS_NOT_SUPPORTED⟩

/-- The overload of `hipsolver_getrf` at hipsolver.hpp 4795-4851 (`hipsolverDoubleComplex* A`). -/
def hipsolver_getrf_hipsolverDoubleComplex : Wrapper where
  name := "hipsolver_getrf"
  params := [(.testAPI_t, .API), (.bool, .NPVT), (.hipsolverHandle_t, .handle),
    (.hipsolverDnParams_t, .params), (.int, .m), (.int, .n), (.ptr .hipsolverDoubleComplex, .A),
    (.int, .lda), (.int, .stA), (.ptr .int, .ipiv), (.int, .stP),
    (.ptr .hipsolverDoubleComplex, .workOnDevice), (.int, .lworkOnDevice),
    (.ptr .hipsolverDoubleComplex, .workOnHost), (.int, .lworkOnHost), (.ptr .int, .info),
    (.int, .bc)]
  pre := []
  scrutinee := .marshal .NPVT
  cases := [
    (.code C_NORMAL, ⟨[], .call "hipsolverZgetrf"
      [.param .handle, .param .m, .param .n, .cast (.ptr .hipDoubleComplex) .A, .param .lda,
       .cast (.ptr .hipDoubleComplex) .workOnDevice, .param .lworkOnDevice, .param .ipiv,
       .param .info]⟩),
    (.code C_NORMAL_ALT, ⟨[], .call "hipsolverZgetrf"
      [.param .handle, .param .m, .param .n, .cast (.ptr .hipDoubleComplex) .A, .param .lda,
       .cast (.ptr .hipDoubleComplex) .workOnDevice, .param .lworkOnDevice, .nullptr, .param .info]⟩),
    (.code FORTRAN_NORMAL, ⟨[], .call "hipsolverZgetrfFortran"
      [.param .handle, .param .m, .param .n, .cast (.ptr .hipDoubleComplex) .A, .param .lda,
       .cast (.ptr .hipDoubleComplex) .workOnDevice, .param .lworkOnDevice, .param .ipiv,
       .param .info]⟩),
    (.code COMPAT_NORMAL, ⟨[], .call "hipsolverDnZgetrf"
      [.param .handle, .param .m, .param .n, .cast (.ptr .hipDoubleComplex) .A, .param .lda,
       .cast (.ptr .hipDoubleComplex) .workOnDevice, .param .ipiv, .param .info]⟩)]
  dflt := ⟨[], .status HIPSOLVER_STATUS_NOT_SUPPORTED⟩

/-- The overload of `hipsolver_getrf` at hipsolver.hpp 4853-4906 (`float* A`). -/
def hipsolver_getrf_float_int64_t : Wrapper where
  name := "hipsolver_getrf"
  params := [(.testAPI_t, .API), (.bool, .NPVT), (.hipsolverHandle_t, .handle),
    (.hipsolverDnParams_t, .params), (.int64_t, .m), (.int64_t, .n), (.ptr .float, .A),
    (.int64_t, .lda), (.int64_t, .stA), (.ptr .int64_t, .ipiv), (.int64_t, .stP),
    (.ptr .float, .workOnDevice), (.size_t, .lworkOnDevice), (.ptr .float, .workOnHost),
    (.size_t, .lworkOnHost), (.ptr .int, .info), (.int, .bc)]
  pre := []
  scrutinee := .marshal .NPVT
  cases := [
    (.code COMPAT_NORMAL, ⟨[], .call "hipsolverDnXgetrf"
      [.param .handle, .param .params, .param .m, .param .n, .tag .HIP_R_32F, .param .A,
       .param .lda, .param .ipiv, .tag .HIP_R_32F, .param .workOnDevice, .param .lworkOnDevice,
       .param .workOnHost, .param .lworkOnHost, .param .info]⟩),
    (.code COMPAT_NORMAL_ALT, ⟨[], .call "hipsolverDnXgetrf"
      [.param .handle, .param .params, .param .m, .param .n, .tag .HIP_R_32F, .param .A,
       .param .lda, .nullptr, .tag .HIP_R_32F, .param .workOnDevice, .param .lworkOnDevice,
       .param .workOnHost, .param .lworkOnHost, .param .info]⟩)]
  dflt := ⟨[], .status HIPSOLVER_STATUS_NOT_SUPPORTED⟩

/-- The overload of `hipsolver_getrf` at hipsolver.hpp 4908-4961 (`double* A`). -/
def hipsolver_getrf_double_int64_t : Wrapper where
  name := "hipsolver_getrf"
  params := [(.testAPI_t, .API), (.bool, .NPVT), (.hipsolverHandle_t, .handle),
    (.hipsolverDnParams_t, .params), (.int64_t, .m), (.int64_t, .n), (.ptr .double, .A),
    (.int64_t, .lda), (.int64_t, .stA), (.ptr .int64_t, .ipiv), (.int64_t, .stP),
    (.ptr .double, .workOnDevice), (.size_t, .lworkOnDevice), (.ptr .double, .workOnHost),
    (.size_t, .lworkOnHost), (.ptr .int, .info), (.int, .bc)]
  pre := []
  scrutinee := .marshal .NPVT
  cases := [
    (.code COMPAT_NORMAL, ⟨[], .call "hipsolverDnXgetrf"
      [.param .handle, .param .params, .param .m, .param .n, .tag .HIP_R_64F, .param .A,
       .param .lda, .param .ipiv, .tag .HIP_R_64F, .param .workOnDevice, .param .lworkOnDevice,
       .param .workOnHost, .param .lworkOnHost, .param .info]⟩),
    (.code COMPAT_NORMAL_ALT, ⟨[], .call "hipsolverDnXgetrf"
      [.param .handle, .param .params, .param .m, .param .n, .tag .HIP_R_64F, .param .A,
       .param .lda, .nullptr, .tag .HIP_R_64F, .param .workOnDevice, .param .lworkOnDevice,
       .param .workOnHost, .param .lworkOnHost, .param .info]⟩)]
  dflt := ⟨[], .status HIPSOLVER_STATUS_NOT_SUPPORTED⟩

/-- The overload of `hipsolver_getrf` at hipsolver.hpp 4963-5016 (`hipsolverComplex* A`). -/
def hipsolver_getrf_hipsolverComplex_int64_t : Wrapper where
  name := "hipsolver_getrf"
  params := [(.testAPI_t, .API), (.bool, .NPVT), (.hipsolverHandle_t, .handle),
    (.hipsolverDnParams_t, .params), (.int64_t, .m), (.int64_t, .n), (.ptr .hipsolverComplex, .A),
    (.int64_t, .lda), (.int64_t, .stA), (.ptr .int64_t, .ipiv), (.int64_t, .stP),
    (.ptr .hipsolverComplex, .workOnDevice), (.size_t, .lworkOnDevice),
    (.ptr .hipsolverComplex, .workOnHost), (.size_t, .lworkOnHost), (.ptr .int, .info), (.int, .bc)]
  pre := []
  scrutinee := .marshal .NPVT
  cases := [
    (.code COMPAT_NORMAL, ⟨[], .call "hipsolverDnXgetrf"
      [.param .handle, .param .params, .param .m, .param .n, .tag .HIP_C_32F, .param .A,
       .param .lda, .param .ipiv, .tag .HIP_C_32F, .param .workOnDevice, .param .lworkOnDevice,
       .param .workOnHost, .param .lworkOnHost, .param .info]⟩),
    (.code COMPAT_NORMAL_ALT, ⟨[], .call "hipsolverDnXgetrf"
      [.param .handle, .param .params, .param .m, .param .n, .tag .HIP_C_32F, .param .A,
       .param .lda, .nullptr, .tag .HIP_C_32F, .param .workOnDevice, .param .lworkOnDevice,
       .param .workOnHost, .param .lworkOnHost, .param .info]⟩)]
  dflt := ⟨[], .status HIPSOLVER_STATUS_NOT_SUPPORTED⟩

/-- The overload of `hipsolver_getrf` at hipsolver.hpp 5018-5071 (`hipsolverDoubleComplex* A`). -/
def hipsolver_getrf_hipsolverDoubleComplex_int64_t : Wrapper where
  name := "hipsolver_getrf"
  params := [(.testAPI_t, .API), (.bool, .NPVT), (.hipsolverHandle_t, .handle),
    (.hipsolverDnParams_t, .params), (.int64_t, .m), (.int64_t, .n),
    (.ptr .hipsolverDoubleComplex, .A), (.int64_t, .lda), (.int64_t, .stA), (.ptr .int64_t, .ipiv),
    (.int64_t, .stP), (.ptr .hipsolverDoubleComplex, .workOnDevice), (.size_t, .lworkOnDevice),
    (.ptr .hipsolverDoubleComplex, .workOnHost), (.size_t, .lworkOnHost), (.ptr .int, .info),
    (.int, .bc)]
  pre := []
  scrutinee := .marshal .NPVT
  cases := [
    (.code COMPAT_NORMAL, ⟨[], .call "hipsolverDnXgetrf"
      [.param .handle, .param .params, .param .m, .param .n, .tag .HIP_C_64F, .param .A,
       .param .lda, .param .ipiv, .tag .HIP_C_64F, .param .workOnDevice, .param .lworkOnDevice,
       .param .workOnHost, .param .lworkOnHost, .param .info]⟩),
    (.code COMPAT_NORMAL_ALT, ⟨[], .call "hipsolverDnXgetrf"
      [.param .handle, .param .params, .param .m, .param .n, .tag .HIP_C_64F, .param .A,
       .param .lda, .nullptr, .tag .HIP_C_64F, .param .workOnDevice, .param .lworkOnDevice,
       .param .workOnHost, .param .lworkOnHost, .param .info]⟩)]
  dflt := ⟨[], .status HIPSOLVER_STATUS_NOT_SUPPORTED⟩

/-- The overload of `hipsolver_getrs_bufferSize` at hipsolver.hpp 5076-5100 (`float* A`). -/
def hipsolver_getrs_bufferSize_float : Wrapper where
  name := "hipsolver_getrs_bufferSize"
  params := [(.testAPI_t, .API), (.hipsolverHandle_t, .handle), (.hipsolverDnParams_t, .params),
    (.hipsolverOperation_t, .trans), (.int, .n), (.int, .nrhs), (.ptr .float, .A), (.int, .lda),
    (.ptr .int, .ipiv), (.ptr .float, .B), (.int, .ldb), (.ptr .int, .lwork)]
  pre := []
  scrutinee := .API
  cases := [
    (.api API_NORMAL, ⟨[], .call "hipsolverSgetrs_bufferSize"
      [.param .handle, .param .trans, .param .n, .param .nrhs, .param .A, .param .lda, .param .ipiv,
       .param .B, .param .ldb, .param .lwork]⟩),
    (.api API_FORTRAN, ⟨[], .call "hipsolverSgetrs_bufferSizeFortran"
      [.param .handle, .param .trans, .param .n, .param .nrhs, .param .A, .param .lda, .param .ipiv,
       .param .B, .param .ldb, .param .lwork]⟩)]
  dflt := ⟨[.storeZero .lwork], .status HIPSOLVER_STATUS_NOT_SUPPORTED⟩

/-- The overload of `hipsolver_getrs_bufferSize` at hipsolver.hpp 5102-5126 (`double* A`). -/
def hipsolver_getrs_bufferSize_double : Wrapper where
  name := "hipsolver_getrs_bufferSize"
  params := [(.testAPI_t, .API), (.hipsolverHandle_t, .handle), (.hipsolverDnParams_t, .params),
    (.hipsolverOperation_t, .trans), (.int, .n), (.int, .nrhs), (.ptr .double, .A), (.int, .lda),
    (.ptr .int, .ipiv), (.ptr .double, .B), (.int, .ldb), (.ptr .int, .lwork)]
  pre := []
  scrutinee := .API
  cases := [
    (.api API_NORMAL, ⟨[], .call "hipsolverDgetrs_bufferSize"
      [.param .handle, .param .trans, .param .n, .param .nrhs, .param .A, .param .lda, .param .ipiv,
       .param .B, .param .ldb, .param .lwork]⟩),
    (.api API_FORTRAN, ⟨[], .call "hipsolverDgetrs_bufferSizeFortran"
      [.param .handle, .param .trans, .param .n, .param .nrhs, .param .A, .param .lda, .param .ipiv,
       .param .B, .param .ldb, .param .lwork]⟩)]
  dflt := ⟨[.storeZero .lwork], .status HIPSOLVER_STATUS_NOT_SUPPORTED⟩

/-- The overload of `hipsolver_getrs_bufferSize` at hipsolver.hpp 5128-5169 (`hipsolverComplex* A`). -/
def hipsolver_getrs_bufferSize_hipsolverComplex : Wrapper where
  name := "hipsolver_getrs_bufferSize"
  params := [(.testAPI_t, .API), (.hipsolverHandle_t, .handle), (.hipsolverDnParams_t, .params),
    (.hipsolverOperation_t, .trans), (.int, .n), (.int, .nrhs), (.ptr .hipsolverComplex, .A),
    (.int, .lda), (.ptr .int, .ipiv), (.ptr .hipsolverComplex, .B), (.int, .ldb),
    (.ptr .int, .lwork)]
  pre := []
  scrutinee := .API
  cases := [
    (.api API_NORMAL, ⟨[], .call "hipsolverCgetrs_bufferSize"
      [.param .handle, .param .trans, .param .n, .param .nrhs, .cast (.ptr .hipFloatComplex) .A,
       .param .lda, .param .ipiv, .cast (.ptr .hipFloatComplex) .B, .param .ldb, .param .lwork]⟩),
    (.api API_FORTRAN, ⟨[], .call "hipsolverCgetrs_bufferSizeFortran"
      [.param .handle, .param .trans, .param .n, .param .nrhs, .cast (.ptr .hipFloatComplex) .A,
       .param .lda, .param .ipiv, .cast (.ptr .hipFloatComplex) .B, .param .ldb, .param .lwork]⟩)]
  dflt := ⟨[.storeZero .lwork], .status HIPSOLVER_STATUS_NOT_SUPPORTED⟩

/-- The overload of `hipsolver_getrs_bufferSize` at hipsolver.hpp 5171-5212 (`hipsolverDoubleComplex* A`). -/
def hipsolver_getrs_bufferSize_hipsolverDoubleComplex : Wrapper where
  name := "hipsolver_getrs_bufferSize"
  params := [(.testAPI_t, .API), (.hipsolverHandle_t, .handle), (.hipsolverDnParams_t, .params),
    (.hipsolverOperation_t, .trans), (.int, .n), (.int, .nrhs), (.ptr .hipsolverDoubleComplex, .A),
    (.int, .lda), (.ptr .int, .ipiv), (.ptr .hipsolverDoubleComplex, .B), (.int, .ldb),
    (.ptr .int, .lwork)]
  pre := []
  scrutinee := .API
  cases := [
    (.api API_NORMAL, ⟨[], .call "hipsolverZgetrs_bufferSize"
      [.param .handle, .param .trans, .param .n, .param .nrhs, .cast (.ptr .hipDoubleComplex) .A,
       .param .lda, .param .ipiv, .cast (.ptr .hipDoubleComplex) .B, .param .ldb, .param .lwork]⟩),
    (.api API_FORTRAN, ⟨[], .call "hipsolverZgetrs_bufferSizeFortran"
      [.param .handle, .param .trans, .param .n, .param .nrhs, .cast (.ptr .hipDoubleComplex) .A,
       .param .lda, .param .ipiv, .cast (.ptr .hipDoubleComplex) .B, .param .ldb, .param .lwork]⟩)]
  dflt := ⟨[.storeZero .lwork], .status HIPSOLVER_STATUS_NOT_SUPPORTED⟩

/-- The overload of `hipsolver_getrs_bufferSize` at hipsolver.hpp 5214-5233 (`float* A`). -/
def hipsolver_getrs_bufferSize_float_int64_t : Wrapper where
  name := "hipsolver_getrs_bufferSize"
  params := [(.testAPI_t, .API), (.hipsolverHandle_t, .handle), (.hipsolverDnParams_t, .params),
    (.hipsolverOperation_t, .trans), (.int64_t, .n), (.int64_t, .nrhs), (.ptr .float, .A),
    (.int64_t, .lda), (.ptr .int64_t, .ipiv), (.ptr .float, .B), (.int64_t, .ldb),
    (.ptr .size_t, .lwork)]
  pre := []
  scrutinee := .API
  cases := []
  dflt := ⟨[.storeZero .lwork], .status HIPSOLVER_STATUS_NOT_SUPPORTED⟩

/-- The overload of `hipsolver_getrs_bufferSize` at hipsolver.hpp 5235-5254 (`double* A`). -/
def hipsolver_getrs_bufferSize_double_int64_t : Wrapper where
  name := "hipsolver_getrs_bufferSize"
  params := [(.testAPI_t, .API), (.hipsolverHandle_t, .handle), (.hipsolverDnParams_t, .params),
    (.hipsolverOperation_t, .trans), (.int64_t, .n), (.int64_t, .nrhs), (.ptr .double, .A),
    (.int64_t, .lda), (.ptr .int64_t, .ipiv), (.ptr .double, .B), (.int64_t, .ldb),
    (.ptr .size_t, .lwork)]
  pre := []
  scrutinee := .API
  cases := []
  dflt := ⟨[.storeZero .lwork], .status HIPSOLVER_STATUS_NOT_SUPPORTED⟩

/-- The overload of `hipsolver_getrs_bufferSize` at hipsolver.hpp 5256-5275 (`hipsolverComplex* A`). -/
def hipsolver_getrs_bufferSize_hipsolverComplex_int64_t : Wrapper where
  name := "hipsolver_getrs_bufferSize"
  params := [(.testAPI_t, .API), (.hipsolverHandle_t, .handle), (.hipsolverDnParams_t, .params),
    (.hipsolverOperation_t, .trans), (.int64_t, .n), (.int64_t, .nrhs),
    (.ptr .hipsolverComplex, .A), (.int64_t, .lda), (.ptr .int64_t, .ipiv),
    (.ptr .hipsolverComplex, .B), (.int64_t, .ldb), (.ptr .size_t, .lwork)]
  pre := []
  scrutinee := .API
  cases := []
  dflt := ⟨[.storeZero .lwork], .status HIPSOLVER_STATUS_NOT_SUPPORTED⟩

/-- The overload of `hipsolver_getrs_bufferSize` at hipsolver.hpp 5277-5296 (`hipsolverDoubleComplex* A`). -/
def hipsolver_getrs_bufferSize_hipsolverDoubleComplex_int64_t : Wrapper where
  name := "hipsolver_getrs_bufferSize"
  params := [(.testAPI_t, .API), (.hipsolverHandle_t, .handle), (.hipsolverDnParams_t, .params),
    (.hipsolverOperation_t, .trans), (.int64_t, .n), (.int64_t, .nrhs),
    (.ptr .hipsolverDoubleComplex, .A), (.int64_t, .lda), (.ptr .int64_t, .ipiv),
    (.ptr .hipsolverDoubleComplex, .B), (.int64_t, .ldb), (.ptr .size_t, .lwork)]
  pre := []
  scrutinee := .API
  cases := []
  dflt := ⟨[.storeZero .lwork], .status HIPSOLVER_STATUS_NOT_SUPPORTED⟩

/-- The overload of `hipsolver_getrs` at hipsolver.hpp 5298-5329 (`float* A`). -/
def hipsolver_getrs_float : Wrapper where
  name := "hipsolver_getrs"
  params := [(.testAPI_t, .API), (.hipsolverHandle_t, .handle), (.hipsolverDnParams_t, .params),
    (.hipsolverOperation_t, .trans), (.int, .n), (.int, .nrhs), (.ptr .float, .A), (.int, .lda),
    (.int, .stA), (.ptr .int, .ipiv), (.int, .stP), (.ptr .float, .B), (.int, .ldb), (.int, .stB),
    (.ptr .float, .work), (.int, .lwork), (.ptr .int, .info), (.int, .bc)]
  pre := []
  scrutinee := .API
  cases := [
    (.api API_NORMAL, ⟨[], .call "hipsolverSgetrs"
      [.param .handle, .param .trans, .param .n, .param .nrhs, .param .A, .param .lda, .param .ipiv,
       .param .B, .param .ldb, .param .work, .param .lwork, .param .info]⟩),
    (.api API_FORTRAN, ⟨[], .call "hipsolverSgetrsFortran"
      [.param .handle, .param .trans, .param .n, .param .nrhs, .param .A, .param .lda, .param .ipiv,
       .param .B, .param .ldb, .param .work, .param .lwork, .param .info]⟩),
    (.api API_COMPAT, ⟨[], .call "hipsolverDnSgetrs"
      [.param .handle, .param .trans, .param .n, .param .nrhs, .param .A, .param .lda, .param .ipiv,
       .param .B, .param .ldb, .param .info]⟩)]
  dflt := ⟨[], .status HIPSOLVER_STATUS_NOT_SUPPORTED⟩

/-- The overload of `hipsolver_getrs` at hipsolver.hpp 5331-5362 (`double* A`). -/
def hipsolver_getrs_double : Wrapper where
  name := "hipsolver_getrs"
  params := [(.testAPI_t, .API), (.hipsolverHandle_t, .handle), (.hipsolverDnParams_t, .params),
    (.hipsolverOperation_t, .trans), (.int, .n), (.int, .nrhs), (.ptr .double, .A), (.int, .lda),
    (.int, .stA), (.ptr .int, .ipiv), (.int, .stP), (.ptr .double, .B), (.int, .ldb), (.int, .stB),
    (.ptr .double, .work), (.int, .lwork), (.ptr .int, .info), (.int, .bc)]
  pre := []
  scrutinee := .API
  cases := [
    (.api API_NORMAL, ⟨[], .call "hipsolverDgetrs"
      [.param .handle, .param .trans, .param .n, .param .nrhs, .param .A, .param .lda, .param .ipiv,
       .param .B, .param .ldb, .param .work, .param .lwork, .param .info]⟩),
    (.api API_FORTRAN, ⟨[], .call "hipsolverDgetrsFortran"
      [.param .handle, .param .trans, .param .n, .param .nrhs, .param .A, .param .lda, .param .ipiv,
       .param .B, .param .ldb, .param .work, .param .lwork, .param .info]⟩),
    (.api API_COMPAT, ⟨[], .call "hipsolverDnDgetrs"
      [.param .handle, .param .trans, .param .n, .param .nrhs, .param .A, .param .lda, .param .ipiv,
       .param .B, .param .ldb, .param .info]⟩)]
  dflt := ⟨[], .status HIPSOLVER_STATUS_NOT_SUPPORTED⟩

/-- The overload of `hipsolver_getrs` at hipsolver.hpp 5364-5417 (`hipsolverComplex* A`). -/
def hipsolver_getrs_hipsolverComplex : Wrapper where
  name := "hipsolver_getrs"
  params := [(.testAPI_t, .API), (.hipsolverHandle_t, .handle), (.hipsolverDnParams_t, .params),
    (.hipsolverOperation_t, .trans), (.int, .n), (.int, .nrhs), (.ptr .hipsolverComplex, .A),
    (.int, .lda), (.int, .stA), (.ptr .int, .ipiv), (.int, .stP), (.ptr .hipsolverComplex, .B),
    (.int, .ldb), (.int, .stB), (.ptr .hipsolverComplex, .work), (.int, .lwork), (.ptr .int, .info),
    (.int, .bc)]
  pre := []
  scrutinee := .API
  cases := [
    (.api API_NORMAL, ⟨[], .call "hipsolverCgetrs"
      [.param .handle, .param .trans, .param .n, .param .nrhs, .cast (.ptr .hipFloatComplex) .A,
       .param .lda, .param .ipiv, .cast (.ptr .hipFloatComplex) .B, .param .ldb,
       .cast (.ptr .hipFloatComplex) .work, .param .lwork, .param .info]⟩),
    (.api API_FORTRAN, ⟨[], .call "hipsolverCgetrsFortran"
      [.param .handle, .param .trans, .param .n, .param .nrhs, .cast (.ptr .hipFloatComplex) .A,
       .param .lda, .param .ipiv, .cast (.ptr .hipFloatComplex) .B, .param .ldb,
       .cast (.ptr .hipFloatComplex) .work, .param .lwork, .param .info]⟩),
    (.api API_COMPAT, ⟨[], .call "hipsolverDnCgetrs"
      [.param .handle, .param .trans, .param .n, .param .nrhs, .cast (.ptr .hipFloatComplex) .A,
       .param .lda, .param .ipiv, .cast (.ptr .hipFloatComplex) .B, .param .ldb, .param .info]⟩)]
  dflt := ⟨[], .status HIPSOLVER_STATUS_NOT_SUPPORTED⟩

/-- The overload of `hipsolver_getrs` at hipsolver.hpp 5419-5480 (`hipsolverDoubleComplex* A`). -/
def hipsolver_getrs_hipsolverDoubleComplex : Wrapper where
  name := "hipsolver_getrs"
  params := [(.testAPI_t, .API), (.hipsolverHandle_t, .handle), (.hipsolverDnParams_t, .params),
    (.hipsolverOperation_t, .trans), (.int, .n), (.int, .nrhs), (.ptr .hipsolverDoubleComplex, .A),
    (.int, .lda), (.int, .stA), (.ptr .int, .ipiv), (.int, .stP),
    (.ptr .hipsolverDoubleComplex, .B), (.int, .ldb), (.int, .stB),
    (.ptr .hipsolverDoubleComplex, .work), (.int, .lwork), (.ptr .int, .info), (.int, .bc)]
  pre := []
  scrutinee := .API
  cases := [
    (.api API_NORMAL, ⟨[], .call "hipsolverZgetrs"
      [.param .handle, .param .trans, .param .n, .param .nrhs, .cast (.ptr .hipDoubleComplex) .A,
       .param .lda, .param .ipiv, .cast (.ptr .hipDoubleComplex) .B, .param .ldb,
       .cast (.ptr .hipDoubleComplex) .work, .param .lwork, .param .info]⟩),
    (.api API_FORTRAN, ⟨[], .call "hipsolverZgetrsFortran"
      [.param .handle, .param .trans, .param .n, .param .nrhs, .cast (.ptr .hipDoubleComplex) .A,
       .param .lda, .param .ipiv, .cast (.ptr .hipDoubleComplex) .B, .param .ldb,
       .cast (.ptr .hipDoubleComplex) .work, .param .lwork, .param .info]⟩),
    (.api API_COMPAT, ⟨[], .call "hipsolverDnZgetrs"
      [.param .handle, .param .trans, .param .n, .param .nrhs, .cast (.ptr .hipDoubleComplex) .A,
       .param .lda, .param .ipiv, .cast (.ptr .hipDoubleComplex) .B, .param .ldb, .param .info]⟩)]
  dflt := ⟨[], .status HIPSOLVER_STATUS_NOT_SUPPORTED⟩

/-- The overload of `hipsolver_getrs` at hipsolver.hpp 5482-5509 (`float* A`). -/
def hipsolver_getrs_float_int64_t : Wrapper where
  name := "hipsolver_getrs"
  params := [(.testAPI_t, .API), (.hipsolverHandle_t, .handle), (.hipsolverDnParams_t, .params),
    (.hipsolverOperation_t, .trans), (.int64_t, .n), (.int64_t, .nrhs), (.ptr .float, .A),
    (.int64_t, .lda), (.int64_t, .stA), (.ptr .int64_t, .ipiv), (.int64_t, .stP), (.ptr .float, .B),
    (.int64_t, .ldb), (.int64_t, .stB), (.ptr .float, .work), (.size_t, .lwork), (.ptr .int, .info),
    (.int, .bc)]
  pre := []
  scrutinee := .API
  cases := [
    (.api API_COMPAT, ⟨[], .call "hipsolverDnXgetrs"
      [.param .handle, .param .params, .param .trans, .param .n, .param .nrhs, .tag .HIP_R_32F,
       .param .A, .param .lda, .param .ipiv, .tag .HIP_R_32F, .param .B, .param .ldb, .param .info]⟩)]
  dflt := ⟨[], .status HIPSOLVER_STATUS_NOT_SUPPORTED⟩

/-- The overload of `hipsolver_getrs` at hipsolver.hpp 5511-5538 (`double* A`). -/
def hipsolver_getrs_double_int64_t : Wrapper where
  name := "hipsolver_getrs"
  params := [(.testAPI_t, .API), (.hipsolverHandle_t, .handle), (.hipsolverDnParams_t, .params),
    (.hipsolverOperation_t, .trans), (.int64_t, .n), (.int64_t, .nrhs), (.ptr .double, .A),
    (.int64_t, .lda), (.int64_t, .stA), (.ptr .int64_t, .ipiv), (.int64_t, .stP),
    (.ptr .double, .B), (.int64_t, .ldb), (.int64_t, .stB), (.ptr .double, .work),
    (.size_t, .lwork), (.ptr .int, .info), (.int, .bc)]
  pre := []
  scrutinee := .API
  cases := [
    (.api API_COMPAT, ⟨[], .call "hipsolverDnXgetrs"
      [.param .handle, .param .params, .param .trans, .param .n, .param .nrhs, .tag .HIP_R_64F,
       .param .A, .param .lda, .param .ipiv, .tag .HIP_R_64F, .param .B, .param .ldb, .param .info]⟩)]
  dflt := ⟨[], .status HIPSOLVER_STATUS_NOT_SUPPORTED⟩

/-- The overload of `hipsolver_getrs` at hipsolver.hpp 5540-5567 (`hipsolverComplex* A`). -/
def hipsolver_getrs_hipsolverComplex_int64_t : Wrapper where
  name := "hipsolver_getrs"
  params := [(.testAPI_t, .API), (.hipsolverHandle_t, .handle), (.hipsolverDnParams_t, .params),
    (.hipsolverOperation_t, .trans), (.int64_t, .n), (.int64_t, .nrhs),
    (.ptr .hipsolverComplex, .A), (.int64_t, .lda), (.int64_t, .stA), (.ptr .int64_t, .ipiv),
    (.int64_t, .stP), (.ptr .hipsolverComplex, .B), (.int64_t, .ldb), (.int64_t, .stB),
    (.ptr .hipsolverComplex, .work), (.size_t, .lwork), (.ptr .int, .info), (.int, .bc)]
  pre := []
  scrutinee := .API
  cases := [
    (.api API_COMPAT, ⟨[], .call "hipsolverDnXgetrs"
      [.param .handle, .param .params, .param .trans, .param .n, .param .nrhs, .tag .HIP_C_32F,
       .param .A, .param .lda, .param .ipiv, .tag .HIP_C_32F, .param .B, .param .ldb, .param .info]⟩)]
  dflt := ⟨[], .status HIPSOLVER_STATUS_NOT_SUPPORTED⟩

/-- The overload of `hipsolver_getrs` at hipsolver.hpp 5569-5596 (`hipsolverDoubleComplex* A`). -/
def hipsolver_getrs_hipsolverDoubleComplex_int64_t : Wrapper where
  name := "hipsolver_getrs"
  params := [(.testAPI_t, .API), (.hipsolverHandle_t, .handle), (.hipsolverDnParams_t, .params),
    (.hipsolverOperation_t, .trans), (.int64_t, .n), (.int64_t, .nrhs),
    (.ptr .hipsolverDoubleComplex, .A), (.int64_t, .lda), (.int64_t, .stA), (.ptr .int64_t, .ipiv),
    (.int64_t, .stP), (.ptr .hipsolverDoubleComplex, .B), (.int64_t, .ldb), (.int64_t, .stB),
    (.ptr .hipsolverDoubleComplex, .work), (.size_t, .lwork), (.ptr .int, .info), (.int, .bc)]
  pre := []
  scrutinee := .API
  cases := [
    (.api API_COMPAT, ⟨[], .call "hipsolverDnXgetrs"
      [.param .handle, .param .params, .param .trans, .param .n, .param .nrhs, .tag .HIP_C_64F,
       .param .A, .param .lda, .param .ipiv, .tag .HIP_C_64F, .param .B, .param .ldb, .param .info]⟩)]
  dflt := ⟨[], .status HIPSOLVER_STATUS_NOT_SUPPORTED⟩

/-- The overload of `hipsolver_potrf_bufferSize` at hipsolver.hpp 5601-5622 (`float* A`). -/
def hipsolver_potrf_bufferSize_float : Wrapper where
  name := "hipsolver_potrf_bufferSize"
  params := [(.testAPI_t, .API), (.hipsolverHandle_t, .handle), (.hipsolverFillMode_t, .uplo),
    (.int, .n), (.ptr .float, .A), (.int, .lda), (.ptr .int, .lwork), (.int, .bc)]
  pre := []
  scrutinee := .API
  cases := [
    (.api API_NORMAL, ⟨[], .call "hipsolverSpotrf_bufferSize"
      [.param .handle, .param .uplo, .param .n, .param .A, .param .lda, .param .lwork]⟩),
    (.api API_FORTRAN, ⟨[], .call "hipsolverSpotrf_bufferSizeFortran"
      [.param .handle, .param .uplo, .param .n, .param .A, .param .lda, .param .lwork]⟩),
    (.api API_COMPAT, ⟨[], .call "hipsolverDnSpotrf_bufferSize"
      [.param .handle, .param .uplo, .param .n, .param .A, .param .lda, .param .lwork]⟩)]
  dflt := ⟨[.storeZero .lwork], .status HIPSOLVER_STATUS_NOT_SUPPORTED⟩

/-- The overload of `hipsolver_potrf_bufferSize` at hipsolver.hpp 5624-5645 (`double* A`). -/
def hipsolver_potrf_bufferSize_double : Wrapper where
  name := "hipsolver_potrf_bufferSize"
  params := [(.testAPI_t, .API), (.hipsolverHandle_t, .handle), (.hipsolverFillMode_t, .uplo),
    (.int, .n), (.ptr .double, .A), (.int, .lda), (.ptr .int, .lwork), (.int, .bc)]
  pre := []
  scrutinee := .API
  cases := [
    (.api API_NORMAL, ⟨[], .call "hipsolverDpotrf_bufferSize"
      [.param .handle, .param .uplo, .param .n, .param .A, .param .lda, .param .lwork]⟩),
    (.api API_FORTRAN, ⟨[], .call "hipsolverDpotrf_bufferSizeFortran"
      [.param .handle, .param .uplo, .param .n, .param .A, .param .lda, .param .lwork]⟩),
    (.api API_COMPAT, ⟨[], .call "hipsolverDnDpotrf_bufferSize"
      [.param .handle, .param .uplo, .param .n, .param .A, .param .lda, .param .lwork]⟩)]
  dflt := ⟨[.storeZero .lwork], .status HIPSOLVER_STATUS_NOT_SUPPORTED⟩

/-- The overload of `hipsolver_potrf_bufferSize` at hipsolver.hpp 5647-5668 (`hipsolverComplex* A`). -/
def hipsolver_potrf_bufferSize_hipsolverComplex : Wrapper where
  name := "hipsolver_potrf_bufferSize"
  params := [(.testAPI_t, .API), (.hipsolverHandle_t, .handle), (.hipsolverFillMode_t, .uplo),
    (.int, .n), (.ptr .hipsolverComplex, .A), (.int, .lda), (.ptr .int, .lwork), (.int, .bc)]
  pre := []
  scrutinee := .API
  cases := [
    (.api API_NORMAL, ⟨[], .call "hipsolverCpotrf_bufferSize"
      [.param .handle, .param .uplo, .param .n, .cast (.ptr .hipFloatComplex) .A, .param .lda,
       .param .lwork]⟩),
    (.api API_FORTRAN, ⟨[], .call "hipsolverCpotrf_bufferSizeFortran"
      [.param .handle, .param .uplo, .param .n, .cast (.ptr .hipFloatComplex) .A, .param .lda,
       .param .lwork]⟩),
    (.api API_COMPAT, ⟨[], .call "hipsolverDnCpotrf_bufferSize"
      [.param .handle, .param .uplo, .param .n, .cast (.ptr .hipFloatComplex) .A, .param .lda,
       .param .lwork]⟩)]
  dflt := ⟨[.storeZero .lwork], .status HIPSOLVER_STATUS_NOT_SUPPORTED⟩

/-- The overload of `hipsolver_potrf_bufferSize` at hipsolver.hpp 5670-5691 (`hipsolverDoubleComplex* A`). -/
def hipsolver_potrf_bufferSize_hipsolverDoubleComplex : Wrapper where
  name := "hipsolver_potrf_bufferSize"
  params := [(.testAPI_t, .API), (.hipsolverHandle_t, .handle), (.hipsolverFillMode_t, .uplo),
    (.int, .n), (.ptr .hipsolverDoubleComplex, .A), (.int, .lda), (.ptr .int, .lwork), (.int, .bc)]
  pre := []
  scrutinee := .API
  cases := [
    (.api API_NORMAL, ⟨[], .call "hipsolverZpotrf_bufferSize"
      [.param .handle, .param .uplo, .param .n, .cast (.ptr .hipDoubleComplex) .A, .param .lda,
       .param .lwork]⟩),
    (.api API_FORTRAN, ⟨[], .call "hipsolverZpotrf_bufferSizeFortran"
      [.param .handle, .param .uplo, .param .n, .cast (.ptr .hipDoubleComplex) .A, .param .lda,
       .param .lwork]⟩),
    (.api API_COMPAT, ⟨[], .call "hipsolverDnZpotrf_bufferSize"
      [.param .handle, .param .uplo, .param .n, .cast (.ptr .hipDoubleComplex) .A, .param .lda,
       .param .lwork]⟩)]
  dflt := ⟨[.storeZero .lwork], .status HIPSOLVER_STATUS_NOT_SUPPORTED⟩

/-- The overload of `hipsolver_potrf` at hipsolver.hpp 5693-5716 (`float* A`). -/
def hipsolver_potrf_float : Wrapper where
  name := "hipsolver_potrf"
  params := [(.testAPI_t, .API), (.hipsolverHandle_t, .handle), (.hipsolverFillMode_t, .uplo),
    (.int, .n), (.ptr .float, .A), (.int, .lda), (.int, .stA), (.ptr .float, .work), (.int, .lwork),
    (.ptr .int, .info), (.int, .bc)]
  pre := []
  scrutinee := .API
  cases := [
    (.api API_NORMAL, ⟨[], .call "hipsolverSpotrf"
      [.param .handle, .param .uplo, .param .n, .param .A, .param .lda, .param .work, .param .lwork,
       .param .info]⟩),
    (.api API_FORTRAN, ⟨[], .call "hipsolverSpotrfFortran"
      [.param .handle, .param .uplo, .param .n, .param .A, .param .lda, .param .work, .param .lwork,
       .param .info]⟩),
    (.api API_COMPAT, ⟨[], .call "hipsolverDnSpotrf"
      [.param .handle, .param .uplo, .param .n, .param .A, .param .lda, .param .work, .param .lwork,
       .param .info]⟩)]
  dflt := ⟨[], .status HIPSOLVER_STATUS_NOT_SUPPORTED⟩

/-- The overload of `hipsolver_potrf` at hipsolver.hpp 5718-5741 (`double* A`). -/
def hipsolver_potrf_double : Wrapper where
  name := "hipsolver_potrf"
  params := [(.testAPI_t, .API), (.hipsolverHandle_t, .handle), (.hipsolverFillMode_t, .uplo),
    (.int, .n), (.ptr .double, .A), (.int, .lda), (.int, .stA), (.ptr .double, .work),
    (.int, .lwork), (.ptr .int, .info), (.int, .bc)]
  pre := []
  scrutinee := .API
  cases := [
    (.api API_NORMAL, ⟨[], .call "hipsolverDpotrf"
      [.param .handle, .param .uplo, .param .n, .param .A, .param .lda, .param .work, .param .lwork,
       .param .info]⟩),
    (.api API_FORTRAN, ⟨[], .call "hipsolverDpotrfFortran"
      [.param .handle, .param .uplo, .param .n, .param .A, .param .lda, .param .work, .param .lwork,
       .param .info]⟩),
    (.api API_COMPAT, ⟨[], .call "hipsolverDnDpotrf"
      [.param .handle, .param .uplo, .param .n, .param .A, .param .lda, .param .work, .param .lwork,
       .param .info]⟩)]
  dflt := ⟨[], .status HIPSOLVER_STATUS_NOT_SUPPORTED⟩

/-- The overload of `hipsolver_potrf` at hipsolver.hpp 5743-5769 (`hipsolverComplex* A`). -/
def hipsolver_potrf_hipsolverComplex : Wrapper where
  name := "hipsolver_potrf"
  params := [(.testAPI_t, .API), (.hipsolverHandle_t, .handle), (.hipsolverFillMode_t, .uplo),
    (.int, .n), (.ptr .hipsolverComplex, .A), (.int, .lda), (.int, .stA),
    (.ptr .hipsolverComplex, .work), (.int, .lwork), (.ptr .int, .info), (.int, .bc)]
  pre := []
  scrutinee := .API
  cases := [
    (.api API_NORMAL, ⟨[], .call "hipsolverCpotrf"
      [.param .handle, .param .uplo, .param .n, .cast (.ptr .hipFloatComplex) .A, .param .lda,
       .cast (.ptr .hipFloatComplex) .work, .param .lwork, .param .info]⟩),
    (.api API_FORTRAN, ⟨[], .call "hipsolverCpotrfFortran"
      [.param .handle, .param .uplo, .param .n, .cast (.ptr .hipFloatComplex) .A, .param .lda,
       .cast (.ptr .hipFloatComplex) .work, .param .lwork, .param .info]⟩),
    (.api API_COMPAT, ⟨[], .call "hipsolverDnCpotrf"
      [.param .handle, .param .uplo, .param .n, .cast (.ptr .hipFloatComplex) .A, .param .lda,
       .cast (.ptr .hipFloatComplex) .work, .param .lwork, .param .info]⟩)]
  dflt := ⟨[], .status HIPSOLVER_STATUS_NOT_SUPPORTED⟩

/-- The overload of `hipsolver_potrf` at hipsolver.hpp 5771-5797 (`hipsolverDoubleComplex* A`). -/
def hipsolver_potrf_hipsolverDoubleComplex : Wrapper where
  name := "hipsolver_potrf"
  params := [(.testAPI_t, .API), (.hipsolverHandle_t, .handle), (.hipsolverFillMode_t, .uplo),
    (.int, .n), (.ptr .hipsolverDoubleComplex, .A), (.int, .lda), (.int, .stA),
    (.ptr .hipsolverDoubleComplex, .work), (.int, .lwork), (.ptr .int, .info), (.int, .bc)]
  pre := []
  scrutinee := .API
  cases := [
    (.api API_NORMAL, ⟨[], .call "hipsolverZpotrf"
      [.param .handle, .param .uplo, .param .n, .cast (.ptr .hipDoubleComplex) .A, .param .lda,
       .cast (.ptr .hipDoubleComplex) .work, .param .lwork, .param .info]⟩),
    (.api API_FORTRAN, ⟨[], .call "hipsolverZpotrfFortran"
      [.param .handle, .param .uplo, .param .n, .cast (.ptr .hipDoubleComplex) .A, .param .lda,
       .cast (.ptr .hipDoubleComplex) .work, .param .lwork, .param .info]⟩),
    (.api API_COMPAT, ⟨[], .call "hipsolverDnZpotrf"
      [.param .handle, .param .uplo, .param .n, .cast (.ptr .hipDoubleComplex) .A, .param .lda,
       .cast (.ptr .hipDoubleComplex) .work, .param .lwork, .param .info]⟩)]
  dflt := ⟨[], .status HIPSOLVER_STATUS_NOT_SUPPORTED⟩

/-- The overload of `hipsolver_potrf_bufferSize` at hipsolver.hpp 5800-5819 (`float* A[]`). -/
def hipsolver_potrf_bufferSize_float_batched : Wrapper where
  name := "hipsolver_potrf_bufferSize"
  params := [(.testAPI_t, .API), (.hipsolverHandle_t, .handle), (.hipsolverFillMode_t, .uplo),
    (.int, .n), (.arr (.ptr .float), .A), (.int, .lda), (.ptr .int, .lwork), (.int, .bc)]
  pre := []
  scrutinee := .API
  cases := [
    (.api API_NORMAL, ⟨[], .call "hipsolverSpotrfBatched_bufferSize"
      [.param .handle, .param .uplo, .param .n, .param .A, .param .lda, .param .lwork, .param .bc]⟩),
    (.api API_FORTRAN, ⟨[], .call "hipsolverSpotrfBatched_bufferSizeFortran"
      [.param .handle, .param .uplo, .param .n, .param .A, .param .lda, .param .lwork, .param .bc]⟩)]
  dflt := ⟨[.storeZero .lwork], .status HIPSOLVER_STATUS_NOT_SUPPORTED⟩

/-- The overload of `hipsolver_potrf_bufferSize` at hipsolver.hpp 5821-5840 (`double* A[]`). -/
def hipsolver_potrf_bufferSize_double_batched : Wrapper where
  name := "hipsolver_potrf_bufferSize"
  params := [(.testAPI_t, .API), (.hipsolverHandle_t, .handle), (.hipsolverFillMode_t, .uplo),
    (.int, .n), (.arr (.ptr .double), .A), (.int, .lda), (.ptr .int, .lwork), (.int, .bc)]
  pre := []
  scrutinee := .API
  cases := [
    (.api API_NORMAL, ⟨[], .call "hipsolverDpotrfBatched_bufferSize"
      [.param .handle, .param .uplo, .param .n, .param .A, .param .lda, .param .lwork, .param .bc]⟩),
    (.api API_FORTRAN, ⟨[], .call "hipsolverDpotrfBatched_bufferSizeFortran"
      [.param .handle, .param .uplo, .param .n, .param .A, .param .lda, .param .lwork, .param .bc]⟩)]
  dflt := ⟨[.storeZero .lwork], .status HIPSOLVER_STATUS_NOT_SUPPORTED⟩

/-- The overload of `hipsolver_potrf_bufferSize` at hipsolver.hpp 5842-5863 (`hipsolverComplex* A[]`). -/
def hipsolver_potrf_bufferSize_hipsolverComplex_batched : Wrapper where
  name := "hipsolver_potrf_bufferSize"
  params := [(.testAPI_t, .API), (.hipsolverHandle_t, .handle), (.hipsolverFillMode_t, .uplo),
    (.int, .n), (.arr (.ptr .hipsolverComplex), .A), (.int, .lda), (.ptr .int, .lwork), (.int, .bc)]
  pre := []
  scrutinee := .API
  cases := [
    (.api API_NORMAL, ⟨[], .call "hipsolverCpotrfBatched_bufferSize"
      [.param .handle, .param .uplo, .param .n, .cast (.ptr (.ptr .hipFloatComplex)) .A,
       .param .lda, .param .lwork, .param .bc]⟩),
    (.api API_FORTRAN, ⟨[], .call "hipsolverCpotrfBatched_bufferSizeFortran"
      [.param .handle, .param .uplo, .param .n, .cast (.ptr (.ptr .hipFloatComplex)) .A,
       .param .lda, .param .lwork, .param .bc]⟩)]
  dflt := ⟨[.storeZero .lwork], .status HIPSOLVER_STATUS_NOT_SUPPORTED⟩

/-- The overload of `hipsolver_potrf_bufferSize` at hipsolver.hpp 5865-5886 (`hipsolverDoubleComplex* A[]`). -/
def hipsolver_potrf_bufferSize_hipsolverDoubleComplex_batched : Wrapper where
  name := "hipsolver_potrf_bufferSize"
  params := [(.testAPI_t, .API), (.hipsolverHandle_t, .handle), (.hipsolverFillMode_t, .uplo),
    (.int, .n), (.arr (.ptr .hipsolverDoubleComplex), .A), (.int, .lda), (.ptr .int, .lwork),
    (.int, .bc)]
  pre := []
  scrutinee := .API
  cases := [
    (.api API_NORMAL, ⟨[], .call "hipsolverZpotrfBatched_bufferSize"
      [.param .handle, .param .uplo, .param .n, .cast (.ptr (.ptr .hipDoubleComplex)) .A,
       .param .lda, .param .lwork, .param .bc]⟩),
    (.api API_FORTRAN, ⟨[], .call "hipsolverZpotrfBatched_bufferSizeFortran"
      [.param .handle, .param .uplo, .param .n, .cast (.ptr (.ptr .hipDoubleComplex)) .A,
       .param .lda, .param .lwork, .param .bc]⟩)]
  dflt := ⟨[.storeZero .lwork], .status HIPSOLVER_STATUS_NOT_SUPPORTED⟩

/-- The overload of `hipsolver_potrf` at hipsolver.hpp 5888-5911 (`float* A[]`). -/
def hipsolver_potrf_float_batched : Wrapper where
  name := "hipsolver_potrf"
  params := [(.testAPI_t, .API), (.hipsolverHandle_t, .handle), (.hipsolverFillMode_t, .uplo),
    (.int, .n), (.arr (.ptr .float), .A), (.int, .lda), (.int, .stA), (.ptr .float, .work),
    (.int, .lwork), (.ptr .int, .info), (.int, .bc)]
  pre := []
  scrutinee := .API
  cases := [
    (.api API_NORMAL, ⟨[], .call "hipsolverSpotrfBatched"
      [.param .handle, .param .uplo, .param .n, .param .A, .param .lda, .param .work, .param .lwork,
       .param .info, .param .bc]⟩),
    (.api API_FORTRAN, ⟨[], .call "hipsolverSpotrfBatchedFortran"
      [.param .handle, .param .uplo, .param .n, .param .A, .param .lda, .param .work, .param .lwork,
       .param .info, .param .bc]⟩),
    (.api API_COMPAT, ⟨[], .call "hipsolverDnSpotrfBatched"
      [.param .handle, .param .uplo, .param .n, .param .A, .param .lda, .param .info, .param .bc]⟩)]
  dflt := ⟨[], .status HIPSOLVER_STATUS_NOT_SUPPORTED⟩

/-- The overload of `hipsolver_potrf` at hipsolver.hpp 5913-5936 (`double* A[]`). -/
def hipsolver_potrf_double_batched : Wrapper where
  name := "hipsolver_potrf"
  params := [(.testAPI_t, .API), (.hipsolverHandle_t, .handle), (.hipsolverFillMode_t, .uplo),
    (.int, .n), (.arr (.ptr .double), .A), (.int, .lda), (.int, .stA), (.ptr .double, .work),
    (.int, .lwork), (.ptr .int, .info), (.int, .bc)]
  pre := []
  scrutinee := .API
  cases := [
    (.api API_NORMAL, ⟨[], .call "hipsolverDpotrfBatched"
      [.param .handle, .param .uplo, .param .n, .param .A, .param .lda, .param .work, .param .lwork,
       .param .info, .param .bc]⟩),
    (.api API_FORTRAN, ⟨[], .call "hipsolverDpotrfBatchedFortran"
      [.param .handle, .param .uplo, .param .n, .param .A, .param .lda, .param .work, .param .lwork,
       .param .info, .param .bc]⟩),
    (.api API_COMPAT, ⟨[], .call "hipsolverDnDpotrfBatched"
      [.param .handle, .param .uplo, .param .n, .param .A, .param .lda, .param .info, .param .bc]⟩)]
  dflt := ⟨[], .status HIPSOLVER_STATUS_NOT_SUPPORTED⟩

/-- The overload of `hipsolver_potrf` at hipsolver.hpp 5938-5963 (`hipsolverComplex* A[]`). -/
def hipsolver_potrf_hipsolverComplex_batched : Wrapper where
  name := "hipsolver_potrf"
  params := [(.testAPI_t, .API), (.hipsolverHandle_t, .handle), (.hipsolverFillMode_t, .uplo),
    (.int, .n), (.arr (.ptr .hipsolverComplex), .A), (.int, .lda), (.int, .stA),
    (.ptr .hipsolverComplex, .work), (.int, .lwork), (.ptr .int, .info), (.int, .bc)]
  pre := []
  scrutinee := .API
  cases := [
    (.api API_NORMAL, ⟨[], .call "hipsolverCpotrfBatched"
      [.param .handle, .param .uplo, .param .n, .cast (.ptr (.ptr .hipFloatComplex)) .A,
       .param .lda, .cast (.ptr .hipFloatComplex) .work, .param .lwork, .param .info, .param .bc]⟩),
    (.api API_FORTRAN, ⟨[], .call "hipsolverCpotrfBatchedFortran"
      [.param .handle, .param .uplo, .param .n, .cast (.ptr (.ptr .hipFloatComplex)) .A,
       .param .lda, .cast (.ptr .hipFloatComplex) .work, .param .lwork, .param .info, .param .bc]⟩),
    (.api API_COMPAT, ⟨[], .call "hipsolverDnCpotrfBatched"
      [.param .handle, .param .uplo, .param .n, .cast (.ptr (.ptr .hipFloatComplex)) .A,
       .param .lda, .param .info, .param .bc]⟩)]
  dflt := ⟨[], .status HIPSOLVER_STATUS_NOT_SUPPORTED⟩

/-- The overload of `hipsolver_potrf` at hipsolver.hpp 5965-5990 (`hipsolverDoubleComplex* A[]`). -/
def hipsolver_potrf_hipsolverDoubleComplex_batched : Wrapper where
  name := "hipsolver_potrf"
  params := [(.testAPI_t, .API), (.hipsolverHandle_t, .handle), (.hipsolverFillMode_t, .uplo),
    (.int, .n), (.arr (.ptr .hipsolverDoubleComplex), .A), (.int, .lda), (.int, .stA),
    (.ptr .hipsolverDoubleComplex, .work), (.int, .lwork), (.ptr .int, .info), (.int, .bc)]
  pre := []
  scrutinee := .API
  cases := [
    (.api API_NORMAL, ⟨[], .call "hipsolverZpotrfBatched"
      [.param .handle, .param .uplo, .param .n, .cast (.ptr (.ptr .hipDoubleComplex)) .A,
       .param .lda, .cast (.ptr .hipDoubleComplex) .work, .param .lwork, .param .info, .param .bc]⟩),
    (.api API_FORTRAN, ⟨[], .call "hipsolverZpotrfBatchedFortran"
      [.param .handle, .param .uplo, .param .n, .cast (.ptr (.ptr .hipDoubleComplex)) .A,
       .param .lda, .cast (.ptr .hipDoubleComplex) .work, .param .lwork, .param .info, .param .bc]⟩),
    (.api API_COMPAT, ⟨[], .call "hipsolverDnZpotrfBatched"
      [.param .handle, .param .uplo, .param .n, .cast (.ptr (.ptr .hipDoubleComplex)) .A,
       .param .lda, .param .info, .param .bc]⟩)]
  dflt := ⟨[], .status HIPSOLVER_STATUS_NOT_SUPPORTED⟩

/-- The overload of `hipsolver_potri_bufferSize` at hipsolver.hpp 5995-6012 (`float* A`). -/
def hipsolver_potri_bufferSize_float : Wrapper where
  name := "hipsolver_potri_bufferSize"
  params := [(.testAPI_t, .API), (.hipsolverHandle_t, .handle), (.hipsolverFillMode_t, .uplo),
    (.int, .n), (.ptr .float, .A), (.int, .lda), (.ptr .int, .lwork)]
  pre := []
  scrutinee := .API
  cases := [
    (.api API_NORMAL, ⟨[], .call "hipsolverSpotri_bufferSize"
      [.param .handle, .param .uplo, .param .n, .param .A, .param .lda, .param .lwork]⟩),
    (.api API_FORTRAN, ⟨[], .call "hipsolverSpotri_bufferSizeFortran"
      [.param .handle, .param .uplo, .param .n, .param .A, .param .lda, .param .lwork]⟩)]
  dflt := ⟨[], .status HIPSOLVER_STATUS_NOT_SUPPORTED⟩

/-- The overload of `hipsolver_potri_bufferSize` at hipsolver.hpp 6014-6031 (`double* A`). -/
def hipsolver_potri_bufferSize_double : Wrapper where
  name := "hipsolver_potri_bufferSize"
  params := [(.testAPI_t, .API), (.hipsolverHandle_t, .handle), (.hipsolverFillMode_t, .uplo),
    (.int, .n), (.ptr .double, .A), (.int, .lda), (.ptr .int, .lwork)]
  pre := []
  scrutinee := .API
  cases := [
    (.api API_NORMAL, ⟨[], .call "hipsolverDpotri_bufferSize"
      [.param .handle, .param .uplo, .param .n, .param .A, .param .lda, .param .lwork]⟩),
    (.api API_FORTRAN, ⟨[], .call "hipsolverDpotri_bufferSizeFortran"
      [.param .handle, .param .uplo, .param .n, .param .A, .param .lda, .param .lwork]⟩)]
  dflt := ⟨[], .status HIPSOLVER_STATUS_NOT_SUPPORTED⟩

/-- The overload of `hipsolver_potri_bufferSize` at hipsolver.hpp 6033-6050 (`hipsolverComplex* A`). -/
def hipsolver_potri_bufferSize_hipsolverComplex : Wrapper where
  name := "hipsolver_potri_bufferSize"
  params := [(.testAPI_t, .API), (.hipsolverHandle_t, .handle), (.hipsolverFillMode_t, .uplo),
    (.int, .n), (.ptr .hipsolverComplex, .A), (.int, .lda), (.ptr .int, .lwork)]
  pre := []
  scrutinee := .API
  cases := [
    (.api API_NORMAL, ⟨[], .call "hipsolverCpotri_bufferSize"
      [.param .handle, .param .uplo, .param .n, .cast (.ptr .hipFloatComplex) .A, .param .lda,
       .param .lwork]⟩),
    (.api API_FORTRAN, ⟨[], .call "hipsolverCpotri_bufferSizeFortran"
      [.param .handle, .param .uplo, .param .n, .cast (.ptr .hipFloatComplex) .A, .param .lda,
       .param .lwork]⟩)]
  dflt := ⟨[], .status HIPSOLVER_STATUS_NOT_SUPPORTED⟩

/-- The overload of `hipsolver_potri_bufferSize` at hipsolver.hpp 6052-6069 (`hipsolverDoubleComplex* A`). -/
def hipsolver_potri_bufferSize_hipsolverDoubleComplex : Wrapper where
  name := "hipsolver_potri_bufferSize"
  params := [(.testAPI_t, .API), (.hipsolverHandle_t, .handle), (.hipsolverFillMode_t, .uplo),
    (.int, .n), (.ptr .hipsolverDoubleComplex, .A), (.int, .lda), (.ptr .int, .lwork)]
  pre := []
  scrutinee := .API
  cases := [
    (.api API_NORMAL, ⟨[], .call "hipsolverZpotri_bufferSize"
      [.param .handle, .param .uplo, .param .n, .cast (.ptr .hipDoubleComplex) .A, .param .lda,
       .param .lwork]⟩),
    (.api API_FORTRAN, ⟨[], .call "hipsolverZpotri_bufferSizeFortran"
      [.param .handle, .param .uplo, .param .n, .cast (.ptr .hipDoubleComplex) .A, .param .lda,
       .param .lwork]⟩)]
  dflt := ⟨[], .status HIPSOLVER_STATUS_NOT_SUPPORTED⟩

/-- The overload of `hipsolver_potri` at hipsolver.hpp 6071-6092 (`float* A`). -/
def hipsolver_potri_float : Wrapper where
  name := "hipsolver_potri"
  params := [(.testAPI_t, .API), (.hipsolverHandle_t, .handle), (.hipsolverFillMode_t, .uplo),
    (.int, .n), (.ptr .float, .A), (.int, .lda), (.int, .stA), (.ptr .float, .work), (.int, .lwork),
    (.ptr .int, .info), (.int, .bc)]
  pre := []
  scrutinee := .API
  cases := [
    (.api API_NORMAL, ⟨[], .call "hipsolverSpotri"
      [.param .handle, .param .uplo, .param .n, .param .A, .param .lda, .param .work, .param .lwork,
       .param .info]⟩),
    (.api API_FORTRAN, ⟨[], .call "hipsolverSpotriFortran"
      [.param .handle, .param .uplo, .param .n, .param .A, .param .lda, .param .work, .param .lwork,
       .param .info]⟩)]
  dflt := ⟨[], .status HIPSOLVER_STATUS_NOT_SUPPORTED⟩

/-- The overload of `hipsolver_potri` at hipsolver.hpp 6094-6115 (`double* A`). -/
def hipsolver_potri_double : Wrapper where
  name := "hipsolver_potri"
  params := [(.testAPI_t, .API), (.hipsolverHandle_t, .handle), (.hipsolverFillMode_t, .uplo),
    (.int, .n), (.ptr .double, .A), (.int, .lda), (.int, .stA), (.ptr .double, .work),
    (.int, .lwork), (.ptr .int, .info), (.int, .bc)]
  pre := []
  scrutinee := .API
  cases := [
    (.api API_NORMAL, ⟨[], .call "hipsolverDpotri"
      [.param .handle, .param .uplo, .param .n, .param .A, .param .lda, .param .work, .param .lwork,
       .param .info]⟩),
    (.api API_FORTRAN, ⟨[], .call "hipsolverDpotriFortran"
      [.param .handle, .param .uplo, .param .n, .param .A, .param .lda, .param .work, .param .lwork,
       .param .info]⟩)]
  dflt := ⟨[], .status HIPSOLVER_STATUS_NOT_SUPPORTED⟩

/-- The overload of `hipsolver_potri` at hipsolver.hpp 6117-6140 (`hipsolverComplex* A`). -/
def hipsolver_potri_hipsolverComplex : Wrapper where
  name := "hipsolver_potri"
  params := [(.testAPI_t, .API), (.hipsolverHandle_t, .handle), (.hipsolverFillMode_t, .uplo),
    (.int, .n), (.ptr .hipsolverComplex, .A), (.int, .lda), (.int, .stA),
    (.ptr .hipsolverComplex, .work), (.int, .lwork), (.ptr .int, .info), (.int, .bc)]
  pre := []
  scrutinee := .API
  cases := [
    (.api API_NORMAL, ⟨[], .call "hipsolverCpotri"
      [.param .handle, .param .uplo, .param .n, .cast (.ptr .hipFloatComplex) .A, .param .lda,
       .cast (.ptr .hipFloatComplex) .work, .param .lwork, .param .info]⟩),
    (.api API_FORTRAN, ⟨[], .call "hipsolverCpotriFortran"
      [.param .handle, .param .uplo, .param .n, .cast (.ptr .hipFloatComplex) .A, .param .lda,
       .cast (.ptr .hipFloatComplex) .work, .param .lwork, .param .info]⟩)]
  dflt := ⟨[], .status HIPSOLVER_STATUS_NOT_SUPPORTED⟩

/-- The overload of `hipsolver_potri` at hipsolver.hpp 6142-6165 (`hipsolverDoubleComplex* A`). -/
def hipsolver_potri_hipsolverDoubleComplex : Wrapper where
  name := "hipsolver_potri"
  params := [(.testAPI_t, .API), (.hipsolverHandle_t, .handle), (.hipsolverFillMode_t, .uplo),
    (.int, .n), (.ptr .hipsolverDoubleComplex, .A), (.int, .lda), (.int, .stA),
    (.ptr .hipsolverDoubleComplex, .work), (.int, .lwork), (.ptr .int, .info), (.int, .bc)]
  pre := []
  scrutinee := .API
  cases := [
    (.api API_NORMAL, ⟨[], .call "hipsolverZpotri"
      [.param .handle, .param .uplo, .param .n, .cast (.ptr .hipDoubleComplex) .A, .param .lda,
       .cast (.ptr .hipDoubleComplex) .work, .param .lwork, .param .info]⟩),
    (.api API_FORTRAN, ⟨[], .call "hipsolverZpotriFortran"
      [.param .handle, .param .uplo, .param .n, .cast (.ptr .hipDoubleComplex) .A, .param .lda,
       .cast (.ptr .hipDoubleComplex) .work, .param .lwork, .param .info]⟩)]
  dflt := ⟨[], .status HIPSOLVER_STATUS_NOT_SUPPORTED⟩

/-- The overload of `hipsolver_potrs_bufferSize` at hipsolver.hpp 6170-6192 (`float* A`). -/
def hipsolver_potrs_bufferSize_float : Wrapper where
  name := "hipsolver_potrs_bufferSize"
  params := [(.testAPI_t, .API), (.hipsolverHandle_t, .handle), (.hipsolverFillMode_t, .uplo),
    (.int, .n), (.int, .nrhs), (.ptr .float, .A), (.int, .lda), (.ptr .float, .B), (.int, .ldb),
    (.ptr .int, .lwork), (.int, .bc)]
  pre := []
  scrutinee := .API
  cases := [
    (.api API_NORMAL, ⟨[], .call "hipsolverSpotrs_bufferSize"
      [.param .handle, .param .uplo, .param .n, .param .nrhs, .param .A, .param .lda, .param .B,
       .param .ldb, .param .lwork]⟩),
    (.api API_FORTRAN, ⟨[], .call "hipsolverSpotrs_bufferSizeFortran"
      [.param .handle, .param .uplo, .param .n, .param .nrhs, .param .A, .param .lda, .param .B,
       .param .ldb, .param .lwork]⟩)]
  dflt := ⟨[.storeZero .lwork], .status HIPSOLVER_STATUS_NOT_SUPPORTED⟩

/-- The overload of `hipsolver_potrs_bufferSize` at hipsolver.hpp 6194-6216 (`double* A`). -/
def hipsolver_potrs_bufferSize_double : Wrapper where
  name := "hipsolver_potrs_bufferSize"
  params := [(.testAPI_t, .API), (.hipsolverHandle_t, .handle), (.hipsolverFillMode_t, .uplo),
    (.int, .n), (.int, .nrhs), (.ptr .double, .A), (.int, .lda), (.ptr .double, .B), (.int, .ldb),
    (.ptr .int, .lwork), (.int, .bc)]
  pre := []
  scrutinee := .API
  cases := [
    (.api API_NORMAL, ⟨[], .call "hipsolverDpotrs_bufferSize"
      [.param .handle, .param .uplo, .param .n, .param .nrhs, .param .A, .param .lda, .param .B,
       .param .ldb, .param .lwork]⟩),
    (.api API_FORTRAN, ⟨[], .call "hipsolverDpotrs_bufferSizeFortran"
      [.param .handle, .param .uplo, .param .n, .param .nrhs, .param .A, .param .lda, .param .B,
       .param .ldb, .param .lwork]⟩)]
  dflt := ⟨[.storeZero .lwork], .status HIPSOLVER_STATUS_NOT_SUPPORTED⟩

/-- The overload of `hipsolver_potrs_bufferSize` at hipsolver.hpp 6218-6242 (`hipsolverComplex* A`). -/
def hipsolver_potrs_bufferSize_hipsolverComplex : Wrapper where
  name := "hipsolver_potrs_bufferSize"
  params := [(.testAPI_t, .API), (.hipsolverHandle_t, .handle), (.hipsolverFillMode_t, .uplo),
    (.int, .n), (.int, .nrhs), (.ptr .hipsolverComplex, .A), (.int, .lda),
    (.ptr .hipsolverComplex, .B), (.int, .ldb), (.ptr .int, .lwork), (.int, .bc)]
  pre := []
  scrutinee := .API
  cases := [
    (.api API_NORMAL, ⟨[], .call "hipsolverCpotrs_bufferSize"
      [.param .handle, .param .uplo, .param .n, .param .nrhs, .cast (.ptr .hipFloatComplex) .A,
       .param .lda, .cast (.ptr .hipFloatComplex) .B, .param .ldb, .param .lwork]⟩),
    (.api API_FORTRAN, ⟨[], .call "hipsolverCpotrs_bufferSizeFortran"
      [.param .handle, .param .uplo, .param .n, .param .nrhs, .cast (.ptr .hipFloatComplex) .A,
       .param .lda, .cast (.ptr .hipFloatComplex) .B, .param .ldb, .param .lwork]⟩)]
  dflt := ⟨[.storeZero .lwork], .status HIPSOLVER_STATUS_NOT_SUPPORTED⟩

/-- The overload of `hipsolver_potrs_bufferSize` at hipsolver.hpp 6244-6268 (`hipsolverDoubleComplex* A`). -/
def hipsolver_potrs_bufferSize_hipsolverDoubleComplex : Wrapper where
  name := "hipsolver_potrs_bufferSize"
  params := [(.testAPI_t, .API), (.hipsolverHandle_t, .handle), (.hipsolverFillMode_t, .uplo),
    (.int, .n), (.int, .nrhs), (.ptr .hipsolverDoubleComplex, .A), (.int, .lda),
    (.ptr .hipsolverDoubleComplex, .B), (.int, .ldb), (.ptr .int, .lwork), (.int, .bc)]
  pre := []
  scrutinee := .API
  cases := [
    (.api API_NORMAL, ⟨[], .call "hipsolverZpotrs_bufferSize"
      [.param .handle, .param .uplo, .param .n, .param .nrhs, .cast (.ptr .hipDoubleComplex) .A,
       .param .lda, .cast (.ptr .hipDoubleComplex) .B, .param .ldb, .param .lwork]⟩),
    (.api API_FORTRAN, ⟨[], .call "hipsolverZpotrs_bufferSizeFortran"
      [.param .handle, .param .uplo, .param .n, .param .nrhs, .cast (.ptr .hipDoubleComplex) .A,
       .param .lda, .cast (.ptr .hipDoubleComplex) .B, .param .ldb, .param .lwork]⟩)]
  dflt := ⟨[.storeZero .lwork], .status HIPSOLVER_STATUS_NOT_SUPPORTED⟩

/-- The overload of `hipsolver_potrs` at hipsolver.hpp 6270-6297 (`float* A`). -/
def hipsolver_potrs_float : Wrapper where
  name := "hipsolver_potrs"
  params := [(.testAPI_t, .API), (.hipsolverHandle_t, .handle), (.hipsolverFillMode_t, .uplo),
    (.int, .n), (.int, .nrhs), (.ptr .float, .A), (.int, .lda), (.int, .stA), (.ptr .float, .B),
    (.int, .ldb), (.int, .stB), (.ptr .float, .work), (.int, .lwork), (.ptr .int, .info),
    (.int, .bc)]
  pre := []
  scrutinee := .API
  cases := [
    (.api API_NORMAL, ⟨[], .call "hipsolverSpotrs"
      [.param .handle, .param .uplo, .param .n, .param .nrhs, .param .A, .param .lda, .param .B,
       .param .ldb, .param .work, .param .lwork, .param .info]⟩),
    (.api API_FORTRAN, ⟨[], .call "hipsolverSpotrsFortran"
      [.param .handle, .param .uplo, .param .n, .param .nrhs, .param .A, .param .lda, .param .B,
       .param .ldb, .param .work, .param .lwork, .param .info]⟩),
    (.api API_COMPAT, ⟨[], .call "hipsolverDnSpotrs"
      [.param .handle, .param .uplo, .param .n, .param .nrhs, .param .A, .param .lda, .param .B,
       .param .ldb, .param .info]⟩)]
  dflt := ⟨[], .status HIPSOLVER_STATUS_NOT_SUPPORTED⟩

/-- The overload of `hipsolver_potrs` at hipsolver.hpp 6299-6326 (`double* A`). -/
def hipsolver_potrs_double : Wrapper where
  name := "hipsolver_potrs"
  params := [(.testAPI_t, .API), (.hipsolverHandle_t, .handle), (.hipsolverFillMode_t, .uplo),
    (.int, .n), (.int, .nrhs), (.ptr .double, .A), (.int, .lda), (.int, .stA), (.ptr .double, .B),
    (.int, .ldb), (.int, .stB), (.ptr .double, .work), (.int, .lwork), (.ptr .int, .info),
    (.int, .bc)]
  pre := []
  scrutinee := .API
  cases := [
    (.api API_NORMAL, ⟨[], .call "hipsolverDpotrs"
      [.param .handle, .param .uplo, .param .n, .param .nrhs, .param .A, .param .lda, .param .B,
       .param .ldb, .param .work, .param .lwork, .param .info]⟩),
    (.api API_FORTRAN, ⟨[], .call "hipsolverDpotrsFortran"
      [.param .handle, .param .uplo, .param .n, .param .nrhs, .param .A, .param .lda, .param .B,
       .param .ldb, .param .work, .param .lwork, .param .info]⟩),
    (.api API_COMPAT, ⟨[], .call "hipsolverDnDpotrs"
      [.param .handle, .param .uplo, .param .n, .param .nrhs, .param .A, .param .lda, .param .B,
       .param .ldb, .param .info]⟩)]
  dflt := ⟨[], .status HIPSOLVER_STATUS_NOT_SUPPORTED⟩

/-- The overload of `hipsolver_potrs` at hipsolver.hpp 6328-6376 (`hipsolverComplex* A`). -/
def hipsolver_potrs_hipsolverComplex : Wrapper where
  name := "hipsolver_potrs"
  params := [(.testAPI_t, .API), (.hipsolverHandle_t, .handle), (.hipsolverFillMode_t, .uplo),
    (.int, .n), (.int, .nrhs), (.ptr .hipsolverComplex, .A), (.int, .lda), (.int, .stA),
    (.ptr .hipsolverComplex, .B), (.int, .ldb), (.int, .stB), (.ptr .hipsolverComplex, .work),
    (.int, .lwork), (.ptr .int, .info), (.int, .bc)]
  pre := []
  scrutinee := .API
  cases := [
    (.api API_NORMAL, ⟨[], .call "hipsolverCpotrs"
      [.param .handle, .param .uplo, .param .n, .param .nrhs, .cast (.ptr .hipFloatComplex) .A,
       .param .lda, .cast (.ptr .hipFloatComplex) .B, .param .ldb,
       .cast (.ptr .hipFloatComplex) .work, .param .lwork, .param .info]⟩),
    (.api API_FORTRAN, ⟨[], .call "hipsolverCpotrsFortran"
      [.param .handle, .param .uplo, .param .n, .param .nrhs, .cast (.ptr .hipFloatComplex) .A,
       .param .lda, .cast (.ptr .hipFloatComplex) .B, .param .ldb,
       .cast (.ptr .hipFloatComplex) .work, .param .lwork, .param .info]⟩),
    (.api API_COMPAT, ⟨[], .call "hipsolverDnCpotrs"
      [.param .handle, .param .uplo, .param .n, .param .nrhs, .cast (.ptr .hipFloatComplex) .A,
       .param .lda, .cast (.ptr .hipFloatComplex) .B, .param .ldb, .param .info]⟩)]
  dflt := ⟨[], .status HIPSOLVER_STATUS_NOT_SUPPORTED⟩

/-- The overload of `hipsolver_potrs` at hipsolver.hpp 6378-6426 (`hipsolverDoubleComplex* A`). -/
def hipsolver_potrs_hipsolverDoubleComplex : Wrapper where
  name := "hipsolver_potrs"
  params := [(.testAPI_t, .API), (.hipsolverHandle_t, .handle), (.hipsolverFillMode_t, .uplo),
    (.int, .n), (.int, .nrhs), (.ptr .hipsolverDoubleComplex, .A), (.int, .lda), (.int, .stA),
    (.ptr .hipsolverDoubleComplex, .B), (.int, .ldb), (.int, .stB),
    (.ptr .hipsolverDoubleComplex, .work), (.int, .lwork), (.ptr .int, .info), (.int, .bc)]
  pre := []
  scrutinee := .API
  cases := [
    (.api API_NORMAL, ⟨[], .call "hipsolverZpotrs"
      [.param .handle, .param .uplo, .param .n, .param .nrhs, .cast (.ptr .hipDoubleComplex) .A,
       .param .lda, .cast (.ptr .hipDoubleComplex) .B, .param .ldb,
       .cast (.ptr .hipDoubleComplex) .work, .param .lwork, .param .info]⟩),
    (.api API_FORTRAN, ⟨[], .call "hipsolverZpotrsFortran"
      [.param .handle, .param .uplo, .param .n, .param .nrhs, .cast (.ptr .hipDoubleComplex) .A,
       .param .lda, .cast (.ptr .hipDoubleComplex) .B, .param .ldb,
       .cast (.ptr .hipDoubleComplex) .work, .param .lwork, .param .info]⟩),
    (.api API_COMPAT, ⟨[], .call "hipsolverDnZpotrs"
      [.param .handle, .param .uplo, .param .n, .param .nrhs, .cast (.ptr .hipDoubleComplex) .A,
       .param .lda, .cast (.ptr .hipDoubleComplex) .B, .param .ldb, .param .info]⟩)]
  dflt := ⟨[], .status HIPSOLVER_STATUS_NOT_SUPPORTED⟩

/-- The overload of `hipsolver_potrs_bufferSize` at hipsolver.hpp 6429-6452 (`float* A[]`). -/
def hipsolver_potrs_bufferSize_float_batched : Wrapper where
  name := "hipsolver_potrs_bufferSize"
  params := [(.testAPI_t, .API), (.hipsolverHandle_t, .handle), (.hipsolverFillMode_t, .uplo),
    (.int, .n), (.int, .nrhs), (.arr (.ptr .float), .A), (.int, .lda), (.arr (.ptr .float), .B),
    (.int, .ldb), (.ptr .int, .lwork), (.int, .bc)]
  pre := []
  scrutinee := .API
  cases := [
    (.api API_NORMAL, ⟨[], .call "hipsolverSpotrsBatched_bufferSize"
      [.param .handle, .param .uplo, .param .n, .param .nrhs, .param .A, .param .lda, .param .B,
       .param .ldb, .param .lwork, .param .bc]⟩),
    (.api API_FORTRAN, ⟨[], .call "hipsolverSpotrsBatched_bufferSizeFortran"
      [.param .handle, .param .uplo, .param .n, .param .nrhs, .param .A, .param .lda, .param .B,
       .param .ldb, .param .lwork, .param .bc]⟩)]
  dflt := ⟨[.storeZero .lwork], .status HIPSOLVER_STATUS_NOT_SUPPORTED⟩

/-- The overload of `hipsolver_potrs_bufferSize` at hipsolver.hpp 6454-6477 (`double* A[]`). -/
def hipsolver_potrs_bufferSize_double_batched : Wrapper where
  name := "hipsolver_potrs_bufferSize"
  params := [(.testAPI_t, .API), (.hipsolverHandle_t, .handle), (.hipsolverFillMode_t, .uplo),
    (.int, .n), (.int, .nrhs), (.arr (.ptr .double), .A), (.int, .lda), (.arr (.ptr .double), .B),
    (.int, .ldb), (.ptr .int, .lwork), (.int, .bc)]
  pre := []
  scrutinee := .API
  cases := [
    (.api API_NORMAL, ⟨[], .call "hipsolverDpotrsBatched_bufferSize"
      [.param .handle, .param .uplo, .param .n, .param .nrhs, .param .A, .param .lda, .param .B,
       .param .ldb, .param .lwork, .param .bc]⟩),
    (.api API_FORTRAN, ⟨[], .call "hipsolverDpotrsBatched_bufferSizeFortran"
      [.param .handle, .param .uplo, .param .n, .param .nrhs, .param .A, .param .lda, .param .B,
       .param .ldb, .param .lwork, .param .bc]⟩)]
  dflt := ⟨[.storeZero .lwork], .status HIPSOLVER_STATUS_NOT_SUPPORTED⟩

/-- The overload of `hipsolver_potrs_bufferSize` at hipsolver.hpp 6479-6503 (`hipsolverComplex* A[]`). -/
def hipsolver_potrs_bufferSize_hipsolverComplex_batched : Wrapper where
  name := "hipsolver_potrs_bufferSize"
  params := [(.testAPI_t, .API), (.hipsolverHandle_t, .handle), (.hipsolverFillMode_t, .uplo),
    (.int, .n), (.int, .nrhs), (.arr (.ptr .hipsolverComplex), .A), (.int, .lda),
    (.arr (.ptr .hipsolverComplex), .B), (.int, .ldb), (.ptr .int, .lwork), (.int, .bc)]
  pre := []
  scrutinee := .API
  cases := [
    (.api API_NORMAL, ⟨[], .call "hipsolverCpotrsBatched_bufferSize"
      [.param .handle, .param .uplo, .param .n, .param .nrhs,
       .cast (.ptr (.ptr .hipFloatComplex)) .A, .param .lda,
       .cast (.ptr (.ptr .hipFloatComplex)) .B, .param .ldb, .param .lwork, .param .bc]⟩),
    (.api API_FORTRAN, ⟨[], .call "hipsolverCpotrsBatched_bufferSizeFortran"
      [.param .handle, .param .uplo, .param .n, .param .nrhs,
       .cast (.ptr (.ptr .hipFloatComplex)) .A, .param .lda,
       .cast (.ptr (.ptr .hipFloatComplex)) .B, .param .ldb, .param .lwork, .param .bc]⟩)]
  dflt := ⟨[.storeZero .lwork], .status HIPSOLVER_STATUS_NOT_SUPPORTED⟩

/-- The overload of `hipsolver_potrs_bufferSize` at hipsolver.hpp 6505-6545 (`hipsolverDoubleComplex* A[]`). -/
def hipsolver_potrs_bufferSize_hipsolverDoubleComplex_batched : Wrapper where
  name := "hipsolver_potrs_bufferSize"
  params := [(.testAPI_t, .API), (.hipsolverHandle_t, .handle), (.hipsolverFillMode_t, .uplo),
    (.int, .n), (.int, .nrhs), (.arr (.ptr .hipsolverDoubleComplex), .A), (.int, .lda),
    (.arr (.ptr .hipsolverDoubleComplex), .B), (.int, .ldb), (.ptr .int, .lwork), (.int, .bc)]
  pre := []
  scrutinee := .API
  cases := [
    (.api API_NORMAL, ⟨[], .call "hipsolverZpotrsBatched_bufferSize"
      [.param .handle, .param .uplo, .param .n, .param .nrhs,
       .cast (.ptr (.ptr .hipDoubleComplex)) .A, .param .lda,
       .cast (.ptr (.ptr .hipDoubleComplex)) .B, .param .ldb, .param .lwork, .param .bc]⟩),
    (.api API_FORTRAN, ⟨[], .call "hipsolverZpotrsBatched_bufferSizeFortran"
      [.param .handle, .param .uplo, .param .n, .param .nrhs,
       .cast (.ptr (.ptr .hipDoubleComplex)) .A, .param .lda,
       .cast (.ptr (.ptr .hipDoubleComplex)) .B, .param .ldb, .param .lwork, .param .bc]⟩)]
  dflt := ⟨[.storeZero .lwork], .status HIPSOLVER_STATUS_NOT_SUPPORTED⟩

/-- The overload of `hipsolver_potrs` at hipsolver.hpp 6547-6575 (`float* A[]`). -/
def hipsolver_potrs_float_batched : Wrapper where
  name := "hipsolver_potrs"
  params := [(.testAPI_t, .API), (.hipsolverHandle_t, .handle), (.hipsolverFillMode_t, .uplo),
    (.int, .n), (.int, .nrhs), (.arr (.ptr .float), .A), (.int, .lda), (.int, .stA),
    (.arr (.ptr .float), .B), (.int, .ldb), (.int, .stB), (.ptr .float, .work), (.int, .lwork),
    (.ptr .int, .info), (.int, .bc)]
  pre := []
  scrutinee := .API
  cases := [
    (.api API_NORMAL, ⟨[], .call "hipsolverSpotrsBatched"
      [.param .handle, .param .uplo, .param .n, .param .nrhs, .param .A, .param .lda, .param .B,
       .param .ldb, .param .work, .param .lwork, .param .info, .param .bc]⟩),
    (.api API_FORTRAN, ⟨[], .call "hipsolverSpotrsBatchedFortran"
      [.param .handle, .param .uplo, .param .n, .param .nrhs, .param .A, .param .lda, .param .B,
       .param .ldb, .param .work, .param .lwork, .param .info, .param .bc]⟩),
    (.api API_COMPAT, ⟨[], .call "hipsolverDnSpotrsBatched"
      [.param .handle, .param .uplo, .param .n, .param .nrhs, .param .A, .param .lda, .param .B,
       .param .ldb, .param .info, .param .bc]⟩)]
  dflt := ⟨[], .status HIPSOLVER_STATUS_NOT_SUPPORTED⟩

/-- The overload of `hipsolver_potrs` at hipsolver.hpp 6577-6605 (`double* A[]`). -/
def hipsolver_potrs_double_batched : Wrapper where
  name := "hipsolver_potrs"
  params := [(.testAPI_t, .API), (.hipsolverHandle_t, .handle), (.hipsolverFillMode_t, .uplo),
    (.int, .n), (.int, .nrhs), (.arr (.ptr .double), .A), (.int, .lda), (.int, .stA),
    (.arr (.ptr .double), .B), (.int, .ldb), (.int, .stB), (.ptr .double, .work), (.int, .lwork),
    (.ptr .int, .info), (.int, .bc)]
  pre := []
  scrutinee := .API
  cases := [
    (.api API_NORMAL, ⟨[], .call "hipsolverDpotrsBatched"
      [.param .handle, .param .uplo, .param .n, .param .nrhs, .param .A, .param .lda, .param .B,
       .param .ldb, .param .work, .param .lwork, .param .info, .param .bc]⟩),
    (.api API_FORTRAN, ⟨[], .call "hipsolverDpotrsBatchedFortran"
      [.param .handle, .param .uplo, .param .n, .param .nrhs, .param .A, .param .lda, .param .B,
       .param .ldb, .param .work, .param .lwork, .param .info, .param .bc]⟩),
    (.api API_COMPAT, ⟨[], .call "hipsolverDnDpotrsBatched"
      [.param .handle, .param .uplo, .param .n, .param .nrhs, .param .A, .param .lda, .param .B,
       .param .ldb, .param .info, .param .bc]⟩)]
  dflt := ⟨[], .status HIPSOLVER_STATUS_NOT_SUPPORTED⟩

/-- The overload of `hipsolver_potrs` at hipsolver.hpp 6607-6657 (`hipsolverComplex* A[]`). -/
def hipsolver_potrs_hipsolverComplex_batched : Wrapper where
  name := "hipsolver_potrs"
  params := [(.testAPI_t, .API), (.hipsolverHandle_t, .handle), (.hipsolverFillMode_t, .uplo),
    (.int, .n), (.int, .nrhs), (.arr (.ptr .hipsolverComplex), .A), (.int, .lda), (.int, .stA),
    (.arr (.ptr .hipsolverComplex), .B), (.int, .ldb), (.int, .stB),
    (.ptr .hipsolverComplex, .work), (.int, .lwork), (.ptr .int, .info), (.int, .bc)]
  pre := []
  scrutinee := .API
  cases := [
    (.api API_NORMAL, ⟨[], .call "hipsolverCpotrsBatched"
      [.param .handle, .param .uplo, .param .n, .param .nrhs,
       .cast (.ptr (.ptr .hipFloatComplex)) .A, .param .lda,
       .cast (.ptr (.ptr .hipFloatComplex)) .B, .param .ldb, .cast (.ptr .hipFloatComplex) .work,
       .param .lwork, .param .info, .param .bc]⟩),
    (.api API_FORTRAN, ⟨[], .call "hipsolverCpotrsBatchedFortran"
      [.param .handle, .param .uplo, .param .n, .param .nrhs,
       .cast (.ptr (.ptr .hipFloatComplex)) .A, .param .lda,
       .cast (.ptr (.ptr .hipFloatComplex)) .B, .param .ldb, .cast (.ptr .hipFloatComplex) .work,
       .param .lwork, .param .info, .param .bc]⟩),
    (.api API_COMPAT, ⟨[], .call "hipsolverDnCpotrsBatched"
      [.param .handle, .param .uplo, .param .n, .param .nrhs,
       .cast (.ptr (.ptr .hipFloatComplex)) .A, .param .lda,
       .cast (.ptr (.ptr .hipFloatComplex)) .B, .param .ldb, .param .info, .param .bc]⟩)]
  dflt := ⟨[], .status HIPSOLVER_STATUS_NOT_SUPPORTED⟩

/-- The overload of `hipsolver_potrs` at hipsolver.hpp 6659-6717 (`hipsolverDoubleComplex* A[]`). -/
def hipsolver_potrs_hipsolverDoubleComplex_batched : Wrapper where
  name := "hipsolver_potrs"
  params := [(.testAPI_t, .API), (.hipsolverHandle_t, .handle), (.hipsolverFillMode_t, .uplo),
    (.int, .n), (.int, .nrhs), (.arr (.ptr .hipsolverDoubleComplex), .A), (.int, .lda),
    (.int, .stA), (.arr (.ptr .hipsolverDoubleComplex), .B), (.int, .ldb), (.int, .stB),
    (.ptr .hipsolverDoubleComplex, .work), (.int, .lwork), (.ptr .int, .info), (.int, .bc)]
  pre := []
  scrutinee := .API
  cases := [
    (.api API_NORMAL, ⟨[], .call "hipsolverZpotrsBatched"
      [.param .handle, .param .uplo, .param .n, .param .nrhs,
       .cast (.ptr (.ptr .hipDoubleComplex)) .A, .param .lda,
       .cast (.ptr (.ptr .hipDoubleComplex)) .B, .param .ldb, .cast (.ptr .hipDoubleComplex) .work,
       .param .lwork, .param .info, .param .bc]⟩),
    (.api API_FORTRAN, ⟨[], .call "hipsolverZpotrsBatchedFortran"
      [.param .handle, .param .uplo, .param .n, .param .nrhs,
       .cast (.ptr (.ptr .hipDoubleComplex)) .A, .param .lda,
       .cast (.ptr (.ptr .hipDoubleComplex)) .B, .param .ldb, .cast (.ptr .hipDoubleComplex) .work,
       .param .lwork, .param .info, .param .bc]⟩),
    (.api API_COMPAT, ⟨[], .call "hipsolverDnZpotrsBatched"
      [.param .handle, .param .uplo, .param .n, .param .nrhs,
       .cast (.ptr (.ptr .hipDoubleComplex)) .A, .param .lda,
       .cast (.ptr (.ptr .hipDoubleComplex)) .B, .param .ldb, .param .info, .param .bc]⟩)]
  dflt := ⟨[], .status HIPSOLVER_STATUS_NOT_SUPPORTED⟩

/-- The overload of `hipsolver_syevd_heevd_bufferSize` at hipsolver.hpp 6722-6741 (`float* A`). -/
def hipsolver_syevd_heevd_bufferSize_float : Wrapper where
  name := "hipsolver_syevd_heevd_bufferSize"
  params := [(.testAPI_t, .API), (.hipsolverHandle_t, .handle), (.hipsolverEigMode_t, .jobz),
    (.hipsolverFillMode_t, .uplo), (.int, .n), (.ptr .float, .A), (.int, .lda), (.ptr .float, .W),
    (.ptr .int, .lwork)]
  pre := []
  scrutinee := .API
  cases := [
    (.api API_NORMAL, ⟨[], .call "hipsolverSsyevd_bufferSize"
      [.param .handle, .param .jobz, .param .uplo, .param .n, .param .A, .param .lda, .param .W,
       .param .lwork]⟩),
    (.api API_FORTRAN, ⟨[], .call "hipsolverSsyevd_bufferSizeFortran"
      [.param .handle, .param .jobz, .param .uplo, .param .n, .param .A, .param .lda, .param .W,
       .param .lwork]⟩)]
  dflt := ⟨[], .status HIPSOLVER_STATUS_NOT_SUPPORTED⟩

/-- The overload of `hipsolver_syevd_heevd_bufferSize` at hipsolver.hpp 6743-6762 (`double* A`). -/
def hipsolver_syevd_heevd_bufferSize_double : Wrapper where
  name := "hipsolver_syevd_heevd_bufferSize"
  params := [(.testAPI_t, .API), (.hipsolverHandle_t, .handle), (.hipsolverEigMode_t, .jobz),
    (.hipsolverFillMode_t, .uplo), (.int, .n), (.ptr .double, .A), (.int, .lda), (.ptr .double, .W),
    (.ptr .int, .lwork)]
  pre := []
  scrutinee := .API
  cases := [
    (.api API_NORMAL, ⟨[], .call "hipsolverDsyevd_bufferSize"
      [.param .handle, .param .jobz, .param .uplo, .param .n, .param .A, .param .lda, .param .W,
       .param .lwork]⟩),
    (.api API_FORTRAN, ⟨[], .call "hipsolverDsyevd_bufferSizeFortran"
      [.param .handle, .param .jobz, .param .uplo, .param .n, .param .A, .param .lda, .param .W,
       .param .lwork]⟩)]
  dflt := ⟨[], .status HIPSOLVER_STATUS_NOT_SUPPORTED⟩

/-- The overload of `hipsolver_syevd_heevd_bufferSize` at hipsolver.hpp 6764-6785 (`hipsolverComplex* A`). -/
def hipsolver_syevd_heevd_bufferSize_hipsolverComplex : Wrapper where
  name := "hipsolver_syevd_heevd_bufferSize"
  params := [(.testAPI_t, .API), (.hipsolverHandle_t, .handle), (.hipsolverEigMode_t, .jobz),
    (.hipsolverFillMode_t, .uplo), (.int, .n), (.ptr .hipsolverComplex, .A), (.int, .lda),
    (.ptr .float, .W), (.ptr .int, .lwork)]
  pre := []
  scrutinee := .API
  cases := [
    (.api API_NORMAL, ⟨[], .call "hipsolverCheevd_bufferSize"
      [.param .handle, .param .jobz, .param .uplo, .param .n, .cast (.ptr .hipFloatComplex) .A,
       .param .lda, .param .W, .param .lwork]⟩),
    (.api API_FORTRAN, ⟨[], .call "hipsolverCheevd_bufferSizeFortran"
      [.param .handle, .param .jobz, .param .uplo, .param .n, .cast (.ptr .hipFloatComplex) .A,
       .param .lda, .param .W, .param .lwork]⟩)]
  dflt := ⟨[], .status HIPSOLVER_STATUS_NOT_SUPPORTED⟩

/-- The overload of `hipsolver_syevd_heevd_bufferSize` at hipsolver.hpp 6787-6808 (`hipsolverDoubleComplex* A`). -/
def hipsolver_syevd_heevd_bufferSize_hipsolverDoubleComplex : Wrapper where
  name := "hipsolver_syevd_heevd_bufferSize"
  params := [(.testAPI_t, .API), (.hipsolverHandle_t, .handle), (.hipsolverEigMode_t, .jobz),
    (.hipsolverFillMode_t, .uplo), (.int, .n), (.ptr .hipsolverDoubleComplex, .A), (.int, .lda),
    (.ptr .double, .W), (.ptr .int, .lwork)]
  pre := []
  scrutinee := .API
  cases := [
    (.api API_NORMAL, ⟨[], .call "hipsolverZheevd_bufferSize"
      [.param .handle, .param .jobz, .param .uplo, .param .n, .cast (.ptr .hipDoubleComplex) .A,
       .param .lda, .param .W, .param .lwork]⟩),
    (.api API_FORTRAN, ⟨[], .call "hipsolverZheevd_bufferSizeFortran"
      [.param .handle, .param .jobz, .param .uplo, .param .n, .cast (.ptr .hipDoubleComplex) .A,
       .param .lda, .param .W, .param .lwork]⟩)]
  dflt := ⟨[], .status HIPSOLVER_STATUS_NOT_SUPPORTED⟩

/-- The overload of `hipsolver_syevd_heevd` at hipsolver.hpp 6810-6834 (`float* A`). -/
def hipsolver_syevd_heevd_float : Wrapper where
  name := "hipsolver_syevd_heevd"
  params := [(.testAPI_t, .API), (.hipsolverHandle_t, .handle), (.hipsolverEigMode_t, .jobz),
    (.hipsolverFillMode_t, .uplo), (.int, .n), (.ptr .float, .A), (.int, .lda), (.int, .stA),
    (.ptr .float, .W), (.int, .stW), (.ptr .float, .work), (.int, .lwork), (.ptr .int, .info),
    (.int, .bc)]
  pre := []
  scrutinee := .API
  cases := [
    (.api API_NORMAL, ⟨[], .call "hipsolverSsyevd"
      [.param .handle, .param .jobz, .param .uplo, .param .n, .param .A, .param .lda, .param .W,
       .param .work, .param .lwork, .param .info]⟩),
    (.api API_FORTRAN, ⟨[], .call "hipsolverSsyevdFortran"
      [.param .handle, .param .jobz, .param .uplo, .param .n, .param .A, .param .lda, .param .W,
       .param .work, .param .lwork, .param .info]⟩)]
  dflt := ⟨[], .status HIPSOLVER_STATUS_NOT_SUPPORTED⟩

/-- The overload of `hipsolver_syevd_heevd` at hipsolver.hpp 6836-6860 (`double* A`). -/
def hipsolver_syevd_heevd_double : Wrapper where
  name := "hipsolver_syevd_heevd"
  params := [(.testAPI_t, .API), (.hipsolverHandle_t, .handle), (.hipsolverEigMode_t, .jobz),
    (.hipsolverFillMode_t, .uplo), (.int, .n), (.ptr .double, .A), (.int, .lda), (.int, .stA),
    (.ptr .double, .W), (.int, .stW), (.ptr .double, .work), (.int, .lwork), (.ptr .int, .info),
    (.int, .bc)]
  pre := []
  scrutinee := .API
  cases := [
    (.api API_NORMAL, ⟨[], .call "hipsolverDsyevd"
      [.param .handle, .param .jobz, .param .uplo, .param .n, .param .A, .param .lda, .param .W,
       .param .work, .param .lwork, .param .info]⟩),
    (.api API_FORTRAN, ⟨[], .call "hipsolverDsyevdFortran"
      [.param .handle, .param .jobz, .param .uplo, .param .n, .param .A, .param .lda, .param .W,
       .param .work, .param .lwork, .param .info]⟩)]
  dflt := ⟨[], .status HIPSOLVER_STATUS_NOT_SUPPORTED⟩

/-- The overload of `hipsolver_syevd_heevd` at hipsolver.hpp 6862-6904 (`hipsolverComplex* A`). -/
def hipsolver_syevd_heevd_hipsolverComplex : Wrapper where
  name := "hipsolver_syevd_heevd"
  params := [(.testAPI_t, .API), (.hipsolverHandle_t, .handle), (.hipsolverEigMode_t, .jobz),
    (.hipsolverFillMode_t, .uplo), (.int, .n), (.ptr .hipsolverComplex, .A), (.int, .lda),
    (.int, .stA), (.ptr .float, .W), (.int, .stW), (.ptr .hipsolverComplex, .work), (.int, .lwork),
    (.ptr .int, .info), (.int, .bc)]
  pre := []
  scrutinee := .API
  cases := [
    (.api API_NORMAL, ⟨[], .call "hipsolverCheevd"
      [.param .handle, .param .jobz, .param .uplo, .param .n, .cast (.ptr .hipFloatComplex) .A,
       .param .lda, .param .W, .cast (.ptr .hipFloatComplex) .work, .param .lwork, .param .info]⟩),
    (.api API_FORTRAN, ⟨[], .call "hipsolverCheevdFortran"
      [.param .handle, .param .jobz, .param .uplo, .param .n, .cast (.ptr .hipFloatComplex) .A,
       .param .lda, .param .W, .cast (.ptr .hipFloatComplex) .work, .param .lwork, .param .info]⟩)]
  dflt := ⟨[], .status HIPSOLVER_STATUS_NOT_SUPPORTED⟩

/-- The overload of `hipsolver_syevd_heevd` at hipsolver.hpp 6906-6948 (`hipsolverDoubleComplex* A`). -/
def hipsolver_syevd_heevd_hipsolverDoubleComplex : Wrapper where
  name := "hipsolver_syevd_heevd"
  params := [(.testAPI_t, .API), (.hipsolverHandle_t, .handle), (.hipsolverEigMode_t, .jobz),
    (.hipsolverFillMode_t, .uplo), (.int, .n), (.ptr .hipsolverDoubleComplex, .A), (.int, .lda),
    (.int, .stA), (.ptr .double, .W), (.int, .stW), (.ptr .hipsolverDoubleComplex, .work),
    (.int, .lwork), (.ptr .int, .info), (.int, .bc)]
  pre := []
  scrutinee := .API
  cases := [
    (.api API_NORMAL, ⟨[], .call "hipsolverZheevd"
      [.param .handle, .param .jobz, .param .uplo, .param .n, .cast (.ptr .hipDoubleComplex) .A,
       .param .lda, .param .W, .cast (.ptr .hipDoubleComplex) .work, .param .lwork, .param .info]⟩),
    (.api API_FORTRAN, ⟨[], .call "hipsolverZheevdFortran"
      [.param .handle, .param .jobz, .param .uplo, .param .n, .cast (.ptr .hipDoubleComplex) .A,
       .param .lda, .param .W, .cast (.ptr .hipDoubleComplex) .work, .param .lwork, .param .info]⟩)]
  dflt := ⟨[], .status HIPSOLVER_STATUS_NOT_SUPPORTED⟩

/-- The overload of `hipsolver_syevdx_heevdx_bufferSize` at hipsolver.hpp 6953-6980 (`float* A`). -/
def hipsolver_syevdx_heevdx_bufferSize_float : Wrapper where
  name := "hipsolver_syevdx_heevdx_bufferSize"
  params := [(.testAPI_t, .API), (.hipsolverHandle_t, .handle), (.hipsolverEigMode_t, .jobz),
    (.hipsolverEigRange_t, .range), (.hipsolverFillMode_t, .uplo), (.int, .n), (.ptr .float, .A),
    (.int, .lda), (.float, .vl), (.float, .vu), (.int, .il), (.int, .iu), (.ptr .int, .nev),
    (.ptr .float, .W), (.ptr .int, .lwork)]
  pre := []
  scrutinee := .API
  cases := [
    (.api API_NORMAL, ⟨[], .call "hipsolverSsyevdx_bufferSize"
      [.param .handle, .param .jobz, .param .range, .param .uplo, .param .n, .param .A, .param .lda,
       .param .vl, .param .vu, .param .il, .param .iu, .param .nev, .param .W, .param .lwork]⟩),
    (.api API_COMPAT, ⟨[], .call "hipsolverDnSsyevdx_bufferSize"
      [.param .handle, .param .jobz, .param .range, .param .uplo, .param .n, .param .A, .param .lda,
       .param .vl, .param .vu, .param .il, .param .iu, .param .nev, .param .W, .param .lwork]⟩)]
  dflt := ⟨[], .status HIPSOLVER_STATUS_NOT_SUPPORTED⟩

/-- The overload of `hipsolver_syevdx_heevdx_bufferSize` at hipsolver.hpp 6982-7009 (`double* A`). -/
def hipsolver_syevdx_heevdx_bufferSize_double : Wrapper where
  name := "hipsolver_syevdx_heevdx_bufferSize"
  params := [(.testAPI_t, .API), (.hipsolverHandle_t, .handle), (.hipsolverEigMode_t, .jobz),
    (.hipsolverEigRange_t, .range), (.hipsolverFillMode_t, .uplo), (.int, .n), (.ptr .double, .A),
    (.int, .lda), (.double, .vl), (.double, .vu), (.int, .il), (.int, .iu), (.ptr .int, .nev),
    (.ptr .double, .W), (.ptr .int, .lwork)]
  pre := []
  scrutinee := .API
  cases := [
    (.api API_NORMAL, ⟨[], .call "hipsolverDsyevdx_bufferSize"
      [.param .handle, .param .jobz, .param .range, .param .uplo, .param .n, .param .A, .param .lda,
       .param .vl, .param .vu, .param .il, .param .iu, .param .nev, .param .W, .param .lwork]⟩),
    (.api API_COMPAT, ⟨[], .call "hipsolverDnDsyevdx_bufferSize"
      [.param .handle, .param .jobz, .param .range, .param .uplo, .param .n, .param .A, .param .lda,
       .param .vl, .param .vu, .param .il, .param .iu, .param .nev, .param .W, .param .lwork]⟩)]
  dflt := ⟨[], .status HIPSOLVER_STATUS_NOT_SUPPORTED⟩

/-- The overload of `hipsolver_syevdx_heevdx_bufferSize` at hipsolver.hpp 7011-7038 (`hipsolverComplex* A`). -/
def hipsolver_syevdx_heevdx_bufferSize_hipsolverComplex : Wrapper where
  name := "hipsolver_syevdx_heevdx_bufferSize"
  params := [(.testAPI_t, .API), (.hipsolverHandle_t, .handle), (.hipsolverEigMode_t, .jobz),
    (.hipsolverEigRange_t, .range), (.hipsolverFillMode_t, .uplo), (.int, .n),
    (.ptr .hipsolverComplex, .A), (.int, .lda), (.float, .vl), (.float, .vu), (.int, .il),
    (.int, .iu), (.ptr .int, .nev), (.ptr .float, .W), (.ptr .int, .lwork)]
  pre := []
  scrutinee := .API
  cases := [
    (.api API_NORMAL, ⟨[], .call "hipsolverCheevdx_bufferSize"
      [.param .handle, .param .jobz, .param .range, .param .uplo, .param .n,
       .cast (.ptr .hipFloatComplex) .A, .param .lda, .param .vl, .param .vu, .param .il,
       .param .iu, .param .nev, .param .W, .param .lwork]⟩),
    (.api API_COMPAT, ⟨[], .call "hipsolverDnCheevdx_bufferSize"
      [.param .handle, .param .jobz, .param .range, .param .uplo, .param .n,
       .cast (.ptr .hipFloatComplex) .A, .param .lda, .param .vl, .param .vu, .param .il,
       .param .iu, .param .nev, .param .W, .param .lwork]⟩)]
  dflt := ⟨[], .status HIPSOLVER_STATUS_NOT_SUPPORTED⟩

/-- The overload of `hipsolver_syevdx_heevdx_bufferSize` at hipsolver.hpp 7040-7067 (`hipsolverDoubleComplex* A`). -/
def hipsolver_syevdx_heevdx_bufferSize_hipsolverDoubleComplex : Wrapper where
  name := "hipsolver_syevdx_heevdx_bufferSize"
  params := [(.testAPI_t, .API), (.hipsolverHandle_t, .handle), (.hipsolverEigMode_t, .jobz),
    (.hipsolverEigRange_t, .range), (.hipsolverFillMode_t, .uplo), (.int, .n),
    (.ptr .hipsolverDoubleComplex, .A), (.int, .lda), (.double, .vl), (.double, .vu), (.int, .il),
    (.int, .iu), (.ptr .int, .nev), (.ptr .double, .W), (.ptr .int, .lwork)]
  pre := []
  scrutinee := .API
  cases := [
    (.api API_NORMAL, ⟨[], .call "hipsolverZheevdx_bufferSize"
      [.param .handle, .param .jobz, .param .range, .param .uplo, .param .n,
       .cast (.ptr .hipDoubleComplex) .A, .param .lda, .param .vl, .param .vu, .param .il,
       .param .iu, .param .nev, .param .W, .param .lwork]⟩),
    (.api API_COMPAT, ⟨[], .call "hipsolverDnZheevdx_bufferSize"
      [.param .handle, .param .jobz, .param .range, .param .uplo, .param .n,
       .cast (.ptr .hipDoubleComplex) .A, .param .lda, .param .vl, .param .vu, .param .il,
       .param .iu, .param .nev, .param .W, .param .lwork]⟩)]
  dflt := ⟨[], .status HIPSOLVER_STATUS_NOT_SUPPORTED⟩

/-- The overload of `hipsolver_syevdx_heevdx` at hipsolver.hpp 7069-7101 (`float* A`). -/
def hipsolver_syevdx_heevdx_float : Wrapper where
  name := "hipsolver_syevdx_heevdx"
  params := [(.testAPI_t, .API), (.hipsolverHandle_t, .handle), (.hipsolverEigMode_t, .jobz),
    (.hipsolverEigRange_t, .range), (.hipsolverFillMode_t, .uplo), (.int, .n), (.ptr .float, .A),
    (.int, .lda), (.int, .stA), (.float, .vl), (.float, .vu), (.int, .il), (.int, .iu),
    (.ptr .int, .nev), (.ptr .float, .W), (.int, .stW), (.ptr .float, .work), (.int, .lwork),
    (.ptr .int, .info), (.int, .bc)]
  pre := []
  scrutinee := .API
  cases := [
    (.api API_NORMAL, ⟨[], .call "hipsolverSsyevdx"
      [.param .handle, .param .jobz, .param .range, .param .uplo, .param .n, .param .A, .param .lda,
       .param .vl, .param .vu, .param .il, .param .iu, .param .nev, .param .W, .param .work,
       .param .lwork, .param .info]⟩),
    (.api API_COMPAT, ⟨[], .call "hipsolverDnSsyevdx"
      [.param .handle, .param .jobz, .param .range, .param .uplo, .param .n, .param .A, .param .lda,
       .param .vl, .param .vu, .param .il, .param .iu, .param .nev, .param .W, .param .work,
       .param .lwork, .param .info]⟩)]
  dflt := ⟨[], .status HIPSOLVER_STATUS_NOT_SUPPORTED⟩

/-- The overload of `hipsolver_syevdx_heevdx` at hipsolver.hpp 7103-7135 (`double* A`). -/
def hipsolver_syevdx_heevdx_double : Wrapper where
  name := "hipsolver_syevdx_heevdx"
  params := [(.testAPI_t, .API), (.hipsolverHandle_t, .handle), (.hipsolverEigMode_t, .jobz),
    (.hipsolverEigRange_t, .range), (.hipsolverFillMode_t, .uplo), (.int, .n), (.ptr .double, .A),
    (.int, .lda), (.int, .stA), (.double, .vl), (.double, .vu), (.int, .il), (.int, .iu),
    (.ptr .int, .nev), (.ptr .double, .W), (.int, .stW), (.ptr .double, .work), (.int, .lwork),
    (.ptr .int, .info), (.int, .bc)]
  pre := []
  scrutinee := .API
  cases := [
    (.api API_NORMAL, ⟨[], .call "hipsolverDsyevdx"
      [.param .handle, .param .jobz, .param .range, .param .uplo, .param .n, .param .A, .param .lda,
       .param .vl, .param .vu, .param .il, .param .iu, .param .nev, .param .W, .param .work,
       .param .lwork, .param .info]⟩),
    (.api API_COMPAT, ⟨[], .call "hipsolverDnDsyevdx"
      [.param .handle, .param .jobz, .param .range, .param .uplo, .param .n, .param .A, .param .lda,
       .param .vl, .param .vu, .param .il, .param .iu, .param .nev, .param .W, .param .work,
       .param .lwork, .param .info]⟩)]
  dflt := ⟨[], .status HIPSOLVER_STATUS_NOT_SUPPORTED⟩

/-- The overload of `hipsolver_syevdx_heevdx` at hipsolver.hpp 7137-7197 (`hipsolverComplex* A`). -/
def hipsolver_syevdx_heevdx_hipsolverComplex : Wrapper where
  name := "hipsolver_syevdx_heevdx"
  params := [(.testAPI_t, .API), (.hipsolverHandle_t, .handle), (.hipsolverEigMode_t, .jobz),
    (.hipsolverEigRange_t, .range), (.hipsolverFillMode_t, .uplo), (.int, .n),
    (.ptr .hipsolverComplex, .A), (.int, .lda), (.int, .stA), (.float, .vl), (.float, .vu),
    (.int, .il), (.int, .iu), (.ptr .int, .nev), (.ptr .float, .W), (.int, .stW),
    (.ptr .hipsolverComplex, .work), (.int, .lwork), (.ptr .int, .info), (.int, .bc)]
  pre := []
  scrutinee := .API
  cases := [
    (.api API_NORMAL, ⟨[], .call "hipsolverCheevdx"
      [.param .handle, .param .jobz, .param .range, .param .uplo, .param .n,
       .cast (.ptr .hipFloatComplex) .A, .param .lda, .param .vl, .param .vu, .param .il,
       .param .iu, .param .nev, .param .W, .cast (.ptr .hipFloatComplex) .work, .param .lwork,
       .param .info]⟩),
    (.api API_COMPAT, ⟨[], .call "hipsolverDnCheevdx"
      [.param .handle, .param .jobz, .param .range, .param .uplo, .param .n,
       .cast (.ptr .hipFloatComplex) .A, .param .lda, .param .vl, .param .vu, .param .il,
       .param .iu, .param .nev, .param .W, .cast (.ptr .hipFloatComplex) .work, .param .lwork,
       .param .info]⟩)]
  dflt := ⟨[], .status HIPSOLVER_STATUS_NOT_SUPPORTED⟩

/-- The overload of `hipsolver_syevdx_heevdx` at hipsolver.hpp 7199-7259 (`hipsolverDoubleComplex* A`). -/
def hipsolver_syevdx_heevdx_hipsolverDoubleComplex : Wrapper where
  name := "hipsolver_syevdx_heevdx"
  params := [(.testAPI_t, .API), (.hipsolverHandle_t, .handle), (.hipsolverEigMode_t, .jobz),
    (.hipsolverEigRange_t, .range), (.hipsolverFillMode_t, .uplo), (.int, .n),
    (.ptr .hipsolverDoubleComplex, .A), (.int, .lda), (.int, .stA), (.double, .vl), (.double, .vu),
    (.int, .il), (.int, .iu), (.ptr .int, .nev), (.ptr .double, .W), (.int, .stW),
    (.ptr .hipsolverDoubleComplex, .work), (.int, .lwork), (.ptr .int, .info), (.int, .bc)]
  pre := []
  scrutinee := .API
  cases := [
    (.api API_NORMAL, ⟨[], .call "hipsolverZheevdx"
      [.param .handle, .param .jobz, .param .range, .param .uplo, .param .n,
       .cast (.ptr .hipDoubleComplex) .A, .param .lda, .param .vl, .param .vu, .param .il,
       .param .iu, .param .nev, .param .W, .cast (.ptr .hipDoubleComplex) .work, .param .lwork,
       .param .info]⟩),
    (.api API_COMPAT, ⟨[], .call "hipsolverDnZheevdx"
      [.param .handle, .param .jobz, .param .range, .param .uplo, .param .n,
       .cast (.ptr .hipDoubleComplex) .A, .param .lda, .param .vl, .param .vu, .param .il,
       .param .iu, .param .nev, .param .W, .cast (.ptr .hipDoubleComplex) .work, .param .lwork,
       .param .info]⟩)]
  dflt := ⟨[], .status HIPSOLVER_STATUS_NOT_SUPPORTED⟩

/-- The overload of `hipsolver_syevj_heevj_bufferSize` at hipsolver.hpp 7264-7297 (`float* A`). -/
def hipsolver_syevj_heevj_bufferSize_float : Wrapper where
  name := "hipsolver_syevj_heevj_bufferSize"
  params := [(.testAPI_t, .API), (.bool, .STRIDED), (.hipsolverHandle_t, .handle),
    (.hipsolverEigMode_t, .jobz), (.hipsolverFillMode_t, .uplo), (.int, .n), (.ptr .float, .A),
    (.int, .lda), (.ptr .float, .W), (.ptr .int, .lwork), (.hipsolverSyevjInfo_t, .params),
    (.int, .bc)]
  pre := []
  scrutinee := .marshal .STRIDED
  cases := [
    (.code C_NORMAL, ⟨[], .call "hipsolverSsyevj_bufferSize"
      [.param .handle, .param .jobz, .param .uplo, .param .n, .param .A, .param .lda, .param .W,
       .param .lwork, .param .params]⟩),
    (.code C_NORMAL_ALT, ⟨[], .call "hipsolverSsyevjBatched_bufferSize"
      [.param .handle, .param .jobz, .param .uplo, .param .n, .param .A, .param .lda, .param .W,
       .param .lwork, .param .params, .param .bc]⟩),
    (.code FORTRAN_NORMAL, ⟨[], .call "hipsolverSsyevj_bufferSizeFortran"
      [.param .handle, .param .jobz, .param .uplo, .param .n, .param .A, .param .lda, .param .W,
       .param .lwork, .param .params]⟩),
    (.code FORTRAN_NORMAL_ALT, ⟨[], .call "hipsolverSsyevjBatched_bufferSizeFortran"
      [.param .handle, .param .jobz, .param .uplo, .param .n, .param .A, .param .lda, .param .W,
       .param .lwork, .param .params, .param .bc]⟩),
    (.code COMPAT_NORMAL, ⟨[], .call "hipsolverDnSsyevj_bufferSize"
      [.param .handle, .param .jobz, .param .uplo, .param .n, .param .A, .param .lda, .param .W,
       .param .lwork, .param .params]⟩),
    (.code COMPAT_NORMAL_ALT, ⟨[], .call "hipsolverDnSsyevjBatched_bufferSize"
      [.param .handle, .param .jobz, .param .uplo, .param .n, .param .A, .param .lda, .param .W,
       .param .lwork, .param .params, .param .bc]⟩)]
  dflt := ⟨[], .status HIPSOLVER_STATUS_NOT_SUPPORTED⟩

/-- The overload of `hipsolver_syevj_heevj_bufferSize` at hipsolver.hpp 7299-7332 (`double* A`). -/
def hipsolver_syevj_heevj_bufferSize_double : Wrapper where
  name := "hipsolver_syevj_heevj_bufferSize"
  params := [(.testAPI_t, .API), (.bool, .STRIDED), (.hipsolverHandle_t, .handle),
    (.hipsolverEigMode_t, .jobz), (.hipsolverFillMode_t, .uplo), (.int, .n), (.ptr .double, .A),
    (.int, .lda), (.ptr .double, .W), (.ptr .int, .lwork), (.hipsolverSyevjInfo_t, .params),
    (.int, .bc)]
  pre := []
  scrutinee := .marshal .STRIDED
  cases := [
    (.code C_NORMAL, ⟨[], .call "hipsolverDsyevj_bufferSize"
      [.param .handle, .param .jobz, .param .uplo, .param .n, .param .A, .param .lda, .param .W,
       .param .lwork, .param .params]⟩),
    (.code C_NORMAL_ALT, ⟨[], .call "hipsolverDsyevjBatched_bufferSize"
      [.param .handle, .param .jobz, .param .uplo, .param .n, .param .A, .param .lda, .param .W,
       .param .lwork, .param .params, .param .bc]⟩),
    (.code FORTRAN_NORMAL, ⟨[], .call "hipsolverDsyevj_bufferSizeFortran"
      [.param .handle, .param .jobz, .param .uplo, .param .n, .param .A, .param .lda, .param .W,
       .param .lwork, .param .params]⟩),
    (.code FORTRAN_NORMAL_ALT, ⟨[], .call "hipsolverDsyevjBatched_bufferSizeFortran"
      [.param .handle, .param .jobz, .param .uplo, .param .n, .param .A, .param .lda, .param .W,
       .param .lwork, .param .params, .param .bc]⟩),
    (.code COMPAT_NORMAL, ⟨[], .call "hipsolverDnDsyevj_bufferSize"
      [.param .handle, .param .jobz, .param .uplo, .param .n, .param .A, .param .lda, .param .W,
       .param .lwork, .param .params]⟩),
    (.code COMPAT_NORMAL_ALT, ⟨[], .call "hipsolverDnDsyevjBatched_bufferSize"
      [.param .handle, .param .jobz, .param .uplo, .param .n, .param .A, .param .lda, .param .W,
       .param .lwork, .param .params, .param .bc]⟩)]
  dflt := ⟨[], .status HIPSOLVER_STATUS_NOT_SUPPORTED⟩

/-- The overload of `hipsolver_syevj_heevj_bufferSize` at hipsolver.hpp 7334-7370 (`hipsolverComplex* A`). -/
def hipsolver_syevj_heevj_bufferSize_hipsolverComplex : Wrapper where
  name := "hipsolver_syevj_heevj_bufferSize"
  params := [(.testAPI_t, .API), (.bool, .STRIDED), (.hipsolverHandle_t, .handle),
    (.hipsolverEigMode_t, .jobz), (.hipsolverFillMode_t, .uplo), (.int, .n),
    (.ptr .hipsolverComplex, .A), (.int, .lda), (.ptr .float, .W), (.ptr .int, .lwork),
    (.hipsolverSyevjInfo_t, .params), (.int, .bc)]
  pre := []
  scrutinee := .marshal .STRIDED
  cases := [
    (.code C_NORMAL, ⟨[], .call "hipsolverCheevj_bufferSize"
      [.param .handle, .param .jobz, .param .uplo, .param .n, .cast (.ptr .hipFloatComplex) .A,
       .param .lda, .param .W, .param .lwork, .param .params]⟩),
    (.code C_NORMAL_ALT, ⟨[], .call "hipsolverCheevjBatched_bufferSize"
      [.param .handle, .param .jobz, .param .uplo, .param .n, .cast (.ptr .hipFloatComplex) .A,
       .param .lda, .param .W, .param .lwork, .param .params, .param .bc]⟩),
    (.code FORTRAN_NORMAL, ⟨[], .call "hipsolverCheevj_bufferSizeFortran"
      [.param .handle, .param .jobz, .param .uplo, .param .n, .cast (.ptr .hipFloatComplex) .A,
       .param .lda, .param .W, .param .lwork, .param .params]⟩),
    (.code FORTRAN_NORMAL_ALT, ⟨[], .call "hipsolverCheevjBatched_bufferSizeFortran"
      [.param .handle, .param .jobz, .param .uplo, .param .n, .cast (.ptr .hipFloatComplex) .A,
       .param .lda, .param .W, .param .lwork, .param .params, .param .bc]⟩),
    (.code COMPAT_NORMAL, ⟨[], .call "hipsolverDnCheevj_bufferSize"
      [.param .handle, .param .jobz, .param .uplo, .param .n, .cast (.ptr .hipFloatComplex) .A,
       .param .lda, .param .W, .param .lwork, .param .params]⟩),
    (.code COMPAT_NORMAL_ALT, ⟨[], .call "hipsolverDnCheevjBatched_bufferSize"
      [.param .handle, .param .jobz, .param .uplo, .param .n, .cast (.ptr .hipFloatComplex) .A,
       .param .lda, .param .W, .param .lwork, .param .params, .param .bc]⟩)]
  dflt := ⟨[], .status HIPSOLVER_STATUS_NOT_SUPPORTED⟩

/-- The overload of `hipsolver_syevj_heevj_bufferSize` at hipsolver.hpp 7372-7408 (`hipsolverDoubleComplex* A`). -/
def hipsolver_syevj_heevj_bufferSize_hipsolverDoubleComplex : Wrapper where
  name := "hipsolver_syevj_heevj_bufferSize"
  params := [(.testAPI_t, .API), (.bool, .STRIDED), (.hipsolverHandle_t, .handle),
    (.hipsolverEigMode_t, .jobz), (.hipsolverFillMode_t, .uplo), (.int, .n),
    (.ptr .hipsolverDoubleComplex, .A), (.int, .lda), (.ptr .double, .W), (.ptr .int, .lwork),
    (.hipsolverSyevjInfo_t, .params), (.int, .bc)]
  pre := []
  scrutinee := .marshal .STRIDED
  cases := [
    (.code C_NORMAL, ⟨[], .call "hipsolverZheevj_bufferSize"
      [.param .handle, .param .jobz, .param .uplo, .param .n, .cast (.ptr .hipDoubleComplex) .A,
       .param .lda, .param .W, .param .lwork, .param .params]⟩),
    (.code C_NORMAL_ALT, ⟨[], .call "hipsolverZheevjBatched_bufferSize"
      [.param .handle, .param .jobz, .param .uplo, .param .n, .cast (.ptr .hipDoubleComplex) .A,
       .param .lda, .param .W, .param .lwork, .param .params, .param .bc]⟩),
    (.code FORTRAN_NORMAL, ⟨[], .call "hipsolverZheevj_bufferSizeFortran"
      [.param .handle, .param .jobz, .param .uplo, .param .n, .cast (.ptr .hipDoubleComplex) .A,
       .param .lda, .param .W, .param .lwork, .param .params]⟩),
    (.code FORTRAN_NORMAL_ALT, ⟨[], .call "hipsolverZheevjBatched_bufferSizeFortran"
      [.param .handle, .param .jobz, .param .uplo, .param .n, .cast (.ptr .hipDoubleComplex) .A,
       .param .lda, .param .W, .param .lwork, .param .params, .param .bc]⟩),
    (.code COMPAT_NORMAL, ⟨[], .call "hipsolverDnZheevj_bufferSize"
      [.param .handle, .param .jobz, .param .uplo, .param .n, .cast (.ptr .hipDoubleComplex) .A,
       .param .lda, .param .W, .param .lwork, .param .params]⟩),
    (.code COMPAT_NORMAL_ALT, ⟨[], .call "hipsolverDnZheevjBatched_bufferSize"
      [.param .handle, .param .jobz, .param .uplo, .param .n, .cast (.ptr .hipDoubleComplex) .A,
       .param .lda, .param .W, .param .lwork, .param .params, .param .bc]⟩)]
  dflt := ⟨[], .status HIPSOLVER_STATUS_NOT_SUPPORTED⟩

/-- The overload of `hipsolver_syevj_heevj` at hipsolver.hpp 7410-7447 (`float* A`). -/
def hipsolver_syevj_heevj_float : Wrapper where
  name := "hipsolver_syevj_heevj"
  params := [(.testAPI_t, .API), (.bool, .STRIDED), (.hipsolverHandle_t, .handle),
    (.hipsolverEigMode_t, .jobz), (.hipsolverFillMode_t, .uplo), (.int, .n), (.ptr .float, .A),
    (.int, .lda), (.int, .stA), (.ptr .float, .W), (.int, .stW), (.ptr .float, .work),
    (.int, .lwork), (.ptr .int, .info), (.hipsolverSyevjInfo_t, .params), (.int, .bc)]
  pre := []
  scrutinee := .marshal .STRIDED
  cases := [
    (.code C_NORMAL, ⟨[], .call "hipsolverSsyevj"
      [.param .handle, .param .jobz, .param .uplo, .param .n, .param .A, .param .lda, .param .W,
       .param .work, .param .lwork, .param .info, .param .params]⟩),
    (.code C_NORMAL_ALT, ⟨[], .call "hipsolverSsyevjBatched"
      [.param .handle, .param .jobz, .param .uplo, .param .n, .param .A, .param .lda, .param .W,
       .param .work, .param .lwork, .param .info, .param .params, .param .bc]⟩),
    (.code FORTRAN_NORMAL, ⟨[], .call "hipsolverSsyevjFortran"
      [.param .handle, .param .jobz, .param .uplo, .param .n, .param .A, .param .lda, .param .W,
       .param .work, .param .lwork, .param .info, .param .params]⟩),
    (.code FORTRAN_NORMAL_ALT, ⟨[], .call "hipsolverSsyevjBatchedFortran"
      [.param .handle, .param .jobz, .param .uplo, .param .n, .param .A, .param .lda, .param .W,
       .param .work, .param .lwork, .param .info, .param .params, .param .bc]⟩),
    (.code COMPAT_NORMAL, ⟨[], .call "hipsolverDnSsyevj"
      [.param .handle, .param .jobz, .param .uplo, .param .n, .param .A, .param .lda, .param .W,
       .param .work, .param .lwork, .param .info, .param .params]⟩),
    (.code COMPAT_NORMAL_ALT, ⟨[], .call "hipsolverDnSsyevjBatched"
      [.param .handle, .param .jobz, .param .uplo, .param .n, .param .A, .param .lda, .param .W,
       .param .work, .param .lwork, .param .info, .param .params, .param .bc]⟩)]
  dflt := ⟨[], .status HIPSOLVER_STATUS_NOT_SUPPORTED⟩

/-- The overload of `hipsolver_syevj_heevj` at hipsolver.hpp 7449-7486 (`double* A`). -/
def hipsolver_syevj_heevj_double : Wrapper where
  name := "hipsolver_syevj_heevj"
  params := [(.testAPI_t, .API), (.bool, .STRIDED), (.hipsolverHandle_t, .handle),
    (.hipsolverEigMode_t, .jobz), (.hipsolverFillMode_t, .uplo), (.int, .n), (.ptr .double, .A),
    (.int, .lda), (.int, .stA), (.ptr .double, .W), (.int, .stW), (.ptr .double, .work),
    (.int, .lwork), (.ptr .int, .info), (.hipsolverSyevjInfo_t, .params), (.int, .bc)]
  pre := []
  scrutinee := .marshal .STRIDED
  cases := [
    (.code C_NORMAL, ⟨[], .call "hipsolverDsyevj"
      [.param .handle, .param .jobz, .param .uplo, .param .n, .param .A, .param .lda, .param .W,
       .param .work, .param .lwork, .param .info, .param .params]⟩),
    (.code C_NORMAL_ALT, ⟨[], .call "hipsolverDsyevjBatched"
      [.param .handle, .param .jobz, .param .uplo, .param .n, .param .A, .param .lda, .param .W,
       .param .work, .param .lwork, .param .info, .param .params, .param .bc]⟩),
    (.code FORTRAN_NORMAL, ⟨[], .call "hipsolverDsyevjFortran"
      [.param .handle, .param .jobz, .param .uplo, .param .n, .param .A, .param .lda, .param .W,
       .param .work, .param .lwork, .param .info, .param .params]⟩),
    (.code FORTRAN_NORMAL_ALT, ⟨[], .call "hipsolverDsyevjBatchedFortran"
      [.param .handle, .param .jobz, .param .uplo, .param .n, .param .A, .param .lda, .param .W,
       .param .work, .param .lwork, .param .info, .param .params, .param .bc]⟩),
    (.code COMPAT_NORMAL, ⟨[], .call "hipsolverDnDsyevj"
      [.param .handle, .param .jobz, .param .uplo, .param .n, .param .A, .param .lda, .param .W,
       .param .work, .param .lwork, .param .info, .param .params]⟩),
    (.code COMPAT_NORMAL_ALT, ⟨[], .call "hipsolverDnDsyevjBatched"
      [.param .handle, .param .jobz, .param .uplo, .param .n, .param .A, .param .lda, .param .W,
       .param .work, .param .lwork, .param .info, .param .params, .param .bc]⟩)]
  dflt := ⟨[], .status HIPSOLVER_STATUS_NOT_SUPPORTED⟩

/-- The overload of `hipsolver_syevj_heevj` at hipsolver.hpp 7488-7585 (`hipsolverComplex* A`). -/
def hipsolver_syevj_heevj_hipsolverComplex : Wrapper where
  name := "hipsolver_syevj_heevj"
  params := [(.testAPI_t, .API), (.bool, .STRIDED), (.hipsolverHandle_t, .handle),
    (.hipsolverEigMode_t, .jobz), (.hipsolverFillMode_t, .uplo), (.int, .n),
    (.ptr .hipsolverComplex, .A), (.int, .lda), (.int, .stA), (.ptr .float, .W), (.int, .stW),
    (.ptr .hipsolverComplex, .work), (.int, .lwork), (.ptr .int, .info),
    (.hipsolverSyevjInfo_t, .params), (.int, .bc)]
  pre := []
  scrutinee := .marshal .STRIDED
  cases := [
    (.code C_NORMAL, ⟨[], .call "hipsolverCheevj"
      [.param .handle, .param .jobz, .param .uplo, .param .n, .cast (.ptr .hipFloatComplex) .A,
       .param .lda, .param .W, .cast (.ptr .hipFloatComplex) .work, .param .lwork, .param .info,
       .param .params]⟩),
    (.code C_NORMAL_ALT, ⟨[], .call "hipsolverCheevjBatched"
      [.param .handle, .param .jobz, .param .uplo, .param .n, .cast (.ptr .hipFloatComplex) .A,
       .param .lda, .param .W, .cast (.ptr .hipFloatComplex) .work, .param .lwork, .param .info,
       .param .params, .param .bc]⟩),
    (.code FORTRAN_NORMAL, ⟨[], .call "hipsolverCheevjFortran"
      [.param .handle, .param .jobz, .param .uplo, .param .n, .cast (.ptr .hipFloatComplex) .A,
       .param .lda, .param .W, .cast (.ptr .hipFloatComplex) .work, .param .lwork, .param .info,
       .param .params]⟩),
    (.code FORTRAN_NORMAL_ALT, ⟨[], .call "hipsolverCheevjBatchedFortran"
      [.param .handle, .param .jobz, .param .uplo, .param .n, .cast (.ptr .hipFloatComplex) .A,
       .param .lda, .param .W, .cast (.ptr .hipFloatComplex) .work, .param .lwork, .param .info,
       .param .params, .param .bc]⟩),
    (.code COMPAT_NORMAL, ⟨[], .call "hipsolverDnCheevj"
      [.param .handle, .param .jobz, .param .uplo, .param .n, .cast (.ptr .hipFloatComplex) .A,
       .param .lda, .param .W, .cast (.ptr .hipFloatComplex) .work, .param .lwork, .param .info,
       .param .params]⟩),
    (.code COMPAT_NORMAL_ALT, ⟨[], .call "hipsolverDnCheevjBatched"
      [.param .handle, .param .jobz, .param .uplo, .param .n, .cast (.ptr .hipFloatComplex) .A,
       .param .lda, .param .W, .cast (.ptr .hipFloatComplex) .work, .param .lwork, .param .info,
       .param .params, .param .bc]⟩)]
  dflt := ⟨[], .status HIPSOLVER_STATUS_NOT_SUPPORTED⟩

/-- The overload of `hipsolver_syevj_heevj` at hipsolver.hpp 7587-7684 (`hipsolverDoubleComplex* A`). -/
def hipsolver_syevj_heevj_hipsolverDoubleComplex : Wrapper where
  name := "hipsolver_syevj_heevj"
  params := [(.testAPI_t, .API), (.bool, .STRIDED), (.hipsolverHandle_t, .handle),
    (.hipsolverEigMode_t, .jobz), (.hipsolverFillMode_t, .uplo), (.int, .n),
    (.ptr .hipsolverDoubleComplex, .A), (.int, .lda), (.int, .stA), (.ptr .double, .W),
    (.int, .stW), (.ptr .hipsolverDoubleComplex, .work), (.int, .lwork), (.ptr .int, .info),
    (.hipsolverSyevjInfo_t, .params), (.int, .bc)]
  pre := []
  scrutinee := .marshal .STRIDED
  cases := [
    (.code C_NORMAL, ⟨[], .call "hipsolverZheevj"
      [.param .handle, .param .jobz, .param .uplo, .param .n, .cast (.ptr .hipDoubleComplex) .A,
       .param .lda, .param .W, .cast (.ptr .hipDoubleComplex) .work, .param .lwork, .param .info,
       .param .params]⟩),
    (.code C_NORMAL_ALT, ⟨[], .call "hipsolverZheevjBatched"
      [.param .handle, .param .jobz, .param .uplo, .param .n, .cast (.ptr .hipDoubleComplex) .A,
       .param .lda, .param .W, .cast (.ptr .hipDoubleComplex) .work, .param .lwork, .param .info,
       .param .params, .param .bc]⟩),
    (.code FORTRAN_NORMAL, ⟨[], .call "hipsolverZheevjFortran"
      [.param .handle, .param .jobz, .param .uplo, .param .n, .cast (.ptr .hipDoubleComplex) .A,
       .param .lda, .param .W, .cast (.ptr .hipDoubleComplex) .work, .param .lwork, .param .info,
       .param .params]⟩),
    (.code FORTRAN_NORMAL_ALT, ⟨[], .call "hipsolverZheevjBatchedFortran"
      [.param .handle, .param .jobz, .param .uplo, .param .n, .cast (.ptr .hipDoubleComplex) .A,
       .param .lda, .param .W, .cast (.ptr .hipDoubleComplex) .work, .param .lwork, .param .info,
       .param .params, .param .bc]⟩),
    (.code COMPAT_NORMAL, ⟨[], .call "hipsolverDnZheevj"
      [.param .handle, .param .jobz, .param .uplo, .param .n, .cast (.ptr .hipDoubleComplex) .A,
       .param .lda, .param .W, .cast (.ptr .hipDoubleComplex) .work, .param .lwork, .param .info,
       .param .params]⟩),
    (.code COMPAT_NORMAL_ALT, ⟨[], .call "hipsolverDnZheevjBatched"
      [.param .handle, .param .jobz, .param .uplo, .param .n, .cast (.ptr .hipDoubleComplex) .A,
       .param .lda, .param .W, .cast (.ptr .hipDoubleComplex) .work, .param .lwork, .param .info,
       .param .params, .param .bc]⟩)]
  dflt := ⟨[], .status HIPSOLVER_STATUS_NOT_SUPPORTED⟩

/-- The overload of `hipsolver_sygvd_hegvd_bufferSize` at hipsolver.hpp 7689-7712 (`float* A`). -/
def hipsolver_sygvd_hegvd_bufferSize_float : Wrapper where
  name := "hipsolver_sygvd_hegvd_bufferSize"
  params := [(.testAPI_t, .API), (.hipsolverHandle_t, .handle), (.hipsolverEigType_t, .itype),
    (.hipsolverEigMode_t, .jobz), (.hipsolverFillMode_t, .uplo), (.int, .n), (.ptr .float, .A),
    (.int, .lda), (.ptr .float, .B), (.int, .ldb), (.ptr .float, .W), (.ptr .int, .lwork)]
  pre := []
  scrutinee := .API
  cases := [
    (.api API_NORMAL, ⟨[], .call "hipsolverSsygvd_bufferSize"
      [.param .handle, .param .itype, .param .jobz, .param .uplo, .param .n, .param .A, .param .lda,
       .param .B, .param .ldb, .param .W, .param .lwork]⟩),
    (.api API_FORTRAN, ⟨[], .call "hipsolverSsygvd_bufferSizeFortran"
      [.param .handle, .param .itype, .param .jobz, .param .uplo, .param .n, .param .A, .param .lda,
       .param .B, .param .ldb, .param .W, .param .lwork]⟩)]
  dflt := ⟨[], .status HIPSOLVER_STATUS_NOT_SUPPORTED⟩

/-- The overload of `hipsolver_sygvd_hegvd_bufferSize` at hipsolver.hpp 7714-7737 (`double* A`). -/
def hipsolver_sygvd_hegvd_bufferSize_double : Wrapper where
  name := "hipsolver_sygvd_hegvd_bufferSize"
  params := [(.testAPI_t, .API), (.hipsolverHandle_t, .handle), (.hipsolverEigType_t, .itype),
    (.hipsolverEigMode_t, .jobz), (.hipsolverFillMode_t, .uplo), (.int, .n), (.ptr .double, .A),
    (.int, .lda), (.ptr .double, .B), (.int, .ldb), (.ptr .double, .W), (.ptr .int, .lwork)]
  pre := []
  scrutinee := .API
  cases := [
    (.api API_NORMAL, ⟨[], .call "hipsolverDsygvd_bufferSize"
      [.param .handle, .param .itype, .param .jobz, .param .uplo, .param .n, .param .A, .param .lda,
       .param .B, .param .ldb, .param .W, .param .lwork]⟩),
    (.api API_FORTRAN, ⟨[], .call "hipsolverDsygvd_bufferSizeFortran"
      [.param .handle, .param .itype, .param .jobz, .param .uplo, .param .n, .param .A, .param .lda,
       .param .B, .param .ldb, .param .W, .param .lwork]⟩)]
  dflt := ⟨[], .status HIPSOLVER_STATUS_NOT_SUPPORTED⟩

/-- The overload of `hipsolver_sygvd_hegvd_bufferSize` at hipsolver.hpp 7739-7781 (`hipsolverComplex* A`). -/
def hipsolver_sygvd_hegvd_bufferSize_hipsolverComplex : Wrapper where
  name := "hipsolver_sygvd_hegvd_bufferSize"
  params := [(.testAPI_t, .API), (.hipsolverHandle_t, .handle), (.hipsolverEigType_t, .itype),
    (.hipsolverEigMode_t, .jobz), (.hipsolverFillMode_t, .uplo), (.int, .n),
    (.ptr .hipsolverComplex, .A), (.int, .lda), (.ptr .hipsolverComplex, .B), (.int, .ldb),
    (.ptr .float, .W), (.ptr .int, .lwork)]
  pre := []
  scrutinee := .API
  cases := [
    (.api API_NORMAL, ⟨[], .call "hipsolverChegvd_bufferSize"
      [.param .handle, .param .itype, .param .jobz, .param .uplo, .param .n,
       .cast (.ptr .hipFloatComplex) .A, .param .lda, .cast (.ptr .hipFloatComplex) .B, .param .ldb,
       .param .W, .param .lwork]⟩),
    (.api API_FORTRAN, ⟨[], .call "hipsolverChegvd_bufferSizeFortran"
      [.param .handle, .param .itype, .param .jobz, .param .uplo, .param .n,
       .cast (.ptr .hipFloatComplex) .A, .param .lda, .cast (.ptr .hipFloatComplex) .B, .param .ldb,
       .param .W, .param .lwork]⟩)]
  dflt := ⟨[], .status HIPSOLVER_STATUS_NOT_SUPPORTED⟩

/-- The overload of `hipsolver_sygvd_hegvd_bufferSize` at hipsolver.hpp 7783-7825 (`hipsolverDoubleComplex* A`). -/
def hipsolver_sygvd_hegvd_bufferSize_hipsolverDoubleComplex : Wrapper where
  name := "hipsolver_sygvd_hegvd_bufferSize"
  params := [(.testAPI_t, .API), (.hipsolverHandle_t, .handle), (.hipsolverEigType_t, .itype),
    (.hipsolverEigMode_t, .jobz), (.hipsolverFillMode_t, .uplo), (.int, .n),
    (.ptr .hipsolverDoubleComplex, .A), (.int, .lda), (.ptr .hipsolverDoubleComplex, .B),
    (.int, .ldb), (.ptr .double, .W), (.ptr .int, .lwork)]
  pre := []
  scrutinee := .API
  cases := [
    (.api API_NORMAL, ⟨[], .call "hipsolverZhegvd_bufferSize"
      [.param .handle, .param .itype, .param .jobz, .param .uplo, .param .n,
       .cast (.ptr .hipDoubleComplex) .A, .param .lda, .cast (.ptr .hipDoubleComplex) .B,
       .param .ldb, .param .W, .param .lwork]⟩),
    (.api API_FORTRAN, ⟨[], .call "hipsolverZhegvd_bufferSizeFortran"
      [.param .handle, .param .itype, .param .jobz, .param .uplo, .param .n,
       .cast (.ptr .hipDoubleComplex) .A, .param .lda, .cast (.ptr .hipDoubleComplex) .B,
       .param .ldb, .param .W, .param .lwork]⟩)]
  dflt := ⟨[], .status HIPSOLVER_STATUS_NOT_SUPPORTED⟩

/-- The overload of `hipsolver_sygvd_hegvd` at hipsolver.hpp 7827-7856 (`float* A`). -/
def hipsolver_sygvd_hegvd_float : Wrapper where
  name := "hipsolver_sygvd_hegvd"
  params := [(.testAPI_t, .API), (.hipsolverHandle_t, .handle), (.hipsolverEigType_t, .itype),
    (.hipsolverEigMode_t, .jobz), (.hipsolverFillMode_t, .uplo), (.int, .n), (.ptr .float, .A),
    (.int, .lda), (.int, .stA), (.ptr .float, .B), (.int, .ldb), (.int, .stB), (.ptr .float, .W),
    (.int, .stW), (.ptr .float, .work), (.int, .lwork), (.ptr .int, .info), (.int, .bc)]
  pre := []
  scrutinee := .API
  cases := [
    (.api API_NORMAL, ⟨[], .call "hipsolverSsygvd"
      [.param .handle, .param .itype, .param .jobz, .param .uplo, .param .n, .param .A, .param .lda,
       .param .B, .param .ldb, .param .W, .param .work, .param .lwork, .param .info]⟩),
    (.api API_FORTRAN, ⟨[], .call "hipsolverSsygvdFortran"
      [.param .handle, .param .itype, .param .jobz, .param .uplo, .param .n, .param .A, .param .lda,
       .param .B, .param .ldb, .param .W, .param .work, .param .lwork, .param .info]⟩)]
  dflt := ⟨[], .status HIPSOLVER_STATUS_NOT_SUPPORTED⟩

/-- The overload of `hipsolver_sygvd_hegvd` at hipsolver.hpp 7858-7887 (`double* A`). -/
def hipsolver_sygvd_hegvd_double : Wrapper where
  name := "hipsolver_sygvd_hegvd"
  params := [(.testAPI_t, .API), (.hipsolverHandle_t, .handle), (.hipsolverEigType_t, .itype),
    (.hipsolverEigMode_t, .jobz), (.hipsolverFillMode_t, .uplo), (.int, .n), (.ptr .double, .A),
    (.int, .lda), (.int, .stA), (.ptr .double, .B), (.int, .ldb), (.int, .stB), (.ptr .double, .W),
    (.int, .stW), (.ptr .double, .work), (.int, .lwork), (.ptr .int, .info), (.int, .bc)]
  pre := []
  scrutinee := .API
  cases := [
    (.api API_NORMAL, ⟨[], .call "hipsolverDsygvd"
      [.param .handle, .param .itype, .param .jobz, .param .uplo, .param .n, .param .A, .param .lda,
       .param .B, .param .ldb, .param .W, .param .work, .param .lwork, .param .info]⟩),
    (.api API_FORTRAN, ⟨[], .call "hipsolverDsygvdFortran"
      [.param .handle, .param .itype, .param .jobz, .param .uplo, .param .n, .param .A, .param .lda,
       .param .B, .param .ldb, .param .W, .param .work, .param .lwork, .param .info]⟩)]
  dflt := ⟨[], .status HIPSOLVER_STATUS_NOT_SUPPORTED⟩

/-- The overload of `hipsolver_sygvd_hegvd` at hipsolver.hpp 7889-7941 (`hipsolverComplex* A`). -/
def hipsolver_sygvd_hegvd_hipsolverComplex : Wrapper where
  name := "hipsolver_sygvd_hegvd"
  params := [(.testAPI_t, .API), (.hipsolverHandle_t, .handle), (.hipsolverEigType_t, .itype),
    (.hipsolverEigMode_t, .jobz), (.hipsolverFillMode_t, .uplo), (.int, .n),
    (.ptr .hipsolverComplex, .A), (.int, .lda), (.int, .stA), (.ptr .hipsolverComplex, .B),
    (.int, .ldb), (.int, .stB), (.ptr .float, .W), (.int, .stW), (.ptr .hipsolverComplex, .work),
    (.int, .lwork), (.ptr .int, .info), (.int, .bc)]
  pre := []
  scrutinee := .API
  cases := [
    (.api API_NORMAL, ⟨[], .call "hipsolverChegvd"
      [.param .handle, .param .itype, .param .jobz, .param .uplo, .param .n,
       .cast (.ptr .hipFloatComplex) .A, .param .lda, .cast (.ptr .hipFloatComplex) .B, .param .ldb,
       .param .W, .cast (.ptr .hipFloatComplex) .work, .param .lwork, .param .info]⟩),
    (.api API_FORTRAN, ⟨[], .call "hipsolverChegvdFortran"
      [.param .handle, .param .itype, .param .jobz, .param .uplo, .param .n,
       .cast (.ptr .hipFloatComplex) .A, .param .lda, .cast (.ptr .hipFloatComplex) .B, .param .ldb,
       .param .W, .cast (.ptr .hipFloatComplex) .work, .param .lwork, .param .info]⟩)]
  dflt := ⟨[], .status HIPSOLVER_STATUS_NOT_SUPPORTED⟩

/-- The overload of `hipsolver_sygvd_hegvd` at hipsolver.hpp 7943-7995 (`hipsolverDoubleComplex* A`). -/
def hipsolver_sygvd_hegvd_hipsolverDoubleComplex : Wrapper where
  name := "hipsolver_sygvd_hegvd"
  params := [(.testAPI_t, .API), (.hipsolverHandle_t, .handle), (.hipsolverEigType_t, .itype),
    (.hipsolverEigMode_t, .jobz), (.hipsolverFillMode_t, .uplo), (.int, .n),
    (.ptr .hipsolverDoubleComplex, .A), (.int, .lda), (.int, .stA),
    (.ptr .hipsolverDoubleComplex, .B), (.int, .ldb), (.int, .stB), (.ptr .double, .W),
    (.int, .stW), (.ptr .hipsolverDoubleComplex, .work), (.int, .lwork), (.ptr .int, .info),
    (.int, .bc)]
  pre := []
  scrutinee := .API
  cases := [
    (.api API_NORMAL, ⟨[], .call "hipsolverZhegvd"
      [.param .handle, .param .itype, .param .jobz, .param .uplo, .param .n,
       .cast (.ptr .hipDoubleComplex) .A, .param .lda, .cast (.ptr .hipDoubleComplex) .B,
       .param .ldb, .param .W, .cast (.ptr .hipDoubleComplex) .work, .param .lwork, .param .info]⟩),
    (.api API_FORTRAN, ⟨[], .call "hipsolverZhegvdFortran"
      [.param .handle, .param .itype, .param .jobz, .param .uplo, .param .n,
       .cast (.ptr .hipDoubleComplex) .A, .param .lda, .cast (.ptr .hipDoubleComplex) .B,
       .param .ldb, .param .W, .cast (.ptr .hipDoubleComplex) .work, .param .lwork, .param .info]⟩)]
  dflt := ⟨[], .status HIPSOLVER_STATUS_NOT_SUPPORTED⟩

/-- The overload of `hipsolver_sygvdx_hegvdx_bufferSize` at hipsolver.hpp 8000-8030 (`float* A`). -/
def hipsolver_sygvdx_hegvdx_bufferSize_float : Wrapper where
  name := "hipsolver_sygvdx_hegvdx_bufferSize"
  params := [(.testAPI_t, .API), (.hipsolverHandle_t, .handle), (.hipsolverEigType_t, .itype),
    (.hipsolverEigMode_t, .jobz), (.hipsolverEigRange_t, .range), (.hipsolverFillMode_t, .uplo),
    (.int, .n), (.ptr .float, .A), (.int, .lda), (.ptr .float, .B), (.int, .ldb), (.float, .vl),
    (.float, .vu), (.int, .il), (.int, .iu), (.ptr .int, .nev), (.ptr .float, .W),
    (.ptr .int, .lwork)]
  pre := []
  scrutinee := .API
  cases := [
    (.api API_NORMAL, ⟨[], .call "hipsolverSsygvdx_bufferSize"
      [.param .handle, .param .itype, .param .jobz, .param .range, .param .uplo, .param .n,
       .param .A, .param .lda, .param .B, .param .ldb, .param .vl, .param .vu, .param .il,
       .param .iu, .param .nev, .param .W, .param .lwork]⟩),
    (.api API_COMPAT, ⟨[], .call "hipsolverDnSsygvdx_bufferSize"
      [.param .handle, .param .itype, .param .jobz, .param .range, .param .uplo, .param .n,
       .param .A, .param .lda, .param .B, .param .ldb, .param .vl, .param .vu, .param .il,
       .param .iu, .param .nev, .param .W, .param .lwork]⟩)]
  dflt := ⟨[], .status HIPSOLVER_STATUS_NOT_SUPPORTED⟩

/-- The overload of `hipsolver_sygvdx_hegvdx_bufferSize` at hipsolver.hpp 8032-8062 (`double* A`). -/
def hipsolver_sygvdx_hegvdx_bufferSize_double : Wrapper where
  name := "hipsolver_sygvdx_hegvdx_bufferSize"
  params := [(.testAPI_t, .API), (.hipsolverHandle_t, .handle), (.hipsolverEigType_t, .itype),
    (.hipsolverEigMode_t, .jobz), (.hipsolverEigRange_t, .range), (.hipsolverFillMode_t, .uplo),
    (.int, .n), (.ptr .double, .A), (.int, .lda), (.ptr .double, .B), (.int, .ldb), (.double, .vl),
    (.double, .vu), (.int, .il), (.int, .iu), (.ptr .int, .nev), (.ptr .double, .W),
    (.ptr .int, .lwork)]
  pre := []
  scrutinee := .API
  cases := [
    (.api API_NORMAL, ⟨[], .call "hipsolverDsygvdx_bufferSize"
      [.param .handle, .param .itype, .param .jobz, .param .range, .param .uplo, .param .n,
       .param .A, .param .lda, .param .B, .param .ldb, .param .vl, .param .vu, .param .il,
       .param .iu, .param .nev, .param .W, .param .lwork]⟩),
    (.api API_COMPAT, ⟨[], .call "hipsolverDnDsygvdx_bufferSize"
      [.param .handle, .param .itype, .param .jobz, .param .range, .param .uplo, .param .n,
       .param .A, .param .lda, .param .B, .param .ldb, .param .vl, .param .vu, .param .il,
       .param .iu, .param .nev, .param .W, .param .lwork]⟩)]
  dflt := ⟨[], .status HIPSOLVER_STATUS_NOT_SUPPORTED⟩

/-- The overload of `hipsolver_sygvdx_hegvdx_bufferSize` at hipsolver.hpp 8064-8124 (`hipsolverComplex* A`). -/
def hipsolver_sygvdx_hegvdx_bufferSize_hipsolverComplex : Wrapper where
  name := "hipsolver_sygvdx_hegvdx_bufferSize"
  params := [(.testAPI_t, .API), (.hipsolverHandle_t, .handle), (.hipsolverEigType_t, .itype),
    (.hipsolverEigMode_t, .jobz), (.hipsolverEigRange_t, .range), (.hipsolverFillMode_t, .uplo),
    (.int, .n), (.ptr .hipsolverComplex, .A), (.int, .lda), (.ptr .hipsolverComplex, .B),
    (.int, .ldb), (.float, .vl), (.float, .vu), (.int, .il), (.int, .iu), (.ptr .int, .nev),
    (.ptr .float, .W), (.ptr .int, .lwork)]
  pre := []
  scrutinee := .API
  cases := [
    (.api API_NORMAL, ⟨[], .call "hipsolverChegvdx_bufferSize"
      [.param .handle, .param .itype, .param .jobz, .param .range, .param .uplo, .param .n,
       .cast (.ptr .hipFloatComplex) .A, .param .lda, .cast (.ptr .hipFloatComplex) .B, .param .ldb,
       .param .vl, .param .vu, .param .il, .param .iu, .param .nev, .param .W, .param .lwork]⟩),
    (.api API_COMPAT, ⟨[], .call "hipsolverDnChegvdx_bufferSize"
      [.param .handle, .param .itype, .param .jobz, .param .range, .param .uplo, .param .n,
       .cast (.ptr .hipFloatComplex) .A, .param .lda, .cast (.ptr .hipFloatComplex) .B, .param .ldb,
       .param .vl, .param .vu, .param .il, .param .iu, .param .nev, .param .W, .param .lwork]⟩)]
  dflt := ⟨[], .status HIPSOLVER_STATUS_NOT_SUPPORTED⟩

/-- The overload of `hipsolver_sygvdx_hegvdx_bufferSize` at hipsolver.hpp 8126-8186 (`hipsolverDoubleComplex* A`). -/
def hipsolver_sygvdx_hegvdx_bufferSize_hipsolverDoubleComplex : Wrapper where
  name := "hipsolver_sygvdx_hegvdx_bufferSize"
  params := [(.testAPI_t, .API), (.hipsolverHandle_t, .handle), (.hipsolverEigType_t, .itype),
    (.hipsolverEigMode_t, .jobz), (.hipsolverEigRange_t, .range), (.hipsolverFillMode_t, .uplo),
    (.int, .n), (.ptr .hipsolverDoubleComplex, .A), (.int, .lda),
    (.ptr .hipsolverDoubleComplex, .B), (.int, .ldb), (.double, .vl), (.double, .vu), (.int, .il),
    (.int, .iu), (.ptr .int, .nev), (.ptr .double, .W), (.ptr .int, .lwork)]
  pre := []
  scrutinee := .API
  cases := [
    (.api API_NORMAL, ⟨[], .call "hipsolverZhegvdx_bufferSize"
      [.param .handle, .param .itype, .param .jobz, .param .range, .param .uplo, .param .n,
       .cast (.ptr .hipDoubleComplex) .A, .param .lda, .cast (.ptr .hipDoubleComplex) .B,
       .param .ldb, .param .vl, .param .vu, .param .il, .param .iu, .param .nev, .param .W,
       .param .lwork]⟩),
    (.api API_COMPAT, ⟨[], .call "hipsolverDnZhegvdx_bufferSize"
      [.param .handle, .param .itype, .param .jobz, .param .range, .param .uplo, .param .n,
       .cast (.ptr .hipDoubleComplex) .A, .param .lda, .cast (.ptr .hipDoubleComplex) .B,
       .param .ldb, .param .vl, .param .vu, .param .il, .param .iu, .param .nev, .param .W,
       .param .lwork]⟩)]
  dflt := ⟨[], .status HIPSOLVER_STATUS_NOT_SUPPORTED⟩

/-- The overload of `hipsolver_sygvdx_hegvdx` at hipsolver.hpp 8188-8258 (`float* A`). -/
def hipsolver_sygvdx_hegvdx_float : Wrapper where
  name := "hipsolver_sygvdx_hegvdx"
  params := [(.testAPI_t, .API), (.hipsolverHandle_t, .handle), (.hipsolverEigType_t, .itype),
    (.hipsolverEigMode_t, .jobz), (.hipsolverEigRange_t, .range), (.hipsolverFillMode_t, .uplo),
    (.int, .n), (.ptr .float, .A), (.int, .lda), (.int, .stA), (.ptr .float, .B), (.int, .ldb),
    (.int, .stB), (.float, .vl), (.float, .vu), (.int, .il), (.int, .iu), (.ptr .int, .nev),
    (.ptr .float, .W), (.int, .stW), (.ptr .float, .work), (.int, .lwork), (.ptr .int, .info),
    (.int, .bc)]
  pre := []
  scrutinee := .API
  cases := [
    (.api API_NORMAL, ⟨[], .call "hipsolverSsygvdx"
      [.param .handle, .param .itype, .param .jobz, .param .range, .param .uplo, .param .n,
       .param .A, .param .lda, .param .B, .param .ldb, .param .vl, .param .vu, .param .il,
       .param .iu, .param .nev, .param .W, .param .work, .param .lwork, .param .info]⟩),
    (.api API_COMPAT, ⟨[], .call "hipsolverDnSsygvdx"
      [.param .handle, .param .itype, .param .jobz, .param .range, .param .uplo, .param .n,
       .param .A, .param .lda, .param .B, .param .ldb, .param .vl, .param .vu, .param .il,
       .param .iu, .param .nev, .param .W, .param .work, .param .lwork, .param .info]⟩)]
  dflt := ⟨[], .status HIPSOLVER_STATUS_NOT_SUPPORTED⟩

/-- The overload of `hipsolver_sygvdx_hegvdx` at hipsolver.hpp 8260-8330 (`double* A`). -/
def hipsolver_sygvdx_hegvdx_double : Wrapper where
  name := "hipsolver_sygvdx_hegvdx"
  params := [(.testAPI_t, .API), (.hipsolverHandle_t, .handle), (.hipsolverEigType_t, .itype),
    (.hipsolverEigMode_t, .jobz), (.hipsolverEigRange_t, .range), (.hipsolverFillMode_t, .uplo),
    (.int, .n), (.ptr .double, .A), (.int, .lda), (.int, .stA), (.ptr .double, .B), (.int, .ldb),
    (.int, .stB), (.double, .vl), (.double, .vu), (.int, .il), (.int, .iu), (.ptr .int, .nev),
    (.ptr .double, .W), (.int, .stW), (.ptr .double, .work), (.int, .lwork), (.ptr .int, .info),
    (.int, .bc)]
  pre := []
  scrutinee := .API
  cases := [
    (.api API_NORMAL, ⟨[], .call "hipsolverDsygvdx"
      [.param .handle, .param .itype, .param .jobz, .param .range, .param .uplo, .param .n,
       .param .A, .param .lda, .param .B, .param .ldb, .param .vl, .param .vu, .param .il,
       .param .iu, .param .nev, .param .W, .param .work, .param .lwork, .param .info]⟩),
    (.api API_COMPAT, ⟨[], .call "hipsolverDnDsygvdx"
      [.param .handle, .param .itype, .param .jobz, .param .range, .param .uplo, .param .n,
       .param .A, .param .lda, .param .B, .param .ldb, .param .vl, .param .vu, .param .il,
       .param .iu, .param .nev, .param .W, .param .work, .param .lwork, .param .info]⟩)]
  dflt := ⟨[], .status HIPSOLVER_STATUS_NOT_SUPPORTED⟩

/-- The overload of `hipsolver_sygvdx_hegvdx` at hipsolver.hpp 8332-8402 (`hipsolverComplex* A`). -/
def hipsolver_sygvdx_hegvdx_hipsolverComplex : Wrapper where
  name := "hipsolver_sygvdx_hegvdx"
  params := [(.testAPI_t, .API), (.hipsolverHandle_t, .handle), (.hipsolverEigType_t, .itype),
    (.hipsolverEigMode_t, .jobz), (.hipsolverEigRange_t, .range), (.hipsolverFillMode_t, .uplo),
    (.int, .n), (.ptr .hipsolverComplex, .A), (.int, .lda), (.int, .stA),
    (.ptr .hipsolverComplex, .B), (.int, .ldb), (.int, .stB), (.float, .vl), (.float, .vu),
    (.int, .il), (.int, .iu), (.ptr .int, .nev), (.ptr .float, .W), (.int, .stW),
    (.ptr .hipsolverComplex, .work), (.int, .lwork), (.ptr .int, .info), (.int, .bc)]
  pre := []
  scrutinee := .API
  cases := [
    (.api API_NORMAL, ⟨[], .call "hipsolverChegvdx"
      [.param .handle, .param .itype, .param .jobz, .param .range, .param .uplo, .param .n,
       .cast (.ptr .hipFloatComplex) .A, .param .lda, .cast (.ptr .hipFloatComplex) .B, .param .ldb,
       .param .vl, .param .vu, .param .il, .param .iu, .param .nev, .param .W,
       .cast (.ptr .hipFloatComplex) .work, .param .lwork, .param .info]⟩),
    (.api API_COMPAT, ⟨[], .call "hipsolverDnChegvdx"
      [.param .handle, .param .itype, .param .jobz, .param .range, .param .uplo, .param .n,
       .cast (.ptr .hipFloatComplex) .A, .param .lda, .cast (.ptr .hipFloatComplex) .B, .param .ldb,
       .param .vl, .param .vu, .param .il, .param .iu, .param .nev, .param .W,
       .cast (.ptr .hipFloatComplex) .work, .param .lwork, .param .info]⟩)]
  dflt := ⟨[], .status HIPSOLVER_STATUS_NOT_SUPPORTED⟩

/-- The overload of `hipsolver_sygvdx_hegvdx` at hipsolver.hpp 8404-8474 (`hipsolverDoubleComplex* A`). -/
def hipsolver_sygvdx_hegvdx_hipsolverDoubleComplex : Wrapper where
  name := "hipsolver_sygvdx_hegvdx"
  params := [(.testAPI_t, .API), (.hipsolverHandle_t, .handle), (.hipsolverEigType_t, .itype),
    (.hipsolverEigMode_t, .jobz), (.hipsolverEigRange_t, .range), (.hipsolverFillMode_t, .uplo),
    (.int, .n), (.ptr .hipsolverDoubleComplex, .A), (.int, .lda), (.int, .stA),
    (.ptr .hipsolverDoubleComplex, .B), (.int, .ldb), (.int, .stB), (.double, .vl), (.double, .vu),
    (.int, .il), (.int, .iu), (.ptr .int, .nev), (.ptr .double, .W), (.int, .stW),
    (.ptr .hipsolverDoubleComplex, .work), (.int, .lwork), (.ptr .int, .info), (.int, .bc)]
  pre := []
  scrutinee := .API
  cases := [
    (.api API_NORMAL, ⟨[], .call "hipsolverZhegvdx"
      [.param .handle, .param .itype, .param .jobz, .param .range, .param .uplo, .param .n,
       .cast (.ptr .hipDoubleComplex) .A, .param .lda, .cast (.ptr .hipDoubleComplex) .B,
       .param .ldb, .param .vl, .param .vu, .param .il, .param .iu, .param .nev, .param .W,
       .cast (.ptr .hipDoubleComplex) .work, .param .lwork, .param .info]⟩),
    (.api API_COMPAT, ⟨[], .call "hipsolverDnZhegvdx"
      [.param .handle, .param .itype, .param .jobz, .param .range, .param .uplo, .param .n,
       .cast (.ptr .hipDoubleComplex) .A, .param .lda, .cast (.ptr .hipDoubleComplex) .B,
       .param .ldb, .param .vl, .param .vu, .param .il, .param .iu, .param .nev, .param .W,
       .cast (.ptr .hipDoubleComplex) .work, .param .lwork, .param .info]⟩)]
  dflt := ⟨[], .status HIPSOLVER_STATUS_NOT_SUPPORTED⟩

/-- The overload of `hipsolver_sygvj_hegvj_bufferSize` at hipsolver.hpp 8479-8507 (`float* A`). -/
def hipsolver_sygvj_hegvj_bufferSize_float : Wrapper where
  name := "hipsolver_sygvj_hegvj_bufferSize"
  params := [(.testAPI_t, .API), (.hipsolverHandle_t, .handle), (.hipsolverEigType_t, .itype),
    (.hipsolverEigMode_t, .jobz), (.hipsolverFillMode_t, .uplo), (.int, .n), (.ptr .float, .A),
    (.int, .lda), (.ptr .float, .B), (.int, .ldb), (.ptr .float, .W), (.ptr .int, .lwork),
    (.hipsolverSyevjInfo_t, .params)]
  pre := []
  scrutinee := .API
  cases := [
    (.api API_NORMAL, ⟨[], .call "hipsolverSsygvj_bufferSize"
      [.param .handle, .param .itype, .param .jobz, .param .uplo, .param .n, .param .A, .param .lda,
       .param .B, .param .ldb, .param .W, .param .lwork, .param .params]⟩),
    (.api API_FORTRAN, ⟨[], .call "hipsolverSsygvj_bufferSizeFortran"
      [.param .handle, .param .itype, .param .jobz, .param .uplo, .param .n, .param .A, .param .lda,
       .param .B, .param .ldb, .param .W, .param .lwork, .param .params]⟩),
    (.api API_COMPAT, ⟨[], .call "hipsolverDnSsygvj_bufferSize"
      [.param .handle, .param .itype, .param .jobz, .param .uplo, .param .n, .param .A, .param .lda,
       .param .B, .param .ldb, .param .W, .param .lwork, .param .params]⟩)]
  dflt := ⟨[], .status HIPSOLVER_STATUS_NOT_SUPPORTED⟩

/-- The overload of `hipsolver_sygvj_hegvj_bufferSize` at hipsolver.hpp 8509-8537 (`double* A`). -/
def hipsolver_sygvj_hegvj_bufferSize_double : Wrapper where
  name := "hipsolver_sygvj_hegvj_bufferSize"
  params := [(.testAPI_t, .API), (.hipsolverHandle_t, .handle), (.hipsolverEigType_t, .itype),
    (.hipsolverEigMode_t, .jobz), (.hipsolverFillMode_t, .uplo), (.int, .n), (.ptr .double, .A),
    (.int, .lda), (.ptr .double, .B), (.int, .ldb), (.ptr .double, .W), (.ptr .int, .lwork),
    (.hipsolverSyevjInfo_t, .params)]
  pre := []
  scrutinee := .API
  cases := [
    (.api API_NORMAL, ⟨[], .call "hipsolverDsygvj_bufferSize"
      [.param .handle, .param .itype, .param .jobz, .param .uplo, .param .n, .param .A, .param .lda,
       .param .B, .param .ldb, .param .W, .param .lwork, .param .params]⟩),
    (.api API_FORTRAN, ⟨[], .call "hipsolverDsygvj_bufferSizeFortran"
      [.param .handle, .param .itype, .param .jobz, .param .uplo, .param .n, .param .A, .param .lda,
       .param .B, .param .ldb, .param .W, .param .lwork, .param .params]⟩),
    (.api API_COMPAT, ⟨[], .call "hipsolverDnDsygvj_bufferSize"
      [.param .handle, .param .itype, .param .jobz, .param .uplo, .param .n, .param .A, .param .lda,
       .param .B, .param .ldb, .param .W, .param .lwork, .param .params]⟩)]
  dflt := ⟨[], .status HIPSOLVER_STATUS_NOT_SUPPORTED⟩

/-- The overload of `hipsolver_sygvj_hegvj_bufferSize` at hipsolver.hpp 8539-8597 (`hipsolverComplex* A`). -/
def hipsolver_sygvj_hegvj_bufferSize_hipsolverComplex : Wrapper where
  name := "hipsolver_sygvj_hegvj_bufferSize"
  params := [(.testAPI_t, .API), (.hipsolverHandle_t, .handle), (.hipsolverEigType_t, .itype),
    (.hipsolverEigMode_t, .jobz), (.hipsolverFillMode_t, .uplo), (.int, .n),
    (.ptr .hipsolverComplex, .A), (.int, .lda), (.ptr .hipsolverComplex, .B), (.int, .ldb),
    (.ptr .float, .W), (.ptr .int, .lwork), (.hipsolverSyevjInfo_t, .params)]
  pre := []
  scrutinee := .API
  cases := [
    (.api API_NORMAL, ⟨[], .call "hipsolverChegvj_bufferSize"
      [.param .handle, .param .itype, .param .jobz, .param .uplo, .param .n,
       .cast (.ptr .hipFloatComplex) .A, .param .lda, .cast (.ptr .hipFloatComplex) .B, .param .ldb,
       .param .W, .param .lwork, .param .params]⟩),
    (.api API_FORTRAN, ⟨[], .call "hipsolverChegvj_bufferSizeFortran"
      [.param .handle, .param .itype, .param .jobz, .param .uplo, .param .n,
       .cast (.ptr .hipFloatComplex) .A, .param .lda, .cast (.ptr .hipFloatComplex) .B, .param .ldb,
       .param .W, .param .lwork, .param .params]⟩),
    (.api API_COMPAT, ⟨[], .call "hipsolverDnChegvj_bufferSize"
      [.param .handle, .param .itype, .param .jobz, .param .uplo, .param .n,
       .cast (.ptr .hipFloatComplex) .A, .param .lda, .cast (.ptr .hipFloatComplex) .B, .param .ldb,
       .param .W, .param .lwork, .param .params]⟩)]
  dflt := ⟨[], .status HIPSOLVER_STATUS_NOT_SUPPORTED⟩

/-- The overload of `hipsolver_sygvj_hegvj_bufferSize` at hipsolver.hpp 8599-8657 (`hipsolverDoubleComplex* A`). -/
def hipsolver_sygvj_hegvj_bufferSize_hipsolverDoubleComplex : Wrapper where
  name := "hipsolver_sygvj_hegvj_bufferSize"
  params := [(.testAPI_t, .API), (.hipsolverHandle_t, .handle), (.hipsolverEigType_t, .itype),
    (.hipsolverEigMode_t, .jobz), (.hipsolverFillMode_t, .uplo), (.int, .n),
    (.ptr .hipsolverDoubleComplex, .A), (.int, .lda), (.ptr .hipsolverDoubleComplex, .B),
    (.int, .ldb), (.ptr .double, .W), (.ptr .int, .lwork), (.hipsolverSyevjInfo_t, .params)]
  pre := []
  scrutinee := .API
  cases := [
    (.api API_NORMAL, ⟨[], .call "hipsolverZhegvj_bufferSize"
      [.param .handle, .param .itype, .param .jobz, .param .uplo, .param .n,
       .cast (.ptr .hipDoubleComplex) .A, .param .lda, .cast (.ptr .hipDoubleComplex) .B,
       .param .ldb, .param .W, .param .lwork, .param .params]⟩),
    (.api API_FORTRAN, ⟨[], .call "hipsolverZhegvj_bufferSizeFortran"
      [.param .handle, .param .itype, .param .jobz, .param .uplo, .param .n,
       .cast (.ptr .hipDoubleComplex) .A, .param .lda, .cast (.ptr .hipDoubleComplex) .B,
       .param .ldb, .param .W, .param .lwork, .param .params]⟩),
    (.api API_COMPAT, ⟨[], .call "hipsolverDnZhegvj_bufferSize"
      [.param .handle, .param .itype, .param .jobz, .param .uplo, .param .n,
       .cast (.ptr .hipDoubleComplex) .A, .param .lda, .cast (.ptr .hipDoubleComplex) .B,
       .param .ldb, .param .W, .param .lwork, .param .params]⟩)]
  dflt := ⟨[], .status HIPSOLVER_STATUS_NOT_SUPPORTED⟩

/-- The overload of `hipsolver_sygvj_hegvj` at hipsolver.hpp 8659-8693 (`float* A`). -/
def hipsolver_sygvj_hegvj_float : Wrapper where
  name := "hipsolver_sygvj_hegvj"
  params := [(.testAPI_t, .API), (.hipsolverHandle_t, .handle), (.hipsolverEigType_t, .itype),
    (.hipsolverEigMode_t, .jobz), (.hipsolverFillMode_t, .uplo), (.int, .n), (.ptr .float, .A),
    (.int, .lda), (.int, .stA), (.ptr .float, .B), (.int, .ldb), (.int, .stB), (.ptr .float, .W),
    (.int, .stW), (.ptr .float, .work), (.int, .lwork), (.ptr .int, .info),
    (.hipsolverSyevjInfo_t, .params), (.int, .bc)]
  pre := []
  scrutinee := .API
  cases := [
    (.api API_NORMAL, ⟨[], .call "hipsolverSsygvj"
      [.param .handle, .param .itype, .param .jobz, .param .uplo, .param .n, .param .A, .param .lda,
       .param .B, .param .ldb, .param .W, .param .work, .param .lwork, .param .info, .param .params]⟩),
    (.api API_FORTRAN, ⟨[], .call "hipsolverSsygvjFortran"
      [.param .handle, .param .itype, .param .jobz, .param .uplo, .param .n, .param .A, .param .lda,
       .param .B, .param .ldb, .param .W, .param .work, .param .lwork, .param .info, .param .params]⟩),
    (.api API_COMPAT, ⟨[], .call "hipsolverDnSsygvj"
      [.param .handle, .param .itype, .param .jobz, .param .uplo, .param .n, .param .A, .param .lda,
       .param .B, .param .ldb, .param .W, .param .work, .param .lwork, .param .info, .param .params]⟩)]
  dflt := ⟨[], .status HIPSOLVER_STATUS_NOT_SUPPORTED⟩

/-- The overload of `hipsolver_sygvj_hegvj` at hipsolver.hpp 8695-8729 (`double* A`). -/
def hipsolver_sygvj_hegvj_double : Wrapper where
  name := "hipsolver_sygvj_hegvj"
  params := [(.testAPI_t, .API), (.hipsolverHandle_t, .handle), (.hipsolverEigType_t, .itype),
    (.hipsolverEigMode_t, .jobz), (.hipsolverFillMode_t, .uplo), (.int, .n), (.ptr .double, .A),
    (.int, .lda), (.int, .stA), (.ptr .double, .B), (.int, .ldb), (.int, .stB), (.ptr .double, .W),
    (.int, .stW), (.ptr .double, .work), (.int, .lwork), (.ptr .int, .info),
    (.hipsolverSyevjInfo_t, .params), (.int, .bc)]
  pre := []
  scrutinee := .API
  cases := [
    (.api API_NORMAL, ⟨[], .call "hipsolverDsygvj"
      [.param .handle, .param .itype, .param .jobz, .param .uplo, .param .n, .param .A, .param .lda,
       .param .B, .param .ldb, .param .W, .param .work, .param .lwork, .param .info, .param .params]⟩),
    (.api API_FORTRAN, ⟨[], .call "hipsolverDsygvjFortran"
      [.param .handle, .param .itype, .param .jobz, .param .uplo, .param .n, .param .A, .param .lda,
       .param .B, .param .ldb, .param .W, .param .work, .param .lwork, .param .info, .param .params]⟩),
    (.api API_COMPAT, ⟨[], .call "hipsolverDnDsygvj"
      [.param .handle, .param .itype, .param .jobz, .param .uplo, .param .n, .param .A, .param .lda,
       .param .B, .param .ldb, .param .W, .param .work, .param .lwork, .param .info, .param .params]⟩)]
  dflt := ⟨[], .status HIPSOLVER_STATUS_NOT_SUPPORTED⟩

/-- The overload of `hipsolver_sygvj_hegvj` at hipsolver.hpp 8731-8801 (`hipsolverComplex* A`). -/
def hipsolver_sygvj_hegvj_hipsolverComplex : Wrapper where
  name := "hipsolver_sygvj_hegvj"
  params := [(.testAPI_t, .API), (.hipsolverHandle_t, .handle), (.hipsolverEigType_t, .itype),
    (.hipsolverEigMode_t, .jobz), (.hipsolverFillMode_t, .uplo), (.int, .n),
    (.ptr .hipsolverComplex, .A), (.int, .lda), (.int, .stA), (.ptr .hipsolverComplex, .B),
    (.int, .ldb), (.int, .stB), (.ptr .float, .W), (.int, .stW), (.ptr .hipsolverComplex, .work),
    (.int, .lwork), (.ptr .int, .info), (.hipsolverSyevjInfo_t, .params), (.int, .bc)]
  pre := []
  scrutinee := .API
  cases := [
    (.api API_NORMAL, ⟨[], .call "hipsolverChegvj"
      [.param .handle, .param .itype, .param .jobz, .param .uplo, .param .n,
       .cast (.ptr .hipFloatComplex) .A, .param .lda, .cast (.ptr .hipFloatComplex) .B, .param .ldb,
       .param .W, .cast (.ptr .hipFloatComplex) .work, .param .lwork, .param .info, .param .params]⟩),
    (.api API_FORTRAN, ⟨[], .call "hipsolverChegvjFortran"
      [.param .handle, .param .itype, .param .jobz, .param .uplo, .param .n,
       .cast (.ptr .hipFloatComplex) .A, .param .lda, .cast (.ptr .hipFloatComplex) .B, .param .ldb,
       .param .W, .cast (.ptr .hipFloatComplex) .work, .param .lwork, .param .info, .param .params]⟩),
    (.api API_COMPAT, ⟨[], .call "hipsolverDnChegvj"
      [.param .handle, .param .itype, .param .jobz, .param .uplo, .param .n,
       .cast (.ptr .hipFloatComplex) .A, .param .lda, .cast (.ptr .hipFloatComplex) .B, .param .ldb,
       .param .W, .cast (.ptr .hipFloatComplex) .work, .param .lwork, .param .info, .param .params]⟩)]
  dflt := ⟨[], .status HIPSOLVER_STATUS_NOT_SUPPORTED⟩

/-- The overload of `hipsolver_sygvj_hegvj` at hipsolver.hpp 8803-8873 (`hipsolverDoubleComplex* A`). -/
def hipsolver_sygvj_hegvj_hipsolverDoubleComplex : Wrapper where
  name := "hipsolver_sygvj_hegvj"
  params := [(.testAPI_t, .API), (.hipsolverHandle_t, .handle), (.hipsolverEigType_t, .itype),
    (.hipsolverEigMode_t, .jobz), (.hipsolverFillMode_t, .uplo), (.int, .n),
    (.ptr .hipsolverDoubleComplex, .A), (.int, .lda), (.int, .stA),
    (.ptr .hipsolverDoubleComplex, .B), (.int, .ldb), (.int, .stB), (.ptr .double, .W),
    (.int, .stW), (.ptr .hipsolverDoubleComplex, .work), (.int, .lwork), (.ptr .int, .info),
    (.hipsolverSyevjInfo_t, .params), (.int, .bc)]
  pre := []
  scrutinee := .API
  cases := [
    (.api API_NORMAL, ⟨[], .call "hipsolverZhegvj"
      [.param .handle, .param .itype, .param .jobz, .param .uplo, .param .n,
       .cast (.ptr .hipDoubleComplex) .A, .param .lda, .cast (.ptr .hipDoubleComplex) .B,
       .param .ldb, .param .W, .cast (.ptr .hipDoubleComplex) .work, .param .lwork, .param .info,
       .param .params]⟩),
    (.api API_FORTRAN, ⟨[], .call "hipsolverZhegvjFortran"
      [.param .handle, .param .itype, .param .jobz, .param .uplo, .param .n,
       .cast (.ptr .hipDoubleComplex) .A, .param .lda, .cast (.ptr .hipDoubleComplex) .B,
       .param .ldb, .param .W, .cast (.ptr .hipDoubleComplex) .work, .param .lwork, .param .info,
       .param .params]⟩),
    (.api API_COMPAT, ⟨[], .call "hipsolverDnZhegvj"
      [.param .handle, .param .itype, .param .jobz, .param .uplo, .param .n,
       .cast (.ptr .hipDoubleComplex) .A, .param .lda, .cast (.ptr .hipDoubleComplex) .B,
       .param .ldb, .param .W, .cast (.ptr .hipDoubleComplex) .work, .param .lwork, .param .info,
       .param .params]⟩)]
  dflt := ⟨[], .status HIPSOLVER_STATUS_NOT_SUPPORTED⟩

/-- The overload of `hipsolver_sytrd_hetrd_bufferSize` at hipsolver.hpp 8878-8898 (`float* A`). -/
def hipsolver_sytrd_hetrd_bufferSize_float : Wrapper where
  name := "hipsolver_sytrd_hetrd_bufferSize"
  params := [(.testAPI_t, .API), (.hipsolverHandle_t, .handle), (.hipsolverFillMode_t, .uplo),
    (.int, .n), (.ptr .float, .A), (.int, .lda), (.ptr .float, .D), (.ptr .float, .E),
    (.ptr .float, .tau), (.ptr .int, .lwork)]
  pre := []
  scrutinee := .API
  cases := [
    (.api API_NORMAL, ⟨[], .call "hipsolverSsytrd_bufferSize"
      [.param .handle, .param .uplo, .param .n, .param .A, .param .lda, .param .D, .param .E,
       .param .tau, .param .lwork]⟩),
    (.api API_FORTRAN, ⟨[], .call "hipsolverSsytrd_bufferSizeFortran"
      [.param .handle, .param .uplo, .param .n, .param .A, .param .lda, .param .D, .param .E,
       .param .tau, .param .lwork]⟩)]
  dflt := ⟨[], .status HIPSOLVER_STATUS_NOT_SUPPORTED⟩

/-- The overload of `hipsolver_sytrd_hetrd_bufferSize` at hipsolver.hpp 8900-8920 (`double* A`). -/
def hipsolver_sytrd_hetrd_bufferSize_double : Wrapper where
  name := "hipsolver_sytrd_hetrd_bufferSize"
  params := [(.testAPI_t, .API), (.hipsolverHandle_t, .handle), (.hipsolverFillMode_t, .uplo),
    (.int, .n), (.ptr .double, .A), (.int, .lda), (.ptr .double, .D), (.ptr .double, .E),
    (.ptr .double, .tau), (.ptr .int, .lwork)]
  pre := []
  scrutinee := .API
  cases := [
    (.api API_NORMAL, ⟨[], .call "hipsolverDsytrd_bufferSize"
      [.param .handle, .param .uplo, .param .n, .param .A, .param .lda, .param .D, .param .E,
       .param .tau, .param .lwork]⟩),
    (.api API_FORTRAN, ⟨[], .call "hipsolverDsytrd_bufferSizeFortran"
      [.param .handle, .param .uplo, .param .n, .param .A, .param .lda, .param .D, .param .E,
       .param .tau, .param .lwork]⟩)]
  dflt := ⟨[], .status HIPSOLVER_STATUS_NOT_SUPPORTED⟩

/-- The overload of `hipsolver_sytrd_hetrd_bufferSize` at hipsolver.hpp 8922-8944 (`hipsolverComplex* A`). -/
def hipsolver_sytrd_hetrd_bufferSize_hipsolverComplex : Wrapper where
  name := "hipsolver_sytrd_hetrd_bufferSize"
  params := [(.testAPI_t, .API), (.hipsolverHandle_t, .handle), (.hipsolverFillMode_t, .uplo),
    (.int, .n), (.ptr .hipsolverComplex, .A), (.int, .lda), (.ptr .float, .D), (.ptr .float, .E),
    (.ptr .hipsolverComplex, .tau), (.ptr .int, .lwork)]
  pre := []
  scrutinee := .API
  cases := [
    (.api API_NORMAL, ⟨[], .call "hipsolverChetrd_bufferSize"
      [.param .handle, .param .uplo, .param .n, .cast (.ptr .hipFloatComplex) .A, .param .lda,
       .param .D, .param .E, .cast (.ptr .hipFloatComplex) .tau, .param .lwork]⟩),
    (.api API_FORTRAN, ⟨[], .call "hipsolverChetrd_bufferSizeFortran"
      [.param .handle, .param .uplo, .param .n, .cast (.ptr .hipFloatComplex) .A, .param .lda,
       .param .D, .param .E, .cast (.ptr .hipFloatComplex) .tau, .param .lwork]⟩)]
  dflt := ⟨[], .status HIPSOLVER_STATUS_NOT_SUPPORTED⟩

/-- The overload of `hipsolver_sytrd_hetrd_bufferSize` at hipsolver.hpp 8946-8968 (`hipsolverDoubleComplex* A`). -/
def hipsolver_sytrd_hetrd_bufferSize_hipsolverDoubleComplex : Wrapper where
  name := "hipsolver_sytrd_hetrd_bufferSize"
  params := [(.testAPI_t, .API), (.hipsolverHandle_t, .handle), (.hipsolverFillMode_t, .uplo),
    (.int, .n), (.ptr .hipsolverDoubleComplex, .A), (.int, .lda), (.ptr .double, .D),
    (.ptr .double, .E), (.ptr .hipsolverDoubleComplex, .tau), (.ptr .int, .lwork)]
  pre := []
  scrutinee := .API
  cases := [
    (.api API_NORMAL, ⟨[], .call "hipsolverZhetrd_bufferSize"
      [.param .handle, .param .uplo, .param .n, .cast (.ptr .hipDoubleComplex) .A, .param .lda,
       .param .D, .param .E, .cast (.ptr .hipDoubleComplex) .tau, .param .lwork]⟩),
    (.api API_FORTRAN, ⟨[], .call "hipsolverZhetrd_bufferSizeFortran"
      [.param .handle, .param .uplo, .param .n, .cast (.ptr .hipDoubleComplex) .A, .param .lda,
       .param .D, .param .E, .cast (.ptr .hipDoubleComplex) .tau, .param .lwork]⟩)]
  dflt := ⟨[], .status HIPSOLVER_STATUS_NOT_SUPPORTED⟩

/-- The overload of `hipsolver_sytrd_hetrd` at hipsolver.hpp 8970-8997 (`float* A`). -/
def hipsolver_sytrd_hetrd_float : Wrapper where
  name := "hipsolver_sytrd_hetrd"
  params := [(.testAPI_t, .API), (.hipsolverHandle_t, .handle), (.hipsolverFillMode_t, .uplo),
    (.int, .n), (.ptr .float, .A), (.int, .lda), (.int, .stA), (.ptr .float, .D), (.int, .stD),
    (.ptr .float, .E), (.int, .stE), (.ptr .float, .tau), (.int, .stP), (.ptr .float, .work),
    (.int, .lwork), (.ptr .int, .info), (.int, .bc)]
  pre := []
  scrutinee := .API
  cases := [
    (.api API_NORMAL, ⟨[], .call "hipsolverSsytrd"
      [.param .handle, .param .uplo, .param .n, .param .A, .param .lda, .param .D, .param .E,
       .param .tau, .param .work, .param .lwork, .param .info]⟩),
    (.api API_FORTRAN, ⟨[], .call "hipsolverSsytrdFortran"
      [.param .handle, .param .uplo, .param .n, .param .A, .param .lda, .param .D, .param .E,
       .param .tau, .param .work, .param .lwork, .param .info]⟩)]
  dflt := ⟨[], .status HIPSOLVER_STATUS_NOT_SUPPORTED⟩

/-- The overload of `hipsolver_sytrd_hetrd` at hipsolver.hpp 8999-9026 (`double* A`). -/
def hipsolver_sytrd_hetrd_double : Wrapper where
  name := "hipsolver_sytrd_hetrd"
  params := [(.testAPI_t, .API), (.hipsolverHandle_t, .handle), (.hipsolverFillMode_t, .uplo),
    (.int, .n), (.ptr .double, .A), (.int, .lda), (.int, .stA), (.ptr .double, .D), (.int, .stD),
    (.ptr .double, .E), (.int, .stE), (.ptr .double, .tau), (.int, .stP), (.ptr .double, .work),
    (.int, .lwork), (.ptr .int, .info), (.int, .bc)]
  pre := []
  scrutinee := .API
  cases := [
    (.api API_NORMAL, ⟨[], .call "hipsolverDsytrd"
      [.param .handle, .param .uplo, .param .n, .param .A, .param .lda, .param .D, .param .E,
       .param .tau, .param .work, .param .lwork, .param .info]⟩),
    (.api API_FORTRAN, ⟨[], .call "hipsolverDsytrdFortran"
      [.param .handle, .param .uplo, .param .n, .param .A, .param .lda, .param .D, .param .E,
       .param .tau, .param .work, .param .lwork, .param .info]⟩)]
  dflt := ⟨[], .status HIPSOLVER_STATUS_NOT_SUPPORTED⟩

/-- The overload of `hipsolver_sytrd_hetrd` at hipsolver.hpp 9028-9075 (`hipsolverComplex* A`). -/
def hipsolver_sytrd_hetrd_hipsolverComplex : Wrapper where
  name := "hipsolver_sytrd_hetrd"
  params := [(.testAPI_t, .API), (.hipsolverHandle_t, .handle), (.hipsolverFillMode_t, .uplo),
    (.int, .n), (.ptr .hipsolverComplex, .A), (.int, .lda), (.int, .stA), (.ptr .float, .D),
    (.int, .stD), (.ptr .float, .E), (.int, .stE), (.ptr .hipsolverComplex, .tau), (.int, .stP),
    (.ptr .hipsolverComplex, .work), (.int, .lwork), (.ptr .int, .info), (.int, .bc)]
  pre := []
  scrutinee := .API
  cases := [
    (.api API_NORMAL, ⟨[], .call "hipsolverChetrd"
      [.param .handle, .param .uplo, .param .n, .cast (.ptr .hipFloatComplex) .A, .param .lda,
       .param .D, .param .E, .cast (.ptr .hipFloatComplex) .tau,
       .cast (.ptr .hipFloatComplex) .work, .param .lwork, .param .info]⟩),
    (.api API_FORTRAN, ⟨[], .call "hipsolverChetrdFortran"
      [.param .handle, .param .uplo, .param .n, .cast (.ptr .hipFloatComplex) .A, .param .lda,
       .param .D, .param .E, .cast (.ptr .hipFloatComplex) .tau,
       .cast (.ptr .hipFloatComplex) .work, .param .lwork, .param .info]⟩)]
  dflt := ⟨[], .status HIPSOLVER_STATUS_NOT_SUPPORTED⟩

/-- The overload of `hipsolver_sytrd_hetrd` at hipsolver.hpp 9077-9124 (`hipsolverDoubleComplex* A`). -/
def hipsolver_sytrd_hetrd_hipsolverDoubleComplex : Wrapper where
  name := "hipsolver_sytrd_hetrd"
  params := [(.testAPI_t, .API), (.hipsolverHandle_t, .handle), (.hipsolverFillMode_t, .uplo),
    (.int, .n), (.ptr .hipsolverDoubleComplex, .A), (.int, .lda), (.int, .stA), (.ptr .double, .D),
    (.int, .stD), (.ptr .double, .E), (.int, .stE), (.ptr .hipsolverDoubleComplex, .tau),
    (.int, .stP), (.ptr .hipsolverDoubleComplex, .work), (.int, .lwork), (.ptr .int, .info),
    (.int, .bc)]
  pre := []
  scrutinee := .API
  cases := [
    (.api API_NORMAL, ⟨[], .call "hipsolverZhetrd"
      [.param .handle, .param .uplo, .param .n, .cast (.ptr .hipDoubleComplex) .A, .param .lda,
       .param .D, .param .E, .cast (.ptr .hipDoubleComplex) .tau,
       .cast (.ptr .hipDoubleComplex) .work, .param .lwork, .param .info]⟩),
    (.api API_FORTRAN, ⟨[], .call "hipsolverZhetrdFortran"
      [.param .handle, .param .uplo, .param .n, .cast (.ptr .hipDoubleComplex) .A, .param .lda,
       .param .D, .param .E, .cast (.ptr .hipDoubleComplex) .tau,
       .cast (.ptr .hipDoubleComplex) .work, .param .lwork, .param .info]⟩)]
  dflt := ⟨[], .status HIPSOLVER_STATUS_NOT_SUPPORTED⟩

/-- The overload of `hipsolver_sytrf_bufferSize` at hipsolver.hpp 9129-9141 (`float* A`). -/
def hipsolver_sytrf_bufferSize_float : Wrapper where
  name := "hipsolver_sytrf_bufferSize"
  params := [(.testAPI_t, .API), (.hipsolverHandle_t, .handle), (.int, .n), (.ptr .float, .A),
    (.int, .lda), (.ptr .int, .lwork)]
  pre := []
  scrutinee := .API
  cases := [
    (.api API_NORMAL, ⟨[], .call "hipsolverSsytrf_bufferSize"
      [.param .handle, .param .n, .param .A, .param .lda, .param .lwork]⟩),
    (.api API_FORTRAN, ⟨[], .call "hipsolverSsytrf_bufferSizeFortran"
      [.param .handle, .param .n, .param .A, .param .lda, .param .lwork]⟩)]
  dflt := ⟨[], .status HIPSOLVER_STATUS_NOT_SUPPORTED⟩

/-- The overload of `hipsolver_sytrf_bufferSize` at hipsolver.hpp 9143-9155 (`double* A`). -/
def hipsolver_sytrf_bufferSize_double : Wrapper where
  name := "hipsolver_sytrf_bufferSize"
  params := [(.testAPI_t, .API), (.hipsolverHandle_t, .handle), (.int, .n), (.ptr .double, .A),
    (.int, .lda), (.ptr .int, .lwork)]
  pre := []
  scrutinee := .API
  cases := [
    (.api API_NORMAL, ⟨[], .call "hipsolverDsytrf_bufferSize"
      [.param .handle, .param .n, .param .A, .param .lda, .param .lwork]⟩),
    (.api API_FORTRAN, ⟨[], .call "hipsolverDsytrf_bufferSizeFortran"
      [.param .handle, .param .n, .param .A, .param .lda, .param .lwork]⟩)]
  dflt := ⟨[], .status HIPSOLVER_STATUS_NOT_SUPPORTED⟩

/-- The overload of `hipsolver_sytrf_bufferSize` at hipsolver.hpp 9157-9169 (`hipsolverComplex* A`). -/
def hipsolver_sytrf_bufferSize_hipsolverComplex : Wrapper where
  name := "hipsolver_sytrf_bufferSize"
  params := [(.testAPI_t, .API), (.hipsolverHandle_t, .handle), (.int, .n),
    (.ptr .hipsolverComplex, .A), (.int, .lda), (.ptr .int, .lwork)]
  pre := []
  scrutinee := .API
  cases := [
    (.api API_NORMAL, ⟨[], .call "hipsolverCsytrf_bufferSize"
      [.param .handle, .param .n, .cast (.ptr .hipFloatComplex) .A, .param .lda, .param .lwork]⟩),
    (.api API_FORTRAN, ⟨[], .call "hipsolverCsytrf_bufferSizeFortran"
      [.param .handle, .param .n, .cast (.ptr .hipFloatComplex) .A, .param .lda, .param .lwork]⟩)]
  dflt := ⟨[], .status HIPSOLVER_STATUS_NOT_SUPPORTED⟩

/-- The overload of `hipsolver_sytrf_bufferSize` at hipsolver.hpp 9171-9183 (`hipsolverDoubleComplex* A`). -/
def hipsolver_sytrf_bufferSize_hipsolverDoubleComplex : Wrapper where
  name := "hipsolver_sytrf_bufferSize"
  params := [(.testAPI_t, .API), (.hipsolverHandle_t, .handle), (.int, .n),
    (.ptr .hipsolverDoubleComplex, .A), (.int, .lda), (.ptr .int, .lwork)]
  pre := []
  scrutinee := .API
  cases := [
    (.api API_NORMAL, ⟨[], .call "hipsolverZsytrf_bufferSize"
      [.param .handle, .param .n, .cast (.ptr .hipDoubleComplex) .A, .param .lda, .param .lwork]⟩),
    (.api API_FORTRAN, ⟨[], .call "hipsolverZsytrf_bufferSizeFortran"
      [.param .handle, .param .n, .cast (.ptr .hipDoubleComplex) .A, .param .lda, .param .lwork]⟩)]
  dflt := ⟨[], .status HIPSOLVER_STATUS_NOT_SUPPORTED⟩

/-- The overload of `hipsolver_sytrf` at hipsolver.hpp 9185-9208 (`float* A`). -/
def hipsolver_sytrf_float : Wrapper where
  name := "hipsolver_sytrf"
  params := [(.testAPI_t, .API), (.hipsolverHandle_t, .handle), (.hipsolverFillMode_t, .uplo),
    (.int, .n), (.ptr .float, .A), (.int, .lda), (.int, .stA), (.ptr .int, .ipiv), (.int, .stP),
    (.ptr .float, .work), (.int, .lwork), (.ptr .int, .info), (.int, .bc)]
  pre := []
  scrutinee := .API
  cases := [
    (.api API_NORMAL, ⟨[], .call "hipsolverSsytrf"
      [.param .handle, .param .uplo, .param .n, .param .A, .param .lda, .param .ipiv, .param .work,
       .param .lwork, .param .info]⟩),
    (.api API_FORTRAN, ⟨[], .call "hipsolverSsytrfFortran"
      [.param .handle, .param .uplo, .param .n, .param .A, .param .lda, .param .ipiv, .param .work,
       .param .lwork, .param .info]⟩)]
  dflt := ⟨[], .status HIPSOLVER_STATUS_NOT_SUPPORTED⟩

/-- The overload of `hipsolver_sytrf` at hipsolver.hpp 9210-9233 (`double* A`). -/
def hipsolver_sytrf_double : Wrapper where
  name := "hipsolver_sytrf"
  params := [(.testAPI_t, .API), (.hipsolverHandle_t, .handle), (.hipsolverFillMode_t, .uplo),
    (.int, .n), (.ptr .double, .A), (.int, .lda), (.int, .stA), (.ptr .int, .ipiv), (.int, .stP),
    (.ptr .double, .work), (.int, .lwork), (.ptr .int, .info), (.int, .bc)]
  pre := []
  scrutinee := .API
  cases := [
    (.api API_NORMAL, ⟨[], .call "hipsolverDsytrf"
      [.param .handle, .param .uplo, .param .n, .param .A, .param .lda, .param .ipiv, .param .work,
       .param .lwork, .param .info]⟩),
    (.api API_FORTRAN, ⟨[], .call "hipsolverDsytrfFortran"
      [.param .handle, .param .uplo, .param .n, .param .A, .param .lda, .param .ipiv, .param .work,
       .param .lwork, .param .info]⟩)]
  dflt := ⟨[], .status HIPSOLVER_STATUS_NOT_SUPPORTED⟩

/-- The overload of `hipsolver_sytrf` at hipsolver.hpp 9235-9260 (`hipsolverComplex* A`). -/
def hipsolver_sytrf_hipsolverComplex : Wrapper where
  name := "hipsolver_sytrf"
  params := [(.testAPI_t, .API), (.hipsolverHandle_t, .handle), (.hipsolverFillMode_t, .uplo),
    (.int, .n), (.ptr .hipsolverComplex, .A), (.int, .lda), (.int, .stA), (.ptr .int, .ipiv),
    (.int, .stP), (.ptr .hipsolverComplex, .work), (.int, .lwork), (.ptr .int, .info), (.int, .bc)]
  pre := []
  scrutinee := .API
  cases := [
    (.api API_NORMAL, ⟨[], .call "hipsolverCsytrf"
      [.param .handle, .param .uplo, .param .n, .cast (.ptr .hipFloatComplex) .A, .param .lda,
       .param .ipiv, .cast (.ptr .hipFloatComplex) .work, .param .lwork, .param .info]⟩),
    (.api API_FORTRAN, ⟨[], .call "hipsolverCsytrfFortran"
      [.param .handle, .param .uplo, .param .n, .cast (.ptr .hipFloatComplex) .A, .param .lda,
       .param .ipiv, .cast (.ptr .hipFloatComplex) .work, .param .lwork, .param .info]⟩)]
  dflt := ⟨[], .status HIPSOLVER_STATUS_NOT_SUPPORTED⟩

/-- The overload of `hipsolver_sytrf` at hipsolver.hpp 9262-9287 (`hipsolverDoubleComplex* A`). -/
def hipsolver_sytrf_hipsolverDoubleComplex : Wrapper where
  name := "hipsolver_sytrf"
  params := [(.testAPI_t, .API), (.hipsolverHandle_t, .handle), (.hipsolverFillMode_t, .uplo),
    (.int, .n), (.ptr .hipsolverDoubleComplex, .A), (.int, .lda), (.int, .stA), (.ptr .int, .ipiv),
    (.int, .stP), (.ptr .hipsolverDoubleComplex, .work), (.int, .lwork), (.ptr .int, .info),
    (.int, .bc)]
  pre := []
  scrutinee := .API
  cases := [
    (.api API_NORMAL, ⟨[], .call "hipsolverZsytrf"
      [.param .handle, .param .uplo, .param .n, .cast (.ptr .hipDoubleComplex) .A, .param .lda,
       .param .ipiv, .cast (.ptr .hipDoubleComplex) .work, .param .lwork, .param .info]⟩),
    (.api API_FORTRAN, ⟨[], .call "hipsolverZsytrfFortran"
      [.param .handle, .param .uplo, .param .n, .cast (.ptr .hipDoubleComplex) .A, .param .lda,
       .param .ipiv, .cast (.ptr .hipDoubleComplex) .work, .param .lwork, .param .info]⟩)]
  dflt := ⟨[], .status HIPSOLVER_STATUS_NOT_SUPPORTED⟩

/-- The wrapper overloads of hipsolver.hpp in source order, in runs of four: the header writes
the float, double, hipsolverComplex and hipsolverDoubleComplex overload of one wrapper one
after the other. -/
def overloadGroups : List (List Wrapper) :=
  [[hipsolver_orgbr_ungbr_bufferSize_float,
    hipsolver_orgbr_ungbr_bufferSize_double,
    hipsolver_orgbr_ungbr_bufferSize_hipsolverComplex,
    hipsolver_orgbr_ungbr_bufferSize_hipsolverDoubleComplex],
   [hipsolver_orgbr_ungbr_float,
    hipsolver_orgbr_ungbr_double,
    hipsolver_orgbr_ungbr_hipsolverComplex,
    hipsolver_orgbr_ungbr_hipsolverDoubleComplex],
   [hipsolver_orgqr_ungqr_bufferSize_float,
    hipsolver_orgqr_ungqr_bufferSize_double,
    hipsolver_orgqr_ungqr_bufferSize_hipsolverComplex,
    hipsolver_orgqr_ungqr_bufferSize_hipsolverDoubleComplex],
   [hipsolver_orgqr_ungqr_float,
    hipsolver_orgqr_ungqr_double,
    hipsolver_orgqr_ungqr_hipsolverComplex,
    hipsolver_orgqr_ungqr_hipsolverDoubleComplex],
   [hipsolver_orgtr_ungtr_bufferSize_float,
    hipsolver_orgtr_ungtr_bufferSize_double,
    hipsolver_orgtr_ungtr_bufferSize_hipsolverComplex,
    hipsolver_orgtr_ungtr_bufferSize_hipsolverDoubleComplex],
   [hipsolver_orgtr_ungtr_float,
    hipsolver_orgtr_ungtr_double,
    hipsolver_orgtr_ungtr_hipsolverComplex,
    hipsolver_orgtr_ungtr_hipsolverDoubleComplex],
   [hipsolver_ormqr_unmqr_bufferSize_float,
    hipsolver_ormqr_unmqr_bufferSize_double,
    hipsolver_ormqr_unmqr_bufferSize_hipsolverComplex,
    hipsolver_ormqr_unmqr_bufferSize_hipsolverDoubleComplex],
   [hipsolver_ormqr_unmqr_float,
    hipsolver_ormqr_unmqr_double,
    hipsolver_ormqr_unmqr_hipsolverComplex,
    hipsolver_ormqr_unmqr_hipsolverDoubleComplex],
   [hipsolver_ormtr_unmtr_bufferSize_float,
    hipsolver_ormtr_unmtr_bufferSize_double,
    hipsolver_ormtr_unmtr_bufferSize_hipsolverComplex,
    hipsolver_ormtr_unmtr_bufferSize_hipsolverDoubleComplex],
   [hipsolver_ormtr_unmtr_float,
    hipsolver_ormtr_unmtr_double,
    hipsolver_ormtr_unmtr_hipsolverComplex,
    hipsolver_ormtr_unmtr_hipsolverDoubleComplex],
   [hipsolver_gebrd_bufferSize_float,
    hipsolver_gebrd_bufferSize_double,
    hipsolver_gebrd_bufferSize_hipsolverComplex,
    hipsolver_gebrd_bufferSize_hipsolverDoubleComplex],
   [hipsolver_gebrd_float,
    hipsolver_gebrd_double,
    hipsolver_gebrd_hipsolverComplex,
    hipsolver_gebrd_hipsolverDoubleComplex],
   [hipsolver_gels_bufferSize_float,
    hipsolver_gels_bufferSize_double,
    hipsolver_gels_bufferSize_hipsolverComplex,
    hipsolver_gels_bufferSize_hipsolverDoubleComplex],
   [hipsolver_gels_float,
    hipsolver_gels_double,
    hipsolver_gels_hipsolverComplex,
    hipsolver_gels_hipsolverDoubleComplex],
   [hipsolver_geqrf_bufferSize_float,
    hipsolver_geqrf_bufferSize_double,
    hipsolver_geqrf_bufferSize_hipsolverComplex,
    hipsolver_geqrf_bufferSize_hipsolverDoubleComplex],
   [hipsolver_geqrf_bufferSize_float_int64_t,
    hipsolver_geqrf_bufferSize_double_int64_t,
    hipsolver_geqrf_bufferSize_hipsolverComplex_int64_t,
    hipsolver_geqrf_bufferSize_hipsolverDoubleComplex_int64_t],
   [hipsolver_geqrf_float,
    hipsolver_geqrf_double,
    hipsolver_geqrf_hipsolverComplex,
    hipsolver_geqrf_hipsolverDoubleComplex],
   [hipsolver_geqrf_float_int64_t,
    hipsolver_geqrf_double_int64_t,
    hipsolver_geqrf_hipsolverComplex_int64_t,
    hipsolver_geqrf_hipsolverDoubleComplex_int64_t],
   [hipsolver_gesv_bufferSize_float,
    hipsolver_gesv_bufferSize_double,
    hipsolver_gesv_bufferSize_hipsolverComplex,
    hipsolver_gesv_bufferSize_hipsolverDoubleComplex],
   [hipsolver_gesv_float,
    hipsolver_gesv_double,
    hipsolver_gesv_hipsolverComplex,
    hipsolver_gesv_hipsolverDoubleComplex],
   [hipsolver_gesvd_bufferSize_float,
    hipsolver_gesvd_bufferSize_double,
    hipsolver_gesvd_bufferSize_hipsolverComplex,
    hipsolver_gesvd_bufferSize_hipsolverDoubleComplex],
   [hipsolver_gesvd_float,
    hipsolver_gesvd_double,
    hipsolver_gesvd_hipsolverComplex,
    hipsolver_gesvd_hipsolverDoubleComplex],
   [hipsolver_gesvdj_bufferSize_float,
    hipsolver_gesvdj_bufferSize_double,
    hipsolver_gesvdj_bufferSize_hipsolverComplex,
    hipsolver_gesvdj_bufferSize_hipsolverDoubleComplex],
   [hipsolver_gesvdj_float,
    hipsolver_gesvdj_double,
    hipsolver_gesvdj_hipsolverComplex,
    hipsolver_gesvdj_hipsolverDoubleComplex],
   [hipsolver_gesvda_bufferSize_float,
    hipsolver_gesvda_bufferSize_double,
    hipsolver_gesvda_bufferSize_hipsolverComplex,
    hipsolver_gesvda_bufferSize_hipsolverDoubleComplex],
   [hipsolver_gesvda_float,
    hipsolver_gesvda_double,
    hipsolver_gesvda_hipsolverComplex,
    hipsolver_gesvda_hipsolverDoubleComplex],
   [hipsolver_getrf_bufferSize_float,
    hipsolver_getrf_bufferSize_double,
    hipsolver_getrf_bufferSize_hipsolverComplex,
    hipsolver_getrf_bufferSize_hipsolverDoubleComplex],
   [hipsolver_getrf_bufferSize_float_int64_t,
    hipsolver_getrf_bufferSize_double_int64_t,
    hipsolver_getrf_bufferSize_hipsolverComplex_int64_t,
    hipsolver_getrf_bufferSize_hipsolverDoubleComplex_int64_t],
   [hipsolver_getrf_float,
    hipsolver_getrf_double,
    hipsolver_getrf_hipsolverComplex,
    hipsolver_getrf_hipsolverDoubleComplex],
   [hipsolver_getrf_float_int64_t,
    hipsolver_getrf_double_int64_t,
    hipsolver_getrf_hipsolverComplex_int64_t,
    hipsolver_getrf_hipsolverDoubleComplex_int64_t],
   [hipsolver_getrs_bufferSize_float,
    hipsolver_getrs_bufferSize_double,
    hipsolver_getrs_bufferSize_hipsolverComplex,
    hipsolver_getrs_bufferSize_hipsolverDoubleComplex],
   [hipsolver_getrs_bufferSize_float_int64_t,
    hipsolver_getrs_bufferSize_double_int64_t,
    hipsolver_getrs_bufferSize_hipsolverComplex_int64_t,
    hipsolver_getrs_bufferSize_hipsolverDoubleComplex_int64_t],
   [hipsolver_getrs_float,
    hipsolver_getrs_double,
    hipsolver_getrs_hipsolverComplex,
    hipsolver_getrs_hipsolverDoubleComplex],
   [hipsolver_getrs_float_int64_t,
    hipsolver_getrs_double_int64_t,
    hipsolver_getrs_hipsolverComplex_int64_t,
    hipsolver_getrs_hipsolverDoubleComplex_int64_t],
   [hipsolver_potrf_bufferSize_float,
    hipsolver_potrf_bufferSize_double,
    hipsolver_potrf_bufferSize_hipsolverComplex,
    hipsolver_potrf_bufferSize_hipsolverDoubleComplex],
   [hipsolver_potrf_float,
    hipsolver_potrf_double,
    hipsolver_potrf_hipsolverComplex,
    hipsolver_potrf_hipsolverDoubleComplex],
   [hipsolver_potrf_bufferSize_float_batched,
    hipsolver_potrf_bufferSize_double_batched,
    hipsolver_potrf_bufferSize_hipsolverComplex_batched,
    hipsolver_potrf_bufferSize_hipsolverDoubleComplex_batched],
   [hipsolver_potrf_float_batched,
    hipsolver_potrf_double_batched,
    hipsolver_potrf_hipsolverComplex_batched,
    hipsolver_potrf_hipsolverDoubleComplex_batched],
   [hipsolver_potri_bufferSize_float,
    hipsolver_potri_bufferSize_double,
    hipsolver_potri_bufferSize_hipsolverComplex,
    hipsolver_potri_bufferSize_hipsolverDoubleComplex],
   [hipsolver_potri_float,
    hipsolver_potri_double,
    hipsolver_potri_hipsolverComplex,
    hipsolver_potri_hipsolverDoubleComplex],
   [hipsolver_potrs_bufferSize_float,
    hipsolver_potrs_bufferSize_double,
    hipsolver_potrs_bufferSize_hipsolverComplex,
    hipsolver_potrs_bufferSize_hipsolverDoubleComplex],
   [hipsolver_potrs_float,
    hipsolver_potrs_double,
    hipsolver_potrs_hipsolverComplex,
    hipsolver_potrs_hipsolverDoubleComplex],
   [hipsolver_potrs_bufferSize_float_batched,
    hipsolver_potrs_bufferSize_double_batched,
    hipsolver_potrs_bufferSize_hipsolverComplex_batched,
    hipsolver_potrs_bufferSize_hipsolverDoubleComplex_batched],
   [hipsolver_potrs_float_batched,
    hipsolver_potrs_double_batched,
    hipsolver_potrs_hipsolverComplex_batched,
    hipsolver_potrs_hipsolverDoubleComplex_batched],
   [hipsolver_syevd_heevd_bufferSize_float,
    hipsolver_syevd_heevd_bufferSize_double,
    hipsolver_syevd_heevd_bufferSize_hipsolverComplex,
    hipsolver_syevd_heevd_bufferSize_hipsolverDoubleComplex],
   [hipsolver_syevd_heevd_float,
    hipsolver_syevd_heevd_double,
    hipsolver_syevd_heevd_hipsolverComplex,
    hipsolver_syevd_heevd_hipsolverDoubleComplex],
   [hipsolver_syevdx_heevdx_bufferSize_float,
    hipsolver_syevdx_heevdx_bufferSize_double,
    hipsolver_syevdx_heevdx_bufferSize_hipsolverComplex,
    hipsolver_syevdx_heevdx_bufferSize_hipsolverDoubleComplex],
   [hipsolver_syevdx_heevdx_float,
    hipsolver_syevdx_heevdx_double,
    hipsolver_syevdx_heevdx_hipsolverComplex,
    hipsolver_syevdx_heevdx_hipsolverDoubleComplex],
   [hipsolver_syevj_heevj_bufferSize_float,
    hipsolver_syevj_heevj_bufferSize_double,
    hipsolver_syevj_heevj_bufferSize_hipsolverComplex,
    hipsolver_syevj_heevj_bufferSize_hipsolverDoubleComplex],
   [hipsolver_syevj_heevj_float,
    hipsolver_syevj_heevj_double,
    hipsolver_syevj_heevj_hipsolverComplex,
    hipsolver_syevj_heevj_hipsolverDoubleComplex],
   [hipsolver_sygvd_hegvd_bufferSize_float,
    hipsolver_sygvd_hegvd_bufferSize_double,
    hipsolver_sygvd_hegvd_bufferSize_hipsolverComplex,
    hipsolver_sygvd_hegvd_bufferSize_hipsolverDoubleComplex],
   [hipsolver_sygvd_hegvd_float,
    hipsolver_sygvd_hegvd_double,
    hipsolver_sygvd_hegvd_hipsolverComplex,
    hipsolver_sygvd_hegvd_hipsolverDoubleComplex],
   [hipsolver_sygvdx_hegvdx_bufferSize_float,
    hipsolver_sygvdx_hegvdx_bufferSize_double,
    hipsolver_sygvdx_hegvdx_bufferSize_hipsolverComplex,
    hipsolver_sygvdx_hegvdx_bufferSize_hipsolverDoubleComplex],
   [hipsolver_sygvdx_hegvdx_float,
    hipsolver_sygvdx_hegvdx_double,
    hipsolver_sygvdx_hegvdx_hipsolverComplex,
    hipsolver_sygvdx_hegvdx_hipsolverDoubleComplex],
   [hipsolver_sygvj_hegvj_bufferSize_float,
    hipsolver_sygvj_hegvj_bufferSize_double,
    hipsolver_sygvj_hegvj_bufferSize_hipsolverComplex,
    hipsolver_sygvj_hegvj_bufferSize_hipsolverDoubleComplex],
   [hipsolver_sygvj_hegvj_float,
    hipsolver_sygvj_hegvj_double,
    hipsolver_sygvj_hegvj_hipsolverComplex,
    hipsolver_sygvj_hegvj_hipsolverDoubleComplex],
   [hipsolver_sytrd_hetrd_bufferSize_float,
    hipsolver_sytrd_hetrd_bufferSize_double,
    hipsolver_sytrd_hetrd_bufferSize_hipsolverComplex,
    hipsolver_sytrd_hetrd_bufferSize_hipsolverDoubleComplex],
   [hipsolver_sytrd_hetrd_float,
    hipsolver_sytrd_hetrd_double,
    hipsolver_sytrd_hetrd_hipsolverComplex,
    hipsolver_sytrd_hetrd_hipsolverDoubleComplex],
   [hipsolver_sytrf_bufferSize_float,
    hipsolver_sytrf_bufferSize_double,
    hipsolver_sytrf_bufferSize_hipsolverComplex,
    hipsolver_sytrf_bufferSize_hipsolverDoubleComplex],
   [hipsolver_sytrf_float,
    hipsolver_sytrf_double,
    hipsolver_sytrf_hipsolverComplex,
    hipsolver_sytrf_hipsolverDoubleComplex]]

/-- All 240 wrapper overloads of hipsolver.hpp, in source order. -/
def wrappers : List Wrapper :=
  overloadGroups.flatten

/-! ## Properties read off a wrapper -/

/-- A label names an enumerator: one of the three of `testAPI_t`, or one of the six
codes of `testMarshal_t` other than `INVALID_API_SPEC`. -/
def CaseLabel.valid : CaseLabel → Bool
  | .api a => decide (a = API_NORMAL ∨ a = API_FORTRAN ∨ a = API_COMPAT)
  | .code m => decide (m ≠ INVALID_API_SPEC)

/-- The `return` is a call of an external entry point. -/
def Ret.isCall : Ret → Bool
  | .call _ _ => true
  | .status _ => false

/-- The shape shared by the wrapper bodies: every `case` label is an enumerator, every
`case` block is a single `return f(args...);`, and the `default` block ends in
`return HIPSOLVER_STATUS_NOT_SUPPORTED;`. -/
def Wrapper.wf (w : Wrapper) : Bool :=
  w.cases.all (fun c => c.1.valid && c.2.stmts.isEmpty && c.2.ret.isCall) &&
    decide (w.dflt.ret = .status HIPSOLVER_STATUS_NOT_SUPPORTED)

/-- The character sequence ends in `_bufferSize`. -/
def endsInBufferSize : List Char → Bool
  | [] => false
  | c :: rest =>
    if c = '_' ∧ rest = ['b', 'u', 'f', 'f', 'e', 'r', 'S', 'i', 'z', 'e'] then true
    else endsInBufferSize rest

/-- The character sequence ends in `Fortran`. -/
def endsInFortran : List Char → Bool
  | [] => false
  | c :: rest =>
    if c = 'F' ∧ rest = ['o', 'r', 't', 'r', 'a', 'n'] then true else endsInFortran rest

/-- The character sequence contains `Batched`. -/
def containsBatched : List Char → Bool
  | [] => false
  | c :: rest =>
    if c = 'B' ∧ ['a', 't', 'c', 'h', 'e', 'd'].isPrefixOf rest = true then true
    else containsBatched rest

/-- The character sequence starts with `hipsolverDn`. -/
def startsWithDn : List Char → Bool
  | 'h' :: 'i' :: 'p' :: 's' :: 'o' :: 'l' :: 'v' :: 'e' :: 'r' :: 'D' :: 'n' :: _ => true
  | _ => false

/-- The wrapper is a workspace-size query: its name ends in `_bufferSize`. -/
def Wrapper.isBufferSize (w : Wrapper) : Bool :=
  endsInBufferSize w.name.toList

/-- The type is a pointer type. -/
def CType.isPtr : CType → Bool
  | .ptr _ => true
  | _ => false

/-- The output size parameters of a wrapper: the pointer parameters named `lwork`,
`lworkOnDevice` or `lworkOnHost`. -/
def Wrapper.sizeParams (w : Wrapper) : List Param :=
  (w.params.filter fun p =>
    p.1.isPtr && decide (p.2 ∈ [Param.lwork, Param.lworkOnDevice, Param.lworkOnHost])).map
    Prod.snd

/-- The statements executed when no `case` matches: those in front of the `switch`
followed by those of the `default` block. -/
def Wrapper.unsupportedStmts (w : Wrapper) : List Stmt :=
  w.pre ++ w.dflt.stmts

/-- The seven enumerators of `testMarshal_t`. -/
def marshalCodes : List testMarshal_t :=
  [C_NORMAL, C_NORMAL_ALT, FORTRAN_NORMAL, FORTRAN_NORMAL_ALT, COMPAT_NORMAL, COMPAT_NORMAL_ALT,
   INVALID_API_SPEC]

/-- The `bufferSize` wrappers whose unsupported path assigns zero to every output size
parameter. -/
def zeroingBufferSizeWrappers : List String :=
  ["hipsolver_gels_bufferSize", "hipsolver_geqrf_bufferSize", "hipsolver_gesvd_bufferSize",
   "hipsolver_getrf_bufferSize", "hipsolver_getrs_bufferSize", "hipsolver_potrf_bufferSize",
   "hipsolver_potrs_bufferSize"]

/-- The calling conventions of the external entry points. -/
inductive Convention
  | normal
  | fortran
  | compat
  deriving DecidableEq, Repr

/-- The convention of an entry point, by the naming scheme of the solver library: the
Fortran bindings end in `Fortran`, the compatibility interface starts with `hipsolverDn`,
everything else is the normal interface. -/
def entryConvention (f : String) : Convention :=
  if endsInFortran f.toList then .fortran
  else if startsWithDn f.toList then .compat
  else .normal

/-- The entry point is a batched one: its name contains `Batched`. -/
def entryBatched (f : String) : Bool :=
  containsBatched f.toList

/-- The variant of the entry point a `return` calls: convention and batched or not;
`none` for the `return` of a status constant. -/
def Ret.variant : Ret → Option (Convention × Bool)
  | .call f _ => some (entryConvention f, entryBatched f)
  | .status _ => none

/-- The variant of the entry point a wrapper forwards to for `(API, ALT)`; `none` without a
forwarding target. -/
def Wrapper.variant (w : Wrapper) (API : testAPI_t) (ALT : Bool) : Option (Convention × Bool) :=
  (w.target API ALT).map fun t => (entryConvention t.1, entryBatched t.1)

/-- The dispatch table of a wrapper: its `case` labels in source order, each with the
variant of the entry point the case forwards to. -/
def Wrapper.dispatch (w : Wrapper) : List (CaseLabel × Option (Convention × Bool)) :=
  w.cases.map fun c => (c.1, c.2.ret.variant)

/-- Replaces the four element types by one: what is left of a parameter type once the
numeric precision is forgotten. -/
def CType.eraseElem : CType → CType
  | .float => .float
  | .double => .float
  | .hipsolverComplex => .float
  | .hipsolverDoubleComplex => .float
  | .ptr t => .ptr t.eraseElem
  | .arr t => .arr t.eraseElem
  | t => t

/-- The parameter list with the element types forgotten. -/
def Wrapper.signature (w : Wrapper) : List (CType × Param) :=
  w.params.map fun p => (p.1.eraseElem, p.2)

/-- What identifies an overload set: the parameter list up to the element type, and the
name. -/
def Wrapper.overloadKey (w : Wrapper) : List (CType × Param) × String :=
  (w.signature, w.name)

/-- Two wrappers are type overloads of one another: same name and same parameter list up
to the element type. -/
def Wrapper.sameOverloadSet (w1 w2 : Wrapper) : Bool :=
  decide (w1.overloadKey = w2.overloadKey)

/-- The type that is left when pointer and array declarators are dropped. -/
def CType.base : CType → CType
  | .ptr t => t.base
  | .arr t => t.base
  | t => t

/-- The element type of an overload: the base type of its matrix parameter `A`. -/
def Wrapper.elemType (w : Wrapper) : Option CType :=
  (w.params.find? fun p => decide (p.2 = Param.A)).map fun p => p.1.base

/-- An external library that returns the status with code `0` and leaves the heap as it is. -/
def idleLib : ExtLib :=
  fun _ _ h => (hipsolverStatus_t.other 0, h)

/-- Argument values for the examples: every pointer parameter holds its own address
(`lwork` at 100, `lworkOnDevice` at 101, `lworkOnHost` at 102, `rwork` at 300, `ipiv` at
301, `X` at 302, `B` at 303), every other argument is the scalar `1`. -/
def sampleEnv : Env
  | .lwork => .ptr 100
  | .lworkOnDevice => .ptr 101
  | .lworkOnHost => .ptr 102
  | .rwork => .ptr 300
  | .ipiv => .ptr 301
  | .X => .ptr 302
  | .B => .ptr 303
  | _ => .scalar 1

/-- A heap for the examples: every object holds `5`. -/
def sampleHeap : Heap := fun _ => 5

/-- The three enumerators of `testAPI_t`. -/
def validAPIs : List testAPI_t :=
  [API_NORMAL, API_FORTRAN, API_COMPAT]

/-- The wrappers of C9: the `bufferSize` wrappers of gels, gesvd, getrs, potrf and potrs. -/
def lworkZeroingWrappers : List String :=
  ["hipsolver_gels_bufferSize", "hipsolver_gesvd_bufferSize", "hipsolver_getrs_bufferSize",
   "hipsolver_potrf_bufferSize", "hipsolver_potrs_bufferSize"]

/-- The four element types, in the order in which the overloads are written. -/
def elemTypes : List (Option CType) :=
  [some .float, some .double, some .hipsolverComplex, some .hipsolverDoubleComplex]

/-! ## The dispatch tables -/

/-- A dispatch table: `API_NORMAL` and `API_FORTRAN` forward, to the normal and the Fortran entry point. -/
def dispatchNormalFortran : List (CaseLabel × Option (Convention × Bool)) :=
  [(.api API_NORMAL, some (.normal, false)),
   (.api API_FORTRAN, some (.fortran, false))]

/-- A dispatch table: all three selectors forward, each to the entry point of its convention. -/
def dispatchAll : List (CaseLabel × Option (Convention × Bool)) :=
  [(.api API_NORMAL, some (.normal, false)),
   (.api API_FORTRAN, some (.fortran, false)),
   (.api API_COMPAT, some (.compat, false))]

/-- A dispatch table: the flag is honoured for `API_NORMAL` only, by the same non-batched entry point. -/
def dispatchAltNormal : List (CaseLabel × Option (Convention × Bool)) :=
  [(.code C_NORMAL, some (.normal, false)),
   (.code C_NORMAL_ALT, some (.normal, false)),
   (.code FORTRAN_NORMAL, some (.fortran, false)),
   (.code COMPAT_NORMAL, some (.compat, false))]

/-- A dispatch table: only `API_COMPAT` forwards. -/
def dispatchCompat : List (CaseLabel × Option (Convention × Bool)) :=
  [(.api API_COMPAT, some (.compat, false))]

/-- A dispatch table: all six codes forward, the alternate ones to the batched entry points. -/
def dispatchStrided : List (CaseLabel × Option (Convention × Bool)) :=
  [(.code C_NORMAL, some (.normal, false)),
   (.code C_NORMAL_ALT, some (.normal, true)),
   (.code FORTRAN_NORMAL, some (.fortran, false)),
   (.code FORTRAN_NORMAL_ALT, some (.fortran, true)),
   (.code COMPAT_NORMAL, some (.compat, false)),
   (.code COMPAT_NORMAL_ALT, some (.compat, true))]

/-- A dispatch table: only `COMPAT_NORMAL_ALT` forwards, to a batched entry point. -/
def dispatchCompatAlt : List (CaseLabel × Option (Convention × Bool)) :=
  [(.code COMPAT_NORMAL_ALT, some (.compat, true))]

/-- A dispatch table: `API_COMPAT` forwards for either flag value, to a non-batched entry point. -/
def dispatchCompatBoth : List (CaseLabel × Option (Convention × Bool)) :=
  [(.code COMPAT_NORMAL, some (.compat, false)),
   (.code COMPAT_NORMAL_ALT, some (.compat, false))]

/-- A dispatch table: no `case` at all. -/
def dispatchNone : List (CaseLabel × Option (Convention × Bool)) :=
  []

/-- A dispatch table: `API_NORMAL` and `API_FORTRAN` forward, to batched entry points. -/
def dispatchBatchedNormalFortran : List (CaseLabel × Option (Convention × Bool)) :=
  [(.api API_NORMAL, some (.normal, true)),
   (.api API_FORTRAN, some (.fortran, true))]

/-- A dispatch table: all three selectors forward, to batched entry points. -/
def dispatchBatchedAll : List (CaseLabel × Option (Convention × Bool)) :=
  [(.api API_NORMAL, some (.normal, true)),
   (.api API_FORTRAN, some (.fortran, true)),
   (.api API_COMPAT, some (.compat, true))]

/-- A dispatch table: `API_NORMAL` and `API_COMPAT` forward. -/
def dispatchNormalCompat : List (CaseLabel × Option (Convention × Bool)) :=
  [(.api API_NORMAL, some (.normal, false)),
   (.api API_COMPAT, some (.compat, false))]

/-- The dispatch table of each run of four, in the order of `overloadGroups`: the `case`
labels of the wrapper in source order, each with the variant of the entry point the case
forwards to.  The theorem `overloadGroups_dispatch` checks it against every transcribed
overload. -/
def overloadDispatch : List (List (CaseLabel × Option (Convention × Bool))) :=
   -- hipsolver_orgbr_ungbr_bufferSize
  [dispatchNormalFortran,
   -- hipsolver_orgbr_ungbr
   dispatchNormalFortran,
   -- hipsolver_orgqr_ungqr_bufferSize
   dispatchNormalFortran,
   -- hipsolver_orgqr_ungqr
   dispatchNormalFortran,
   -- hipsolver_orgtr_ungtr_bufferSize
   dispatchNormalFortran,
   -- hipsolver_orgtr_ungtr
   dispatchNormalFortran,
   -- hipsolver_ormqr_unmqr_bufferSize
   dispatchNormalFortran,
   -- hipsolver_ormqr_unmqr
   dispatchNormalFortran,
   -- hipsolver_ormtr_unmtr_bufferSize
   dispatchNormalFortran,
   -- hipsolver_ormtr_unmtr
   dispatchNormalFortran,
   -- hipsolver_gebrd_bufferSize
   dispatchNormalFortran,
   -- hipsolver_gebrd
   dispatchNormalFortran,
   -- hipsolver_gels_bufferSize
   dispatchAll,
   -- hipsolver_gels
   dispatchAltNormal,
   -- hipsolver_geqrf_bufferSize
   dispatchAll,
   -- hipsolver_geqrf_bufferSize, int64_t
   dispatchCompat,
   -- hipsolver_geqrf
   dispatchAll,
   -- hipsolver_geqrf, int64_t
   dispatchCompat,
   -- hipsolver_gesv_bufferSize
   dispatchAll,
   -- hipsolver_gesv
   dispatchAltNormal,
   -- hipsolver_gesvd_bufferSize
   dispatchAll,
   -- hipsolver_gesvd
   dispatchAltNormal,
   -- hipsolver_gesvdj_bufferSize
   dispatchStrided,
   -- hipsolver_gesvdj
   dispatchStrided,
   -- hipsolver_gesvda_bufferSize
   dispatchCompatAlt,
   -- hipsolver_gesvda
   dispatchCompatAlt,
   -- hipsolver_getrf_bufferSize
   dispatchAll,
   -- hipsolver_getrf_bufferSize, int64_t
   dispatchCompat,
   -- hipsolver_getrf
   dispatchAltNormal,
   -- hipsolver_getrf, int64_t
   dispatchCompatBoth,
   -- hipsolver_getrs_bufferSize
   dispatchNormalFortran,
   -- hipsolver_getrs_bufferSize, int64_t
   dispatchNone,
   -- hipsolver_getrs
   dispatchAll,
   -- hipsolver_getrs, int64_t
   dispatchCompat,
   -- hipsolver_potrf_bufferSize
   dispatchAll,
   -- hipsolver_potrf
   dispatchAll,
   -- hipsolver_potrf_bufferSize, batched
   dispatchBatchedNormalFortran,
   -- hipsolver_potrf, batched
   dispatchBatchedAll,
   -- hipsolver_potri_bufferSize
   dispatchNormalFortran,
   -- hipsolver_potri
   dispatchNormalFortran,
   -- hipsolver_potrs_bufferSize
   dispatchNormalFortran,
   -- hipsolver_potrs
   dispatchAll,
   -- hipsolver_potrs_bufferSize, batched
   dispatchBatchedNormalFortran,
   -- hipsolver_potrs, batched
   dispatchBatchedAll,
   -- hipsolver_syevd_heevd_bufferSize
   dispatchNormalFortran,
   -- hipsolver_syevd_heevd
   dispatchNormalFortran,
   -- hipsolver_syevdx_heevdx_bufferSize
   dispatchNormalCompat,
   -- hipsolver_syevdx_heevdx
   dispatchNormalCompat,
   -- hipsolver_syevj_heevj_bufferSize
   dispatchStrided,
   -- hipsolver_syevj_heevj
   dispatchStrided,
   -- hipsolver_sygvd_hegvd_bufferSize
   dispatchNormalFortran,
   -- hipsolver_sygvd_hegvd
   dispatchNormalFortran,
   -- hipsolver_sygvdx_hegvdx_bufferSize
   dispatchNormalCompat,
   -- hipsolver_sygvdx_hegvdx
   dispatchNormalCompat,
   -- hipsolver_sygvj_hegvj_bufferSize
   dispatchAll,
   -- hipsolver_sygvj_hegvj
   dispatchAll,
   -- hipsolver_sytrd_hetrd_bufferSize
   dispatchNormalFortran,
   -- hipsolver_sytrd_hetrd
   dispatchNormalFortran,
   -- hipsolver_sytrf_bufferSize
   dispatchNormalFortran,
   -- hipsolver_sytrf
   dispatchNormalFortran]

/-! ## Notions for the claims on single routine families -/

/-- The overload is an `int64_t`-indexed one: some parameter has base type `int64_t`. -/
def Wrapper.isInt64 (w : Wrapper) : Bool :=
  w.params.any fun p => decide (p.1.base = CType.int64_t)

/-- The argument is the parameter `p`, with or without a cast. -/
def Arg.mentions (p : Param) : Arg → Bool
  | .param q => decide (q = p)
  | .cast _ q => decide (q = p)
  | _ => false

/-- The argument with its parameter renamed by `f`; constants stay. -/
def Arg.rename (f : Param → Param) : Arg → Arg
  | .param q => .param (f q)
  | .cast t q => .cast t (f q)
  | a => a

/-- The argument with the parameter `p` replaced by the literal `nullptr`. -/
def Arg.nullify (p : Param) : Arg → Arg
  | .param q => if q = p then .nullptr else .param q
  | .cast t q => if q = p then .nullptr else .cast t q
  | a => a

/-- The renaming of the in-place calls: `B` for `X` and `ldb` for `ldx`. -/
def inplaceRename : Param → Param
  | .X => .B
  | .ldx => .ldb
  | p => p

/-- The three selectors with the convention of the entry points they stand for. -/
def apiConventions : List (testAPI_t × Convention) :=
  [(API_NORMAL, .normal), (API_FORTRAN, .fortran), (API_COMPAT, .compat)]

/-- The wrappers of C11, whose flag `STRIDED` selects the batched entry points. -/
def stridedWrappers : List String :=
  ["hipsolver_gesvdj_bufferSize", "hipsolver_gesvdj", "hipsolver_syevj_heevj_bufferSize",
   "hipsolver_syevj_heevj"]

/-- Argument values that differ from `sampleEnv` in `X` and `ldx` only. -/
def sampleEnvX : Env
  | .X => .ptr 999
  | .ldx => .scalar 77
  | p => sampleEnv p

/-- The actual arguments of a `return`; none for the `return` of a status constant. -/
def Ret.args : Ret → List Arg
  | .call _ args => args
  | .status _ => []

/-- The `(API, NPVT)` pairs for which the `int`-indexed `hipsolver_getrf` forwards. -/
def getrfIntPairs : List (testAPI_t × Bool) :=
  [(API_NORMAL, false), (API_NORMAL, true), (API_FORTRAN, false), (API_COMPAT, false)]

/-- The pairs with selector `API_COMPAT`. -/
def compatPairs : List (testAPI_t × Bool) :=
  [(API_COMPAT, false), (API_COMPAT, true)]

/-- The `int64_t`-indexed wrappers of C18. -/
def int64CompatWrappers : List String :=
  ["hipsolver_geqrf_bufferSize", "hipsolver_getrf_bufferSize", "hipsolver_geqrf"]

/-- The `int`-indexed `bufferSize` wrappers that take `lworkOnDevice` and `lworkOnHost`. -/
def hostSizeWrappers : List String :=
  ["hipsolver_geqrf_bufferSize", "hipsolver_getrf_bufferSize"]

/-! ## Notions for the claims across routine families -/

/-- The wrappers of the range eigensolvers `syevdx/heevdx` and `sygvdx/hegvdx`. -/
def rangeEigWrappers : List String :=
  ["hipsolver_syevdx_heevdx_bufferSize", "hipsolver_syevdx_heevdx",
   "hipsolver_sygvdx_hegvdx_bufferSize", "hipsolver_sygvdx_hegvdx"]

/-- The pairs with selector `API_NORMAL` or `API_COMPAT`. -/
def normalCompatPairs : List (testAPI_t × Bool) :=
  [(API_NORMAL, false), (API_NORMAL, true), (API_COMPAT, false), (API_COMPAT, true)]

/-- The type is an array type `t[]`. -/
def CType.isArr : CType → Bool
  | .arr _ => true
  | _ => false

/-- The overload is a batched one: it takes an array of matrix pointers (`T* A[]`). -/
def Wrapper.isBatched (w : Wrapper) : Bool :=
  w.params.any fun p => p.1.isArr

/-- What tells the overloads of one name apart: the element type, `int` or `int64_t`
indices, pointer or batched. -/
def Wrapper.overloadKind (w : Wrapper) : Option CType × Bool × Bool :=
  (w.elemType, w.isInt64, w.isBatched)

/-- The wrapper has a forwarding target for `API`, for some value of its flag. -/
def Wrapper.hasTarget (w : Wrapper) (API : testAPI_t) : Bool :=
  (w.target API false).isSome || (w.target API true).isSome

/-- The `bufferSize` wrappers paired with the solve wrappers, both in source order: the
header writes the overloads of `hipsolver_X_bufferSize` in front of those of `hipsolver_X`,
in the same order. -/
def familyPairs : List (Wrapper × Wrapper) :=
  (wrappers.filter fun w => w.isBufferSize).zip (wrappers.filter fun w => !w.isBufferSize)

/-- The solve wrappers of C22: getrs, potrs and the batched overloads of potrf. -/
def Wrapper.solveOnlyCompat (w : Wrapper) : Bool :=
  decide (w.name = "hipsolver_getrs") || decide (w.name = "hipsolver_potrs") ||
    (decide (w.name = "hipsolver_potrf") && w.isBatched)

/-- The forwarded call passes neither `work` nor `lwork` and goes to a `hipsolverDn` entry
point; true without a forwarding target. -/
def Wrapper.compatWithoutWorkspace (w : Wrapper) (ALT : Bool) : Bool :=
  match w.target API_COMPAT ALT with
  | some t => startsWithDn t.1.toList &&
      t.2.all fun a => !a.mentions .work && !a.mentions .lwork
  | none => true

/-- Argument values that differ from `sampleEnv` in every parameter: every pointer is moved
and every scalar is `2`. -/
def sampleEnvOther : Env :=
  fun p => match sampleEnv p with
    | .ptr a => .ptr (a + 1000)
    | .scalar _ => .scalar 2
    | v => v

/-! ## The norm-of-error helpers (rocsolvercommon/norm.hpp) -/

/-- The type `rocblas_int` of dimensions and indices in norm.hpp, which is the 32-bit `int`
(norm.hpp passes the addresses of `rocblas_int` objects for the `int*` parameters of
`xlange`).  A value is modelled by the integer it denotes; the arithmetic of the source on
such values is that of `wrapInt`. -/
abbrev rocblas_int := Int

/-- The largest value of `int`. -/
def INT_MAX : Int := 2147483647

/-- The value of an `int` expression whose exact value is `x`: the representative of `x`
modulo `2 ^ 32` in the range of `int`, from `-2147483648` to `2147483647`. -/
def wrapInt (x : Int) : rocblas_int :=
  (x + 2147483648) % 4294967296 - 2147483648

/-- The index expression `i + j * ld` of norm.hpp, evaluated in `int`. -/
def intIndex (i j ld : rocblas_int) : rocblas_int :=
  wrapInt (i + wrapInt (j * ld))

/-- What norm.hpp takes from outside, left arbitrary: the floating-point conversions and
operations, and the LAPACK and BLAS routines behind `xlange` and `xaxpy` (declared
`extern "C"` at norm.hpp 36-49).  `T` is the element type of the matrices, `D` the element
type of the double precision buffers (`double` in the real overload of `norm_error`,
`rocblas_double_complex` in the complex one) and `R` the type `double` of the norms. -/
structure NormEnv (T D R : Type) where
  /-- The conversion `double(x)` of the real overload (norm.hpp 112-113), respectively
  `rocblas_double_complex(std::real(x), std::imag(x))` of the complex one (154-157). -/
  toDouble : T → D
  /-- The value-initialised element with which `std::vector<D>(n)` is filled. -/
  zero : D
  /-- The constant `alpha = -1.0` (norm.hpp 119, 163). -/
  minusOne : D
  /-- The value of `xlange(&norm_type, &m, &n, A, &lda, work)` for the contents of `A`; the
  array `work` is scratch space of the routine. -/
  xlange : Char → rocblas_int → rocblas_int → List D → rocblas_int → R
  /-- The contents of `y` after `xaxpy(&n, &alpha, x, &incx, y, &incy)`. -/
  xaxpy : rocblas_int → D → List D → rocblas_int → List D → rocblas_int → List D
  /-- The comparison `x > 0` on `double`. -/
  gtZero : R → Bool
  /-- The quotient `x / y` on `double`. -/
  div : R → R → R

/-- The loop `for(rocblas_int i = 0; i < n; i++) body` over a state. -/
def forLoop {σ : Type} (n : rocblas_int) (body : rocblas_int → σ → σ) (s : σ) : σ :=
  (List.range n.toNat).foldl (fun (s : σ) (i : Nat) => body (i : Int) s) s

/-- The loop `for(rocblas_int i = 0; i < n; i++) body` over a state, for a body that may
leave the defined behaviour: the loop ends there, with `none`. -/
def forLoopM {σ : Type} (n : rocblas_int) (body : rocblas_int → σ → Option σ) (s : σ) :
    Option σ :=
  (List.range n.toNat).foldlM (fun (s : σ) (i : Nat) => body (i : Int) s) s

/-- The body of the loop nest of `norm_error` (norm.hpp 112-113, 154-157) on the pair
`(gold_double, comp_double)`: both vectors are written at the index `i + j * lda`, the
arrays are read at `i + j * lda_gold` and `i + j * lda_comp`, each index evaluated in `int`.
A write at an index outside the vector has no defined behaviour: the result is `none`. -/
def packStep {T D : Type} (conv : T → D) (lda lda_gold lda_comp : rocblas_int)
    (gold comp : rocblas_int → T) (i j : rocblas_int) (b : List D × List D) :
    Option (List D × List D) :=
  if 0 ≤ intIndex i j lda ∧ (intIndex i j lda).toNat < b.1.length ∧
      (intIndex i j lda).toNat < b.2.length then
    some (b.1.set (intIndex i j lda).toNat (conv (gold (intIndex i j lda_gold))),
          b.2.set (intIndex i j lda).toNat (conv (comp (intIndex i j lda_comp))))
  else none

/-- The loop nest of `norm_error` (norm.hpp 108-115, 150-159): `i` runs over the rows in
the outer loop, `j` over the columns in the inner loop. -/
def packBuffers {T D : Type} (conv : T → D) (M N lda lda_gold lda_comp : rocblas_int)
    (gold comp : rocblas_int → T) (b : List D × List D) : Option (List D × List D) :=
  forLoopM M (fun i b =>
    forLoopM N (fun j b => packStep conv lda lda_gold lda_comp gold comp i j b) b) b

/-- The function `norm_error` (norm.hpp 89-129 and 131-173; the two overloads differ in the
buffer element type and its conversion only, which are those of `E`).  The arrays `gold` and
`comp` are given by their elements, by index relative to the pointer.  The default argument
`lda_comp = 0` of the source is passed by the caller.  The products `N * lda` and `lda * N`
are taken in `int`.  The result is `none` when the call does not return a value:
`std::vector` throws for a negative size, a write outside the vectors has no defined
behaviour, and the array `work[M]` has no meaning for a negative `M`. -/
def norm_error {T D R : Type} (E : NormEnv T D R) (norm_type : Char)
    (M N lda_gold : rocblas_int) (gold comp : rocblas_int → T) (lda_comp : rocblas_int) :
    Option R :=
  let lda := M
  let lda_comp := if lda_comp > 0 then lda_comp else lda_gold
  if wrapInt (N * lda) < 0 then none
  else
    match packBuffers E.toDouble M N lda lda_gold lda_comp gold comp
        (List.replicate (wrapInt (N * lda)).toNat E.zero,
         List.replicate (wrapInt (N * lda)).toNat E.zero) with
    | none => none
    | some bufs =>
      if M < 0 then none
      else
        let incx := 1
        let alpha := E.minusOne
        let size := wrapInt (lda * N)
        let gold_norm := E.xlange norm_type M N bufs.1 lda
        let comp_double := E.xaxpy size alpha bufs.1 incx bufs.2 incx
        let error := E.xlange norm_type M N comp_double lda
        let error := if E.gtZero gold_norm then E.div error gold_norm else error
        some error

/-- The environment `E` with the quotient replaced by `d`. -/
def NormEnv.withDiv {T D R : Type} (E : NormEnv T D R) (d : R → R → R) : NormEnv T D R :=
  ⟨E.toDouble, E.zero, E.minusOne, E.xlange, E.xaxpy, E.gtZero, d⟩

/-- An instance of the outside for the examples, in exact integer arithmetic: the
conversion is the identity, `xaxpy` with unit increments is `y := alpha * x + y`, `xlange`
is the sum of the absolute values of the entries, and the quotient is integer division. -/
def sampleNormEnv : NormEnv Int Int Int where
  toDouble := fun x => x
  zero := 0
  minusOne := -1
  xlange := fun _ _ _ A _ => (A.map fun x => (x.natAbs : Int)).sum
  xaxpy := fun _ alpha x _ y _ => List.zipWith (fun xi yi => alpha * xi + yi) x y
  gtZero := fun x => decide (0 < x)
  div := fun x y => x / y

/-- The example matrix `gold`: element `k` holds `k + 1`. -/
def sampleGold : rocblas_int → Int :=
  fun k => k + 1

/-- The example matrix `comp`: element `k` holds `3 * k + 3`. -/
def sampleComp : rocblas_int → Int :=
  fun k => 3 * k + 3

/-- The iteration space of the loop nests of norm.hpp, in execution order: `i` from `0`
below `M` in the outer loop, `j` from `0` below `N` in the inner loop. -/
def indexPairs (M N : rocblas_int) : List (rocblas_int × rocblas_int) :=
  (List.range M.toNat).flatMap fun (i : Nat) =>
    (List.range N.toNat).map fun (j : Nat) => ((i : Int), (j : Int))

/-- The body of the loop nests of `norm_error_upperTr` (norm.hpp 183-187, condition
`i > j`) and `norm_error_lowerTr` (201-205, condition `i < j`) on the pair `(gold, comp)`:
where the condition holds, `gold[i + j * lda] = T(0); comp[i + j * lda] = T(0);` with `z`
for `T(0)` and the index evaluated in `int`. -/
def zeroStep {T : Type} (cond : rocblas_int → rocblas_int → Bool) (z : T) (lda : rocblas_int)
    (i j : rocblas_int) (a : (rocblas_int → T) × (rocblas_int → T)) :
    (rocblas_int → T) × (rocblas_int → T) :=
  if cond i j then
    (fun k => if k = intIndex i j lda then z else a.1 k,
     fun k => if k = intIndex i j lda then z else a.2 k)
  else a

/-- The loop nest of `norm_error_upperTr` (norm.hpp 179-189) and `norm_error_lowerTr`
(197-207). -/
def zeroWhere {T : Type} (cond : rocblas_int → rocblas_int → Bool) (z : T)
    (M N lda : rocblas_int) (a : (rocblas_int → T) × (rocblas_int → T)) :
    (rocblas_int → T) × (rocblas_int → T) :=
  forLoop M (fun i a => forLoop N (fun j a => zeroStep cond z lda i j a) a) a

/-- The function `norm_error_upperTr` (norm.hpp 175-191), with `z` for `T(0)`: the value
returned, and the arrays `gold` and `comp` as the call leaves them.  The two arrays are
taken to be disjoint. -/
def norm_error_upperTr {T D R : Type} (E : NormEnv T D R) (z : T) (norm_type : Char)
    (M N lda : rocblas_int) (gold comp : rocblas_int → T) :
    Option R × (rocblas_int → T) × (rocblas_int → T) :=
  let a := zeroWhere (fun i j => decide (i > j)) z M N lda (gold, comp)
  (norm_error E norm_type M N lda a.1 a.2 0, a.1, a.2)

/-- The function `norm_error_lowerTr` (norm.hpp 193-209), with `z` for `T(0)`: the value
returned, and the arrays `gold` and `comp` as the call leaves them.  The two arrays are
taken to be disjoint. -/
def norm_error_lowerTr {T D R : Type} (E : NormEnv T D R) (z : T) (norm_type : Char)
    (M N lda : rocblas_int) (gold comp : rocblas_int → T) :
    Option R × (rocblas_int → T) × (rocblas_int → T) :=
  let a := zeroWhere (fun i j => decide (i < j)) z M N lda (gold, comp)
  (norm_error E norm_type M N lda a.1 a.2 0, a.1, a.2)

/-! ## Lemmas on the execution of a body -/

theorem findCase_mem {v : CaseLabel} {cs : List (CaseLabel × Block)} {b : Block}
    (h : findCase v cs = some b) : (v, b) ∈ cs := by
  induction cs with
  | nil => simp [findCase] at h
  | cons c rest ih =>
    obtain ⟨l, b0⟩ := c
    unfold findCase at h
    split at h
    · rename_i hl
      cases h
      subst hl
      exact List.mem_cons_self _ _
    · exact List.mem_cons_of_mem _ (ih h)

theorem findCase_eq_none {v : CaseLabel} {cs : List (CaseLabel × Block)}
    (hv : v.valid = false) (hc : ∀ c ∈ cs, c.1.valid = true) : findCase v cs = none := by
  cases hf : findCase v cs with
  | none => rfl
  | some b =>
    have hm := hc _ (findCase_mem hf)
    simp [hv] at hm

theorem api2marshal_of_invalid (API : testAPI_t) (ALT : Bool) (h0 : API ≠ API_NORMAL)
    (h1 : API ≠ API_FORTRAN) (h2 : API ≠ API_COMPAT) :
    api2marshal API ALT = INVALID_API_SPEC := by
  simp [api2marshal, h0, h1, h2]

theorem Scrutinee.value_not_valid (s : Scrutinee) (API : testAPI_t) (ALT : Bool)
    (h0 : API ≠ API_NORMAL) (h1 : API ≠ API_FORTRAN) (h2 : API ≠ API_COMPAT) :
    (s.value API ALT).valid = false := by
  cases s with
  | API => simp [Scrutinee.value, CaseLabel.valid, h0, h1, h2]
  | marshal flag =>
    simp [Scrutinee.value, CaseLabel.valid, api2marshal_of_invalid API ALT h0 h1 h2]

theorem Wrapper.wf_cases {w : Wrapper} (hwf : w.wf = true) {c : CaseLabel × Block}
    (hc : c ∈ w.cases) : c.1.valid = true ∧ c.2.stmts = [] ∧ c.2.ret.isCall = true := by
  simp only [Wrapper.wf, Bool.and_eq_true, List.all_eq_true] at hwf
  have h := hwf.1 c hc
  simp only [Bool.and_eq_true, List.isEmpty_iff] at h
  exact ⟨h.1.1, h.1.2, h.2⟩

theorem Wrapper.wf_dflt {w : Wrapper} (hwf : w.wf = true) :
    w.dflt.ret = .status HIPSOLVER_STATUS_NOT_SUPPORTED := by
  simp only [Wrapper.wf, Bool.and_eq_true, decide_eq_true_eq] at hwf
  exact hwf.2

/-- Without a forwarding target the `switch` reaches `default`. -/
theorem Wrapper.selected_of_target_none {w : Wrapper} (hwf : w.wf = true) {API : testAPI_t}
    {ALT : Bool} (ht : w.target API ALT = none) : w.selected API ALT = w.dflt := by
  unfold Wrapper.selected
  cases hf : findCase (w.scrutinee.value API ALT) w.cases with
  | none => rfl
  | some b =>
    have hb := (Wrapper.wf_cases hwf (findCase_mem hf)).2.2
    have hs : w.selected API ALT = b := by simp [Wrapper.selected, hf]
    unfold Wrapper.target at ht
    rw [hs] at ht
    cases hr : b.ret with
    | call f args => simp [hr] at ht
    | status s => simp [hr, Ret.isCall] at hb

/-- With a forwarding target the selected block is the single `return` of that call. -/
theorem Wrapper.selected_of_target_some {w : Wrapper} (hwf : w.wf = true) {API : testAPI_t}
    {ALT : Bool} {f : String} {args : List Arg} (ht : w.target API ALT = some (f, args)) :
    w.selected API ALT = ⟨[], .call f args⟩ ∧
      ∃ l, (l, (⟨[], .call f args⟩ : Block)) ∈ w.cases := by
  have hret : (w.selected API ALT).ret = .call f args := by
    unfold Wrapper.target at ht
    cases hr : (w.selected API ALT).ret with
    | call f0 args0 =>
      simp only [hr, Option.some.injEq, Prod.mk.injEq] at ht
      rw [ht.1, ht.2]
    | status s => simp [hr] at ht
  cases hf : findCase (w.scrutinee.value API ALT) w.cases with
  | none =>
    have hs : w.selected API ALT = w.dflt := by simp [Wrapper.selected, hf]
    rw [hs, Wrapper.wf_dflt hwf] at hret
    cases hret
  | some b =>
    have hs : w.selected API ALT = b := by simp [Wrapper.selected, hf]
    have hb := (Wrapper.wf_cases hwf (findCase_mem hf)).2.1
    have hmem := findCase_mem hf
    rw [hs] at hret
    have hbe : b = ⟨[], .call f args⟩ := by
      cases b with
      | mk stmts ret =>
        simp only at hb hret
        rw [hb, hret]
    rw [hs, hbe]
    exact ⟨rfl, _, hbe ▸ hmem⟩

/-- An unrecognized selector has no forwarding target. -/
theorem Wrapper.target_of_invalid {w : Wrapper} (hwf : w.wf = true) (API : testAPI_t)
    (ALT : Bool) (h0 : API ≠ API_NORMAL) (h1 : API ≠ API_FORTRAN) (h2 : API ≠ API_COMPAT) :
    w.target API ALT = none := by
  have hn : findCase (w.scrutinee.value API ALT) w.cases = none :=
    findCase_eq_none (Scrutinee.value_not_valid _ API ALT h0 h1 h2)
      (fun c hc => (Wrapper.wf_cases hwf hc).1)
  simp [Wrapper.target, Wrapper.selected, hn, Wrapper.wf_dflt hwf]

/-- The outcome on the unsupported path. -/
theorem Wrapper.run_of_target_none {w : Wrapper} (hwf : w.wf = true) {API : testAPI_t}
    {ALT : Bool} (ht : w.target API ALT = none) (E : ExtLib) (env : Env) (h : Heap) :
    w.run E API ALT env h =
      ⟨HIPSOLVER_STATUS_NOT_SUPPORTED, execStmts env w.dflt.stmts (execStmts env w.pre h), []⟩ := by
  simp [Wrapper.run, Wrapper.selected_of_target_none hwf ht, Block.exec, Wrapper.wf_dflt hwf]

/-- The outcome on a forwarding path. -/
theorem Wrapper.run_of_target_some {w : Wrapper} (hwf : w.wf = true) {API : testAPI_t}
    {ALT : Bool} {f : String} {args : List Arg} (ht : w.target API ALT = some (f, args))
    (E : ExtLib) (env : Env) (h : Heap) :
    w.run E API ALT env h =
      ⟨(E f (args.map (Arg.eval env)) (execStmts env w.pre h)).1,
       (E f (args.map (Arg.eval env)) (execStmts env w.pre h)).2,
       [⟨f, args.map (Arg.eval env)⟩]⟩ := by
  simp [Wrapper.run, (Wrapper.selected_of_target_some hwf ht).1, Block.exec, execStmts]

theorem execStmts_append (env : Env) (l1 l2 : List Stmt) (h : Heap) :
    execStmts env (l1 ++ l2) h = execStmts env l2 (execStmts env l1 h) := by
  induction l1 generalizing h with
  | nil => rfl
  | cons s rest ih => simp [execStmts, ih]

/-- A zero is never overwritten: the only stores are stores of zero. -/
theorem execStmts_keeps_zero (env : Env) (l : List Stmt) (h : Heap) (a : Nat) (ha : h a = 0) :
    execStmts env l h a = 0 := by
  induction l generalizing h with
  | nil => simpa [execStmts] using ha
  | cons s rest ih =>
    simp only [execStmts]
    apply ih
    cases s with
    | storeZero p =>
      simp only [Stmt.exec, Heap.store]
      split
      · rfl
      · exact ha
    | deref p => simpa [Stmt.exec] using ha

/-- After a statement sequence that contains `*p = 0;` the object `p` points to is zero. -/
theorem execStmts_storeZero (env : Env) (l : List Stmt) (h : Heap) (p : Param)
    (hp : Stmt.storeZero p ∈ l) : execStmts env l h (env p).addr = 0 := by
  induction l generalizing h with
  | nil => simp at hp
  | cons s rest ih =>
    simp only [execStmts]
    rcases List.mem_cons.1 hp with hs | hr
    · apply execStmts_keeps_zero
      subst hs
      simp [Stmt.exec, Heap.store]
    · exact ih _ hr

/-- A statement sequence without a store leaves the heap as it is. -/
theorem execStmts_no_store (env : Env) (l : List Stmt) (h : Heap)
    (hl : ∀ s ∈ l, ∀ p, s ≠ Stmt.storeZero p) : execStmts env l h = h := by
  induction l generalizing h with
  | nil => rfl
  | cons s rest ih =>
    simp only [execStmts]
    have hs : s.exec env h = h := by
      cases s with
      | storeZero p => exact absurd rfl (hl _ (List.mem_cons_self _ _) p)
      | deref p => rfl
    rw [hs]
    exact ih h (fun s1 h1 => hl s1 (List.mem_cons_of_mem _ h1))

/-- Every transcribed wrapper has the common shape. -/
theorem wrappers_wf {w : Wrapper} (hw : w ∈ wrappers) : w.wf = true := by
  have h : wrappers.all Wrapper.wf = true := by decide!
  exact List.all_eq_true.1 h w hw

/-- An `int` expression whose exact value is in the range of `int` has that value. -/
theorem wrapInt_eq {x : Int} (h0 : -2147483648 ≤ x) (h1 : x ≤ 2147483647) : wrapInt x = x := by
  unfold wrapInt
  rw [Int.emod_eq_of_lt (by linarith) (by linarith)]
  ring

/-- The index expression has its exact value when that is in the range of `int`. -/
theorem intIndex_eq {i j ld : Int} (hi : 0 ≤ i) (hj : 0 ≤ j) (hld : 0 ≤ ld)
    (h : i + j * ld ≤ INT_MAX) : intIndex i j ld = i + j * ld := by
  have h0 : 0 ≤ j * ld := mul_nonneg hj hld
  have h1 : i + j * ld ≤ 2147483647 := h
  have e : wrapInt (j * ld) = j * ld := wrapInt_eq (by linarith) (by linarith)
  unfold intIndex
  rw [e]
  exact wrapInt_eq (by linarith) h1

/-- A left fold in `Option` over `List.range n` whose steps succeed and keep an invariant
succeeds, with the invariant. -/
theorem foldlM_range_inv {σ : Type} (f : σ → Nat → Option σ) (Inv : Nat → σ → Prop) (n : Nat)
    (s : σ) (h0 : Inv 0 s)
    (hstep : ∀ k s, k < n → Inv k s → ∃ s2, f s k = some s2 ∧ Inv (k + 1) s2) :
    ∃ r, (List.range n).foldlM f s = some r ∧ Inv n r := by
  induction n with
  | zero => exact ⟨s, rfl, h0⟩
  | succ n ih =>
    obtain ⟨r1, hr1, hi1⟩ := ih (fun k s hk => hstep k s (Nat.lt_succ_of_lt hk))
    obtain ⟨r2, hr2, hi2⟩ := hstep n r1 (Nat.lt_succ_self n) hi1
    refine ⟨r2, ?_, hi2⟩
    rw [List.range_succ, List.foldlM_append, hr1]
    simp [hr2]

/-- The packed index of an entry of an `m`-by-`n` matrix is below `n * m`. -/
theorem packed_index_lt {m n i j : Nat} (hi : i < m) (hj : j < n) : i + j * m < n * m := by
  calc i + j * m < m + j * m := Nat.add_lt_add_right hi _
    _ = (j + 1) * m := by ring
    _ ≤ n * m := Nat.mul_le_mul_right m hj

/-- Distinct entries have distinct packed indices. -/
theorem packed_index_inj {m i j i2 j2 : Nat} (hi : i < m) (hi2 : i2 < m)
    (h : i + j * m = i2 + j2 * m) : i = i2 ∧ j = j2 := by
  have h1 : (i + j * m) % m = i := by
    rw [Nat.add_mul_mod_self_right, Nat.mod_eq_of_lt hi]
  have h2 : (i2 + j2 * m) % m = i2 := by
    rw [Nat.add_mul_mod_self_right, Nat.mod_eq_of_lt hi2]
  have hii : i = i2 := by rw [← h1, ← h2, h]
  subst hii
  have hm : 0 < m := Nat.lt_of_le_of_lt (Nat.zero_le _) hi
  exact ⟨rfl, Nat.eq_of_mul_eq_mul_right hm (Nat.add_left_cancel h)⟩

/-- The packed index of the entry `(i, j)` as a natural number. -/
theorem packed_index_toNat (i j m : Nat) : ((i : Int) + (j : Int) * (m : Int)).toNat = i + j * m := by
  have : ((i : Int) + (j : Int) * (m : Int)) = ((i + j * m : Nat) : Int) := by push_cast; rfl
  rw [this, Int.toNat_ofNat]

/-- The packed index expression of an entry, evaluated in `int`, when `n * m` is in the
range of `int`. -/
theorem packed_intIndex {m n i j : Nat} (hi : i < m) (hj : j < n)
    (hfit : ((n : Int) * (m : Int)) ≤ INT_MAX) :
    intIndex (i : Int) (j : Int) (m : Int) = (i : Int) + (j : Int) * (m : Int) := by
  have hlt : ((i + j * m : Nat) : Int) < ((n * m : Nat) : Int) :=
    Int.ofNat_lt.2 (packed_index_lt hi hj)
  push_cast at hlt
  exact intIndex_eq (Int.ofNat_nonneg i) (Int.ofNat_nonneg j) (Int.ofNat_nonneg m)
    (le_trans (le_of_lt hlt) hfit)

/-- The buffers after the loop nest of `norm_error`, when `n * m` is in the range of `int`:
every write is inside the vectors, the lengths are kept and the entry `(i, j)` holds the
converted element of `gold`, respectively of `comp`, at the index the source computes. -/
theorem packBuffers_spec {T D : Type} (conv : T → D) (m n : Nat) (lda_gold lda_comp : Int)
    (gold comp : Int → T) (b : List D × List D) (hfit : ((n : Int) * (m : Int)) ≤ INT_MAX)
    (h1 : b.1.length = n * m) (h2 : b.2.length = n * m) :
    ∃ r, packBuffers conv m n m lda_gold lda_comp gold comp b = some r ∧
      r.1.length = n * m ∧ r.2.length = n * m ∧
      ∀ i j : Nat, i < m → j < n →
        r.1[i + j * m]? = some (conv (gold (intIndex i j lda_gold))) ∧
        r.2[i + j * m]? = some (conv (comp (intIndex i j lda_comp))) := by
  let ok : List D × List D → Nat → Nat → Prop := fun r i j =>
    r.1[i + j * m]? = some (conv (gold (intIndex i j lda_gold))) ∧
    r.2[i + j * m]? = some (conv (comp (intIndex i j lda_comp)))
  have hstep : ∀ (i0 j0 : Nat) (r : List D × List D), i0 < m → j0 < n →
      r.1.length = n * m → r.2.length = n * m →
      ∃ r2, packStep conv m lda_gold lda_comp gold comp i0 j0 r = some r2 ∧
        r2.1.length = n * m ∧ r2.2.length = n * m ∧ ok r2 i0 j0 ∧
        ∀ i j : Nat, i < m → ok r i j → ok r2 i j := by
    intro i0 j0 r hi0 hj0 hr1 hr2
    have hlt := packed_index_lt hi0 hj0
    have hidx := packed_intIndex hi0 hj0 hfit
    have hnn : (0 : Int) ≤ (i0 : Int) + (j0 : Int) * (m : Int) :=
      add_nonneg (Int.ofNat_nonneg i0) (mul_nonneg (Int.ofNat_nonneg j0) (Int.ofNat_nonneg m))
    have hcond : 0 ≤ intIndex (i0 : Int) (j0 : Int) (m : Int) ∧
        (intIndex (i0 : Int) (j0 : Int) (m : Int)).toNat < r.1.length ∧
        (intIndex (i0 : Int) (j0 : Int) (m : Int)).toNat < r.2.length := by
      rw [hidx, packed_index_toNat, hr1, hr2]
      exact ⟨hnn, hlt, hlt⟩
    refine ⟨_, by rw [packStep, if_pos hcond], ?_, ?_, ?_, ?_⟩
    · simp [hr1]
    · simp [hr2]
    · simp only [ok, hidx, packed_index_toNat]
      constructor
      · rw [List.getElem?_set_self (by rw [hr1]; exact hlt)]
      · rw [List.getElem?_set_self (by rw [hr2]; exact hlt)]
    · intro i j hi hok
      by_cases he : i0 + j0 * m = i + j * m
      · obtain ⟨e1, e2⟩ := packed_index_inj hi0 hi he
        subst e1
        subst e2
        simp only [ok, hidx, packed_index_toNat]
        constructor
        · rw [List.getElem?_set_self (by rw [hr1]; exact hlt)]
        · rw [List.getElem?_set_self (by rw [hr2]; exact hlt)]
      · simp only [ok, hidx, packed_index_toNat]
        constructor
        · rw [List.getElem?_set_ne he]
          exact hok.1
        · rw [List.getElem?_set_ne he]
          exact hok.2
  have houter := foldlM_range_inv
    (fun (s : List D × List D) (i : Nat) => forLoopM (n : Int)
      (fun j b => packStep conv m lda_gold lda_comp gold comp (i : Int) j b) s)
    (fun i0 r => r.1.length = n * m ∧ r.2.length = n * m ∧
      ∀ i j : Nat, i < i0 → j < n → ok r i j) m b
    ⟨h1, h2, fun i j hi => absurd hi (Nat.not_lt_zero i)⟩
    (by
      intro i0 s hi0 ⟨hs1, hs2, hs⟩
      have hinner := foldlM_range_inv
        (fun (s : List D × List D) (j : Nat) =>
          packStep conv m lda_gold lda_comp gold comp (i0 : Int) (j : Int) s)
        (fun j0 r => r.1.length = n * m ∧ r.2.length = n * m ∧
          (∀ i j : Nat, i < i0 → j < n → ok r i j) ∧ ∀ j : Nat, j < j0 → ok r i0 j) n s
        ⟨hs1, hs2, hs, fun j hj => absurd hj (Nat.not_lt_zero j)⟩
        (by
          intro j0 r hj0 ⟨hr1, hr2, hold, hrow⟩
          obtain ⟨r2, hr2eq, hl1, hl2, hnew, hkeep⟩ := hstep i0 j0 r hi0 hj0 hr1 hr2
          refine ⟨r2, hr2eq, hl1, hl2, ?_, ?_⟩
          · intro i j hi hj
            exact hkeep i j (Nat.lt_trans hi hi0) (hold i j hi hj)
          · intro j hj
            rcases Nat.lt_succ_iff_lt_or_eq.1 hj with hlt | heq
            · exact hkeep i0 j hi0 (hrow j hlt)
            · rw [heq]
              exact hnew)
      obtain ⟨r, hreq, hr1, hr2, hold, hrow⟩ := hinner
      refine ⟨r, ?_, hr1, hr2, ?_⟩
      · simpa [forLoopM] using hreq
      · intro i j hi hj
        rcases Nat.lt_succ_iff_lt_or_eq.1 hi with hlt | heq
        · exact hold i j hlt hj
        · rw [heq]
          exact hrow j hj)
  obtain ⟨r, hreq, hr1, hr2, hall⟩ := houter
  refine ⟨r, ?_, hr1, hr2, hall⟩
  simpa [packBuffers, forLoopM] using hreq

/-- A left fold over a flattened list is the nested left fold. -/
theorem foldl_flatMap_nest {α β σ : Type} (f : σ → β → σ) (L : α → List β) (l : List α) (s : σ) :
    (l.flatMap L).foldl f s = l.foldl (fun s x => (L x).foldl f s) s := by
  induction l generalizing s with
  | nil => rfl
  | cons x rest ih => simp [List.flatMap_cons, List.foldl_append, ih]

/-- A loop nest of norm.hpp executes its body once for every pair of `indexPairs`, in that
order. -/
theorem forLoop_nest {σ : Type} (M N : rocblas_int) (body : rocblas_int → rocblas_int → σ → σ)
    (s : σ) :
    forLoop M (fun i s => forLoop N (fun j s => body i j s) s) s =
      (indexPairs M N).foldl (fun s p => body p.1 p.2 s) s := by
  simp only [forLoop, indexPairs, foldl_flatMap_nest, List.foldl_map]

/-- The pairs of the iteration space. -/
theorem mem_indexPairs (M N : rocblas_int) (p : rocblas_int × rocblas_int) :
    p ∈ indexPairs M N ↔ (0 ≤ p.1 ∧ p.1 < M ∧ 0 ≤ p.2 ∧ p.2 < N) := by
  obtain ⟨i, j⟩ := p
  simp only [indexPairs, List.mem_flatMap, List.mem_map, List.mem_range, Prod.mk.injEq]
  constructor
  · rintro ⟨a, ha, b, hb, rfl, rfl⟩
    exact ⟨Int.ofNat_nonneg a, Int.lt_toNat.1 ha, Int.ofNat_nonneg b, Int.lt_toNat.1 hb⟩
  · rintro ⟨hi0, hi, hj0, hj⟩
    obtain ⟨a, rfl⟩ := Int.eq_ofNat_of_zero_le hi0
    obtain ⟨b, rfl⟩ := Int.eq_ofNat_of_zero_le hj0
    exact ⟨a, Int.lt_toNat.2 hi, b, Int.lt_toNat.2 hj, rfl, rfl⟩

/-- Distinct entries of a matrix with leading dimension at least the row count have
distinct positions. -/
theorem position_inj {M lda i j i2 j2 : Int} (hlda : M ≤ lda) (hi0 : 0 ≤ i) (hi : i < M)
    (hi20 : 0 ≤ i2) (hi2 : i2 < M) (h : i + j * lda = i2 + j2 * lda) : i = i2 ∧ j = j2 := by
  have h1 : (i + j * lda) % lda = i := by
    rw [Int.add_mul_emod_self, Int.emod_eq_of_lt hi0 (lt_of_lt_of_le hi hlda)]
  have h2 : (i2 + j2 * lda) % lda = i2 := by
    rw [Int.add_mul_emod_self, Int.emod_eq_of_lt hi20 (lt_of_lt_of_le hi2 hlda)]
  have hii : i = i2 := by rw [← h1, ← h2, h]
  subst hii
  have hpos : (0 : Int) < lda := lt_of_le_of_lt hi0 (lt_of_lt_of_le hi hlda)
  exact ⟨rfl, Int.eq_of_mul_eq_mul_right (ne_of_gt hpos) (add_left_cancel h)⟩

/-- The arrays after the zeroing loop nest: a position that the nest addresses under its
condition holds `z`, every other position is as before. -/
theorem zeroWhere_spec {T : Type} (cond : rocblas_int → rocblas_int → Bool) (z : T)
    (M N lda : rocblas_int) (a : (rocblas_int → T) × (rocblas_int → T)) (k : rocblas_int) :
    ((∃ i j : rocblas_int, 0 ≤ i ∧ i < M ∧ 0 ≤ j ∧ j < N ∧ cond i j = true ∧ k = intIndex i j lda) →
      (zeroWhere cond z M N lda a).1 k = z ∧ (zeroWhere cond z M N lda a).2 k = z) ∧
    ((¬ ∃ i j : rocblas_int, 0 ≤ i ∧ i < M ∧ 0 ≤ j ∧ j < N ∧ cond i j = true ∧ k = intIndex i j lda) →
      (zeroWhere cond z M N lda a).1 k = a.1 k ∧ (zeroWhere cond z M N lda a).2 k = a.2 k) := by
  have key : ∀ (L : List (rocblas_int × rocblas_int)) (a : (rocblas_int → T) × (rocblas_int → T)),
      ((∃ p ∈ L, cond p.1 p.2 = true ∧ k = intIndex p.1 p.2 lda) →
        (L.foldl (fun a p => zeroStep cond z lda p.1 p.2 a) a).1 k = z ∧
        (L.foldl (fun a p => zeroStep cond z lda p.1 p.2 a) a).2 k = z) ∧
      ((¬ ∃ p ∈ L, cond p.1 p.2 = true ∧ k = intIndex p.1 p.2 lda) →
        (L.foldl (fun a p => zeroStep cond z lda p.1 p.2 a) a).1 k = a.1 k ∧
        (L.foldl (fun a p => zeroStep cond z lda p.1 p.2 a) a).2 k = a.2 k) := by
    intro L
    induction L with
    | nil =>
      intro a
      simp
    | cons p rest ih =>
      intro a
      simp only [List.foldl_cons]
      obtain ⟨ih1, ih2⟩ := ih (zeroStep cond z lda p.1 p.2 a)
      by_cases hr : ∃ q ∈ rest, cond q.1 q.2 = true ∧ k = intIndex q.1 q.2 lda
      · refine ⟨fun _ => ih1 hr, fun hn => ?_⟩
        exact absurd (by obtain ⟨q, hq, hc⟩ := hr; exact ⟨q, List.mem_cons_of_mem _ hq, hc⟩) hn
      · obtain ⟨e1, e2⟩ := ih2 hr
        rw [e1, e2]
        by_cases hp : cond p.1 p.2 = true ∧ k = intIndex p.1 p.2 lda
        · refine ⟨fun _ => ?_, fun hn => absurd ⟨p, List.mem_cons_self _ _, hp⟩ hn⟩
          simp [zeroStep, hp.1, ← hp.2]
        · refine ⟨fun hex => ?_, fun _ => ?_⟩
          · obtain ⟨q, hq, hc⟩ := hex
            rcases List.mem_cons.1 hq with rfl | hq2
            · exact absurd hc hp
            · exact absurd ⟨q, hq2, hc⟩ hr
          · by_cases hc : cond p.1 p.2 = true
            · have hk : ¬ k = intIndex p.1 p.2 lda := fun e => hp ⟨hc, e⟩
              simp [zeroStep, hc, hk]
            · simp [zeroStep, hc]
  have hex : (∃ p ∈ indexPairs M N, cond p.1 p.2 = true ∧ k = intIndex p.1 p.2 lda) ↔
      ∃ i j : rocblas_int, 0 ≤ i ∧ i < M ∧ 0 ≤ j ∧ j < N ∧ cond i j = true ∧ k = intIndex i j lda := by
    constructor
    · rintro ⟨p, hp, hc, hk⟩
      obtain ⟨h1, h2, h3, h4⟩ := (mem_indexPairs M N p).1 hp
      exact ⟨p.1, p.2, h1, h2, h3, h4, hc, hk⟩
    · rintro ⟨i, j, h1, h2, h3, h4, hc, hk⟩
      exact ⟨(i, j), (mem_indexPairs M N (i, j)).2 ⟨h1, h2, h3, h4⟩, hc, hk⟩
  have hz : zeroWhere cond z M N lda a =
      (indexPairs M N).foldl (fun a p => zeroStep cond z lda p.1 p.2 a) a := by
    unfold zeroWhere
    exact forLoop_nest M N (fun i j a => zeroStep cond z lda i j a) a
  rw [hz, ← hex]
  exact key (indexPairs M N) a

/-- The two buffers of `norm_error` are equal when `gold` and `comp` agree, after
conversion, at every entry of the index set. -/
theorem packBuffers_eq_of_agree {T D : Type} (conv : T → D) (m n : Nat)
    (lda_gold lda_comp : Int) (gold comp : Int → T) (z : D)
    (hfit : ((n : Int) * (m : Int)) ≤ INT_MAX)
    (h : ∀ i j : Nat, i < m → j < n →
      conv (gold (intIndex i j lda_gold)) = conv (comp (intIndex i j lda_comp))) :
    ∃ r, packBuffers conv m n m lda_gold lda_comp gold comp
        (List.replicate (n * m) z, List.replicate (n * m) z) = some r ∧
      r.1.length = n * m ∧ r.2.length = n * m ∧ r.1 = r.2 := by
  obtain ⟨r, hr, h1, h2, hent⟩ := packBuffers_spec conv m n lda_gold lda_comp gold comp
    (List.replicate (n * m) z, List.replicate (n * m) z) hfit (by simp) (by simp)
  refine ⟨r, hr, h1, h2, ?_⟩
  apply List.ext_getElem?
  intro k
  by_cases hk : k < n * m
  · have hm : 0 < m := by
      rcases Nat.eq_zero_or_pos m with h0 | hp
      · rw [h0] at hk
        exact absurd hk (Nat.not_lt_zero k)
      · exact hp
    have hi : k % m < m := Nat.mod_lt k hm
    have hj : k / m < n := Nat.div_lt_of_lt_mul (by rw [Nat.mul_comm]; exact hk)
    have hkk : k % m + k / m * m = k := by
      rw [Nat.mul_comm]
      exact Nat.mod_add_div k m
    obtain ⟨e1, e2⟩ := hent (k % m) (k / m) hi hj
    rw [hkk] at e1 e2
    rw [e1, e2, h (k % m) (k / m) hi hj]
  · rw [List.getElem?_eq_none (by rw [h1]; exact Nat.le_of_not_lt hk),
      List.getElem?_eq_none (by rw [h2]; exact Nat.le_of_not_lt hk)]

/-- The value of `norm_error` once the loop nest has filled the buffers `r`, for dimensions
whose product is in the range of `int`. -/
theorem norm_error_of_buffers {T D R : Type} (E : NormEnv T D R) (norm_type : Char) (m n : Nat)
    (lda_gold lda_comp : Int) (gold comp : Int → T) (hfit : ((n : Int) * (m : Int)) ≤ INT_MAX)
    (r : List D × List D)
    (hr : packBuffers E.toDouble m n m lda_gold (if lda_comp > 0 then lda_comp else lda_gold)
      gold comp (List.replicate (n * m) E.zero, List.replicate (n * m) E.zero) = some r) :
    norm_error E norm_type m n lda_gold gold comp lda_comp =
      some (if E.gtZero (E.xlange norm_type m n r.1 m) = true
        then E.div (E.xlange norm_type m n (E.xaxpy ((m : Int) * (n : Int)) E.minusOne r.1 1 r.2 1) m)
          (E.xlange norm_type m n r.1 m)
        else E.xlange norm_type m n (E.xaxpy ((m : Int) * (n : Int)) E.minusOne r.1 1 r.2 1) m) := by
  have hnn : (0 : Int) ≤ (n : Int) * (m : Int) :=
    mul_nonneg (Int.ofNat_nonneg n) (Int.ofNat_nonneg m)
  have hfit2 : (n : Int) * (m : Int) ≤ 2147483647 := hfit
  have hw : wrapInt ((n : Int) * (m : Int)) = (n : Int) * (m : Int) :=
    wrapInt_eq (by linarith) hfit2
  have hw2 : wrapInt ((m : Int) * (n : Int)) = (m : Int) * (n : Int) := by
    rw [mul_comm (m : Int) (n : Int)]
    exact hw
  have hsz : ((n : Int) * (m : Int)).toNat = n * m := by
    have : ((n : Int) * (m : Int)) = ((n * m : Nat) : Int) := by push_cast; rfl
    rw [this, Int.toNat_ofNat]
  have hneg : ¬ ((n : Int) * (m : Int) < 0) := not_lt.2 hnn
  have hmm : ¬ ((m : Int) < 0) := not_lt.2 (Int.ofNat_nonneg m)
  unfold norm_error
  simp only [hw, hw2, hneg, hmm, if_false, hsz, hr]

/-! ## The selector function `api2marshal` -/

/-- C1: `api2marshal` returns the documented code for each of the six valid pairs:
`(API_NORMAL, false)` gives `C_NORMAL`, `(API_NORMAL, true)` gives `C_NORMAL_ALT`,
`(API_FORTRAN, false)` gives `FORTRAN_NORMAL`, `(API_FORTRAN, true)` gives
`FORTRAN_NORMAL_ALT`, `(API_COMPAT, false)` gives `COMPAT_NORMAL` and `(API_COMPAT, true)`
gives `COMPAT_NORMAL_ALT`. -/
theorem api2marshal_valid_pairs :
    api2marshal API_NORMAL false = C_NORMAL ∧
    api2marshal API_NORMAL true = C_NORMAL_ALT ∧
    api2marshal API_FORTRAN false = FORTRAN_NORMAL ∧
    api2marshal API_FORTRAN true = FORTRAN_NORMAL_ALT ∧
    api2marshal API_COMPAT false = COMPAT_NORMAL ∧
    api2marshal API_COMPAT true = COMPAT_NORMAL_ALT := by
  decide

/-- C2: for every `testAPI_t` value other than `API_NORMAL`, `API_FORTRAN` and `API_COMPAT`
(any out-of-range integer held in the enumeration) and both values of `ALT`, `api2marshal`
returns `INVALID_API_SPEC`; and for every input whatsoever the result is exactly one of the
seven `testMarshal_t` codes. -/
theorem api2marshal_invalid_and_total :
    (∀ (API : testAPI_t) (ALT : Bool), API ≠ API_NORMAL → API ≠ API_FORTRAN →
      API ≠ API_COMPAT → api2marshal API ALT = INVALID_API_SPEC) ∧
    (∀ (API : testAPI_t) (ALT : Bool), ∃! m, m ∈ marshalCodes ∧ api2marshal API ALT = m) ∧
    marshalCodes.Nodup ∧ marshalCodes.length = 7 := by
  refine ⟨api2marshal_of_invalid, ?_, by decide, by decide⟩
  intro API ALT
  refine ⟨api2marshal API ALT, ⟨?_, rfl⟩, fun m hm => hm.2.symm⟩
  cases api2marshal API ALT <;> decide

/-- C2, at concrete inputs: the out-of-range selectors `3` and `-1` give
`INVALID_API_SPEC` for either flag value. -/
theorem api2marshal_invalid_and_total_witness :
    api2marshal 3 true = INVALID_API_SPEC ∧ api2marshal (-1) false = INVALID_API_SPEC :=
  ⟨api2marshal_invalid_and_total.1 3 true (by decide) (by decide) (by decide),
   api2marshal_invalid_and_total.1 (-1) false (by decide) (by decide) (by decide)⟩

/-! ## Unrecognized selectors and unsupported combinations -/

/-- C3: for every wrapper overload of hipsolver.hpp (bufferSize and solve wrappers of every
routine family) and every `API` value other than `API_NORMAL`, `API_FORTRAN` and
`API_COMPAT`, with any value of the alternate flag, the wrapper returns
`HIPSOLVER_STATUS_NOT_SUPPORTED` and invokes no external routine. -/
theorem wrapper_invalid_api_not_supported (w : Wrapper) (hw : w ∈ wrappers)
    (API : testAPI_t) (h0 : API ≠ API_NORMAL) (h1 : API ≠ API_FORTRAN) (h2 : API ≠ API_COMPAT)
    (ALT : Bool) (E : ExtLib) (env : Env) (h : Heap) :
    (w.run E API ALT env h).status = HIPSOLVER_STATUS_NOT_SUPPORTED ∧
      (w.run E API ALT env h).calls = [] := by
  have hwf := wrappers_wf hw
  rw [Wrapper.run_of_target_none hwf (Wrapper.target_of_invalid hwf API ALT h0 h1 h2)]
  exact ⟨rfl, rfl⟩

/-- C3, at a concrete input: `hipsolver_gesvdj` (float overload) called with the selector
value `7` and `STRIDED = true`. -/
theorem wrapper_invalid_api_not_supported_witness :
    hipsolver_gesvdj_float ∈ wrappers ∧ (7 : testAPI_t) ≠ API_NORMAL ∧
    (7 : testAPI_t) ≠ API_FORTRAN ∧ (7 : testAPI_t) ≠ API_COMPAT ∧
    (hipsolver_gesvdj_float.run idleLib 7 true sampleEnv sampleHeap).status
      = HIPSOLVER_STATUS_NOT_SUPPORTED ∧
    (hipsolver_gesvdj_float.run idleLib 7 true sampleEnv sampleHeap).calls = [] :=
  ⟨by decide!, by decide, by decide, by decide,
   wrapper_invalid_api_not_supported hipsolver_gesvdj_float (by decide!) 7 (by decide)
     (by decide) (by decide) true idleLib sampleEnv sampleHeap⟩

/-- C4 as stated fails: `hipsolver_orgbr_ungbr_bufferSize` (float overload) has no
forwarding target for `API_COMPAT`, it returns `HIPSOLVER_STATUS_NOT_SUPPORTED` without an
external call, and its output size parameter `lwork` still points to the value `5` it
pointed to before the call, not to zero. -/
theorem bufferSize_unsupported_zero_counterexample :
    hipsolver_orgbr_ungbr_bufferSize_float ∈ wrappers ∧
    hipsolver_orgbr_ungbr_bufferSize_float.isBufferSize = true ∧
    Param.lwork ∈ hipsolver_orgbr_ungbr_bufferSize_float.sizeParams ∧
    hipsolver_orgbr_ungbr_bufferSize_float.target API_COMPAT false = none ∧
    (hipsolver_orgbr_ungbr_bufferSize_float.run idleLib API_COMPAT false sampleEnv
      sampleHeap).status = HIPSOLVER_STATUS_NOT_SUPPORTED ∧
    (hipsolver_orgbr_ungbr_bufferSize_float.run idleLib API_COMPAT false sampleEnv
      sampleHeap).calls = [] ∧
    (hipsolver_orgbr_ungbr_bufferSize_float.run idleLib API_COMPAT false sampleEnv
      sampleHeap).heap (sampleEnv .lwork).addr = 5 := by
  refine ⟨by decide!, by decide!, by decide!, by decide!, by decide!, by decide!, by decide!⟩

/-- The unsupported path of the listed `bufferSize` wrappers stores zero through every
output size parameter. -/
theorem zeroing_table {w : Wrapper} (hw : w ∈ wrappers)
    (hn : w.name ∈ zeroingBufferSizeWrappers) {p : Param} (hp : p ∈ w.sizeParams) :
    Stmt.storeZero p ∈ w.unsupportedStmts := by
  have h : wrappers.all (fun w => !decide (w.name ∈ zeroingBufferSizeWrappers)
      || w.sizeParams.all fun p => decide (Stmt.storeZero p ∈ w.unsupportedStmts)) = true := by
    decide!
  have hw1 := List.all_eq_true.1 h w hw
  simp only [hn, Bool.not_true, decide_True, Bool.false_or, List.all_eq_true,
    decide_eq_true_eq] at hw1
  exact hw1 p hp

/-- C4, amended: for every `*_bufferSize` wrapper and every `(API, flag)` combination for
which it has no forwarding target, the returned status is `HIPSOLVER_STATUS_NOT_SUPPORTED`
and no external routine is invoked; and for the `bufferSize` wrappers of gels, geqrf, gesvd,
getrf, getrs, potrf and potrs every output size parameter (`lwork`, or `lworkOnDevice` and
`lworkOnHost`) points to zero on return. -/
theorem bufferSize_unsupported_amended (w : Wrapper) (hw : w ∈ wrappers)
    (_hb : w.isBufferSize = true) (API : testAPI_t) (ALT : Bool)
    (ht : w.target API ALT = none) (E : ExtLib) (env : Env) (h : Heap) :
    (w.run E API ALT env h).status = HIPSOLVER_STATUS_NOT_SUPPORTED ∧
    (w.run E API ALT env h).calls = [] ∧
    (w.name ∈ zeroingBufferSizeWrappers →
      ∀ p ∈ w.sizeParams, (w.run E API ALT env h).heap (env p).addr = 0) := by
  rw [Wrapper.run_of_target_none (wrappers_wf hw) ht]
  refine ⟨rfl, rfl, fun hn p hp => ?_⟩
  show execStmts env w.dflt.stmts (execStmts env w.pre h) (env p).addr = 0
  rw [← execStmts_append]
  exact execStmts_storeZero env _ h p (zeroing_table hw hn hp)

/-- C4, amended, at a concrete input: the `int64_t` overload of `hipsolver_geqrf_bufferSize`
(float) called with `API_NORMAL`, for which it has no forwarding target; both size
parameters point to zero afterwards although every object held `5` before. -/
theorem bufferSize_unsupported_amended_witness :
    hipsolver_geqrf_bufferSize_float_int64_t ∈ wrappers ∧
    hipsolver_geqrf_bufferSize_float_int64_t.isBufferSize = true ∧
    hipsolver_geqrf_bufferSize_float_int64_t.target API_NORMAL false = none ∧
    hipsolver_geqrf_bufferSize_float_int64_t.sizeParams = [Param.lworkOnDevice, Param.lworkOnHost] ∧
    ((hipsolver_geqrf_bufferSize_float_int64_t.run idleLib API_NORMAL false sampleEnv
        sampleHeap).status = HIPSOLVER_STATUS_NOT_SUPPORTED ∧
     (hipsolver_geqrf_bufferSize_float_int64_t.run idleLib API_NORMAL false sampleEnv
        sampleHeap).calls = [] ∧
     (hipsolver_geqrf_bufferSize_float_int64_t.name ∈ zeroingBufferSizeWrappers →
        ∀ p ∈ hipsolver_geqrf_bufferSize_float_int64_t.sizeParams,
          (hipsolver_geqrf_bufferSize_float_int64_t.run idleLib API_NORMAL false sampleEnv
            sampleHeap).heap (sampleEnv p).addr = 0)) :=
  ⟨by decide!, by decide!, by decide!, by decide!,
   bufferSize_unsupported_amended hipsolver_geqrf_bufferSize_float_int64_t (by decide!)
     (by decide!) API_NORMAL false (by decide!) idleLib sampleEnv sampleHeap⟩

/-- C5, evaluated on the code: each of the four `hipsolver_gesv_bufferSize` overloads,
called with the unrecognized selector `3` while `*lwork` holds `5`, returns
`HIPSOLVER_STATUS_NOT_SUPPORTED` without an external call and leaves `*lwork` at `5`: the
statement in its `default` block is `*lwork;`, not `*lwork = 0;`. -/
theorem gesv_bufferSize_invalid_api_keeps_lwork :
    wrappers.filter (fun w => decide (w.name = "hipsolver_gesv_bufferSize")) =
      [hipsolver_gesv_bufferSize_float, hipsolver_gesv_bufferSize_double,
       hipsolver_gesv_bufferSize_hipsolverComplex,
       hipsolver_gesv_bufferSize_hipsolverDoubleComplex] ∧
    hipsolver_gesv_bufferSize_float.dflt.stmts = [Stmt.deref .lwork] ∧
    sampleHeap (sampleEnv .lwork).addr = 5 ∧
    (hipsolver_gesv_bufferSize_float.run idleLib 3 false sampleEnv sampleHeap).status
      = HIPSOLVER_STATUS_NOT_SUPPORTED ∧
    (hipsolver_gesv_bufferSize_float.run idleLib 3 false sampleEnv sampleHeap).calls = [] ∧
    (hipsolver_gesv_bufferSize_float.run idleLib 3 false sampleEnv sampleHeap).heap
      (sampleEnv .lwork).addr = 5 ∧
    (hipsolver_gesv_bufferSize_double.run idleLib 3 false sampleEnv sampleHeap).heap
      (sampleEnv .lwork).addr = 5 ∧
    (hipsolver_gesv_bufferSize_hipsolverComplex.run idleLib 3 false sampleEnv sampleHeap).heap
      (sampleEnv .lwork).addr = 5 ∧
    (hipsolver_gesv_bufferSize_hipsolverDoubleComplex.run idleLib 3 false sampleEnv
      sampleHeap).heap (sampleEnv .lwork).addr = 5 := by
  refine ⟨by decide!, by decide!, by decide!, by decide!, by decide!, by decide!, by decide!,
    by decide!, by decide!⟩

/-! ## Forwarding -/

/-- C7: for every wrapper of hipsolver.hpp and every input at most one external routine is
invoked; when one is invoked the wrapper returns exactly the status that routine returned
(and leaves the heap that routine left), and when none is invoked the wrapper returns
`HIPSOLVER_STATUS_NOT_SUPPORTED`. -/
theorem wrapper_at_most_one_call (w : Wrapper) (hw : w ∈ wrappers) (E : ExtLib)
    (API : testAPI_t) (ALT : Bool) (env : Env) (h : Heap) :
    ((w.run E API ALT env h).calls = [] ∧
      (w.run E API ALT env h).status = HIPSOLVER_STATUS_NOT_SUPPORTED) ∨
    (∃ f vs, (w.run E API ALT env h).calls = [⟨f, vs⟩] ∧
      (w.run E API ALT env h).status = (E f vs (execStmts env w.pre h)).1 ∧
      (w.run E API ALT env h).heap = (E f vs (execStmts env w.pre h)).2) := by
  have hwf := wrappers_wf hw
  cases ht : w.target API ALT with
  | none =>
    left
    rw [Wrapper.run_of_target_none hwf ht]
    exact ⟨rfl, rfl⟩
  | some t =>
    obtain ⟨f, args⟩ := t
    right
    rw [Wrapper.run_of_target_some hwf ht]
    exact ⟨f, args.map (Arg.eval env), rfl, rfl, rfl⟩

/-- C7, at a concrete input: `hipsolver_getrs` (float, `int` overload) under `API_COMPAT`
against a library whose every entry point returns the status with code `0`. -/
theorem wrapper_at_most_one_call_witness :
    hipsolver_getrs_float ∈ wrappers ∧
    (hipsolver_getrs_float.run idleLib API_COMPAT false sampleEnv sampleHeap).calls.length = 1 ∧
    (hipsolver_getrs_float.run idleLib API_COMPAT false sampleEnv sampleHeap).status
      = hipsolverStatus_t.other 0 ∧
    (((hipsolver_getrs_float.run idleLib API_COMPAT false sampleEnv sampleHeap).calls = [] ∧
      (hipsolver_getrs_float.run idleLib API_COMPAT false sampleEnv sampleHeap).status
        = HIPSOLVER_STATUS_NOT_SUPPORTED) ∨
     (∃ f vs,
      (hipsolver_getrs_float.run idleLib API_COMPAT false sampleEnv sampleHeap).calls
        = [⟨f, vs⟩] ∧
      (hipsolver_getrs_float.run idleLib API_COMPAT false sampleEnv sampleHeap).status
        = (idleLib f vs (execStmts sampleEnv hipsolver_getrs_float.pre sampleHeap)).1 ∧
      (hipsolver_getrs_float.run idleLib API_COMPAT false sampleEnv sampleHeap).heap
        = (idleLib f vs (execStmts sampleEnv hipsolver_getrs_float.pre sampleHeap)).2)) :=
  ⟨by decide!, by decide!, by decide!,
   wrapper_at_most_one_call hipsolver_getrs_float (by decide!) idleLib API_COMPAT false
     sampleEnv sampleHeap⟩

/-- The forwarding targets of `hipsolver_gels` and `hipsolver_gesv` over the six valid
pairs. -/
theorem inplace_table {w : Wrapper} (hw : w ∈ wrappers)
    (hn : w.name = "hipsolver_gels" ∨ w.name = "hipsolver_gesv") :
    w.target API_FORTRAN true = none ∧ w.target API_COMPAT true = none ∧
    (w.target API_NORMAL false).isSome = true ∧ (w.target API_NORMAL true).isSome = true ∧
    (w.target API_FORTRAN false).isSome = true ∧ (w.target API_COMPAT false).isSome = true := by
  have h : wrappers.all (fun w =>
      !decide (w.name = "hipsolver_gels" ∨ w.name = "hipsolver_gesv") ||
      decide (w.target API_FORTRAN true = none ∧ w.target API_COMPAT true = none ∧
        (w.target API_NORMAL false).isSome = true ∧ (w.target API_NORMAL true).isSome = true ∧
        (w.target API_FORTRAN false).isSome = true ∧
        (w.target API_COMPAT false).isSome = true)) = true := by
    decide!
  have h1 := List.all_eq_true.1 h w hw
  simpa [hn] using h1

/-- A forwarding target means exactly one external call. -/
theorem Wrapper.calls_length_of_target {w : Wrapper} (hwf : w.wf = true) {API : testAPI_t}
    {ALT : Bool} (ht : (w.target API ALT).isSome = true) (E : ExtLib) (env : Env) (h : Heap) :
    (w.run E API ALT env h).calls.length = 1 := by
  obtain ⟨t, ht1⟩ := Option.isSome_iff_exists.1 ht
  obtain ⟨f, args⟩ := t
  rw [Wrapper.run_of_target_some hwf ht1]
  rfl

/-- C8: for `hipsolver_gels` and `hipsolver_gesv` (every type overload) the valid pairs
`(API_FORTRAN, INPLACE = true)` and `(API_COMPAT, INPLACE = true)` return
`HIPSOLVER_STATUS_NOT_SUPPORTED` without invoking any external routine, while each of the
other four valid pairs invokes exactly one external routine. -/
theorem gels_gesv_inplace_support (w : Wrapper) (hw : w ∈ wrappers)
    (hn : w.name = "hipsolver_gels" ∨ w.name = "hipsolver_gesv") (E : ExtLib) (env : Env)
    (h : Heap) :
    ((w.run E API_FORTRAN true env h).status = HIPSOLVER_STATUS_NOT_SUPPORTED ∧
      (w.run E API_FORTRAN true env h).calls = []) ∧
    ((w.run E API_COMPAT true env h).status = HIPSOLVER_STATUS_NOT_SUPPORTED ∧
      (w.run E API_COMPAT true env h).calls = []) ∧
    (w.run E API_NORMAL false env h).calls.length = 1 ∧
    (w.run E API_NORMAL true env h).calls.length = 1 ∧
    (w.run E API_FORTRAN false env h).calls.length = 1 ∧
    (w.run E API_COMPAT false env h).calls.length = 1 := by
  have hwf := wrappers_wf hw
  obtain ⟨hf, hc, h1, h2, h3, h4⟩ := inplace_table hw hn
  refine ⟨?_, ?_, Wrapper.calls_length_of_target hwf h1 E env h,
    Wrapper.calls_length_of_target hwf h2 E env h, Wrapper.calls_length_of_target hwf h3 E env h,
    Wrapper.calls_length_of_target hwf h4 E env h⟩
  · rw [Wrapper.run_of_target_none hwf hf]
    exact ⟨rfl, rfl⟩
  · rw [Wrapper.run_of_target_none hwf hc]
    exact ⟨rfl, rfl⟩

/-- C8, at a concrete input: the `hipsolverDoubleComplex` overload of `hipsolver_gesv`; the
overloads named `hipsolver_gels` and `hipsolver_gesv` are four each. -/
theorem gels_gesv_inplace_support_witness :
    (wrappers.filter fun w => decide (w.name = "hipsolver_gels")).length = 4 ∧
    (wrappers.filter fun w => decide (w.name = "hipsolver_gesv")).length = 4 ∧
    hipsolver_gesv_hipsolverDoubleComplex ∈ wrappers ∧
    (hipsolver_gesv_hipsolverDoubleComplex.run idleLib API_COMPAT true sampleEnv
      sampleHeap).calls = [] ∧
    (hipsolver_gesv_hipsolverDoubleComplex.run idleLib API_NORMAL true sampleEnv
      sampleHeap).calls.length = 1 :=
  ⟨by decide!, by decide!, by decide!,
   (gels_gesv_inplace_support hipsolver_gesv_hipsolverDoubleComplex (by decide!)
     (Or.inr (by decide!)) idleLib sampleEnv sampleHeap).2.1.2,
   (gels_gesv_inplace_support hipsolver_gesv_hipsolverDoubleComplex (by decide!)
     (Or.inr (by decide!)) idleLib sampleEnv sampleHeap).2.2.2.1⟩

/-- The `default` block of the wrappers of C9 stores zero through `lwork`. -/
theorem lwork_table {w : Wrapper} (hw : w ∈ wrappers) (hn : w.name ∈ lworkZeroingWrappers) :
    Stmt.storeZero .lwork ∈ w.dflt.stmts := by
  have h : wrappers.all (fun w => !decide (w.name ∈ lworkZeroingWrappers) ||
      decide (Stmt.storeZero .lwork ∈ w.dflt.stmts)) = true := by
    decide!
  have h1 := List.all_eq_true.1 h w hw
  simpa [hn] using h1

/-- C9: for `hipsolver_gels_bufferSize`, `hipsolver_gesvd_bufferSize`,
`hipsolver_getrs_bufferSize`, `hipsolver_potrf_bufferSize` (pointer and batched overloads)
and `hipsolver_potrs_bufferSize` (pointer and batched overloads), in every type overload:
whenever the wrapper returns `HIPSOLVER_STATUS_NOT_SUPPORTED` without an external call,
`*lwork` equals zero on return. -/
theorem bufferSize_listed_lwork_zero (w : Wrapper) (hw : w ∈ wrappers)
    (hn : w.name ∈ lworkZeroingWrappers) (E : ExtLib) (API : testAPI_t) (ALT : Bool)
    (env : Env) (h : Heap)
    (_hs : (w.run E API ALT env h).status = HIPSOLVER_STATUS_NOT_SUPPORTED)
    (hc : (w.run E API ALT env h).calls = []) :
    (w.run E API ALT env h).heap (env .lwork).addr = 0 := by
  have hwf := wrappers_wf hw
  cases ht : w.target API ALT with
  | some t =>
    obtain ⟨f, args⟩ := t
    rw [Wrapper.run_of_target_some hwf ht] at hc
    simp at hc
  | none =>
    rw [Wrapper.run_of_target_none hwf ht]
    exact execStmts_storeZero env _ _ .lwork (lwork_table hw hn)

/-- C9, at a concrete input: the batched float overload of `hipsolver_potrs_bufferSize`
under the valid selector `API_COMPAT`, for which it has no forwarding target; the 32
overloads concerned all take the parameter `lwork`. -/
theorem bufferSize_listed_lwork_zero_witness :
    (wrappers.filter fun w => decide (w.name ∈ lworkZeroingWrappers)).length = 32 ∧
    (wrappers.all fun w => !decide (w.name ∈ lworkZeroingWrappers) ||
      decide (w.sizeParams = [Param.lwork])) = true ∧
    hipsolver_potrs_bufferSize_float_batched ∈ wrappers ∧
    sampleHeap (sampleEnv .lwork).addr = 5 ∧
    (hipsolver_potrs_bufferSize_float_batched.run idleLib API_COMPAT false sampleEnv
      sampleHeap).heap (sampleEnv .lwork).addr = 0 :=
  ⟨by decide!, by decide!, by decide!, by decide!,
   bufferSize_listed_lwork_zero hipsolver_potrs_bufferSize_float_batched (by decide!)
     (by decide!) idleLib API_COMPAT false sampleEnv sampleHeap (by decide!) (by decide!)⟩

/-! ## The four type overloads -/

/-- Within a run of four: the element types are float, double, hipsolverComplex and
hipsolverDoubleComplex, and every member has the name and signature of the first, the same
controlling expression and the same statements in front of the `switch` and in `default`. -/
theorem overloadGroups_members :
    ∀ g ∈ overloadGroups, g.map Wrapper.elemType = elemTypes ∧
      ∀ w0 ∈ g.take 1, ∀ w ∈ g, w0.overloadKey = w.overloadKey ∧
        w0.scrutinee = w.scrutinee ∧ w0.pre = w.pre ∧ w0.dflt = w.dflt := by
  decide!

/-- The four members of every run have the dispatch table written in `overloadDispatch`. -/
theorem overloadGroups_dispatch :
    overloadGroups.map (fun g => g.map Wrapper.dispatch) =
      overloadDispatch.map (fun d => [d, d, d, d]) := by
  decide!

/-- Two members of a run of four have the same dispatch table. -/
theorem overloadGroup_dispatch_eq {g : List Wrapper} (hg : g ∈ overloadGroups) {w1 w2 : Wrapper}
    (h1 : w1 ∈ g) (h2 : w2 ∈ g) : w1.dispatch = w2.dispatch := by
  have hm : g.map Wrapper.dispatch ∈ overloadGroups.map (fun g => g.map Wrapper.dispatch) :=
    List.mem_map_of_mem _ hg
  rw [overloadGroups_dispatch] at hm
  obtain ⟨d, _, hd⟩ := List.mem_map.1 hm
  have key : ∀ w ∈ g, w.dispatch = d := by
    intro w hw
    have hw1 : w.dispatch ∈ g.map Wrapper.dispatch := List.mem_map_of_mem _ hw
    rw [← hd] at hw1
    simpa using hw1
  rw [key w1 h1, key w2 h2]

/-- Different runs of four differ in name or signature. -/
theorem overloadGroups_keys :
    (overloadGroups.map fun g => g.head?.map Wrapper.overloadKey).Nodup := by
  decide!

/-- The first member of the run of four that contains `w`. -/
theorem exists_head {g : List Wrapper} {w : Wrapper} (hw : w ∈ g) :
    ∃ w0, w0 ∈ g.take 1 ∧ g.head? = some w0 := by
  cases g with
  | nil => cases hw
  | cons a rest => exact ⟨a, by simp, rfl⟩

/-- The run of four a wrapper belongs to. -/
theorem exists_overloadGroup {w : Wrapper} (hw : w ∈ wrappers) :
    ∃ g ∈ overloadGroups, w ∈ g ∧ g.head?.map Wrapper.overloadKey = some w.overloadKey := by
  obtain ⟨g, hg, hwg⟩ := List.mem_flatten.1 hw
  obtain ⟨w0, h0, hh⟩ := exists_head hwg
  have h := ((overloadGroups_members g hg).2 w0 h0 w hwg).1
  exact ⟨g, hg, hwg, by simp [hh, h]⟩

/-- Wrappers with the same name and signature are in the same run of four. -/
theorem overloadGroup_unique {w1 w2 : Wrapper} {g : List Wrapper} (hg : g ∈ overloadGroups)
    (h1 : w1 ∈ g) (h2 : w2 ∈ wrappers) (hs : w1.sameOverloadSet w2 = true) : w2 ∈ g := by
  obtain ⟨g2, hg2, hw2, hk2⟩ := exists_overloadGroup h2
  obtain ⟨w0, h0, hh⟩ := exists_head h1
  have hk1 : g.head?.map Wrapper.overloadKey = some w1.overloadKey := by
    simp [hh, ((overloadGroups_members g hg).2 w0 h0 w1 h1).1]
  have hkey : w1.overloadKey = w2.overloadKey := by
    simpa [Wrapper.sameOverloadSet] using hs
  have heq : g = g2 :=
    List.inj_on_of_nodup_map overloadGroups_keys hg hg2 (by rw [hk1, hk2, hkey])
  rw [heq]
  exact hw2

/-- Looking up a label commutes with reducing the blocks to the variant they forward to. -/
theorem findCase_variant (v : CaseLabel) (cs1 cs2 : List (CaseLabel × Block))
    (h : cs1.map (fun c => (c.1, c.2.ret.variant)) = cs2.map (fun c => (c.1, c.2.ret.variant))) :
    (findCase v cs1).map (fun b => b.ret.variant) =
      (findCase v cs2).map (fun b => b.ret.variant) := by
  induction cs1 generalizing cs2 with
  | nil =>
    cases cs2 with
    | nil => rfl
    | cons c rest => simp at h
  | cons c1 r1 ih =>
    cases cs2 with
    | nil => simp at h
    | cons c2 r2 =>
      simp only [List.map_cons, List.cons.injEq, Prod.mk.injEq] at h
      obtain ⟨⟨hl, hv⟩, hr⟩ := h
      obtain ⟨l1, b1⟩ := c1
      obtain ⟨l2, b2⟩ := c2
      simp only at hl hv
      subst hl
      unfold findCase
      by_cases hm : l1 = v
      · simp [hm, hv]
      · simp [hm, ih r2 hr]

/-- The variant forwarded to is the variant of the selected block. -/
theorem Wrapper.variant_eq (w : Wrapper) (API : testAPI_t) (ALT : Bool) :
    w.variant API ALT = (w.selected API ALT).ret.variant := by
  unfold Wrapper.variant Wrapper.target
  cases (w.selected API ALT).ret <;> rfl

/-- Wrappers with the same controlling expression, dispatch table and `default` forward to
the same variant for every selector and flag value. -/
theorem Wrapper.variant_congr {w1 w2 : Wrapper} (hsc : w1.scrutinee = w2.scrutinee)
    (hd : w1.dispatch = w2.dispatch) (hdf : w1.dflt = w2.dflt) (API : testAPI_t) (ALT : Bool) :
    w1.variant API ALT = w2.variant API ALT := by
  rw [Wrapper.variant_eq, Wrapper.variant_eq]
  unfold Wrapper.selected
  have h := findCase_variant (w1.scrutinee.value API ALT) w1.cases w2.cases hd
  rw [← hsc, ← hdf]
  cases h1 : findCase (w1.scrutinee.value API ALT) w1.cases <;>
    cases h2 : findCase (w1.scrutinee.value API ALT) w2.cases <;>
    simp_all

/-- Overloads of one wrapper have the same dispatch table, controlling expression and
statements on the unsupported path. -/
theorem overload_table {w1 w2 : Wrapper} (h1 : w1 ∈ wrappers) (h2 : w2 ∈ wrappers)
    (hs : w1.sameOverloadSet w2 = true) :
    w1.dispatch = w2.dispatch ∧ w1.scrutinee = w2.scrutinee ∧ w1.pre = w2.pre ∧
      w1.dflt = w2.dflt := by
  obtain ⟨g, hg, hw1, _⟩ := exists_overloadGroup h1
  have hw2 := overloadGroup_unique hg hw1 h2 hs
  obtain ⟨w0, h0, _⟩ := exists_head hw1
  obtain ⟨_, a2, a3, a4⟩ := (overloadGroups_members g hg).2 w0 h0 w1 hw1
  obtain ⟨_, b2, b3, b4⟩ := (overloadGroups_members g hg).2 w0 h0 w2 hw2
  exact ⟨overloadGroup_dispatch_eq hg hw1 hw2, a2.symm.trans b2, a3.symm.trans b3,
    a4.symm.trans b4⟩

/-- C10: for every routine family and index width, the four type overloads (float, double,
hipsolverComplex, hipsolverDoubleComplex) of a wrapper have identical dispatch structure:
the overloads with the name and (up to the element type) the parameter list of a given
wrapper are exactly four, one for each of these element types; any two of them have a
forwarding target for the same `(API, flag)` pairs, choose the same entry-point variant
(normal, Fortran or compat; batched or not) for each pair, have the same dispatch table,
switch on the same expression and execute the same assignments on the unsupported path. -/
theorem overloads_same_dispatch (w1 w2 : Wrapper) (h1 : w1 ∈ wrappers) (h2 : w2 ∈ wrappers)
    (hs : w1.sameOverloadSet w2 = true) :
    (∃ g : List Wrapper, g.map Wrapper.elemType = elemTypes ∧
      ∀ w, w ∈ g ↔ (w ∈ wrappers ∧ w1.sameOverloadSet w = true)) ∧
    (∀ (API : testAPI_t) (ALT : Bool),
      (w1.target API ALT).isSome = (w2.target API ALT).isSome ∧
      w1.variant API ALT = w2.variant API ALT) ∧
    w1.dispatch = w2.dispatch ∧ w1.scrutinee = w2.scrutinee ∧
    w1.unsupportedStmts = w2.unsupportedStmts ∧ w1.pre = w2.pre ∧ w1.dflt = w2.dflt := by
  obtain ⟨hdp, hsc, hp, hd⟩ := overload_table h1 h2 hs
  refine ⟨?_, fun API ALT => ?_, hdp, hsc, ?_, hp, hd⟩
  · obtain ⟨g, hg, hw1, _⟩ := exists_overloadGroup h1
    obtain ⟨w0, h0, _⟩ := exists_head hw1
    refine ⟨g, (overloadGroups_members g hg).1, fun w => ⟨fun hw => ⟨?_, ?_⟩, fun hw => ?_⟩⟩
    · exact List.mem_flatten.2 ⟨g, hg, hw⟩
    · have a := ((overloadGroups_members g hg).2 w0 h0 w1 hw1).1
      have b := ((overloadGroups_members g hg).2 w0 h0 w hw).1
      simpa [Wrapper.sameOverloadSet] using a.symm.trans b
    · exact overloadGroup_unique hg hw1 hw.1 hw.2
  · have hvar := Wrapper.variant_congr hsc hdp hd API ALT
    refine ⟨?_, hvar⟩
    have := congrArg Option.isSome hvar
    simpa [Wrapper.variant] using this
  · simp [Wrapper.unsupportedStmts, hp, hd]

/-- C10, at a concrete input: the float and the `hipsolverDoubleComplex` overload of the
`int`-indexed `hipsolver_getrf`, which are overloads of one another, while the `int64_t`
overload belongs to another overload set. -/
theorem overloads_same_dispatch_witness :
    hipsolver_getrf_float.sameOverloadSet hipsolver_getrf_float_int64_t = false ∧
    hipsolver_getrf_float.variant API_FORTRAN false = some (Convention.fortran, false) ∧
    hipsolver_getrf_float.variant API_COMPAT true = none ∧
    hipsolver_syevj_heevj_float.variant API_COMPAT true = some (Convention.compat, true) ∧
    ((∃ g : List Wrapper, g.map Wrapper.elemType = elemTypes ∧
      ∀ w, w ∈ g ↔ (w ∈ wrappers ∧ hipsolver_getrf_float.sameOverloadSet w = true)) ∧
     (∀ (API : testAPI_t) (ALT : Bool),
      (hipsolver_getrf_float.target API ALT).isSome =
        (hipsolver_getrf_hipsolverDoubleComplex.target API ALT).isSome ∧
      hipsolver_getrf_float.variant API ALT =
        hipsolver_getrf_hipsolverDoubleComplex.variant API ALT) ∧
     hipsolver_getrf_float.dispatch = hipsolver_getrf_hipsolverDoubleComplex.dispatch ∧
     hipsolver_getrf_float.scrutinee = hipsolver_getrf_hipsolverDoubleComplex.scrutinee ∧
     hipsolver_getrf_float.unsupportedStmts =
       hipsolver_getrf_hipsolverDoubleComplex.unsupportedStmts ∧
     hipsolver_getrf_float.pre = hipsolver_getrf_hipsolverDoubleComplex.pre ∧
     hipsolver_getrf_float.dflt = hipsolver_getrf_hipsolverDoubleComplex.dflt) :=
  ⟨by decide!, by decide!, by decide!, by decide!,
   overloads_same_dispatch hipsolver_getrf_float hipsolver_getrf_hipsolverDoubleComplex
     (by decide!) (by decide!) (by decide!)⟩

/-! ## Single routine families -/

/-- With a forwarding target, the calls made are the one call of that target. -/
theorem Wrapper.calls_of_target {w : Wrapper} (hwf : w.wf = true) {API : testAPI_t} {ALT : Bool}
    {f : String} {args : List Arg} (ht : w.target API ALT = some (f, args)) (E : ExtLib)
    (env : Env) (h : Heap) :
    (w.run E API ALT env h).calls = [⟨f, args.map (Arg.eval env)⟩] := by
  rw [Wrapper.run_of_target_some hwf ht]

/-- Without a forwarding target the wrapper returns the not-supported status and calls nothing. -/
theorem Wrapper.unsupported_of_target_none {w : Wrapper} (hwf : w.wf = true) {API : testAPI_t}
    {ALT : Bool} (ht : w.target API ALT = none) (E : ExtLib) (env : Env) (h : Heap) :
    (w.run E API ALT env h).status = HIPSOLVER_STATUS_NOT_SUPPORTED ∧
      (w.run E API ALT env h).calls = [] := by
  rw [Wrapper.run_of_target_none hwf ht]
  exact ⟨rfl, rfl⟩

/-- The pairs with a forwarding target, once they are known for the six valid pairs. -/
theorem Wrapper.target_isSome_iff {w : Wrapper} (hwf : w.wf = true)
    (S : List (testAPI_t × Bool))
    (hS : ∀ a ∈ validAPIs, ∀ b ∈ [false, true], ((w.target a b).isSome = true ↔ (a, b) ∈ S))
    (hv : ∀ p ∈ S, p.1 ∈ validAPIs) (API : testAPI_t) (ALT : Bool) :
    (w.target API ALT).isSome = true ↔ (API, ALT) ∈ S := by
  by_cases hA : API ∈ validAPIs
  · exact hS API hA ALT (by cases ALT <;> simp)
  · have h0 : API ≠ API_NORMAL := fun e => hA (by simp [validAPIs, e])
    have h1 : API ≠ API_FORTRAN := fun e => hA (by simp [validAPIs, e])
    have h2 : API ≠ API_COMPAT := fun e => hA (by simp [validAPIs, e])
    rw [Wrapper.target_of_invalid hwf API ALT h0 h1 h2]
    constructor
    · intro h
      cases h
    · intro h
      exact absurd (hv _ h) hA

/-- The forwarding targets of the wrappers with a `STRIDED` flag, by evaluation. -/
theorem strided_table :
    ∀ w ∈ wrappers, w.name ∈ stridedWrappers → ∀ p ∈ apiConventions,
      (w.target p.1 false).map (fun t => (entryConvention t.1, entryBatched t.1))
        = some (p.2, false) ∧
      (w.target p.1 true).map (fun t => (entryConvention t.1, entryBatched t.1, t.2.getLast?))
        = some (p.2, true, some (Arg.param .bc)) := by
  decide!

/-- C11: for `hipsolver_gesvdj`, `hipsolver_gesvdj_bufferSize`, `hipsolver_syevj_heevj` and
`hipsolver_syevj_heevj_bufferSize` (every type overload) all six valid `(API, STRIDED)` pairs
have a forwarding target: for each of `API_NORMAL`, `API_FORTRAN` and `API_COMPAT`,
`STRIDED = false` calls that API's non-batched entry point, and `STRIDED = true` calls that
API's `Batched` entry point with the batch count `bc` as its last argument. -/
theorem strided_selects_batched (w : Wrapper) (hw : w ∈ wrappers)
    (hn : w.name ∈ stridedWrappers) (E : ExtLib) (env : Env) (h : Heap) :
    ∀ p ∈ apiConventions,
      (∃ f vs, (w.run E p.1 false env h).calls = [⟨f, vs⟩] ∧ entryConvention f = p.2 ∧
        entryBatched f = false) ∧
      (∃ f vs, (w.run E p.1 true env h).calls = [⟨f, vs⟩] ∧ entryConvention f = p.2 ∧
        entryBatched f = true ∧ vs.getLast? = some (env .bc)) := by
  intro p hp
  have hwf := wrappers_wf hw
  obtain ⟨h1, h2⟩ := strided_table w hw hn p hp
  obtain ⟨⟨f1, a1⟩, ht1, he1⟩ := Option.map_eq_some'.1 h1
  obtain ⟨⟨f2, a2⟩, ht2, he2⟩ := Option.map_eq_some'.1 h2
  simp only [Prod.mk.injEq] at he1 he2
  refine ⟨⟨f1, _, Wrapper.calls_of_target hwf ht1 E env h, he1.1, he1.2⟩,
    ⟨f2, _, Wrapper.calls_of_target hwf ht2 E env h, he2.1, he2.2.1, ?_⟩⟩
  rw [List.getLast?_map, he2.2.2]
  rfl

/-- C11, at a concrete input: the `hipsolverComplex` overload of `hipsolver_syevj_heevj`;
the overloads concerned are sixteen. -/
theorem strided_selects_batched_witness :
    (wrappers.filter fun w => decide (w.name ∈ stridedWrappers)).length = 16 ∧
    (hipsolver_syevj_heevj_hipsolverComplex.run idleLib API_FORTRAN true sampleEnv
      sampleHeap).calls.map ExtCall.name = ["hipsolverCheevjBatchedFortran"] ∧
    ∀ p ∈ apiConventions,
      (∃ f vs, (hipsolver_syevj_heevj_hipsolverComplex.run idleLib p.1 false sampleEnv
          sampleHeap).calls = [⟨f, vs⟩] ∧ entryConvention f = p.2 ∧ entryBatched f = false) ∧
      (∃ f vs, (hipsolver_syevj_heevj_hipsolverComplex.run idleLib p.1 true sampleEnv
          sampleHeap).calls = [⟨f, vs⟩] ∧ entryConvention f = p.2 ∧ entryBatched f = true ∧
        vs.getLast? = some (sampleEnv .bc)) :=
  ⟨by decide!, by decide!,
   strided_selects_batched hipsolver_syevj_heevj_hipsolverComplex (by decide!) (by decide!)
     idleLib sampleEnv sampleHeap⟩

/-- Argument values that agree wherever the argument does not mention `p` give the same
argument value. -/
theorem Arg.eval_congr {env1 env2 : Env} {a : Arg}
    (hagree : ∀ q, a.mentions q = true → env1 q = env2 q) : Arg.eval env1 a = Arg.eval env2 a := by
  cases a with
  | param q => exact hagree q (by simp [Arg.mentions])
  | cast t q => exact hagree q (by simp [Arg.mentions])
  | nullptr => rfl
  | tag t => rfl

/-- The in-place call of `hipsolver_gels` and `hipsolver_gesv`, by evaluation. -/
theorem inplace_args_table :
    ∀ w ∈ wrappers, (w.name = "hipsolver_gels" ∨ w.name = "hipsolver_gesv") →
      (w.target API_NORMAL false).isSome = true ∧
      w.target API_NORMAL true =
        (w.target API_NORMAL false).map (fun t => (t.1, t.2.map (Arg.rename inplaceRename))) ∧
      ∀ t ∈ w.target API_NORMAL true, ∀ a ∈ t.2,
        a.mentions .X = false ∧ a.mentions .ldx = false := by
  decide!

/-- C13: for `hipsolver_gels` and `hipsolver_gesv` (every type overload) the in-place pair
`(API_NORMAL, INPLACE = true)` invokes the same external routine as `(API_NORMAL, INPLACE =
false)` with the same arguments except that `B` and `ldb` stand in the positions of `X` and
`ldx`; the call forwarded for `INPLACE = true` does not depend on the wrapper's `X` and
`ldx`. -/
theorem inplace_passes_B_for_X (w : Wrapper) (hw : w ∈ wrappers)
    (hn : w.name = "hipsolver_gels" ∨ w.name = "hipsolver_gesv") (E : ExtLib) (h : Heap) :
    (∃ (f : String) (args : List Arg),
      (∀ env, (w.run E API_NORMAL false env h).calls = [⟨f, args.map (Arg.eval env)⟩]) ∧
      (∀ env, (w.run E API_NORMAL true env h).calls
        = [⟨f, (args.map (Arg.rename inplaceRename)).map (Arg.eval env)⟩])) ∧
    (∀ env1 env2 : Env, (∀ q, q ≠ Param.X → q ≠ Param.ldx → env1 q = env2 q) →
      (w.run E API_NORMAL true env1 h).calls = (w.run E API_NORMAL true env2 h).calls) := by
  have hwf := wrappers_wf hw
  obtain ⟨hs, heq, hno⟩ := inplace_args_table w hw hn
  obtain ⟨⟨f, args⟩, hf⟩ := Option.isSome_iff_exists.1 hs
  have ht : w.target API_NORMAL true = some (f, args.map (Arg.rename inplaceRename)) := by
    rw [heq, hf]
    rfl
  refine ⟨⟨f, args, fun env => Wrapper.calls_of_target hwf hf E env h,
    fun env => Wrapper.calls_of_target hwf ht E env h⟩, fun env1 env2 hagree => ?_⟩
  rw [Wrapper.calls_of_target hwf ht E env1 h, Wrapper.calls_of_target hwf ht E env2 h]
  have hmap : (args.map (Arg.rename inplaceRename)).map (Arg.eval env1) =
      (args.map (Arg.rename inplaceRename)).map (Arg.eval env2) := by
    apply List.map_congr_left
    intro a ha
    have hm := hno (f, args.map (Arg.rename inplaceRename)) (by rw [ht]; rfl) a ha
    apply Arg.eval_congr
    intro q hq
    apply hagree
    · intro e
      rw [e, hm.1] at hq
      cases hq
    · intro e
      rw [e, hm.2] at hq
      cases hq
  rw [hmap]

/-- C13, at a concrete input: the double overload of `hipsolver_gels`, run on argument values
that differ in `X` and `ldx` only. -/
theorem inplace_passes_B_for_X_witness :
    sampleEnv .X ≠ sampleEnvX .X ∧ sampleEnv .ldx ≠ sampleEnvX .ldx ∧
    (hipsolver_gels_double.run idleLib API_NORMAL false sampleEnv sampleHeap).calls ≠
      (hipsolver_gels_double.run idleLib API_NORMAL false sampleEnvX sampleHeap).calls ∧
    (hipsolver_gels_double.run idleLib API_NORMAL true sampleEnv sampleHeap).calls =
      (hipsolver_gels_double.run idleLib API_NORMAL true sampleEnvX sampleHeap).calls :=
  ⟨by decide!, by decide!, by decide!,
   (inplace_passes_B_for_X hipsolver_gels_double (by decide!) (Or.inl (by decide!)) idleLib
     sampleHeap).2 sampleEnv sampleEnvX (by
      intro q hX hl
      cases q <;> first | rfl | exact absurd rfl hX | exact absurd rfl hl)⟩

/-- The forwarding targets of `hipsolver_gesvd`, by evaluation. -/
theorem gesvd_table :
    ∀ w ∈ wrappers, w.name = "hipsolver_gesvd" →
      (w.target API_NORMAL false).isSome = true ∧
      (∀ t ∈ w.target API_NORMAL false, ∃ a ∈ t.2, a.mentions .rwork = true) ∧
      w.target API_NORMAL true =
        (w.target API_NORMAL false).map (fun t => (t.1, t.2.map (Arg.nullify .rwork))) ∧
      w.target API_FORTRAN true = none ∧ w.target API_COMPAT true = none := by
  decide!

/-- C14: for `hipsolver_gesvd` (every type overload) the pair `(API_NORMAL, NRWK = true)`
invokes the same external routine as `(API_NORMAL, NRWK = false)` with the same arguments
except that a null pointer is passed where `rwork` was; the pairs `(API_FORTRAN, NRWK =
true)` and `(API_COMPAT, NRWK = true)` return `HIPSOLVER_STATUS_NOT_SUPPORTED` without an
external call. -/
theorem gesvd_nrwk_passes_null (w : Wrapper) (hw : w ∈ wrappers)
    (hn : w.name = "hipsolver_gesvd") (E : ExtLib) (env : Env) (h : Heap) :
    (∃ (f : String) (args : List Arg), (∃ a ∈ args, a.mentions .rwork = true) ∧
      (w.run E API_NORMAL false env h).calls = [⟨f, args.map (Arg.eval env)⟩] ∧
      (w.run E API_NORMAL true env h).calls
        = [⟨f, (args.map (Arg.nullify .rwork)).map (Arg.eval env)⟩]) ∧
    ((w.run E API_FORTRAN true env h).status = HIPSOLVER_STATUS_NOT_SUPPORTED ∧
      (w.run E API_FORTRAN true env h).calls = []) ∧
    ((w.run E API_COMPAT true env h).status = HIPSOLVER_STATUS_NOT_SUPPORTED ∧
      (w.run E API_COMPAT true env h).calls = []) := by
  have hwf := wrappers_wf hw
  obtain ⟨hs, hr, heq, hf, hc⟩ := gesvd_table w hw hn
  obtain ⟨⟨f, args⟩, ht⟩ := Option.isSome_iff_exists.1 hs
  have ht2 : w.target API_NORMAL true = some (f, args.map (Arg.nullify .rwork)) := by
    rw [heq, ht]
    rfl
  exact ⟨⟨f, args, hr (f, args) (by rw [ht]; rfl), Wrapper.calls_of_target hwf ht E env h,
    Wrapper.calls_of_target hwf ht2 E env h⟩,
    Wrapper.unsupported_of_target_none hwf hf E env h,
    Wrapper.unsupported_of_target_none hwf hc E env h⟩

/-- C14, at a concrete input: the `hipsolverDoubleComplex` overload of `hipsolver_gesvd` with
`rwork` at address 300. -/
theorem gesvd_nrwk_passes_null_witness :
    (hipsolver_gesvd_hipsolverDoubleComplex.run idleLib API_NORMAL false sampleEnv
      sampleHeap).calls.map (fun c => (c.name, c.args.get? 14))
        = [("hipsolverZgesvd", some (.ptr 300))] ∧
    (hipsolver_gesvd_hipsolverDoubleComplex.run idleLib API_NORMAL true sampleEnv
      sampleHeap).calls.map (fun c => (c.name, c.args.get? 14))
        = [("hipsolverZgesvd", some (.ptr 0))] ∧
    (hipsolver_gesvd_hipsolverDoubleComplex.run idleLib API_COMPAT true sampleEnv
      sampleHeap).calls = [] :=
  ⟨by decide!, by decide!,
   (gesvd_nrwk_passes_null hipsolver_gesvd_hipsolverDoubleComplex (by decide!) (by decide!)
     idleLib sampleEnv sampleHeap).2.2.2⟩

/-- The forwarding targets of the `int`-indexed `hipsolver_getrf`, by evaluation. -/
theorem getrf_int_table :
    ∀ w ∈ wrappers, w.name = "hipsolver_getrf" → w.isInt64 = false →
      (∀ a ∈ validAPIs, ∀ b ∈ [false, true],
        ((w.target a b).isSome = true ↔ (a, b) ∈ getrfIntPairs)) ∧
      (∀ t ∈ w.target API_NORMAL false, ∃ a ∈ t.2, a.mentions .ipiv = true) ∧
      w.target API_NORMAL true =
        (w.target API_NORMAL false).map (fun t => (t.1, t.2.map (Arg.nullify .ipiv))) := by
  decide!

/-- C15: for the `int`-indexed `hipsolver_getrf` overloads the `(API, NPVT)` pairs with a
forwarding target are exactly `(API_NORMAL, false)`, `(API_NORMAL, true)`, `(API_FORTRAN,
false)` and `(API_COMPAT, false)`; `(API_NORMAL, true)` calls the same routine as
`(API_NORMAL, false)` with a null pointer in place of `ipiv`; every other pair returns
`HIPSOLVER_STATUS_NOT_SUPPORTED` without an external call. -/
theorem getrf_int_supported_pairs (w : Wrapper) (hw : w ∈ wrappers)
    (hn : w.name = "hipsolver_getrf") (hi : w.isInt64 = false) (E : ExtLib) (env : Env)
    (h : Heap) :
    (∀ (API : testAPI_t) (ALT : Bool),
      ((w.target API ALT).isSome = true ↔ (API, ALT) ∈ getrfIntPairs) ∧
      ((API, ALT) ∈ getrfIntPairs → (w.run E API ALT env h).calls.length = 1) ∧
      ((API, ALT) ∉ getrfIntPairs →
        (w.run E API ALT env h).status = HIPSOLVER_STATUS_NOT_SUPPORTED ∧
        (w.run E API ALT env h).calls = [])) ∧
    (∃ (f : String) (args : List Arg), (∃ a ∈ args, a.mentions .ipiv = true) ∧
      (w.run E API_NORMAL false env h).calls = [⟨f, args.map (Arg.eval env)⟩] ∧
      (w.run E API_NORMAL true env h).calls
        = [⟨f, (args.map (Arg.nullify .ipiv)).map (Arg.eval env)⟩]) := by
  have hwf := wrappers_wf hw
  obtain ⟨hS, hp, heq⟩ := getrf_int_table w hw hn hi
  have hiff := Wrapper.target_isSome_iff hwf getrfIntPairs hS (by decide)
  refine ⟨fun API ALT => ⟨hiff API ALT, fun hin => ?_, fun hout => ?_⟩, ?_⟩
  · exact Wrapper.calls_length_of_target hwf ((hiff API ALT).2 hin) E env h
  · have hnone : w.target API ALT = none := by
      cases ht : w.target API ALT with
      | none => rfl
      | some t => exact absurd ((hiff API ALT).1 (by simp [ht])) hout
    exact Wrapper.unsupported_of_target_none hwf hnone E env h
  · have hs := (hiff API_NORMAL false).2 (by decide)
    obtain ⟨⟨f, args⟩, ht⟩ := Option.isSome_iff_exists.1 hs
    have ht2 : w.target API_NORMAL true = some (f, args.map (Arg.nullify .ipiv)) := by
      rw [heq, ht]
      rfl
    exact ⟨f, args, hp (f, args) (by rw [ht]; rfl), Wrapper.calls_of_target hwf ht E env h,
      Wrapper.calls_of_target hwf ht2 E env h⟩

/-- C15, at a concrete input: the float overload of the `int`-indexed `hipsolver_getrf` with
`ipiv` at address 301; the overloads concerned are four. -/
theorem getrf_int_supported_pairs_witness :
    (wrappers.filter fun w => decide (w.name = "hipsolver_getrf") && !w.isInt64).length = 4 ∧
    (hipsolver_getrf_float.run idleLib API_NORMAL false sampleEnv sampleHeap).calls.map
        (fun c => (c.name, c.args.get? 7)) = [("hipsolverSgetrf", some (.ptr 301))] ∧
    (hipsolver_getrf_float.run idleLib API_NORMAL true sampleEnv sampleHeap).calls.map
        (fun c => (c.name, c.args.get? 7)) = [("hipsolverSgetrf", some (.ptr 0))] ∧
    (hipsolver_getrf_float.run idleLib API_FORTRAN true sampleEnv sampleHeap).status
      = HIPSOLVER_STATUS_NOT_SUPPORTED :=
  ⟨by decide!, by decide!, by decide!,
   (((getrf_int_supported_pairs hipsolver_getrf_float (by decide!) (by decide!) (by decide!)
     idleLib sampleEnv sampleHeap).1 API_FORTRAN true).2.2 (by decide)).1⟩

/-- The statements and arguments of the `int`-indexed `hipsolver_geqrf_bufferSize` and
`hipsolver_getrf_bufferSize`, by evaluation. -/
theorem hostSize_table :
    ∀ w ∈ wrappers, w.name ∈ hostSizeWrappers → w.isInt64 = false →
      w.pre = [.storeZero .lworkOnHost] ∧ Stmt.storeZero .lworkOnDevice ∈ w.dflt.stmts ∧
      (∀ c ∈ w.cases, ∀ a ∈ c.2.ret.args, a.mentions .lworkOnHost = false) := by
  decide!

/-- The arguments of a forwarding target are those of a `case` block. -/
theorem Wrapper.target_args_mem {w : Wrapper} (hwf : w.wf = true) {API : testAPI_t} {ALT : Bool}
    {f : String} {args : List Arg} (ht : w.target API ALT = some (f, args)) :
    ∃ c ∈ w.cases, c.2.ret.args = args := by
  unfold Wrapper.target at ht
  unfold Wrapper.selected at ht
  cases hf : findCase (w.scrutinee.value API ALT) w.cases with
  | none =>
    rw [hf] at ht
    simp [Wrapper.wf_dflt hwf] at ht
  | some b =>
    rw [hf] at ht
    refine ⟨_, findCase_mem hf, ?_⟩
    simp only [Option.getD_some] at ht
    cases hr : b.ret with
    | call g as =>
      rw [hr] at ht
      simp only [Option.some.injEq, Prod.mk.injEq] at ht
      simp [Ret.args, ht.2]
    | status s =>
      rw [hr] at ht
      cases ht

/-- An argument that does not mention `p` has the same value when only `p` changes. -/
theorem Arg.eval_of_not_mentions {p : Param} {a : Arg} (ha : a.mentions p = false)
    {env1 env2 : Env} (he : ∀ q, q ≠ p → env1 q = env2 q) : a.eval env1 = a.eval env2 := by
  cases a with
  | param q =>
    simp only [Arg.mentions, decide_eq_false_iff_not] at ha
    exact he q ha
  | cast t q =>
    simp only [Arg.mentions, decide_eq_false_iff_not] at ha
    exact he q ha
  | nullptr => rfl
  | tag t => rfl

/-- C17: for the `int`-indexed `hipsolver_geqrf_bufferSize` and `hipsolver_getrf_bufferSize`
overloads, for every value of `API`: the store `*lworkOnHost = 0` is executed in front of the
`switch`, so the block the `switch` selects starts from a heap that holds zero there;
`lworkOnHost` is no argument of the forwarded call, whose name and argument values do not
change when only `lworkOnHost` changes; and for an invalid `API` the status is
`HIPSOLVER_STATUS_NOT_SUPPORTED`, no external routine is called, and `*lworkOnDevice` and
`*lworkOnHost` are zero on return. -/
theorem hostSize_zeroed_before_dispatch (w : Wrapper) (hw : w ∈ wrappers)
    (hn : w.name ∈ hostSizeWrappers) (hi : w.isInt64 = false) (E : ExtLib) (API : testAPI_t)
    (ALT : Bool) (env : Env) (h : Heap) :
    w.pre = [.storeZero .lworkOnHost] ∧
    (∃ h1 : Heap, h1 (env .lworkOnHost).addr = 0 ∧
      w.run E API ALT env h = (w.selected API ALT).exec E env h1) ∧
    (∀ (f : String) (args : List Arg), w.target API ALT = some (f, args) →
      ∀ a ∈ args, a.mentions .lworkOnHost = false) ∧
    (∀ env2 : Env, (∀ q, q ≠ Param.lworkOnHost → env q = env2 q) →
      (w.run E API ALT env h).calls = (w.run E API ALT env2 h).calls) ∧
    (API ≠ API_NORMAL → API ≠ API_FORTRAN → API ≠ API_COMPAT →
      (w.run E API ALT env h).status = HIPSOLVER_STATUS_NOT_SUPPORTED ∧
      (w.run E API ALT env h).calls = [] ∧
      (w.run E API ALT env h).heap (env .lworkOnDevice).addr = 0 ∧
      (w.run E API ALT env h).heap (env .lworkOnHost).addr = 0) := by
  have hwf := wrappers_wf hw
  obtain ⟨hpre, hd, hargs⟩ := hostSize_table w hw hn hi
  have hment : ∀ (f : String) (args : List Arg), w.target API ALT = some (f, args) →
      ∀ a ∈ args, a.mentions .lworkOnHost = false := by
    intro f args ht a ha
    obtain ⟨c, hc, he⟩ := Wrapper.target_args_mem hwf ht
    exact hargs c hc a (by rw [he]; exact ha)
  refine ⟨hpre, ⟨execStmts env w.pre h, ?_, rfl⟩, hment, ?_, ?_⟩
  · exact execStmts_storeZero env w.pre h .lworkOnHost (by rw [hpre]; simp)
  · intro env2 he
    cases ht : w.target API ALT with
    | none =>
      rw [(Wrapper.unsupported_of_target_none hwf ht E env h).2,
        (Wrapper.unsupported_of_target_none hwf ht E env2 h).2]
    | some t =>
      obtain ⟨f, args⟩ := t
      rw [Wrapper.calls_of_target hwf ht E env h, Wrapper.calls_of_target hwf ht E env2 h]
      have : args.map (Arg.eval env) = args.map (Arg.eval env2) :=
        List.map_congr_left fun a ha => Arg.eval_of_not_mentions (hment f args ht a ha) he
      rw [this]
  · intro h0 h1 h2
    have ht := Wrapper.target_of_invalid hwf API ALT h0 h1 h2
    refine ⟨(Wrapper.unsupported_of_target_none hwf ht E env h).1,
      (Wrapper.unsupported_of_target_none hwf ht E env h).2, ?_, ?_⟩
    · rw [Wrapper.run_of_target_none hwf ht]
      exact execStmts_storeZero env _ _ .lworkOnDevice hd
    · rw [Wrapper.run_of_target_none hwf ht]
      exact execStmts_keeps_zero env _ _ _
        (execStmts_storeZero env w.pre h .lworkOnHost (by rw [hpre]; simp))

/-- C17, at a concrete input: the float overload of the `int`-indexed
`hipsolver_getrf_bufferSize` with the invalid selector `3`, `lworkOnDevice` at address 101 and
`lworkOnHost` at address 102, on a heap that holds `5` everywhere; the overloads concerned
are eight. -/
theorem hostSize_zeroed_before_dispatch_witness :
    (wrappers.filter fun w => decide (w.name ∈ hostSizeWrappers) && !w.isInt64).length = 8 ∧
    sampleHeap 101 = 5 ∧ sampleHeap 102 = 5 ∧
    (hipsolver_getrf_bufferSize_float.run idleLib 3 false sampleEnv sampleHeap).status
      = HIPSOLVER_STATUS_NOT_SUPPORTED ∧
    (hipsolver_getrf_bufferSize_float.run idleLib 3 false sampleEnv sampleHeap).calls = [] ∧
    (hipsolver_getrf_bufferSize_float.run idleLib 3 false sampleEnv sampleHeap).heap 101 = 0 ∧
    (hipsolver_getrf_bufferSize_float.run idleLib 3 false sampleEnv sampleHeap).heap 102 = 0 :=
  ⟨by decide!, rfl, rfl,
   (hostSize_zeroed_before_dispatch hipsolver_getrf_bufferSize_float (by decide!) (by decide!)
     (by decide!) idleLib 3 false sampleEnv sampleHeap).2.2.2.2 (by decide) (by decide)
     (by decide)⟩

/-- The forwarding targets and stores of the `int64_t`-indexed `hipsolver_geqrf_bufferSize`,
`hipsolver_getrf_bufferSize` and `hipsolver_geqrf`, by evaluation. -/
theorem int64_compat_table :
    ∀ w ∈ wrappers, w.name ∈ int64CompatWrappers → w.isInt64 = true →
      (∀ a ∈ validAPIs, ∀ b ∈ [false, true],
        ((w.target a b).isSome = true ↔ (a, b) ∈ compatPairs)) ∧
      (w.isBufferSize = true → Stmt.storeZero .lworkOnDevice ∈ w.unsupportedStmts ∧
        Stmt.storeZero .lworkOnHost ∈ w.unsupportedStmts) := by
  decide!

/-- C18: for the `int64_t`-indexed overloads of `hipsolver_geqrf_bufferSize`,
`hipsolver_getrf_bufferSize` and `hipsolver_geqrf`, `API_COMPAT` is the only value of `API`
with a forwarding target; every other value (`API_NORMAL`, `API_FORTRAN`, an invalid one)
returns `HIPSOLVER_STATUS_NOT_SUPPORTED` without an external call, and the two `bufferSize`
wrappers then leave `*lworkOnDevice` and `*lworkOnHost` zero. -/
theorem int64_compat_only (w : Wrapper) (hw : w ∈ wrappers) (hn : w.name ∈ int64CompatWrappers)
    (hi : w.isInt64 = true) (E : ExtLib) (API : testAPI_t) (ALT : Bool) (env : Env) (h : Heap) :
    ((w.target API ALT).isSome = true ↔ API = API_COMPAT) ∧
    (API = API_COMPAT → (w.run E API ALT env h).calls.length = 1) ∧
    (API ≠ API_COMPAT →
      (w.run E API ALT env h).status = HIPSOLVER_STATUS_NOT_SUPPORTED ∧
      (w.run E API ALT env h).calls = [] ∧
      (w.isBufferSize = true →
        (w.run E API ALT env h).heap (env .lworkOnDevice).addr = 0 ∧
        (w.run E API ALT env h).heap (env .lworkOnHost).addr = 0)) := by
  have hwf := wrappers_wf hw
  obtain ⟨hS, hz⟩ := int64_compat_table w hw hn hi
  have hiff0 := Wrapper.target_isSome_iff hwf compatPairs hS (by decide) API ALT
  have hmem : (API, ALT) ∈ compatPairs ↔ API = API_COMPAT := by
    cases ALT <;> simp [compatPairs]
  have hiff := hiff0.trans hmem
  refine ⟨hiff, fun hc => Wrapper.calls_length_of_target hwf (hiff.2 hc) E env h, fun hne => ?_⟩
  have ht : w.target API ALT = none := by
    cases ht : w.target API ALT with
    | none => rfl
    | some t => exact absurd (hiff.1 (by simp [ht])) hne
  refine ⟨(Wrapper.unsupported_of_target_none hwf ht E env h).1,
    (Wrapper.unsupported_of_target_none hwf ht E env h).2, fun hb => ?_⟩
  rw [Wrapper.run_of_target_none hwf ht]
  simp only
  rw [← execStmts_append]
  exact ⟨execStmts_storeZero env _ h .lworkOnDevice (hz hb).1,
    execStmts_storeZero env _ h .lworkOnHost (hz hb).2⟩

/-- C18, at a concrete input: the float overload of the `int64_t`-indexed
`hipsolver_geqrf_bufferSize` for `API_NORMAL`, with `lworkOnDevice` at address 101 and
`lworkOnHost` at address 102, on a heap that holds `5` everywhere; the overloads concerned
are twelve. -/
theorem int64_compat_only_witness :
    (wrappers.filter fun w => decide (w.name ∈ int64CompatWrappers) && w.isInt64).length = 12 ∧
    sampleHeap 101 = 5 ∧ sampleHeap 102 = 5 ∧
    (hipsolver_geqrf_bufferSize_float_int64_t.run idleLib API_NORMAL false sampleEnv
      sampleHeap).status = HIPSOLVER_STATUS_NOT_SUPPORTED ∧
    (hipsolver_geqrf_bufferSize_float_int64_t.run idleLib API_NORMAL false sampleEnv
      sampleHeap).calls = [] ∧
    (hipsolver_geqrf_bufferSize_float_int64_t.isBufferSize = true →
      (hipsolver_geqrf_bufferSize_float_int64_t.run idleLib API_NORMAL false sampleEnv
        sampleHeap).heap 101 = 0 ∧
      (hipsolver_geqrf_bufferSize_float_int64_t.run idleLib API_NORMAL false sampleEnv
        sampleHeap).heap 102 = 0) :=
  ⟨by decide!, rfl, rfl,
   (int64_compat_only hipsolver_geqrf_bufferSize_float_int64_t (by decide!) (by decide!)
     (by decide!) idleLib API_NORMAL false sampleEnv sampleHeap).2.2 (by decide)⟩

/-- The body of the `int64_t`-indexed `hipsolver_getrs_bufferSize`, by evaluation. -/
theorem getrs_bufferSize_int64_table :
    ∀ w ∈ wrappers, w.name = "hipsolver_getrs_bufferSize" → w.isInt64 = true →
      w.cases = [] ∧ w.pre = [] ∧ w.dflt.stmts = [.storeZero .lwork] := by
  decide!

/-- C19: the `int64_t`-indexed overloads of `hipsolver_getrs_bufferSize` have a `switch`
with the `default` block only: for every value of `API` they set `*lwork` to zero, return
`HIPSOLVER_STATUS_NOT_SUPPORTED` and call no external routine. -/
theorem getrs_bufferSize_int64_unsupported (w : Wrapper) (hw : w ∈ wrappers)
    (hn : w.name = "hipsolver_getrs_bufferSize") (hi : w.isInt64 = true) (E : ExtLib)
    (API : testAPI_t) (ALT : Bool) (env : Env) (h : Heap) :
    w.target API ALT = none ∧
    (w.run E API ALT env h).status = HIPSOLVER_STATUS_NOT_SUPPORTED ∧
    (w.run E API ALT env h).calls = [] ∧
    (w.run E API ALT env h).heap = h.store (env .lwork).addr 0 ∧
    (w.run E API ALT env h).heap (env .lwork).addr = 0 := by
  have hwf := wrappers_wf hw
  obtain ⟨hc, hpre, hd⟩ := getrs_bufferSize_int64_table w hw hn hi
  have ht : w.target API ALT = none := by
    simp [Wrapper.target, Wrapper.selected, hc, findCase, Wrapper.wf_dflt hwf]
  have hrun := Wrapper.run_of_target_none hwf ht E env h
  rw [hpre, hd] at hrun
  refine ⟨ht, ?_, ?_, ?_, ?_⟩
  · rw [hrun]
  · rw [hrun]
  · rw [hrun]
    rfl
  · rw [hrun]
    simp [execStmts, Stmt.exec, Heap.store]

/-- C19, at a concrete input: the float overload of the `int64_t`-indexed
`hipsolver_getrs_bufferSize` for `API_COMPAT`, with `lwork` at address 100, on a heap that
holds `5` everywhere; the overloads concerned are four. -/
theorem getrs_bufferSize_int64_unsupported_witness :
    (wrappers.filter fun w =>
      decide (w.name = "hipsolver_getrs_bufferSize") && w.isInt64).length = 4 ∧
    sampleHeap 100 = 5 ∧
    (hipsolver_getrs_bufferSize_float_int64_t.run idleLib API_COMPAT false sampleEnv
      sampleHeap).status = HIPSOLVER_STATUS_NOT_SUPPORTED ∧
    (hipsolver_getrs_bufferSize_float_int64_t.run idleLib API_COMPAT false sampleEnv
      sampleHeap).calls = [] ∧
    (hipsolver_getrs_bufferSize_float_int64_t.run idleLib API_COMPAT false sampleEnv
      sampleHeap).heap 100 = 0 :=
  ⟨by decide!, rfl,
   (getrs_bufferSize_int64_unsupported hipsolver_getrs_bufferSize_float_int64_t (by decide!)
     (by decide!) (by decide!) idleLib API_COMPAT false sampleEnv sampleHeap).2.1,
   (getrs_bufferSize_int64_unsupported hipsolver_getrs_bufferSize_float_int64_t (by decide!)
     (by decide!) (by decide!) idleLib API_COMPAT false sampleEnv sampleHeap).2.2.1,
   (getrs_bufferSize_int64_unsupported hipsolver_getrs_bufferSize_float_int64_t (by decide!)
     (by decide!) (by decide!) idleLib API_COMPAT false sampleEnv sampleHeap).2.2.2.2⟩

/-- C12, as stated, fails for dimensions whose product is outside the range of `int`: for
`M = N = 46341` the product `N * lda` of norm.hpp 105, taken in `int`, is `-2147479015`, the
constructor of `std::vector` throws for that size and `norm_error` returns no value. -/
theorem norm_error_relative_counterexample :
    ((0 : Int) ≤ 46341) ∧ (46341 : Int) * 46341 = 2147488281 ∧ INT_MAX = 2147483647 ∧
    wrapInt (46341 * 46341) = -2147479015 ∧
    norm_error sampleNormEnv 'F' 46341 46341 46341 sampleGold sampleComp 0 = none := by
  decide

/-- C12, amended: for every norm type, `M >= 0` and `N >= 0` with `N * M` in the range of
`int`, and arrays `gold` and `comp`, `norm_error` returns a value.  With `G` and `C` the
packed `M`-by-`N` matrices it builds (entry `(i, j)` at index `i + j * M`, holding the
converted element of `gold` at index `i + j * lda_gold`, respectively of `comp` at index
`i + j * lda_comp`, where `lda_comp` is replaced by `lda_gold` when it is not positive and
each index is the `int` value of the expression, which is its exact value whenever that is
in the range of `int`), `g` the `xlange` norm of `G` and `e` the `xlange` norm of the result
of `xaxpy` with `alpha = -1` on `G` and `C`, the value returned is `e / g` when `g > 0` and
`e` itself otherwise.  The quotient is taken only under the guard: when `g > 0` fails the
value returned does not depend on the division.  When `xaxpy` computes `y - x` entry by
entry for `alpha = -1`, its result holds `comp - gold` at every entry of the matrix. -/
theorem norm_error_relative {T D R : Type} (E : NormEnv T D R) (norm_type : Char)
    (M N lda_gold lda_comp : rocblas_int) (gold comp : rocblas_int → T) (hM : 0 ≤ M)
    (hN : 0 ≤ N) (hfit : N * M ≤ INT_MAX) :
    ∃ G C : List D,
      G.length = (N * M).toNat ∧ C.length = (N * M).toNat ∧
      (∀ i j : rocblas_int, 0 ≤ i → i < M → 0 ≤ j → j < N →
        G[(i + j * M).toNat]? = some (E.toDouble (gold (intIndex i j lda_gold))) ∧
        C[(i + j * M).toNat]? = some (E.toDouble
          (comp (intIndex i j (if lda_comp > 0 then lda_comp else lda_gold))))) ∧
      (∀ i j ld : rocblas_int, 0 ≤ i → 0 ≤ j → 0 ≤ ld → i + j * ld ≤ INT_MAX →
        intIndex i j ld = i + j * ld) ∧
      norm_error E norm_type M N lda_gold gold comp lda_comp =
        some (if E.gtZero (E.xlange norm_type M N G M) = true
          then E.div (E.xlange norm_type M N (E.xaxpy (M * N) E.minusOne G 1 C 1) M)
            (E.xlange norm_type M N G M)
          else E.xlange norm_type M N (E.xaxpy (M * N) E.minusOne G 1 C 1) M) ∧
      (∀ d : R → R → R, E.gtZero (E.xlange norm_type M N G M) = false →
        norm_error (E.withDiv d) norm_type M N lda_gold gold comp lda_comp =
          norm_error E norm_type M N lda_gold gold comp lda_comp) ∧
      (∀ sub : D → D → D,
        E.xaxpy (M * N) E.minusOne G 1 C 1 = List.zipWith (fun g c => sub c g) G C →
        ∀ i j : rocblas_int, 0 ≤ i → i < M → 0 ≤ j → j < N →
          (E.xaxpy (M * N) E.minusOne G 1 C 1)[(i + j * M).toNat]? =
            some (sub
              (E.toDouble
                (comp (intIndex i j (if lda_comp > 0 then lda_comp else lda_gold))))
              (E.toDouble (gold (intIndex i j lda_gold))))) := by
  obtain ⟨m, rfl⟩ := Int.eq_ofNat_of_zero_le hM
  obtain ⟨n, rfl⟩ := Int.eq_ofNat_of_zero_le hN
  have hsz : ((n : Int) * (m : Int)).toNat = n * m := by
    have : ((n : Int) * (m : Int)) = ((n * m : Nat) : Int) := by push_cast; rfl
    rw [this, Int.toNat_ofNat]
  obtain ⟨r, hr, hl1, hl2, hent⟩ := packBuffers_spec E.toDouble m n lda_gold
    (if lda_comp > 0 then lda_comp else lda_gold) gold comp
    (List.replicate (n * m) E.zero, List.replicate (n * m) E.zero) hfit (by simp) (by simp)
  have hentZ : ∀ i j : rocblas_int, 0 ≤ i → i < (m : Int) → 0 ≤ j → j < (n : Int) →
      r.1[(i + j * (m : Int)).toNat]? = some (E.toDouble (gold (intIndex i j lda_gold))) ∧
      r.2[(i + j * (m : Int)).toNat]? = some (E.toDouble
        (comp (intIndex i j (if lda_comp > 0 then lda_comp else lda_gold)))) := by
    intro i j hi0 hi hj0 hj
    obtain ⟨i, rfl⟩ := Int.eq_ofNat_of_zero_le hi0
    obtain ⟨j, rfl⟩ := Int.eq_ofNat_of_zero_le hj0
    rw [packed_index_toNat]
    exact hent i j (Int.ofNat_lt.1 hi) (Int.ofNat_lt.1 hj)
  have hval := norm_error_of_buffers E norm_type m n lda_gold lda_comp gold comp hfit r hr
  have hvalD : ∀ d : R → R → R,
      norm_error (E.withDiv d) norm_type m n lda_gold gold comp lda_comp =
      some (if E.gtZero (E.xlange norm_type m n r.1 m) = true
        then d (E.xlange norm_type m n (E.xaxpy ((m : Int) * (n : Int)) E.minusOne r.1 1 r.2 1) m)
          (E.xlange norm_type m n r.1 m)
        else E.xlange norm_type m n (E.xaxpy ((m : Int) * (n : Int)) E.minusOne r.1 1 r.2 1) m) :=
    fun d => norm_error_of_buffers (E.withDiv d) norm_type m n lda_gold lda_comp gold comp
      hfit r hr
  refine ⟨r.1, r.2, ?_, ?_, hentZ, ?_, hval, ?_, ?_⟩
  · rw [hsz]
    exact hl1
  · rw [hsz]
    exact hl2
  · intro i j ld hi hj hld h
    exact intIndex_eq hi hj hld h
  · intro d hg
    rw [hvalD d, hval, hg]
    rfl
  · intro sub hax i j hi0 hi hj0 hj
    obtain ⟨h1, h2⟩ := hentZ i j hi0 hi hj0 hj
    rw [hax, List.getElem?_zipWith, h1, h2]

/-- C12, amended, at a concrete input: the 2-by-2 matrices read with leading dimension 3
from `gold = 1, 2, 3, 4, 5, ...` and `comp = 3, 6, 9, 12, 15, ...` in exact arithmetic with
the sum of absolute values for norm: the norm of `gold` is `1 + 2 + 4 + 5 = 12`, that of the
difference `2 + 4 + 8 + 10 = 24`, and the value returned is `2`. -/
theorem norm_error_relative_witness :
    (0 : Int) ≤ 2 ∧ (2 : Int) * 2 ≤ INT_MAX ∧
    (norm_error sampleNormEnv 'F' 2 2 3 sampleGold sampleComp 0).isSome = true ∧
    norm_error sampleNormEnv 'F' 2 2 3 sampleGold sampleComp 0 = some 2 :=
  ⟨by decide, by decide,
   (let ⟨_, _, _, _, _, _, h, _⟩ := norm_error_relative sampleNormEnv 'F' 2 2 3 0 sampleGold
      sampleComp (by decide) (by decide) (by decide)
    by rw [h]; rfl),
   by decide⟩

/-- The forwarding targets of the range eigensolver wrappers, by evaluation. -/
theorem rangeEig_table :
    ∀ w ∈ wrappers, w.name ∈ rangeEigWrappers →
      ∀ a ∈ validAPIs, ∀ b ∈ [false, true],
        ((w.target a b).isSome = true ↔ (a, b) ∈ normalCompatPairs) := by
  decide!

/-- The entry points of the range eigensolver wrappers, by evaluation. -/
theorem rangeEig_variant_table :
    ∀ w ∈ wrappers, w.name ∈ rangeEigWrappers →
      ∀ b ∈ [false, true], w.variant API_NORMAL b = some (.normal, false) ∧
        w.variant API_COMPAT b = some (.compat, false) := by
  decide!

/-- C21: for `hipsolver_syevdx_heevdx`, `hipsolver_sygvdx_hegvdx` and their `bufferSize`
wrappers (every type overload), `API_NORMAL` and `API_COMPAT` each forward to one external
routine (an entry point of the normal interface, respectively a `hipsolverDn` entry point),
while the valid selector `API_FORTRAN` returns `HIPSOLVER_STATUS_NOT_SUPPORTED` without an
external call. -/
theorem rangeEig_no_fortran (w : Wrapper) (hw : w ∈ wrappers) (hn : w.name ∈ rangeEigWrappers)
    (E : ExtLib) (ALT : Bool) (env : Env) (h : Heap) :
    (∃ (f : String) (vs : List Val), (w.run E API_NORMAL ALT env h).calls = [⟨f, vs⟩] ∧
      entryConvention f = .normal) ∧
    (∃ (f : String) (vs : List Val), (w.run E API_COMPAT ALT env h).calls = [⟨f, vs⟩] ∧
      entryConvention f = .compat) ∧
    w.target API_FORTRAN ALT = none ∧
    (w.run E API_FORTRAN ALT env h).status = HIPSOLVER_STATUS_NOT_SUPPORTED ∧
    (w.run E API_FORTRAN ALT env h).calls = [] := by
  have hwf := wrappers_wf hw
  have hS := rangeEig_table w hw hn
  have hv := rangeEig_variant_table w hw hn
  have hiff := Wrapper.target_isSome_iff hwf normalCompatPairs hS (by decide)
  have hA : ALT ∈ [false, true] := by cases ALT <;> simp
  obtain ⟨hvn, hvc⟩ := hv ALT hA
  have hF : w.target API_FORTRAN ALT = none := by
    cases ht : w.target API_FORTRAN ALT with
    | none => rfl
    | some t =>
      have := (hiff API_FORTRAN ALT).1 (by simp [ht])
      cases ALT <;> simp [normalCompatPairs] at this
  obtain ⟨⟨f1, a1⟩, ht1, he1⟩ := Option.map_eq_some'.1 hvn
  obtain ⟨⟨f2, a2⟩, ht2, he2⟩ := Option.map_eq_some'.1 hvc
  simp only [Prod.mk.injEq] at he1 he2
  exact ⟨⟨f1, _, Wrapper.calls_of_target hwf ht1 E env h, he1.1⟩,
    ⟨f2, _, Wrapper.calls_of_target hwf ht2 E env h, he2.1⟩, hF,
    Wrapper.unsupported_of_target_none hwf hF E env h⟩

/-- C21, at a concrete input: the double overload of `hipsolver_sygvdx_hegvdx` for
`API_FORTRAN`; the overloads concerned are sixteen. -/
theorem rangeEig_no_fortran_witness :
    (wrappers.filter fun w => decide (w.name ∈ rangeEigWrappers)).length = 16 ∧
    (hipsolver_sygvdx_hegvdx_double.run idleLib API_NORMAL false sampleEnv sampleHeap).calls.map
      ExtCall.name = ["hipsolverDsygvdx"] ∧
    (hipsolver_sygvdx_hegvdx_double.run idleLib API_FORTRAN false sampleEnv sampleHeap).status
      = HIPSOLVER_STATUS_NOT_SUPPORTED ∧
    (hipsolver_sygvdx_hegvdx_double.run idleLib API_FORTRAN false sampleEnv sampleHeap).calls
      = [] :=
  ⟨by decide!, by decide!,
   (rangeEig_no_fortran hipsolver_sygvdx_hegvdx_double (by decide!) (by decide!) idleLib false
     sampleEnv sampleHeap).2.2.2⟩

/-- C23: `api2marshal` restricted to the three valid values of `API` and both flag values
has a left inverse `d` with `d (api2marshal API ALT) = (API, ALT)`, hence is injective there;
its image on these inputs is exactly the six codes other than `INVALID_API_SPEC`; and
`api2marshal` returns `INVALID_API_SPEC` if and only if `API` is none of the three valid
values. -/
theorem api2marshal_decodable :
    (∃ d : testMarshal_t → testAPI_t × Bool,
      ∀ API ∈ validAPIs, ∀ ALT : Bool, d (api2marshal API ALT) = (API, ALT)) ∧
    (∀ a1 ∈ validAPIs, ∀ a2 ∈ validAPIs, ∀ b1 b2 : Bool,
      api2marshal a1 b1 = api2marshal a2 b2 → a1 = a2 ∧ b1 = b2) ∧
    (∀ c : testMarshal_t,
      (∃ API ∈ validAPIs, ∃ ALT : Bool, api2marshal API ALT = c) ↔ c ≠ INVALID_API_SPEC) ∧
    (∀ (API : testAPI_t) (ALT : Bool),
      api2marshal API ALT = INVALID_API_SPEC ↔ API ∉ validAPIs) := by
  refine ⟨⟨fun c => match c with
      | C_NORMAL => (API_NORMAL, false)
      | C_NORMAL_ALT => (API_NORMAL, true)
      | FORTRAN_NORMAL => (API_FORTRAN, false)
      | FORTRAN_NORMAL_ALT => (API_FORTRAN, true)
      | COMPAT_NORMAL => (API_COMPAT, false)
      | COMPAT_NORMAL_ALT => (API_COMPAT, true)
      | INVALID_API_SPEC => (API_NORMAL, false), ?_⟩, ?_, ?_, ?_⟩
  · decide
  · decide
  · intro c
    constructor
    · rintro ⟨API, hA, ALT, rfl⟩
      revert API
      cases ALT <;> decide
    · intro hc
      cases c with
      | C_NORMAL => exact ⟨API_NORMAL, by decide, false, rfl⟩
      | C_NORMAL_ALT => exact ⟨API_NORMAL, by decide, true, rfl⟩
      | FORTRAN_NORMAL => exact ⟨API_FORTRAN, by decide, false, rfl⟩
      | FORTRAN_NORMAL_ALT => exact ⟨API_FORTRAN, by decide, true, rfl⟩
      | COMPAT_NORMAL => exact ⟨API_COMPAT, by decide, false, rfl⟩
      | COMPAT_NORMAL_ALT => exact ⟨API_COMPAT, by decide, true, rfl⟩
      | INVALID_API_SPEC => exact absurd rfl hc
  · intro API ALT
    constructor
    · intro hinv hA
      revert hinv
      revert API
      cases ALT <;> decide
    · intro hA
      exact api2marshal_of_invalid API ALT (fun e => hA (by simp [validAPIs, e]))
        (fun e => hA (by simp [validAPIs, e])) (fun e => hA (by simp [validAPIs, e]))

/-- A wrapper that switches on `API` itself does not read its flag. -/
theorem Wrapper.target_flag_irrelevant {w : Wrapper} (hs : w.scrutinee = .API)
    (API : testAPI_t) (ALT1 ALT2 : Bool) : w.target API ALT1 = w.target API ALT2 := by
  simp [Wrapper.target, Wrapper.selected, hs, Scrutinee.value]

/-- C24: for every wrapper of hipsolver.hpp, whether an external routine is invoked and
which one is determined by the selector `API` and, in a wrapper that switches on
`api2marshal`, the flag: two calls of the same overload that agree on `(API, ALT)` and
differ arbitrarily in the other argument values, the heap and the behaviour of the external
library either both return `HIPSOLVER_STATUS_NOT_SUPPORTED` without an external call, or
both make exactly one call of the same entry point with the same argument expressions; a
wrapper that switches on `API` itself has the same forwarding target for both flag
values. -/
theorem wrapper_call_determined_by_selector (w : Wrapper) (hw : w ∈ wrappers)
    (E1 E2 : ExtLib) (API : testAPI_t) (ALT : Bool) (env1 env2 : Env) (h1 h2 : Heap) :
    (((w.run E1 API ALT env1 h1).status = HIPSOLVER_STATUS_NOT_SUPPORTED ∧
        (w.run E1 API ALT env1 h1).calls = [] ∧
        (w.run E2 API ALT env2 h2).status = HIPSOLVER_STATUS_NOT_SUPPORTED ∧
        (w.run E2 API ALT env2 h2).calls = []) ∨
      (∃ (f : String) (args : List Arg),
        (w.run E1 API ALT env1 h1).calls = [⟨f, args.map (Arg.eval env1)⟩] ∧
        (w.run E2 API ALT env2 h2).calls = [⟨f, args.map (Arg.eval env2)⟩])) ∧
    (w.scrutinee = .API → ∀ ALT2 : Bool, w.target API ALT = w.target API ALT2) := by
  have hwf := wrappers_wf hw
  refine ⟨?_, fun hs ALT2 => Wrapper.target_flag_irrelevant hs API ALT ALT2⟩
  cases ht : w.target API ALT with
  | none =>
    exact Or.inl ⟨(Wrapper.unsupported_of_target_none hwf ht E1 env1 h1).1,
      (Wrapper.unsupported_of_target_none hwf ht E1 env1 h1).2,
      (Wrapper.unsupported_of_target_none hwf ht E2 env2 h2).1,
      (Wrapper.unsupported_of_target_none hwf ht E2 env2 h2).2⟩
  | some t =>
    obtain ⟨f, args⟩ := t
    exact Or.inr ⟨f, args, Wrapper.calls_of_target hwf ht E1 env1 h1,
      Wrapper.calls_of_target hwf ht E2 env2 h2⟩

/-- C24, at a concrete input: the float overloads of `hipsolver_gebrd` and `hipsolver_getrf`,
each called twice with argument values that differ in every parameter. -/
theorem wrapper_call_determined_by_selector_witness :
    (∀ p : Param, sampleEnv p ≠ sampleEnvOther p) ∧
    (hipsolver_gebrd_float.run idleLib API_FORTRAN false sampleEnv sampleHeap).calls.map
      ExtCall.name = ["hipsolverSgebrdFortran"] ∧
    (hipsolver_gebrd_float.run idleLib API_FORTRAN false sampleEnvOther sampleHeap).calls.map
      ExtCall.name = ["hipsolverSgebrdFortran"] ∧
    (hipsolver_getrf_float.scrutinee = .API →
      ∀ ALT2 : Bool, hipsolver_getrf_float.target API_COMPAT true
        = hipsolver_getrf_float.target API_COMPAT ALT2) ∧
    (((hipsolver_getrf_float.run idleLib API_COMPAT true sampleEnv sampleHeap).status
          = HIPSOLVER_STATUS_NOT_SUPPORTED ∧
        (hipsolver_getrf_float.run idleLib API_COMPAT true sampleEnv sampleHeap).calls = [] ∧
        (hipsolver_getrf_float.run idleLib API_COMPAT true sampleEnvOther sampleHeap).status
          = HIPSOLVER_STATUS_NOT_SUPPORTED ∧
        (hipsolver_getrf_float.run idleLib API_COMPAT true sampleEnvOther sampleHeap).calls
          = []) ∨
      (∃ (f : String) (args : List Arg),
        (hipsolver_getrf_float.run idleLib API_COMPAT true sampleEnv sampleHeap).calls
          = [⟨f, args.map (Arg.eval sampleEnv)⟩] ∧
        (hipsolver_getrf_float.run idleLib API_COMPAT true sampleEnvOther sampleHeap).calls
          = [⟨f, args.map (Arg.eval sampleEnvOther)⟩])) :=
  ⟨by intro p; cases p <;> decide, by decide!, by decide!,
   (wrapper_call_determined_by_selector hipsolver_getrf_float (by decide!) idleLib idleLib
     API_COMPAT true sampleEnv sampleEnvOther sampleHeap sampleHeap).2,
   (wrapper_call_determined_by_selector hipsolver_getrf_float (by decide!) idleLib idleLib
     API_COMPAT true sampleEnv sampleEnvOther sampleHeap sampleHeap).1⟩

/-- The two halves of `familyPairs` have the same length, so the pairing drops nothing. -/
theorem familyPairs_lengths :
    (wrappers.filter fun w => w.isBufferSize).length = 120 ∧
    (wrappers.filter fun w => !w.isBufferSize).length = 120 := by
  decide!

/-- The pairing of `familyPairs` is by name and kind of overload, by evaluation. -/
theorem familyPairs_matching :
    familyPairs.all (fun p => decide (p.1.name = p.2.name ++ "_bufferSize") &&
      decide (p.1.overloadKind = p.2.overloadKind)) = true := by
  decide!

/-- The selectors for which the solve wrapper forwards and its `bufferSize` wrapper does
not, by evaluation. -/
theorem familyPairs_targets :
    familyPairs.all (fun p => validAPIs.all fun a =>
      (p.2.hasTarget a && !p.1.hasTarget a) ==
        (decide (a = API_COMPAT) && p.2.solveOnlyCompat)) = true := by
  decide!

/-- The `API_COMPAT` calls of getrs, potrs and batched potrf, by evaluation. -/
theorem familyPairs_compat_calls :
    familyPairs.all (fun p => !p.2.solveOnlyCompat ||
      ((p.2.target API_COMPAT false).isSome && (p.2.target API_COMPAT true).isSome &&
        p.2.compatWithoutWorkspace false && p.2.compatWithoutWorkspace true)) = true := by
  decide!

/-- Without a valid selector no wrapper has a forwarding target. -/
theorem Wrapper.hasTarget_of_invalid {w : Wrapper} (hwf : w.wf = true) {API : testAPI_t}
    (hA : API ∉ validAPIs) : w.hasTarget API = false := by
  have h0 : API ≠ API_NORMAL := fun e => hA (by simp [validAPIs, e])
  have h1 : API ≠ API_FORTRAN := fun e => hA (by simp [validAPIs, e])
  have h2 : API ≠ API_COMPAT := fun e => hA (by simp [validAPIs, e])
  simp [Wrapper.hasTarget, Wrapper.target_of_invalid hwf API _ h0 h1 h2]

/-- C22: pair every solve wrapper with the `bufferSize` wrapper of the same routine and the
same kind of overload (element type, `int` or `int64_t`, pointer or batched).  The selectors
`API` for which the solve wrapper has a forwarding target (for some value of its flag) while
the `bufferSize` wrapper has none (for no value of its flag) are exactly `API_COMPAT` for
getrs (`int` and `int64_t`), potrs (pointer and batched) and batched potrf; there the solve
wrapper forwards to a `hipsolverDn` entry point and passes neither `work` nor `lwork`, while
the `bufferSize` wrapper returns `HIPSOLVER_STATUS_NOT_SUPPORTED` without a call.  For every
other routine and selector a forwarding target of the solve wrapper implies one of the
`bufferSize` wrapper. -/
theorem solve_without_bufferSize (p : Wrapper × Wrapper) (hp : p ∈ familyPairs)
    (API : testAPI_t) (E : ExtLib) (ALT : Bool) (env : Env) (h : Heap) :
    (p.1 ∈ wrappers ∧ p.1.isBufferSize = true ∧ p.2 ∈ wrappers ∧ p.2.isBufferSize = false ∧
      p.1.name = p.2.name ++ "_bufferSize" ∧ p.1.overloadKind = p.2.overloadKind) ∧
    (∀ w ∈ wrappers, w.isBufferSize = false → ∃ b, (b, w) ∈ familyPairs) ∧
    ((p.2.hasTarget API = true ∧ p.1.hasTarget API = false) ↔
      (API = API_COMPAT ∧ p.2.solveOnlyCompat = true)) ∧
    (¬ (API = API_COMPAT ∧ p.2.solveOnlyCompat = true) →
      p.2.hasTarget API = true → p.1.hasTarget API = true) ∧
    (p.2.solveOnlyCompat = true →
      (∃ (f : String) (args : List Arg),
        (p.2.run E API_COMPAT ALT env h).calls = [⟨f, args.map (Arg.eval env)⟩] ∧
        startsWithDn f.toList = true ∧
        ∀ a ∈ args, a.mentions .work = false ∧ a.mentions .lwork = false) ∧
      (p.1.run E API_COMPAT ALT env h).status = HIPSOLVER_STATUS_NOT_SUPPORTED ∧
      (p.1.run E API_COMPAT ALT env h).calls = []) := by
  obtain ⟨hl1, hl2⟩ := familyPairs_lengths
  have hfst : familyPairs.map Prod.fst = wrappers.filter fun w => w.isBufferSize :=
    List.map_fst_zip _ _ (by rw [hl1, hl2])
  have hsnd : familyPairs.map Prod.snd = wrappers.filter fun w => !w.isBufferSize :=
    List.map_snd_zip _ _ (by rw [hl1, hl2])
  have h1 : p.1 ∈ wrappers.filter fun w => w.isBufferSize := by
    rw [← hfst]
    exact List.mem_map_of_mem _ hp
  have h2 : p.2 ∈ wrappers.filter fun w => !w.isBufferSize := by
    rw [← hsnd]
    exact List.mem_map_of_mem _ hp
  obtain ⟨hw1, hb1⟩ := List.mem_filter.1 h1
  obtain ⟨hw2, hb2⟩ := List.mem_filter.1 h2
  have hb2f : p.2.isBufferSize = false := by simpa using hb2
  have hwf1 := wrappers_wf hw1
  have hwf2 := wrappers_wf hw2
  have hm := List.all_eq_true.1 familyPairs_matching p hp
  simp only [Bool.and_eq_true, decide_eq_true_eq] at hm
  have ht := List.all_eq_true.1 familyPairs_targets p hp
  have hc := List.all_eq_true.1 familyPairs_compat_calls p hp
  have hiff : ∀ A : testAPI_t, (p.2.hasTarget A = true ∧ p.1.hasTarget A = false) ↔
      (A = API_COMPAT ∧ p.2.solveOnlyCompat = true) := by
    intro A
    by_cases hA : A ∈ validAPIs
    · have := List.all_eq_true.1 ht A hA
      simp only [beq_iff_eq] at this
      have e : (p.2.hasTarget A = true ∧ p.1.hasTarget A = false) ↔
          (p.2.hasTarget A && !p.1.hasTarget A) = true := by simp
      rw [e, this]
      simp
    · rw [Wrapper.hasTarget_of_invalid hwf2 hA]
      constructor
      · intro hx
        cases hx.1
      · intro hx
        exact absurd (by rw [hx.1]; decide) hA
  refine ⟨⟨hw1, hb1, hw2, hb2f, hm.1, hm.2⟩, ?_, hiff API, ?_, ?_⟩
  · intro w hw hb
    have : w ∈ familyPairs.map Prod.snd := by
      rw [hsnd]
      exact List.mem_filter.2 ⟨hw, by simp [hb]⟩
    obtain ⟨q, hq, rfl⟩ := List.mem_map.1 this
    exact ⟨q.1, hq⟩
  · intro hne hs
    cases hb : p.1.hasTarget API with
    | true => rfl
    | false => exact absurd ((hiff API).1 ⟨hs, hb⟩) hne
  · intro hso
    simp only [hso, Bool.not_true, Bool.false_or, Bool.and_eq_true] at hc
    obtain ⟨⟨⟨hs0, hs1⟩, hc0⟩, hc1⟩ := hc
    have hsA : (p.2.target API_COMPAT ALT).isSome = true := by cases ALT <;> assumption
    have hcA : p.2.compatWithoutWorkspace ALT = true := by cases ALT <;> assumption
    obtain ⟨⟨f, args⟩, htg⟩ := Option.isSome_iff_exists.1 hsA
    have hbN := ((hiff API_COMPAT).2 ⟨rfl, hso⟩).2
    have hnone : p.1.target API_COMPAT ALT = none := by
      simp only [Wrapper.hasTarget, Bool.or_eq_false_iff] at hbN
      cases ALT
      · simpa using hbN.1
      · simpa using hbN.2
    simp only [Wrapper.compatWithoutWorkspace, htg, Bool.and_eq_true, List.all_eq_true,
      Bool.not_eq_true'] at hcA
    exact ⟨⟨f, args, Wrapper.calls_of_target hwf2 htg E env h, hcA.1, hcA.2⟩,
      Wrapper.unsupported_of_target_none hwf1 hnone E env h⟩

/-- C22, at a concrete input: the batched float overload of `hipsolver_potrf` with its
`bufferSize` wrapper for `API_COMPAT`, and the pointer overload for comparison. -/
theorem solve_without_bufferSize_witness :
    familyPairs.length = 120 ∧
    (hipsolver_potrf_float.hasTarget API_COMPAT = true ∧
      hipsolver_potrf_bufferSize_float.hasTarget API_COMPAT = true) ∧
    ((hipsolver_potrf_float_batched.hasTarget API_COMPAT = true ∧
        hipsolver_potrf_bufferSize_float_batched.hasTarget API_COMPAT = false) ↔
      ((API_COMPAT : testAPI_t) = API_COMPAT ∧
        hipsolver_potrf_float_batched.solveOnlyCompat = true)) :=
  ⟨by decide!, by decide!,
   (solve_without_bufferSize (hipsolver_potrf_bufferSize_float_batched,
      hipsolver_potrf_float_batched) (by decide!) API_COMPAT idleLib false sampleEnv
      sampleHeap).2.2.1⟩

/-- C25, as stated, fails for dimensions whose product is outside the range of `int`: for
`M = N = 65536` the product `N * lda` of norm.hpp 105, taken in `int`, is `0`, so the two
vectors are empty and the first write of the loop nest, at index `0 + 0 * 65536 = 0`, is
outside them: the packed index is not below the length of the buffers, and `norm_error`
returns no value. -/
theorem norm_error_indices_in_bounds_counterexample :
    ((0 : Int) ≤ 65536) ∧ (65536 : Int) * 65536 = 4294967296 ∧ INT_MAX = 2147483647 ∧
    wrapInt (65536 * 65536) = 0 ∧
    (List.replicate (wrapInt (65536 * 65536)).toNat (0 : Int)).length = 0 ∧
    intIndex 0 0 65536 = 0 ∧
    packStep (fun x => x) 65536 65536 65536 sampleGold sampleComp 0 0
      (List.replicate (wrapInt (65536 * 65536)).toNat (0 : Int),
       List.replicate (wrapInt (65536 * 65536)).toNat (0 : Int)) = none ∧
    norm_error sampleNormEnv 'F' 65536 65536 65536 sampleGold sampleComp 0 = none :=
  ⟨by decide, by decide, by decide, by decide, by decide, by decide, by decide, by decide!⟩

/-- C25, amended: for `M >= 0` and `N >= 0` with `N * M` in the range of `int`, the length
`N * lda` of the buffers `gold_double` and `comp_double` is `N * M`, every write of the loop
nest of `norm_error` is inside the buffers, and for every pair `0 <= i < M`, `0 <= j < N`
the packed index written, which is `i + j * M`, is not negative and below `N * M`; distinct
pairs write distinct packed indices; and when `lda_gold >= M`, the effective
`lda_comp >= M`, `lda_gold * N` and `lda_comp * N` are in the range of `int` and the source
arrays hold at least `lda_gold * N` and `lda_comp * N` elements, the source indices read,
which are `i + j * lda_gold` and `i + j * lda_comp`, are in bounds. -/
theorem norm_error_indices_in_bounds {T D : Type} (M N lda_gold lda_comp : rocblas_int)
    (hM : 0 ≤ M) (hN : 0 ≤ N) (hfit : N * M ≤ INT_MAX) :
    wrapInt (N * M) = N * M ∧
    (∀ (conv : T → D) (gold comp : rocblas_int → T) (z : D),
      ∃ r, packBuffers conv M N M lda_gold (if lda_comp > 0 then lda_comp else lda_gold) gold
          comp (List.replicate (wrapInt (N * M)).toNat z,
            List.replicate (wrapInt (N * M)).toNat z) = some r ∧
        r.1.length = (N * M).toNat ∧ r.2.length = (N * M).toNat) ∧
    (∀ i j : rocblas_int, 0 ≤ i → i < M → 0 ≤ j → j < N →
      intIndex i j M = i + j * M ∧ 0 ≤ i + j * M ∧ i + j * M < N * M ∧
      (i + j * M).toNat < (N * M).toNat) ∧
    (∀ i j i2 j2 : rocblas_int, 0 ≤ i → i < M → 0 ≤ i2 → i2 < M →
      i + j * M = i2 + j2 * M → i = i2 ∧ j = j2) ∧
    (∀ lenGold lenComp : rocblas_int, M ≤ lda_gold →
      M ≤ (if lda_comp > 0 then lda_comp else lda_gold) → lda_gold * N ≤ INT_MAX →
      (if lda_comp > 0 then lda_comp else lda_gold) * N ≤ INT_MAX → lda_gold * N ≤ lenGold →
      (if lda_comp > 0 then lda_comp else lda_gold) * N ≤ lenComp →
      ∀ i j : rocblas_int, 0 ≤ i → i < M → 0 ≤ j → j < N →
        (intIndex i j lda_gold = i + j * lda_gold ∧
          0 ≤ i + j * lda_gold ∧ i + j * lda_gold < lenGold) ∧
        (intIndex i j (if lda_comp > 0 then lda_comp else lda_gold)
            = i + j * (if lda_comp > 0 then lda_comp else lda_gold) ∧
          0 ≤ i + j * (if lda_comp > 0 then lda_comp else lda_gold) ∧
          i + j * (if lda_comp > 0 then lda_comp else lda_gold) < lenComp)) := by
  have hidx : ∀ ld : rocblas_int, M ≤ ld → ld * N ≤ INT_MAX →
      ∀ i j : rocblas_int, 0 ≤ i → i < M → 0 ≤ j → j < N →
      intIndex i j ld = i + j * ld ∧ 0 ≤ i + j * ld ∧ i + j * ld < ld * N := by
    intro ld hld hmax i j hi0 hi hj0 hj
    have hld0 : 0 ≤ ld := le_trans hM hld
    have h1 : 0 ≤ j * ld := mul_nonneg hj0 hld0
    have hj1 : j + 1 ≤ N := Int.add_one_le_of_lt hj
    have h2 : 0 ≤ (N - 1 - j) * ld := mul_nonneg (by linarith) hld0
    have h3 : i + j * ld < ld * N := by nlinarith
    exact ⟨intIndex_eq hi0 hj0 hld0 (le_trans (le_of_lt h3) hmax), by linarith, h3⟩
  have hMN : M * N ≤ INT_MAX := by rw [mul_comm]; exact hfit
  have hnn : 0 ≤ N * M := mul_nonneg hN hM
  have hfit2 : N * M ≤ 2147483647 := hfit
  have hw : wrapInt (N * M) = N * M := wrapInt_eq (by linarith) hfit2
  refine ⟨hw, ?_, ?_, ?_, ?_⟩
  · intro conv gold comp z
    rw [hw]
    obtain ⟨m, rfl⟩ := Int.eq_ofNat_of_zero_le hM
    obtain ⟨n, rfl⟩ := Int.eq_ofNat_of_zero_le hN
    have hsz : ((n : Int) * (m : Int)).toNat = n * m := by
      have : ((n : Int) * (m : Int)) = ((n * m : Nat) : Int) := by push_cast; rfl
      rw [this, Int.toNat_ofNat]
    rw [hsz]
    obtain ⟨r, hr, h1, h2, _⟩ := packBuffers_spec conv m n lda_gold
      (if lda_comp > 0 then lda_comp else lda_gold) gold comp
      (List.replicate (n * m) z, List.replicate (n * m) z) hfit (by simp) (by simp)
    exact ⟨r, hr, h1, h2⟩
  · intro i j hi0 hi hj0 hj
    obtain ⟨h0, h1, h2⟩ := hidx M (le_refl M) hMN i j hi0 hi hj0 hj
    have h3 : i + j * M < N * M := by rw [mul_comm N M]; exact h2
    exact ⟨h0, h1, h3, (Int.toNat_lt_toNat (lt_of_le_of_lt h1 h3)).2 h3⟩
  · intro i j i2 j2 hi0 hi hi20 hi2 h
    exact position_inj (le_refl M) hi0 hi hi20 hi2 h
  · intro lenGold lenComp hg hc hgm hcm hlg hlc i j hi0 hi hj0 hj
    obtain ⟨g0, g1, g2⟩ := hidx lda_gold hg hgm i j hi0 hi hj0 hj
    obtain ⟨c0, c1, c2⟩ := hidx _ hc hcm i j hi0 hi hj0 hj
    exact ⟨⟨g0, g1, lt_of_lt_of_le g2 hlg⟩, ⟨c0, c1, lt_of_lt_of_le c2 hlc⟩⟩

/-- C25, amended, at a concrete input: `M = 2`, `N = 3`, `lda_gold = 4` and the default
`lda_comp = 0`, for arrays of `12` elements: the packed index and the source indices of the
entry `(1, 2)`. -/
theorem norm_error_indices_in_bounds_witness :
    ((0 : Int) ≤ 2 ∧ (0 : Int) ≤ 3 ∧ (3 : Int) * 2 ≤ INT_MAX) ∧
    (intIndex 1 2 2 = 1 + 2 * 2 ∧ (0 : Int) ≤ 1 + 2 * 2 ∧ (1 : Int) + 2 * 2 < 3 * 2 ∧
      ((1 : Int) + 2 * 2).toNat < ((3 : Int) * 2).toNat) ∧
    (intIndex 1 2 4 = 1 + 2 * 4 ∧ (0 : Int) ≤ 1 + 2 * 4 ∧ (1 : Int) + 2 * 4 < 12) :=
  ⟨by decide,
   (@norm_error_indices_in_bounds Int Int 2 3 4 0 (by decide) (by decide) (by decide)).2.2.1
     1 2 (by decide) (by decide) (by decide) (by decide),
   ((@norm_error_indices_in_bounds Int Int 2 3 4 0 (by decide) (by decide)
      (by decide)).2.2.2.2 12 12 (by decide) (by decide) (by decide) (by decide) (by decide)
      (by decide) 1 2 (by decide) (by decide) (by decide) (by decide)).1⟩

/-- C26: the leading dimension with which `norm_error` reads `comp` is `lda_comp` when
`lda_comp > 0` and `lda_gold` otherwise: a call with any `lda_comp` is the call with that
effective value, and for every `lda_comp <= 0`, the default `0` included, the call equals
the call with `lda_gold` for `lda_comp`. -/
theorem norm_error_lda_comp_default {T D R : Type} (E : NormEnv T D R) (norm_type : Char)
    (M N lda_gold lda_comp : rocblas_int) (gold comp : rocblas_int → T) (h : lda_comp ≤ 0) :
    norm_error E norm_type M N lda_gold gold comp lda_comp =
      norm_error E norm_type M N lda_gold gold comp lda_gold ∧
    norm_error E norm_type M N lda_gold gold comp 0 =
      norm_error E norm_type M N lda_gold gold comp lda_gold ∧
    (∀ lc : rocblas_int, norm_error E norm_type M N lda_gold gold comp lc =
      norm_error E norm_type M N lda_gold gold comp (if lc > 0 then lc else lda_gold)) := by
  have hgen : ∀ lc : rocblas_int, norm_error E norm_type M N lda_gold gold comp lc =
      norm_error E norm_type M N lda_gold gold comp (if lc > 0 then lc else lda_gold) := by
    intro lc
    by_cases hlc : lc > 0
    · simp only [hlc, if_true]
    · have e : (if (if lc > 0 then lc else lda_gold) > 0 then (if lc > 0 then lc else lda_gold)
          else lda_gold) = (if lc > 0 then lc else lda_gold) := by
        simp only [hlc, if_false]
        split <;> rfl
      unfold norm_error
      simp only [e]
  refine ⟨?_, ?_, hgen⟩
  · rw [hgen lda_comp, if_neg (not_lt.2 h)]
  · rw [hgen 0, if_neg (by decide)]

/-- C26, at a concrete input: the 2-by-2 matrices of `sampleGold` and `sampleComp` with
`lda_gold = 3`: `lda_comp = -5` gives the value of `lda_comp = 3`, whereas the positive
`lda_comp = 2` gives another one. -/
theorem norm_error_lda_comp_default_witness :
    ((-5 : Int) ≤ 0) ∧
    norm_error sampleNormEnv 'F' 2 2 3 sampleGold sampleComp (-5) =
      norm_error sampleNormEnv 'F' 2 2 3 sampleGold sampleComp 3 ∧
    norm_error sampleNormEnv 'F' 2 2 3 sampleGold sampleComp 3 = some 2 ∧
    norm_error sampleNormEnv 'F' 2 2 3 sampleGold sampleComp 2 = some 1 :=
  ⟨by decide,
   (norm_error_lda_comp_default sampleNormEnv 'F' 2 2 3 (-5) sampleGold sampleComp
     (by decide)).1,
   by decide, by decide⟩

/-- C27, as stated, fails for a leading dimension below the row count: with `M = N = 2` and
`lda = 1` the entry `(0, 1)`, for which `i <= j`, lies at position `0 + 1 * 1 = 1`, which is
also the position `1 + 0 * 1` of the entry `(1, 0)`; `norm_error_upperTr` stores zero there,
so the entry `(0, 1)` of `gold`, which held `2`, is changed. -/
theorem norm_error_upperTr_frame_counterexample :
    ((0 : Int) ≤ 0 ∧ (0 : Int) < 2 ∧ (0 : Int) ≤ 1 ∧ (1 : Int) < 2 ∧ (0 : Int) ≤ 1) ∧
    sampleGold (0 + 1 * 1) = 2 ∧
    (norm_error_upperTr sampleNormEnv 0 'F' 2 2 1 sampleGold sampleComp).2.1 (0 + 1 * 1) = 0 ∧
    (norm_error_upperTr sampleNormEnv 0 'F' 2 2 1 sampleGold sampleComp).2.1 (0 + 1 * 1)
      ≠ sampleGold (0 + 1 * 1) := by
  decide

/-- C27, amended: `norm_error_upperTr` modifies its inputs in place.  After the call, for
every `0 <= i < M` and `0 <= j < N` with `i > j` the elements `gold[i + j * lda]` and
`comp[i + j * lda]`, the index being the `int` value of the expression, are zero; every
array position that is not the position of such an entry is unchanged, in particular every
position outside the `M`-by-`N` index set; and the value returned is `norm_error` applied
to the modified arrays with `lda` as leading dimension of both.  All this holds for every
`lda`.  When `lda >= M` and `lda * N` is in the range of `int`, the index of the entry
`(i, j)` is `i + j * lda` itself and every entry with `i <= j` is unchanged.
`norm_error_lowerTr` does the same with the condition `i < j`, the entries with `j <= i`
being the unchanged ones.  `norm_error` itself has no access to the arrays but to read
them. -/
theorem norm_error_upperTr_frame {T D R : Type} (E : NormEnv T D R) (z : T) (norm_type : Char)
    (M N lda : rocblas_int) (gold comp : rocblas_int → T) :
    ((∀ i j : rocblas_int, 0 ≤ i → i < M → 0 ≤ j → j < N → i > j →
        (norm_error_upperTr E z norm_type M N lda gold comp).2.1 (intIndex i j lda) = z ∧
        (norm_error_upperTr E z norm_type M N lda gold comp).2.2 (intIndex i j lda) = z) ∧
      (∀ k : rocblas_int,
        (¬ ∃ i j : rocblas_int, 0 ≤ i ∧ i < M ∧ 0 ≤ j ∧ j < N ∧ i > j ∧ k = intIndex i j lda) →
        (norm_error_upperTr E z norm_type M N lda gold comp).2.1 k = gold k ∧
        (norm_error_upperTr E z norm_type M N lda gold comp).2.2 k = comp k) ∧
      (norm_error_upperTr E z norm_type M N lda gold comp).1 =
        norm_error E norm_type M N lda
          (norm_error_upperTr E z norm_type M N lda gold comp).2.1
          (norm_error_upperTr E z norm_type M N lda gold comp).2.2 lda ∧
      (M ≤ lda → lda * N ≤ INT_MAX →
        ∀ i j : rocblas_int, 0 ≤ i → i < M → 0 ≤ j → j < N →
          intIndex i j lda = i + j * lda ∧
          (i ≤ j →
            (norm_error_upperTr E z norm_type M N lda gold comp).2.1 (i + j * lda)
              = gold (i + j * lda) ∧
            (norm_error_upperTr E z norm_type M N lda gold comp).2.2 (i + j * lda)
              = comp (i + j * lda)))) ∧
    ((∀ i j : rocblas_int, 0 ≤ i → i < M → 0 ≤ j → j < N → i < j →
        (norm_error_lowerTr E z norm_type M N lda gold comp).2.1 (intIndex i j lda) = z ∧
        (norm_error_lowerTr E z norm_type M N lda gold comp).2.2 (intIndex i j lda) = z) ∧
      (∀ k : rocblas_int,
        (¬ ∃ i j : rocblas_int, 0 ≤ i ∧ i < M ∧ 0 ≤ j ∧ j < N ∧ i < j ∧ k = intIndex i j lda) →
        (norm_error_lowerTr E z norm_type M N lda gold comp).2.1 k = gold k ∧
        (norm_error_lowerTr E z norm_type M N lda gold comp).2.2 k = comp k) ∧
      (norm_error_lowerTr E z norm_type M N lda gold comp).1 =
        norm_error E norm_type M N lda
          (norm_error_lowerTr E z norm_type M N lda gold comp).2.1
          (norm_error_lowerTr E z norm_type M N lda gold comp).2.2 lda ∧
      (M ≤ lda → lda * N ≤ INT_MAX →
        ∀ i j : rocblas_int, 0 ≤ i → i < M → 0 ≤ j → j < N →
          intIndex i j lda = i + j * lda ∧
          (j ≤ i →
            (norm_error_lowerTr E z norm_type M N lda gold comp).2.1 (i + j * lda)
              = gold (i + j * lda) ∧
            (norm_error_lowerTr E z norm_type M N lda gold comp).2.2 (i + j * lda)
              = comp (i + j * lda)))) := by
  have hret : ∀ g c : rocblas_int → T, norm_error E norm_type M N lda g c 0 =
      norm_error E norm_type M N lda g c lda := by
    intro g c
    unfold norm_error
    have e : (if (0 : rocblas_int) > 0 then (0 : rocblas_int) else lda) =
        (if lda > 0 then lda else lda) := by
      rw [if_neg (by decide)]
      split <;> rfl
    simp only [e]
  have hidx : M ≤ lda → lda * N ≤ INT_MAX →
      ∀ i j : rocblas_int, 0 ≤ i → i < M → 0 ≤ j → j < N → intIndex i j lda = i + j * lda := by
    intro hlda hmax i j hi0 hi hj0 hj
    have hld0 : 0 ≤ lda := le_trans (le_trans hi0 (le_of_lt hi)) hlda
    have hj1 : j + 1 ≤ N := Int.add_one_le_of_lt hj
    have h2 : 0 ≤ (N - 1 - j) * lda := mul_nonneg (by linarith) hld0
    have h3 : i + j * lda < lda * N := by nlinarith
    exact intIndex_eq hi0 hj0 hld0 (le_trans (le_of_lt h3) hmax)
  have hgen : ∀ cond : rocblas_int → rocblas_int → Bool,
      (∀ i j : rocblas_int, 0 ≤ i → i < M → 0 ≤ j → j < N → cond i j = true →
        (zeroWhere cond z M N lda (gold, comp)).1 (intIndex i j lda) = z ∧
        (zeroWhere cond z M N lda (gold, comp)).2 (intIndex i j lda) = z) ∧
      (∀ k : rocblas_int,
        (¬ ∃ i j : rocblas_int, 0 ≤ i ∧ i < M ∧ 0 ≤ j ∧ j < N ∧ cond i j = true ∧
          k = intIndex i j lda) →
        (zeroWhere cond z M N lda (gold, comp)).1 k = gold k ∧
        (zeroWhere cond z M N lda (gold, comp)).2 k = comp k) ∧
      (M ≤ lda → lda * N ≤ INT_MAX →
        ∀ i j : rocblas_int, 0 ≤ i → i < M → 0 ≤ j → j < N → cond i j = false →
        (zeroWhere cond z M N lda (gold, comp)).1 (i + j * lda) = gold (i + j * lda) ∧
        (zeroWhere cond z M N lda (gold, comp)).2 (i + j * lda) = comp (i + j * lda)) := by
    intro cond
    refine ⟨?_, ?_, ?_⟩
    · intro i j hi0 hi hj0 hj hc
      exact (zeroWhere_spec cond z M N lda (gold, comp) (intIndex i j lda)).1
        ⟨i, j, hi0, hi, hj0, hj, hc, rfl⟩
    · intro k hk
      exact (zeroWhere_spec cond z M N lda (gold, comp) k).2 hk
    · intro hlda hmax i j hi0 hi hj0 hj hc
      apply (zeroWhere_spec cond z M N lda (gold, comp) (i + j * lda)).2
      rintro ⟨i2, j2, hi20, hi2, hj20, hj2, hc2, hk⟩
      rw [hidx hlda hmax i2 j2 hi20 hi2 hj20 hj2] at hk
      obtain ⟨e1, e2⟩ := position_inj hlda hi0 hi hi20 hi2 hk
      rw [e1, e2, hc2] at hc
      cases hc
  obtain ⟨u1, u3, u2⟩ := hgen (fun i j => decide (i > j))
  obtain ⟨l1, l3, l2⟩ := hgen (fun i j => decide (i < j))
  refine ⟨⟨?_, ?_, ?_, ?_⟩, ⟨?_, ?_, ?_, ?_⟩⟩
  · intro i j hi0 hi hj0 hj hc
    exact u1 i j hi0 hi hj0 hj (decide_eq_true hc)
  · intro k hk
    apply u3 k
    rintro ⟨i, j, h1, h2, h3, h4, hc, e⟩
    exact hk ⟨i, j, h1, h2, h3, h4, of_decide_eq_true hc, e⟩
  · exact hret _ _
  · intro hlda hmax i j hi0 hi hj0 hj
    exact ⟨hidx hlda hmax i j hi0 hi hj0 hj, fun hc =>
      u2 hlda hmax i j hi0 hi hj0 hj (decide_eq_false (not_lt.2 hc))⟩
  · intro i j hi0 hi hj0 hj hc
    exact l1 i j hi0 hi hj0 hj (decide_eq_true hc)
  · intro k hk
    apply l3 k
    rintro ⟨i, j, h1, h2, h3, h4, hc, e⟩
    exact hk ⟨i, j, h1, h2, h3, h4, of_decide_eq_true hc, e⟩
  · exact hret _ _
  · intro hlda hmax i j hi0 hi hj0 hj
    exact ⟨hidx hlda hmax i j hi0 hi hj0 hj, fun hc =>
      l2 hlda hmax i j hi0 hi hj0 hj (decide_eq_false (not_lt.2 hc))⟩

/-- C27, amended, at a concrete input: the 3-by-3 matrices of `sampleGold` and `sampleComp`
with `lda = 3`: the first nine elements of `gold` after `norm_error_upperTr` and after
`norm_error_lowerTr`, and the tenth, which is outside the index set; and, at the input of
the counterexample (`M = N = 2`, `lda = 1`), the entry `(1, 0)` is zeroed. -/
theorem norm_error_upperTr_frame_witness :
    ((3 : Int) ≤ 3 ∧ (3 : Int) * 3 ≤ INT_MAX) ∧
    (List.range 10).map (fun k => sampleGold (k : Int)) = [1, 2, 3, 4, 5, 6, 7, 8, 9, 10] ∧
    (List.range 10).map (fun k =>
        (norm_error_upperTr sampleNormEnv 0 'F' 3 3 3 sampleGold sampleComp).2.1 (k : Int))
      = [1, 0, 0, 4, 5, 0, 7, 8, 9, 10] ∧
    (List.range 10).map (fun k =>
        (norm_error_lowerTr sampleNormEnv 0 'F' 3 3 3 sampleGold sampleComp).2.1 (k : Int))
      = [1, 2, 3, 0, 5, 6, 0, 0, 9, 10] ∧
    (norm_error_upperTr sampleNormEnv 0 'F' 3 3 3 sampleGold sampleComp).1 =
      norm_error sampleNormEnv 'F' 3 3 3
        (norm_error_upperTr sampleNormEnv 0 'F' 3 3 3 sampleGold sampleComp).2.1
        (norm_error_upperTr sampleNormEnv 0 'F' 3 3 3 sampleGold sampleComp).2.2 3 ∧
    ((norm_error_upperTr sampleNormEnv 0 'F' 2 2 1 sampleGold sampleComp).2.1 (intIndex 1 0 1)
        = 0 ∧
      (norm_error_upperTr sampleNormEnv 0 'F' 2 2 1 sampleGold sampleComp).2.2 (intIndex 1 0 1)
        = 0) :=
  ⟨by decide, by decide, by decide, by decide,
   (norm_error_upperTr_frame sampleNormEnv 0 'F' 3 3 3 sampleGold sampleComp).1.2.2.1,
   (norm_error_upperTr_frame sampleNormEnv 0 'F' 2 2 1 sampleGold sampleComp).1.1 1 0
     (by decide) (by decide) (by decide) (by decide) (by decide)⟩

/-- C28, as stated, fails for dimensions whose product is outside the range of `int`: with
`gold` and `comp` the same array, read with the same leading dimension, in the exact
integer arithmetic of `sampleNormEnv`, and `M = N = 46341`, the product `N * lda` taken in
`int` is negative, the constructor of `std::vector` throws and `norm_error` does not return
`0`. -/
theorem norm_error_equal_inputs_counterexample :
    ((0 : Int) ≤ 46341) ∧ wrapInt (46341 * 46341) < 0 ∧
    (∀ i j : rocblas_int, sampleGold (intIndex i j 46341)
      = sampleGold (intIndex i j (if (0 : Int) > 0 then 0 else 46341))) ∧
    norm_error sampleNormEnv 'F' 46341 46341 46341 sampleGold sampleGold 0 = none ∧
    norm_error sampleNormEnv 'F' 46341 46341 46341 sampleGold sampleGold 0 ≠ some 0 :=
  ⟨by decide, by decide, fun _ _ => rfl, by decide, by decide⟩

/-- C28, amended: let `M, N >= 0` with `N * M` in the range of `int`, and let `comp` and
`gold` hold the same value at every position `(i, j)` of the `M`-by-`N` index set, each read
with its own leading dimension.  Then the two buffers `norm_error` builds are equal.  Under
exact arithmetic (`xaxpy` with `alpha = -1` computes `y - x` entry by entry) the matrix
passed to the second `xlange` call is the all-zero matrix; when moreover the norm of the
zero matrix is `0` and `0 / g = 0` for `g > 0`, `norm_error` returns `0`, for every norm
type and whether or not the norm of `gold` is positive. -/
theorem norm_error_equal_inputs {T D R : Type} [AddGroup D] [Zero R] (E : NormEnv T D R)
    (norm_type : Char) (M N lda_gold lda_comp : rocblas_int) (gold comp : rocblas_int → T)
    (hM : 0 ≤ M) (hN : 0 ≤ N) (hfit : N * M ≤ INT_MAX)
    (heq : ∀ i j : rocblas_int, 0 ≤ i → i < M → 0 ≤ j → j < N →
      gold (intIndex i j lda_gold)
        = comp (intIndex i j (if lda_comp > 0 then lda_comp else lda_gold)))
    (hax : ∀ x y : List D, x.length = (N * M).toNat → y.length = (N * M).toNat →
      E.xaxpy (M * N) E.minusOne x 1 y 1 = List.zipWith (fun xi yi => yi - xi) x y)
    (hnorm : ∀ (nt : Char) (A : List D), (∀ a ∈ A, a = 0) → E.xlange nt M N A M = 0)
    (hdiv : ∀ g : R, E.gtZero g = true → E.div 0 g = 0) :
    ∃ G C : List D,
      packBuffers E.toDouble M N M lda_gold (if lda_comp > 0 then lda_comp else lda_gold) gold
        comp (List.replicate (N * M).toNat E.zero, List.replicate (N * M).toNat E.zero)
        = some (G, C) ∧
      G = C ∧
      E.xaxpy (M * N) E.minusOne G 1 C 1 = List.replicate (N * M).toNat 0 ∧
      norm_error E norm_type M N lda_gold gold comp lda_comp = some 0 := by
  obtain ⟨m, rfl⟩ := Int.eq_ofNat_of_zero_le hM
  obtain ⟨n, rfl⟩ := Int.eq_ofNat_of_zero_le hN
  have hsz : ((n : Int) * (m : Int)).toNat = n * m := by
    have : ((n : Int) * (m : Int)) = ((n * m : Nat) : Int) := by push_cast; rfl
    rw [this, Int.toNat_ofNat]
  rw [hsz] at hax ⊢
  obtain ⟨r, hr, hl1, hl2, hGC⟩ := packBuffers_eq_of_agree E.toDouble m n lda_gold
    (if lda_comp > 0 then lda_comp else lda_gold) gold comp E.zero hfit
    (fun i j hi hj => by
      rw [heq i j (Int.ofNat_nonneg i) (Int.ofNat_lt.2 hi) (Int.ofNat_nonneg j)
        (Int.ofNat_lt.2 hj)])
  have hzero : E.xaxpy ((m : Int) * (n : Int)) E.minusOne r.1 1 r.2 1
      = List.replicate (n * m) 0 := by
    rw [hax _ _ hl1 hl2, ← hGC]
    apply List.ext_getElem?
    intro k
    rw [List.getElem?_zipWith, List.getElem?_replicate]
    by_cases hk : k < n * m
    · rw [if_pos hk]
      have hk1 : k < r.1.length := by
        rw [hl1]
        exact hk
      rw [List.getElem?_eq_getElem hk1]
      simp
    · rw [if_neg hk, List.getElem?_eq_none (by rw [hl1]; exact Nat.le_of_not_lt hk)]
  have hz0 : E.xlange norm_type (m : Int) (n : Int) (List.replicate (n * m) (0 : D)) (m : Int)
      = 0 := hnorm norm_type _ (fun a ha => (List.mem_replicate.1 ha).2)
  refine ⟨r.1, r.2, hr, hGC, hzero, ?_⟩
  rw [norm_error_of_buffers E norm_type m n lda_gold lda_comp gold comp hfit r hr, hzero, hz0]
  by_cases hg : E.gtZero (E.xlange norm_type (m : Int) (n : Int) r.1 (m : Int)) = true
  · rw [if_pos hg, hdiv _ hg]
  · rw [if_neg hg]

/-- C28, amended, at a concrete input: `gold` and `comp` are both the 2-by-2 matrix read
from `sampleGold`, `gold` with leading dimension 3 and the default `lda_comp`; in the exact
integer arithmetic of `sampleNormEnv` the norm of `gold` is `12` and `norm_error` returns
`0`. -/
theorem norm_error_equal_inputs_witness :
    ((0 : Int) ≤ 2 ∧ (2 : Int) * 2 ≤ INT_MAX) ∧
    sampleNormEnv.xlange 'F' 2 2 [1, 2, 4, 5] 2 = 12 ∧
    norm_error sampleNormEnv 'F' 2 2 3 sampleGold sampleGold 0 = some 0 :=
  ⟨by decide, by decide,
   (let ⟨_, _, _, _, _, h⟩ := norm_error_equal_inputs sampleNormEnv 'F' 2 2 3 0 sampleGold
      sampleGold (by decide) (by decide) (by decide) (fun _ _ _ _ _ _ => rfl)
      (fun x y _ _ => by
        show List.zipWith (fun xi yi => -1 * xi + yi) x y
          = List.zipWith (fun xi yi => yi - xi) x y
        congr 1
        funext a b
        ring)
      (fun _ A hA => by
        show (A.map fun x => (x.natAbs : Int)).sum = 0
        apply List.sum_eq_zero
        intro x hx
        obtain ⟨a, ha, rfl⟩ := List.mem_map.1 hx
        rw [hA a ha]
        rfl)
      (fun g _ => Int.zero_ediv g)
    h)⟩
